import Mathlib

/-!
# Secure-world thread dispatch core (core/arch/arm/kernel/thread.c)

A shallow embedding of the thread table and of its state machine.

Build modelled for the operations on the thread table: ARM32, with
CFG_WITH_VFP, CFG_WITH_STACK_CANARIES and CFG_WITH_PAGER undefined, so that
thread_lazy_save_ns_vfp, thread_lazy_restore_ns_vfp, thread_check_canaries and
release_unused_kernel_stack have empty bodies there (the FPU operations are
modelled apart, see the last section).  On ARM32 every quantity of the
thread table (SMC arguments, saved registers, flags, client id, size_t) is a
32-bit word, so no assignment between them changes a value; words are natural
numbers.

Each operation is a function from the state before the call to the state at
the point where the call ends, together with how it ended (Ret).  The
operations run with the global lock held around every transition and are
modelled as atomic steps.  Calls into collaborators that do not touch the
thread table (session time accounting, the MMU user map, the pager, the
world switch) are left out; what the code reads from them is a parameter.

The exception masks are modelled on the status register of one core (core_hw:
CPSR and the number of spinlocks held); the operations that mask exceptions
around an access to the table take and return it next to the table.
__thread_std_smc_entry is one step: the handler is a function on the SMC
arguments and the answer of the normal world to the allocation RPC is a
parameter.

# Standard-call entry (core/arch/arm/tee/entry_std.c)

The argument record lives in non-secure shared memory, a map from virtual
addresses to records; a record is its header and the array of parameter slots
behind it.  The fields of the message are 64-bit, those of struct
tee_ta_param are uint32_t (values) and size_t (memory references), 32 bits wide
on this build; a conversion is written where the source assigns across widths.
The memory manager (mem_env) and the session layer (ta_layer) are parameters;
the calls that leave entry_std.c are recorded in order (entry_event), so that
"no call is made" can be stated.  Local variables that the source passes on
uninitialised have their content on entry as a parameter (entry_locals, and
the array pt of copy_in_params).

# Mutexes and the preallocation cache

A mutex is known by its address; the list of a thread holds addresses and the
owner_id of every mutex is a map from addresses (ReachableMutex).  Repeated
calls of thread_disable_prealloc_rpc_cache pass on the core state and the
cookie variable of the caller (disable_calls).

# Lazy save and restore of the VFP state

The FPU operations exist with CFG_WITH_VFP only and are modelled on a state of
their own (vfp_world): the status register of the core, the VFP unit, the
vfp_state flags of every thread and the user states by address (0 is NULL).
The functions of vfp.c are parameters (vfp_ops); the thread table is read by
thread_get_id only.  An operation that stops at an assertion returns the state
reached at that point.
-/

namespace Optee

/-! ## Data model -/

/-- Modelled from the spec: enum thread_state of thread_private.h (not under
src).  THREAD_STATE_FREE is the first enumerator, the value of zero-initialised
storage. -/
inductive thread_state where
  | THREAD_STATE_FREE
  | THREAD_STATE_SUSPENDED
  | THREAD_STATE_ACTIVE
  deriving DecidableEq, Repr

open thread_state

/-- Modelled from the spec: struct thread_ctx_regs of thread.h (not under src),
ARM32 layout: the general-purpose registers, the banked user and supervisor
registers, program counter and status register. -/
structure thread_ctx_regs where
  r0 : Nat
  r1 : Nat
  r2 : Nat
  r3 : Nat
  r4 : Nat
  r5 : Nat
  r6 : Nat
  r7 : Nat
  r8 : Nat
  r9 : Nat
  r10 : Nat
  r11 : Nat
  r12 : Nat
  usr_sp : Nat
  usr_lr : Nat
  svc_spsr : Nat
  svc_sp : Nat
  svc_lr : Nat
  pc : Nat
  cpsr : Nat
  deriving DecidableEq, Repr

/-- Modelled from the spec: struct thread_ctx of thread_private.h (not under
src), the fields of the data model: saved registers, state, stack top, client
id, flags, saved user map, cached RPC argument buffer (rpc_arg is 0 for NULL)
and the list of held mutexes (by address). -/
structure thread_ctx where
  regs : thread_ctx_regs
  state : thread_state
  stack_va_end : Nat
  hyp_clnt_id : Nat
  flags : Nat
  user_map : Nat
  have_user_map : Bool
  rpc_arg : Nat
  rpc_carg : Nat
  mutexes : List Nat
  deriving DecidableEq, Repr

/-- Modelled from the spec: struct thread_core_local of thread_private.h (not
under src); curr_thread is a C int, -1 when the core runs no thread. -/
structure thread_core_local where
  curr_thread : Int
  tmp_stack_va_end : Nat
  abt_stack_va_end : Nat
  deriving DecidableEq, Repr

/-- Modelled from the spec: struct thread_smc_args of thread.h (not under src),
the eight SMC argument registers. -/
structure thread_smc_args where
  a0 : Nat
  a1 : Nat
  a2 : Nat
  a3 : Nat
  a4 : Nat
  a5 : Nat
  a6 : Nat
  a7 : Nat
  deriving DecidableEq, Repr

/-- The global data of thread.c: threads[CFG_NUM_THREADS],
thread_core_local[CFG_TEE_CORE_NB_CORE] and thread_prealloc_rpc_cache. -/
structure State where
  threads : List thread_ctx
  thread_core_local : List thread_core_local
  thread_prealloc_rpc_cache : Bool
  deriving DecidableEq, Repr

/-- The number of thread slots is the size of the threads array. -/
def CFG_NUM_THREADS (s : State) : Nat := s.threads.length

/-- The number of cores is the size of the thread_core_local array. -/
def CFG_TEE_CORE_NB_CORE (s : State) : Nat := s.thread_core_local.length

/-- How a call ended: it ran to its end with a value, an assert() fired, or it
indexed threads[] outside the array (undefined in C). -/
inductive Ret (α : Type) where
  | done (a : α)
  | assert_failed
  | out_of_bounds
  deriving DecidableEq, Repr

/-- How an SMC entry function leaves: back to its caller (the normal world
then sees the argument registers), or by thread_resume on slot n. -/
inductive smc_exit where
  | returned
  | resumed (n : Nat)
  deriving DecidableEq, Repr

/-! ## Constants of headers that are not under src -/

/-- Modelled from the spec: OPTEE_SMC_RETURN_ETHREAD_LIMIT of sm/optee_smc.h
(not under src), the reply for "no free thread". -/
def OPTEE_SMC_RETURN_ETHREAD_LIMIT : Nat := 1

/-- Modelled from the spec: OPTEE_SMC_RETURN_ERESUME of sm/optee_smc.h (not
under src), the reply for a resume mismatch. -/
def OPTEE_SMC_RETURN_ERESUME : Nat := 3

/-- Modelled from the spec: THREAD_FLAGS_COPY_ARGS_ON_RETURN of
thread_private.h (not under src), bit 0 of the flags. -/
def THREAD_FLAGS_COPY_ARGS_ON_RETURN : Nat := 1 <<< 0

/-- Modelled from the spec: ARM32 status register bits of arm32.h (not under
src): endianness bit E. -/
def ARM32_CPSR_E : Nat := 1 <<< 9

/-- Modelled from the spec: supervisor mode field of the status register. -/
def CPSR_MODE_SVC : Nat := 0x13

/-- Modelled from the spec: IRQ mask bit of the status register. -/
def CPSR_I : Nat := 1 <<< 7

/-- Modelled from the spec: asynchronous abort mask bit of the status
register. -/
def CPSR_A : Nat := 1 <<< 8

/-- Modelled from the spec: thumb bit of the status register. -/
def CPSR_T : Nat := 1 <<< 5

/-- The complement of a 32-bit word, the C operator ~ on uint32_t. -/
def not32 (x : Nat) : Nat := 0xFFFFFFFF ^^^ x

/-! ## Access to the arrays -/

/-- The element threads[ct] for a C int index; none outside the array. -/
def thread_at (s : State) (ct : Int) : Option thread_ctx :=
  if 0 ≤ ct then s.threads[ct.toNat]? else none

/-- Assignment through threads[n]: the slot is replaced by f of itself. -/
def upd_thread (ts : List thread_ctx) (n : Nat) (f : thread_ctx → thread_ctx) :
    List thread_ctx :=
  match ts[n]? with
  | some t => ts.set n (f t)
  | none => ts

/-- Assignment l->curr_thread = v for the block of core cpu. -/
def set_curr_thread (ls : List thread_core_local) (cpu : Nat) (v : Int) :
    List thread_core_local :=
  match ls[cpu]? with
  | some l => ls.set cpu { l with curr_thread := v }
  | none => ls

/-- The function thread_get_core_local on the core at position cpu: the block
thread_core_local[cpu], none when assert(cpu_id < CFG_TEE_CORE_NB_CORE) fails.
The operations below are entered with IRQ masked, so the assertion on the
exception mask is not part of the table model. -/
def thread_get_core_local (s : State) (cpu : Nat) : Option thread_core_local :=
  if cpu < CFG_TEE_CORE_NB_CORE s then s.thread_core_local[cpu]? else none

/-! ## Operations -/

/-- The function init_regs (ARM32): entry is the address of
thread_std_smc_entry and cpsr the value read by read_cpsr(). -/
def init_regs (thread : thread_ctx) (args : thread_smc_args) (entry cpsr : Nat) :
    thread_ctx :=
  let pc := entry
  let c0 := cpsr &&& ARM32_CPSR_E
  let c1 := c0 ||| (CPSR_MODE_SVC ||| CPSR_I ||| CPSR_A)
  let c2 := if pc &&& 1 ≠ 0 then c1 ||| CPSR_T else c1
  { thread with
    regs := { thread.regs with
      pc := pc
      cpsr := c2
      svc_sp := thread.stack_va_end
      r0 := args.a0
      r1 := args.a1
      r2 := args.a2
      r3 := args.a3
      r4 := args.a4
      r5 := args.a5
      r6 := args.a6
      r7 := args.a7 } }

/-- The function thread_init_boot_thread, run on core cpu. -/
def thread_init_boot_thread (s : State) (cpu : Nat) : State × Ret Unit :=
  match thread_get_core_local s cpu with
  | none => (s, .assert_failed)
  | some _ =>
    let ts := s.threads.map (fun t => { t with mutexes := [] })
    let ls := s.thread_core_local.map (fun l => { l with curr_thread := -1 })
    let ls := set_curr_thread ls cpu 0
    match ts[0]? with
    | none => ({ s with threads := ts, thread_core_local := ls }, .out_of_bounds)
    | some _ =>
      ({ s with
          threads := upd_thread ts 0 (fun t => { t with state := THREAD_STATE_ACTIVE })
          thread_core_local := ls }, .done ())

/-- The function thread_clr_boot_thread, run on core cpu. -/
def thread_clr_boot_thread (s : State) (cpu : Nat) : State × Ret Unit :=
  match thread_get_core_local s cpu with
  | none => (s, .assert_failed)
  | some l =>
    if ¬ (0 ≤ l.curr_thread ∧ l.curr_thread < (CFG_NUM_THREADS s : Int)) then
      (s, .assert_failed)
    else
      match thread_at s l.curr_thread with
      | none => (s, .out_of_bounds)
      | some t =>
        if t.state ≠ THREAD_STATE_ACTIVE then (s, .assert_failed)
        else if t.mutexes ≠ [] then (s, .assert_failed)
        else
          ({ s with
              threads := upd_thread s.threads l.curr_thread.toNat
                (fun t => { t with state := THREAD_STATE_FREE })
              thread_core_local := set_curr_thread s.thread_core_local cpu (-1) },
            .done ())

/-- The loop of thread_alloc_and_run from index n on: the first FREE slot is
made ACTIVE and its index returned (found_thread); none when the loop runs to
CFG_NUM_THREADS. -/
def alloc_loop : List thread_ctx → Nat → List thread_ctx × Option Nat
  | [], _ => ([], none)
  | t :: ts, n =>
    if t.state = THREAD_STATE_FREE then
      ({ t with state := THREAD_STATE_ACTIVE } :: ts, some n)
    else
      let r := alloc_loop ts (n + 1)
      (t :: r.1, r.2)

/-- The function thread_alloc_and_run, run on core cpu; entry and cpsr are
what init_regs reads from the platform. -/
def thread_alloc_and_run (s : State) (cpu : Nat) (args : thread_smc_args)
    (entry cpsr : Nat) : State × Ret (thread_smc_args × smc_exit) :=
  match thread_get_core_local s cpu with
  | none => (s, .assert_failed)
  | some l =>
    if l.curr_thread ≠ -1 then (s, .assert_failed)
    else
      match alloc_loop s.threads 0 with
      | (_, none) =>
        (s, .done ({ args with a0 := OPTEE_SMC_RETURN_ETHREAD_LIMIT }, .returned))
      | (ts, some n) =>
        let ls := set_curr_thread s.thread_core_local cpu (n : Int)
        let ts := upd_thread ts n (fun t => { t with flags := 0 })
        let ts := upd_thread ts n (fun t => init_regs t args entry cpsr)
        let ts := upd_thread ts n (fun t => { t with hyp_clnt_id := args.a7 })
        ({ s with threads := ts, thread_core_local := ls },
          .done (args, .resumed n))

/-- The function copy_a0_to_a5 (ARM32). -/
def copy_a0_to_a5 (regs : thread_ctx_regs) (args : thread_smc_args) : thread_ctx_regs :=
  { regs with
    r0 := args.a0
    r1 := args.a1
    r2 := args.a2
    r3 := args.a3
    r4 := args.a4
    r5 := args.a5 }

/-- The condition of the if statement of thread_resume_from_rpc for n = args.a3:
n < CFG_NUM_THREADS, threads[n].state == THREAD_STATE_SUSPENDED and
args.a7 == threads[n].hyp_clnt_id. -/
def resume_cond (s : State) (args : thread_smc_args) : Bool :=
  decide (args.a3 < CFG_NUM_THREADS s) &&
    (match s.threads[args.a3]? with
     | some t =>
       decide (t.state = THREAD_STATE_SUSPENDED) && decide (args.a7 = t.hyp_clnt_id)
     | none => false)

/-- The function thread_resume_from_rpc, run on core cpu. -/
def thread_resume_from_rpc (s : State) (cpu : Nat) (args : thread_smc_args) :
    State × Ret (thread_smc_args × smc_exit) :=
  let n := args.a3
  match thread_get_core_local s cpu with
  | none => (s, .assert_failed)
  | some l =>
    if l.curr_thread ≠ -1 then (s, .assert_failed)
    else
      let ok := resume_cond s args
      let ts :=
        if ok then upd_thread s.threads n (fun t => { t with state := THREAD_STATE_ACTIVE })
        else s.threads
      let rv := if ok then 0 else OPTEE_SMC_RETURN_ERESUME
      if rv ≠ 0 then
        ({ s with threads := ts }, .done ({ args with a0 := rv }, .returned))
      else
        let ls := set_curr_thread s.thread_core_local cpu (n : Int)
        let ts := upd_thread ts n (fun t =>
          if t.flags &&& THREAD_FLAGS_COPY_ARGS_ON_RETURN ≠ 0 then
            { t with
              regs := copy_a0_to_a5 t.regs args
              flags := t.flags &&& not32 THREAD_FLAGS_COPY_ARGS_ON_RETURN }
          else t)
        ({ s with threads := ts, thread_core_local := ls }, .done (args, .resumed n))

/-- The function thread_state_free, run on core cpu. -/
def thread_state_free (s : State) (cpu : Nat) : State × Ret Unit :=
  match thread_get_core_local s cpu with
  | none => (s, .assert_failed)
  | some l =>
    let ct := l.curr_thread
    if ct = -1 then (s, .assert_failed)
    else
      match thread_at s ct with
      | none => (s, .out_of_bounds)
      | some t =>
        if t.mutexes ≠ [] then (s, .assert_failed)
        else if t.state ≠ THREAD_STATE_ACTIVE then (s, .assert_failed)
        else
          let ts := upd_thread s.threads ct.toNat
            (fun t => { t with state := THREAD_STATE_FREE })
          let ts := upd_thread ts ct.toNat (fun t => { t with flags := 0 })
          ({ s with
              threads := ts
              thread_core_local := set_curr_thread s.thread_core_local cpu (-1) },
            .done ())

/-- The function thread_state_suspend, run on core cpu.  The argument umap is
what the MMU reports at the call: none when core_mmu_user_mapping_is_active()
is false, otherwise the map stored by core_mmu_get_user_map. -/
def thread_state_suspend (s : State) (cpu : Nat) (flags cpsr pc : Nat)
    (umap : Option Nat) : State × Ret Int :=
  match thread_get_core_local s cpu with
  | none => (s, .assert_failed)
  | some l =>
    let ct := l.curr_thread
    if ct = -1 then (s, .assert_failed)
    else
      match thread_at s ct with
      | none => (s, .out_of_bounds)
      | some t =>
        if t.state ≠ THREAD_STATE_ACTIVE then (s, .assert_failed)
        else
          let ts := upd_thread s.threads ct.toNat (fun t => { t with flags := t.flags ||| flags })
          let ts := upd_thread ts ct.toNat (fun t => { t with regs := { t.regs with cpsr := cpsr } })
          let ts := upd_thread ts ct.toNat (fun t => { t with regs := { t.regs with pc := pc } })
          let ts := upd_thread ts ct.toNat (fun t => { t with state := THREAD_STATE_SUSPENDED })
          let ts := upd_thread ts ct.toNat (fun t => { t with have_user_map := umap.isSome })
          let ts := upd_thread ts ct.toNat (fun t =>
            match umap with
            | some m => { t with user_map := m }
            | none => t)
          ({ s with
              threads := ts
              thread_core_local := set_curr_thread s.thread_core_local cpu (-1) },
            .done ct)

/-! ## Static storage before any code has run -/

/-- The all-zero register context. -/
def zero_regs : thread_ctx_regs :=
  ⟨0, 0, 0, 0, 0, 0, 0, 0, 0, 0, 0, 0, 0, 0, 0, 0, 0, 0, 0, 0⟩

/-- A zero-initialised thread slot. -/
def zero_thread : thread_ctx :=
  { regs := zero_regs, state := THREAD_STATE_FREE, stack_va_end := 0, hyp_clnt_id := 0,
    flags := 0, user_map := 0, have_user_map := false, rpc_arg := 0, rpc_carg := 0,
    mutexes := [] }

/-- A zero-initialised core block. -/
def zero_core : thread_core_local :=
  { curr_thread := 0, tmp_stack_va_end := 0, abt_stack_va_end := 0 }

/-- The zero-initialised global data for n slots and c cores: every slot is
THREAD_STATE_FREE. -/
def zero_state (n c : Nat) : State :=
  { threads := List.replicate n zero_thread
    thread_core_local := List.replicate c zero_core
    thread_prealloc_rpc_cache := false }

/-! ## Derived notions used in the statements -/

/-- The curr_thread of core cpu, none when there is no such core. -/
def curr_thread_of (s : State) (cpu : Nat) : Option Int :=
  (s.thread_core_local[cpu]?).map (fun l => l.curr_thread)

/-- The slot written by a successful thread_alloc_and_run. -/
def alloc_slot (t : thread_ctx) (args : thread_smc_args) (entry cpsr : Nat) : thread_ctx :=
  { init_regs { t with state := THREAD_STATE_ACTIVE, flags := 0 } args entry cpsr with
    hyp_clnt_id := args.a7 }

/-- The slot written by a successful thread_resume_from_rpc. -/
def resume_slot (t : thread_ctx) (args : thread_smc_args) : thread_ctx :=
  if t.flags &&& THREAD_FLAGS_COPY_ARGS_ON_RETURN ≠ 0 then
    { t with
      state := THREAD_STATE_ACTIVE
      regs := copy_a0_to_a5 t.regs args
      flags := t.flags &&& not32 THREAD_FLAGS_COPY_ARGS_ON_RETURN }
  else { t with state := THREAD_STATE_ACTIVE }

/-- The slot written by thread_state_suspend. -/
def suspend_slot (t : thread_ctx) (flags cpsr pc : Nat) (umap : Option Nat) : thread_ctx :=
  { t with
    flags := t.flags ||| flags
    regs := { t.regs with cpsr := cpsr, pc := pc }
    state := THREAD_STATE_SUSPENDED
    have_user_map := umap.isSome
    user_map := match umap with
      | some m => m
      | none => t.user_map }

/-- Invariant 1: the current thread of every core is an ACTIVE slot. -/
def inv_curr_active (s : State) : Prop :=
  ∀ (c : Nat) (i : Int), curr_thread_of s c = some i → i ≠ -1 →
    ∃ t, thread_at s i = some t ∧ t.state = THREAD_STATE_ACTIVE

/-- Invariant 2: no two cores have the same current thread. -/
def inv_curr_unique (s : State) : Prop :=
  ∀ (c1 c2 : Nat) (i : Int), curr_thread_of s c1 = some i → curr_thread_of s c2 = some i → i ≠ -1 →
    c1 = c2

/-- Invariant 3: an ACTIVE slot is the current thread of exactly one core, a
slot in another state of none. -/
def inv_state_curr (s : State) : Prop :=
  ∀ (n : Nat) (t : thread_ctx), s.threads[n]? = some t →
    (t.state = THREAD_STATE_ACTIVE → ∃! c, curr_thread_of s c = some (n : Int)) ∧
    (t.state ≠ THREAD_STATE_ACTIVE → ∀ c, curr_thread_of s c ≠ some (n : Int))

/-- The working form of the invariant: the current thread of a core is an
ACTIVE slot, cores do not share a thread, and every ACTIVE slot is the current
thread of some core. -/
def table_inv (s : State) : Prop :=
  inv_curr_active s ∧ inv_curr_unique s ∧
    ∀ (n : Nat) (t : thread_ctx), s.threads[n]? = some t → t.state = THREAD_STATE_ACTIVE →
      ∃ c, curr_thread_of s c = some (n : Int)

/-- The states of the running system: thread_init_boot_thread on a table whose
slots are all FREE (static storage, before any thread has run), followed by any
sequence of thread_clr_boot_thread, thread_alloc_and_run,
thread_resume_from_rpc, thread_state_suspend and thread_state_free calls, each
on some core and each running to its end (no assertion fails). -/
inductive Reachable : State → Prop where
  | boot (s0 s : State) (cpu : Nat)
      (hfree : ∀ t ∈ s0.threads, t.state = THREAD_STATE_FREE)
      (h : thread_init_boot_thread s0 cpu = (s, .done ())) : Reachable s
  | clr (s s' : State) (cpu : Nat) (hs : Reachable s)
      (h : thread_clr_boot_thread s cpu = (s', .done ())) : Reachable s'
  | alloc (s s' : State) (cpu : Nat) (args : thread_smc_args) (entry cpsr : Nat)
      (r : thread_smc_args × smc_exit) (hs : Reachable s)
      (h : thread_alloc_and_run s cpu args entry cpsr = (s', .done r)) : Reachable s'
  | resume (s s' : State) (cpu : Nat) (args : thread_smc_args)
      (r : thread_smc_args × smc_exit) (hs : Reachable s)
      (h : thread_resume_from_rpc s cpu args = (s', .done r)) : Reachable s'
  | suspend (s s' : State) (cpu : Nat) (flags cpsr pc : Nat) (umap : Option Nat) (ct : Int)
      (hs : Reachable s)
      (h : thread_state_suspend s cpu flags cpsr pc umap = (s', .done ct)) : Reachable s'
  | free (s s' : State) (cpu : Nat) (hs : Reachable s)
      (h : thread_state_free s cpu = (s', .done ())) : Reachable s'

/-- The number of slots in state ACTIVE. -/
def num_active (s : State) : Nat :=
  s.threads.countP (fun t => decide (t.state = THREAD_STATE_ACTIVE))

/-! ## Example states -/

/-- Example arguments of an SMC. -/
def ex_args : thread_smc_args := ⟨5, 6, 7, 8, 9, 10, 11, 12⟩

/-- Example: three slots and two cores after thread_init_boot_thread on core 0:
slot 0 is ACTIVE and current on core 0, core 1 runs no thread. -/
def ex_boot : State := (thread_init_boot_thread (zero_state 3 2) 0).1

/-- Example: one slot, ACTIVE and current on core 0; core 1 runs no thread. -/
def ex_full : State := (thread_init_boot_thread (zero_state 1 2) 0).1

/-- Example: ex_boot after thread_alloc_and_run on core 1 (slot 1 is taken). -/
def ex_run : State := (thread_alloc_and_run ex_boot 1 ex_args 0x1001 0x1d3).1

/-- Example: ex_run after thread_state_suspend on core 1: slot 1 is SUSPENDED
with client id 12 and the flag THREAD_FLAGS_COPY_ARGS_ON_RETURN set. -/
def ex_susp : State := (thread_state_suspend ex_run 1 1 0x1d3 0x2000 none).1

/-- Example: one FREE slot and one core that runs no thread. -/
def ex_idle : State :=
  { threads := [zero_thread]
    thread_core_local := [{ zero_core with curr_thread := -1 }]
    thread_prealloc_rpc_cache := false }

/-- Example: ex_run with a mutex (at address 64) held by slot 1. -/
def ex_mutex : State :=
  { ex_run with
    threads := upd_thread ex_run.threads 1 (fun t => { t with mutexes := [64] }) }

/-- Example: three slots and three cores; slot 2 is ACTIVE and current on core
0, cores 1 and 2 run no thread. -/
def ex_cross : State :=
  { threads := [zero_thread, zero_thread,
      { zero_thread with state := THREAD_STATE_ACTIVE, hyp_clnt_id := 7 }]
    thread_core_local := [{ zero_core with curr_thread := 2 },
      { zero_core with curr_thread := -1 }, { zero_core with curr_thread := -1 }]
    thread_prealloc_rpc_cache := false }

/-- The part of a core that the exception-mask helpers work on: the status
register (CPSR on ARM32) and the number of spinlocks the core holds. -/
structure core_hw where
  cpsr : Nat
  locked_count : Nat
  deriving DecidableEq, Repr

/-- Modelled from the spec: THREAD_EXCP_FIQ of thread.h (not under src). -/
def THREAD_EXCP_FIQ : Nat := 1 <<< 0

/-- Modelled from the spec: THREAD_EXCP_IRQ of thread.h (not under src). -/
def THREAD_EXCP_IRQ : Nat := 1 <<< 1

/-- Modelled from the spec: THREAD_EXCP_ABT of thread.h (not under src). -/
def THREAD_EXCP_ABT : Nat := 1 <<< 2

/-- Modelled from the spec: THREAD_EXCP_ALL of thread.h (not under src), the
mask covers FIQ, IRQ and asynchronous abort. -/
def THREAD_EXCP_ALL : Nat := THREAD_EXCP_FIQ ||| THREAD_EXCP_IRQ ||| THREAD_EXCP_ABT

/-- Modelled from the spec: CPSR_F_SHIFT of arm32.h (not under src), the
position of the F bit; I and A are the next two bits. -/
def CPSR_F_SHIFT : Nat := 6

/-- Modelled from the spec: assert_have_no_spinlock of kernel/spinlock.h (not
under src): the assertion holds exactly when the core holds no spinlock. -/
def have_no_spinlock (hw : core_hw) : Bool := decide (hw.locked_count = 0)

/-- The function thread_get_exceptions (ARM32). -/
def thread_get_exceptions (hw : core_hw) : Nat :=
  (hw.cpsr >>> CPSR_F_SHIFT) &&& THREAD_EXCP_ALL

/-- The function thread_set_exceptions (ARM32). -/
def thread_set_exceptions (hw : core_hw) (exceptions : Nat) : core_hw × Ret Unit :=
  let cpsr := hw.cpsr
  if exceptions &&& THREAD_EXCP_IRQ = 0 ∧ have_no_spinlock hw = false then
    (hw, .assert_failed)
  else
    let cpsr := cpsr &&& not32 (THREAD_EXCP_ALL <<< CPSR_F_SHIFT)
    let cpsr := cpsr ||| ((exceptions &&& THREAD_EXCP_ALL) <<< CPSR_F_SHIFT)
    ({ hw with cpsr := cpsr }, .done ())

/-- The function thread_mask_exceptions. -/
def thread_mask_exceptions (hw : core_hw) (exceptions : Nat) : core_hw × Ret Nat :=
  let state := thread_get_exceptions hw
  match thread_set_exceptions hw (state ||| (exceptions &&& THREAD_EXCP_ALL)) with
  | (hw1, .done _) => (hw1, .done state)
  | (hw1, .assert_failed) => (hw1, .assert_failed)
  | (hw1, .out_of_bounds) => (hw1, .out_of_bounds)

/-- The function thread_unmask_exceptions. -/
def thread_unmask_exceptions (hw : core_hw) (state : Nat) : core_hw × Ret Unit :=
  thread_set_exceptions hw (state &&& THREAD_EXCP_ALL)

/-- The status register written by thread_set_exceptions. -/
def cpsr_with (cpsr exceptions : Nat) : Nat :=
  cpsr &&& not32 (THREAD_EXCP_ALL <<< CPSR_F_SHIFT) |||
    ((exceptions &&& THREAD_EXCP_ALL) <<< CPSR_F_SHIFT)

/-- Modelled from the spec: THREAD_FLAGS_IRQ_ENABLE of thread_private.h (not
under src), bit 1 of the flags. -/
def THREAD_FLAGS_IRQ_ENABLE : Nat := 1 <<< 1

/-- The function thread_get_core_local with both of its assertions: IRQ is
masked on the core and the core position is below CFG_TEE_CORE_NB_CORE. -/
def thread_get_core_local_hw (hw : core_hw) (s : State) (cpu : Nat) :
    Option thread_core_local :=
  if thread_get_exceptions hw &&& THREAD_EXCP_IRQ = 0 then none
  else thread_get_core_local s cpu

/-- Modelled from the spec: lock_global takes the spinlock thread_global_lock
(cpu_spin_lock of kernel/spinlock.h, not under src): the core holds one
spinlock more. -/
def lock_global (hw : core_hw) : core_hw :=
  { hw with locked_count := hw.locked_count + 1 }

/-- Modelled from the spec: unlock_global releases thread_global_lock: the
core holds one spinlock less. -/
def unlock_global (hw : core_hw) : core_hw :=
  { hw with locked_count := hw.locked_count - 1 }

/-- The function thread_get_id_may_fail, run on core cpu. -/
def thread_get_id_may_fail (hw : core_hw) (s : State) (cpu : Nat) : core_hw × Ret Int :=
  match thread_mask_exceptions hw THREAD_EXCP_IRQ with
  | (hw1, .done exceptions) =>
    match thread_get_core_local_hw hw1 s cpu with
    | none => (hw1, .assert_failed)
    | some l =>
      let ct := l.curr_thread
      match thread_unmask_exceptions hw1 exceptions with
      | (hw2, .done _) => (hw2, .done ct)
      | (hw2, _) => (hw2, .assert_failed)
  | (hw1, _) => (hw1, .assert_failed)

/-- The function thread_get_id, run on core cpu. -/
def thread_get_id (hw : core_hw) (s : State) (cpu : Nat) : core_hw × Ret Int :=
  match thread_get_id_may_fail hw s cpu with
  | (hw1, .done ct) =>
    if 0 ≤ ct ∧ ct < (CFG_NUM_THREADS s : Int) then (hw1, .done ct)
    else (hw1, .assert_failed)
  | (hw1, r) => (hw1, r)

/-- The function thread_set_irq, run on core cpu. -/
def thread_set_irq (hw : core_hw) (s : State) (cpu : Nat) (enable : Bool) :
    core_hw × State × Ret Unit :=
  match thread_mask_exceptions hw THREAD_EXCP_IRQ with
  | (hw1, .done exceptions) =>
    match thread_get_core_local_hw hw1 s cpu with
    | none => (hw1, s, .assert_failed)
    | some l =>
      if l.curr_thread = -1 then (hw1, s, .assert_failed)
      else
        match thread_at s l.curr_thread with
        | none => (hw1, s, .out_of_bounds)
        | some _ =>
          if enable then
            let ts := upd_thread s.threads l.curr_thread.toNat
              (fun t => { t with flags := t.flags ||| THREAD_FLAGS_IRQ_ENABLE })
            let s1 := { s with threads := ts }
            match thread_set_exceptions hw1 (exceptions &&& not32 THREAD_EXCP_IRQ) with
            | (hw2, r) => (hw2, s1, r)
          else
            let ts := upd_thread s.threads l.curr_thread.toNat
              (fun t => { t with flags := t.flags &&& not32 THREAD_FLAGS_IRQ_ENABLE })
            let s1 := { s with threads := ts }
            (hw1, s1, .done ())
  | (hw1, _) => (hw1, s, .assert_failed)

/-- The function thread_restore_irq, run on core cpu. -/
def thread_restore_irq (hw : core_hw) (s : State) (cpu : Nat) : core_hw × Ret Unit :=
  match thread_mask_exceptions hw THREAD_EXCP_IRQ with
  | (hw1, .done exceptions) =>
    match thread_get_core_local_hw hw1 s cpu with
    | none => (hw1, .assert_failed)
    | some l =>
      if l.curr_thread = -1 then (hw1, .assert_failed)
      else
        match thread_at s l.curr_thread with
        | none => (hw1, .out_of_bounds)
        | some t =>
          if t.flags &&& THREAD_FLAGS_IRQ_ENABLE ≠ 0 then
            thread_set_exceptions hw1 (exceptions &&& not32 THREAD_EXCP_IRQ)
          else (hw1, .done ())
  | (hw1, _) => (hw1, .assert_failed)

/-- The first loop of thread_disable_prealloc_rpc_cache and of
thread_enable_prealloc_rpc_cache: true when it runs through, that is when no
slot has a state other than THREAD_STATE_FREE. -/
def all_free_loop : List thread_ctx → Bool
  | [] => true
  | t :: ts => if t.state ≠ THREAD_STATE_FREE then false else all_free_loop ts

/-- The second loop of thread_disable_prealloc_rpc_cache: the first slot with a
cached rpc_arg gives its rpc_carg and is cleared; none when the loop runs
through. -/
def reclaim_loop : List thread_ctx → List thread_ctx × Option Nat
  | [] => ([], none)
  | t :: ts =>
    if t.rpc_arg ≠ 0 then ({ t with rpc_carg := 0, rpc_arg := 0 } :: ts, some t.rpc_carg)
    else
      let r := reclaim_loop ts
      (t :: r.1, r.2)

/-- The function thread_disable_prealloc_rpc_cache; cookie is the value of
the output parameter on entry, the result holds rv and the value on return. -/
def thread_disable_prealloc_rpc_cache (hw : core_hw) (s : State) (cookie : Nat) :
    core_hw × State × Ret (Bool × Nat) :=
  match thread_mask_exceptions hw THREAD_EXCP_IRQ with
  | (hw1, .done exceptions) =>
    let hw2 := lock_global hw1
    let out : State × Bool × Nat :=
      if all_free_loop s.threads = false then (s, false, cookie)
      else
        match reclaim_loop s.threads with
        | (ts, some c) => ({ s with threads := ts }, true, c)
        | (_, none) => ({ s with thread_prealloc_rpc_cache := false }, true, 0)
    let hw3 := unlock_global hw2
    match thread_unmask_exceptions hw3 exceptions with
    | (hw4, .done _) => (hw4, out.1, .done (out.2.1, out.2.2))
    | (hw4, _) => (hw4, out.1, .assert_failed)
  | (hw1, _) => (hw1, s, .assert_failed)

/-- The function thread_enable_prealloc_rpc_cache. -/
def thread_enable_prealloc_rpc_cache (hw : core_hw) (s : State) :
    core_hw × State × Ret Bool :=
  match thread_mask_exceptions hw THREAD_EXCP_IRQ with
  | (hw1, .done exceptions) =>
    let hw2 := lock_global hw1
    let out : State × Bool :=
      if all_free_loop s.threads = false then (s, false)
      else ({ s with thread_prealloc_rpc_cache := true }, true)
    let hw3 := unlock_global hw2
    match thread_unmask_exceptions hw3 exceptions with
    | (hw4, .done _) => (hw4, out.1, .done out.2)
    | (hw4, _) => (hw4, out.1, .assert_failed)
  | (hw1, _) => (hw1, s, .assert_failed)

/-- The state of the core after thread_mask_exceptions(THREAD_EXCP_IRQ). -/
def irq_masked_hw (hw : core_hw) : core_hw :=
  { hw with
    cpsr := cpsr_with hw.cpsr (thread_get_exceptions hw ||| (THREAD_EXCP_IRQ &&& THREAD_EXCP_ALL)) }

/-- What thread_disable_prealloc_rpc_cache does between lock_global and
unlock_global: the new state, rv and the value of the output parameter. -/
def disable_prealloc_out (s : State) (cookie : Nat) : State × Bool × Nat :=
  if all_free_loop s.threads = false then (s, false, cookie)
  else
    match reclaim_loop s.threads with
    | (ts, some c) => ({ s with threads := ts }, true, c)
    | (_, none) => ({ s with thread_prealloc_rpc_cache := false }, true, 0)

/-- The state of the core after IRQ has been unmasked by thread_set_irq(true)
or thread_restore_irq. -/
def irq_unmasked_hw (hw : core_hw) : core_hw :=
  { hw with cpsr := cpsr_with hw.cpsr (thread_get_exceptions hw &&& not32 THREAD_EXCP_IRQ) }

/-- Modelled from the spec: struct mutex of kernel/mutex.h (not under src), as
far as thread.c uses it: the mutex is known by its address (its link in the
list of a thread) and has an owner_id, -1 when it is not held. -/
structure mutex where
  addr : Nat
  owner_id : Int
  deriving DecidableEq, Repr

/-- The function thread_add_mutex, run on core cpu. -/
def thread_add_mutex (s : State) (cpu : Nat) (m : mutex) : State × mutex × Ret Unit :=
  match thread_get_core_local s cpu with
  | none => (s, m, .assert_failed)
  | some l =>
    let ct := l.curr_thread
    if ct = -1 then (s, m, .assert_failed)
    else
      match thread_at s ct with
      | none => (s, m, .out_of_bounds)
      | some t =>
        if t.state ≠ THREAD_STATE_ACTIVE then (s, m, .assert_failed)
        else if m.owner_id ≠ -1 then (s, m, .assert_failed)
        else
          let ts := upd_thread s.threads ct.toNat
            (fun t => { t with mutexes := t.mutexes ++ [m.addr] })
          ({ s with threads := ts }, { m with owner_id := ct }, .done ())

/-- The function thread_rem_mutex, run on core cpu. -/
def thread_rem_mutex (s : State) (cpu : Nat) (m : mutex) : State × mutex × Ret Unit :=
  match thread_get_core_local s cpu with
  | none => (s, m, .assert_failed)
  | some l =>
    let ct := l.curr_thread
    if ct = -1 then (s, m, .assert_failed)
    else
      match thread_at s ct with
      | none => (s, m, .out_of_bounds)
      | some t =>
        if t.state ≠ THREAD_STATE_ACTIVE then (s, m, .assert_failed)
        else if m.owner_id ≠ ct then (s, m, .assert_failed)
        else
          let ts := upd_thread s.threads ct.toNat
            (fun t => { t with mutexes := t.mutexes.erase m.addr })
          ({ s with threads := ts }, { m with owner_id := -1 }, .done ())

/-- The memory manager as the core sees it (mm/core_memprot.h and util.h are
not under src): its answers are parameters of the model. -/
structure mem_env where
  /-- The test core_pbuf_is(CORE_MEM_NSEC_SHM, pa, len). -/
  core_pbuf_is_nsec_shm : Nat → Nat → Bool
  /-- The test tee_pbuf_is_non_sec(pa, len). -/
  tee_pbuf_is_non_sec : Nat → Nat → Bool
  /-- The test ALIGNMENT_IS_OK(p, struct optee_msg_arg). -/
  alignment_is_ok : Nat → Bool
  /-- The translation phys_to_virt(pa, MEM_AREA_NSEC_SHM), 0 for NULL. -/
  phys_to_virt : Nat → Nat
  /-- The size OPTEE_MSG_GET_ARG_SIZE(num_params). -/
  arg_size : Nat → Nat

/-- An RPC issued to the normal world for the argument buffer. -/
inductive rpc_call where
  | alloc (size : Nat)
  | free (cookie : Nat)
  deriving DecidableEq, Repr

/-- Modelled from the spec: OPTEE_SMC_RETURN_ENOMEM of sm/optee_smc.h (not
under src). -/
def OPTEE_SMC_RETURN_ENOMEM : Nat := 6

/-- Modelled from the spec: THREAD_RPC_MAX_NUM_PARAMS of thread.h (not under
src). -/
def THREAD_RPC_MAX_NUM_PARAMS : Nat := 2

/-- The function check_alloced_shm; align is a size_t, 32 bits wide, so that
align - 1 is computed modulo 2 ^ 32 (all ones for align = 0). -/
def check_alloced_shm (env : mem_env) (pa len align : Nat) : Bool :=
  if pa &&& ((align + (2 ^ 32 - 1)) % 2 ^ 32) ≠ 0 then false
  else env.core_pbuf_is_nsec_shm pa len

/-- The function thread_rpc_free_arg: the RPCs it issues. -/
def thread_rpc_free_arg (cookie : Nat) : List rpc_call :=
  if cookie ≠ 0 then [.free cookie] else []

/-- The function thread_rpc_alloc_arg: reply is the answer of the normal world
to the ALLOC RPC, the address and the cookie as reg_pair_to_64 assembles them;
the result is (*arg, *cookie) and the RPCs issued. -/
def thread_rpc_alloc_arg (env : mem_env) (size : Nat) (reply : Nat × Nat) :
    (Nat × Nat) × List rpc_call :=
  let pa := reply.1
  let co := reply.2
  if check_alloced_shm env pa size 8 = false then
    ((0, 0), [.alloc size] ++ thread_rpc_free_arg co)
  else ((pa, co), [.alloc size])

/-- The function thread_get_id in the table model: the current thread of the
core with assert(ct >= 0 && ct < CFG_NUM_THREADS); the exception mask that
the function saves and restores is dealt with in thread_get_id. -/
def thread_id_of (s : State) (cpu : Nat) : Ret Nat :=
  match thread_get_core_local s cpu with
  | none => .assert_failed
  | some l =>
    if 0 ≤ l.curr_thread ∧ l.curr_thread < (CFG_NUM_THREADS s : Int) then
      .done l.curr_thread.toNat
    else .assert_failed

/-- What __thread_std_smc_entry leaves to its caller: the argument registers,
the RPCs issued for the argument buffer, and whether the registered std-SMC
handler was called. -/
structure entry_result where
  args : thread_smc_args
  rpcs : List rpc_call
  handler_called : Bool
  deriving DecidableEq, Repr

/-- The function __thread_std_smc_entry, run on core cpu.  The argument reply
is the answer of the normal world to the ALLOC RPC (used when the thread has
no cached buffer) and handler is what thread_std_smc_handler_ptr does to the
argument registers; the thread is taken to be back on the same core after
each RPC. -/
def __thread_std_smc_entry (env : mem_env) (s : State) (cpu : Nat) (args : thread_smc_args)
    (reply : Nat × Nat) (handler : thread_smc_args → thread_smc_args) :
    State × Ret entry_result :=
  match thread_id_of s cpu with
  | .done n =>
    match s.threads[n]? with
    | none => (s, .out_of_bounds)
    | some thr =>
      let r := thread_rpc_alloc_arg env (env.arg_size THREAD_RPC_MAX_NUM_PARAMS) reply
      let parg := r.1.1
      let carg := r.1.2
      let arg := env.phys_to_virt parg
      if thr.rpc_arg = 0 ∧ (parg = 0 ∨ env.alignment_is_ok parg = false ∨ arg = 0) then
        (s, .done ⟨{ args with a0 := OPTEE_SMC_RETURN_ENOMEM },
          r.2 ++ thread_rpc_free_arg carg, false⟩)
      else
        let ts1 :=
          if thr.rpc_arg = 0 then
            upd_thread (upd_thread s.threads n (fun t => { t with rpc_arg := arg })) n
              (fun t => { t with rpc_carg := carg })
          else s.threads
        let rpcs := if thr.rpc_arg = 0 then r.2 else []
        let args1 := handler args
        if s.thread_prealloc_rpc_cache = false then
          let cached := match ts1[n]? with
            | some t => t.rpc_carg
            | none => 0
          let ts2 := upd_thread (upd_thread ts1 n (fun t => { t with rpc_carg := 0 })) n
            (fun t => { t with rpc_arg := 0 })
          ({ s with threads := ts2 },
            .done ⟨args1, rpcs ++ thread_rpc_free_arg cached, true⟩)
        else ({ s with threads := ts1 }, .done ⟨args1, rpcs, true⟩)
  | .assert_failed => (s, .assert_failed)
  | .out_of_bounds => (s, .out_of_bounds)

/-- Example memory manager: the non-secure shared memory is [0x1000, 0x2000),
mapped at an offset of 0x10000000; the argument record is aligned on 8 bytes
and takes 32 bytes plus 32 bytes for each parameter. -/
def ex_env : mem_env :=
  { core_pbuf_is_nsec_shm := fun pa len => decide (0x1000 ≤ pa ∧ pa + len ≤ 0x2000)
    tee_pbuf_is_non_sec := fun pa len => decide (0x1000 ≤ pa ∧ pa + len ≤ 0x2000)
    alignment_is_ok := fun p => decide (p % 8 = 0)
    phys_to_virt := fun pa => if 0x1000 ≤ pa ∧ pa < 0x2000 then pa + 0x10000000 else 0
    arg_size := fun n => 32 + 32 * n }

/-- Example: one slot and one core after boot and thread_clr_boot_thread: the
slot is FREE and the core runs no thread. -/
def ex_pre : State :=
  (thread_clr_boot_thread (thread_init_boot_thread (zero_state 1 1) 0).1 0).1

/-- Example: ex_pre with the preallocation cache enabled. -/
def ex_on : State := (thread_enable_prealloc_rpc_cache ⟨0x1d3, 0⟩ ex_pre).2.1

/-- Example: ex_on after thread_alloc_and_run on core 0. -/
def ex_taken : State := (thread_alloc_and_run ex_on 0 ex_args 0x1001 0x1d3).1

/-- Example: ex_taken after __thread_std_smc_entry, which allocates the
argument buffer at 0x1000 with cookie 0x55 and keeps it. -/
def ex_cached : State :=
  (__thread_std_smc_entry ex_env ex_taken 0 ex_args (0x1000, 0x55) id).1

/-- Example: ex_cached after thread_state_free. -/
def ex_cached_free : State := (thread_state_free ex_cached 0).1

/-- Every FREE slot has an empty mutex list. -/
def free_no_mutex (s : State) : Prop :=
  ∀ t ∈ s.threads, t.state = THREAD_STATE_FREE → t.mutexes = []

/-- While the preallocation cache is off no slot holds a cached rpc_arg. -/
def no_cache_when_off (s : State) : Prop :=
  s.thread_prealloc_rpc_cache = false → ∀ t ∈ s.threads, t.rpc_arg = 0

/-- The invariant of the thread table together with the two facts on FREE
slots. -/
def full_inv (s : State) : Prop :=
  table_inv s ∧ free_no_mutex s ∧ no_cache_when_off s

/-- One slot is assigned (and the core blocks possibly changed) in a way that
respects the two facts on FREE slots, or nothing changes. -/
def slot_step (s s' : State) : Prop :=
  s' = s ∨ ∃ (n : Nat) (f : thread_ctx → thread_ctx) (ls : List thread_core_local),
    s' = { s with threads := upd_thread s.threads n f, thread_core_local := ls } ∧
    ∀ t, s.threads[n]? = some t →
      ((f t).state = THREAD_STATE_FREE →
        (f t).mutexes = [] ∨ (t.state = THREAD_STATE_FREE ∧ (f t).mutexes = t.mutexes)) ∧
      (s.thread_prealloc_rpc_cache = false → t.rpc_arg = 0 → (f t).rpc_arg = 0)

/-- The states of the running system with all the operations that touch the
thread table: as Reachable, from static storage in which every slot is FREE
and holds no rpc_arg, and with __thread_std_smc_entry, thread_add_mutex,
thread_rem_mutex, thread_set_irq and the two operations on the preallocation
cache as further steps. -/
inductive ReachableFull : State → Prop where
  | boot (s0 s : State) (cpu : Nat)
      (hfree : ∀ t ∈ s0.threads, t.state = THREAD_STATE_FREE ∧ t.rpc_arg = 0)
      (h : thread_init_boot_thread s0 cpu = (s, .done ())) : ReachableFull s
  | clr (s s' : State) (cpu : Nat) (hs : ReachableFull s)
      (h : thread_clr_boot_thread s cpu = (s', .done ())) : ReachableFull s'
  | alloc (s s' : State) (cpu : Nat) (args : thread_smc_args) (entry cpsr : Nat)
      (r : thread_smc_args × smc_exit) (hs : ReachableFull s)
      (h : thread_alloc_and_run s cpu args entry cpsr = (s', .done r)) : ReachableFull s'
  | resume (s s' : State) (cpu : Nat) (args : thread_smc_args)
      (r : thread_smc_args × smc_exit) (hs : ReachableFull s)
      (h : thread_resume_from_rpc s cpu args = (s', .done r)) : ReachableFull s'
  | suspend (s s' : State) (cpu : Nat) (flags cpsr pc : Nat) (umap : Option Nat) (ct : Int)
      (hs : ReachableFull s)
      (h : thread_state_suspend s cpu flags cpsr pc umap = (s', .done ct)) : ReachableFull s'
  | free (s s' : State) (cpu : Nat) (hs : ReachableFull s)
      (h : thread_state_free s cpu = (s', .done ())) : ReachableFull s'
  | std_entry (env : mem_env) (s s' : State) (cpu : Nat) (args : thread_smc_args)
      (reply : Nat × Nat) (handler : thread_smc_args → thread_smc_args) (r : entry_result)
      (hs : ReachableFull s)
      (h : __thread_std_smc_entry env s cpu args reply handler = (s', .done r)) :
      ReachableFull s'
  | add_mutex (s s' : State) (cpu : Nat) (m m' : mutex) (hs : ReachableFull s)
      (h : thread_add_mutex s cpu m = (s', m', .done ())) : ReachableFull s'
  | rem_mutex (s s' : State) (cpu : Nat) (m m' : mutex) (hs : ReachableFull s)
      (h : thread_rem_mutex s cpu m = (s', m', .done ())) : ReachableFull s'
  | set_irq (hw hw' : core_hw) (s s' : State) (cpu : Nat) (enable : Bool)
      (hs : ReachableFull s)
      (h : thread_set_irq hw s cpu enable = (hw', s', .done ())) : ReachableFull s'
  | enable_cache (hw hw' : core_hw) (s s' : State) (rv : Bool) (hs : ReachableFull s)
      (h : thread_enable_prealloc_rpc_cache hw s = (hw', s', .done rv)) : ReachableFull s'
  | disable_cache (hw hw' : core_hw) (s s' : State) (cookie : Nat) (r : Bool × Nat)
      (hs : ReachableFull s)
      (h : thread_disable_prealloc_rpc_cache hw s cookie = (hw', s', .done r)) :
      ReachableFull s'

/-- Modelled from the spec: struct optee_msg_param of optee_msg.h (not under
src): attr and the union u of three 64-bit words.  The words are named after
u.value: a is also u.tmem.buf_ptr, b is also u.tmem.size and c is also
u.tmem.shm_ref. -/
structure optee_msg_param where
  attr : Nat
  a : Nat
  b : Nat
  c : Nat
  deriving DecidableEq, Repr

/-- The member u.tmem.buf_ptr. -/
def optee_msg_param.tmem_buf_ptr (p : optee_msg_param) : Nat := p.a

/-- The member u.tmem.size. -/
def optee_msg_param.tmem_size (p : optee_msg_param) : Nat := p.b

/-- The member u.tmem.shm_ref. -/
def optee_msg_param.tmem_shm_ref (p : optee_msg_param) : Nat := p.c

/-- Modelled from the spec: struct param_mem of kernel/tee_ta_manager.h (not
under src); size and offs are size_t. -/
structure param_mem where
  mobj : Nat
  size : Nat
  offs : Nat
  deriving DecidableEq, Repr

/-- Modelled from the spec: struct param_val of kernel/tee_ta_manager.h (not
under src); a and b are uint32_t. -/
structure param_val where
  a : Nat
  b : Nat
  deriving DecidableEq, Repr

/-- Modelled from the spec: the union u[n] of struct tee_ta_param, with its two
members; entry_std.c reads the member that the type of the slot selects. -/
structure param_u where
  mem : param_mem
  val : param_val
  deriving DecidableEq, Repr

/-- Modelled from the spec: struct tee_ta_param of kernel/tee_ta_manager.h (not
under src): the packed types and the TEE_NUM_PARAMS slots u[0..3]. -/
structure tee_ta_param where
  types : Nat
  u : Nat → param_u

/-- The registered non-secure shared memory object shm_mobj: its handle, its
physical address (what mobj_get_pa(shm_mobj, 0, 0, &b) stores in b) and its
size. -/
structure shm_region where
  mobj : Nat
  pa : Nat
  size : Nat
  deriving DecidableEq, Repr

/-- Modelled from the spec: TEE_SUCCESS of tee_api_defines.h (not under src). -/
def TEE_SUCCESS : Nat := 0

/-- Modelled from the spec: TEE_ERROR_BAD_PARAMETERS of tee_api_defines.h (not
under src). -/
def TEE_ERROR_BAD_PARAMETERS : Nat := 0xFFFF0006

/-- Modelled from the spec: TEE_NUM_PARAMS of tee_api_defines.h (not under
src). -/
def TEE_NUM_PARAMS : Nat := 4

/-- Modelled from the spec: TEE_PARAM_TYPE_NONE of tee_api_defines.h. -/
def TEE_PARAM_TYPE_NONE : Nat := 0

/-- Modelled from the spec: TEE_PARAM_TYPE_VALUE_INPUT of tee_api_defines.h. -/
def TEE_PARAM_TYPE_VALUE_INPUT : Nat := 1

/-- Modelled from the spec: TEE_PARAM_TYPE_VALUE_OUTPUT of tee_api_defines.h. -/
def TEE_PARAM_TYPE_VALUE_OUTPUT : Nat := 2

/-- Modelled from the spec: TEE_PARAM_TYPE_VALUE_INOUT of tee_api_defines.h. -/
def TEE_PARAM_TYPE_VALUE_INOUT : Nat := 3

/-- Modelled from the spec: TEE_PARAM_TYPE_MEMREF_INPUT of tee_api_defines.h. -/
def TEE_PARAM_TYPE_MEMREF_INPUT : Nat := 5

/-- Modelled from the spec: TEE_PARAM_TYPE_MEMREF_OUTPUT of tee_api_defines.h. -/
def TEE_PARAM_TYPE_MEMREF_OUTPUT : Nat := 6

/-- Modelled from the spec: TEE_PARAM_TYPE_MEMREF_INOUT of tee_api_defines.h. -/
def TEE_PARAM_TYPE_MEMREF_INOUT : Nat := 7

/-- Modelled from the spec: the macro TEE_PARAM_TYPES of tee_api_defines.h (not
under src), four types packed in nibbles and stored in the uint32_t types. -/
def TEE_PARAM_TYPES (t0 t1 t2 t3 : Nat) : Nat :=
  (t0 ||| (t1 <<< 4) ||| (t2 <<< 8) ||| (t3 <<< 12)) % 2 ^ 32

/-- Modelled from the spec: the macro TEE_PARAM_TYPE_GET of tee_api_defines.h
(not under src). -/
def TEE_PARAM_TYPE_GET (t i : Nat) : Nat := (t >>> (i * 4)) &&& 0xF

/-- Modelled from the spec: OPTEE_MSG_ATTR_TYPE_NONE of optee_msg.h (not under
src). -/
def OPTEE_MSG_ATTR_TYPE_NONE : Nat := 0x0

/-- Modelled from the spec: OPTEE_MSG_ATTR_TYPE_VALUE_INPUT of optee_msg.h. -/
def OPTEE_MSG_ATTR_TYPE_VALUE_INPUT : Nat := 0x1

/-- Modelled from the spec: OPTEE_MSG_ATTR_TYPE_VALUE_OUTPUT of optee_msg.h. -/
def OPTEE_MSG_ATTR_TYPE_VALUE_OUTPUT : Nat := 0x2

/-- Modelled from the spec: OPTEE_MSG_ATTR_TYPE_VALUE_INOUT of optee_msg.h. -/
def OPTEE_MSG_ATTR_TYPE_VALUE_INOUT : Nat := 0x3

/-- Modelled from the spec: OPTEE_MSG_ATTR_TYPE_TMEM_INPUT of optee_msg.h. -/
def OPTEE_MSG_ATTR_TYPE_TMEM_INPUT : Nat := 0x9

/-- Modelled from the spec: OPTEE_MSG_ATTR_TYPE_TMEM_OUTPUT of optee_msg.h. -/
def OPTEE_MSG_ATTR_TYPE_TMEM_OUTPUT : Nat := 0xa

/-- Modelled from the spec: OPTEE_MSG_ATTR_TYPE_TMEM_INOUT of optee_msg.h. -/
def OPTEE_MSG_ATTR_TYPE_TMEM_INOUT : Nat := 0xb

/-- Modelled from the spec: OPTEE_MSG_ATTR_TYPE_MASK of optee_msg.h, the low
eight bits of attr. -/
def OPTEE_MSG_ATTR_TYPE_MASK : Nat := 0xff

/-- Modelled from the spec: OPTEE_MSG_ATTR_META of optee_msg.h, bit 8. -/
def OPTEE_MSG_ATTR_META : Nat := 1 <<< 8

/-- Modelled from the spec: OPTEE_MSG_ATTR_FRAGMENT of optee_msg.h, bit 9. -/
def OPTEE_MSG_ATTR_FRAGMENT : Nat := 1 <<< 9

/-- Conversion to size_t, 32 bits wide on the ARM32 build. -/
def to_size_t (x : Nat) : Nat := x % 2 ^ 32

/-- Conversion to uint32_t. -/
def to_uint32 (x : Nat) : Nat := x % 2 ^ 32

/-- Modelled from the spec: core_is_buffer_inside of mm/core_memprot.h (not
under src), taken as the containment test without overflow: the buffer
[b, b + bl) lies in [a, a + al). -/
def core_is_buffer_inside (b bl a al : Nat) : Bool :=
  decide (a ≤ b ∧ b + bl ≤ a + al)

/-- The function set_mem_param; the object is registered, so mobj_get_pa
succeeds and stores shm.pa. -/
def set_mem_param (shm : shm_region) (param : optee_msg_param) (mem : param_mem) :
    Nat × param_mem :=
  let b := shm.pa
  let sz := shm.size
  let tsz := to_size_t param.tmem_size
  let tsz := if param.tmem_buf_ptr ≠ 0 ∧ tsz = 0 then to_size_t (tsz + 1) else tsz
  if core_is_buffer_inside param.tmem_buf_ptr tsz b sz = false then
    (TEE_ERROR_BAD_PARAMETERS, mem)
  else
    (TEE_SUCCESS,
      { mobj := shm.mobj
        offs := to_size_t (param.tmem_buf_ptr - b)
        size := to_size_t param.tmem_size })

/-- The all-zero slot, what memset leaves in ta_param->u[n]. -/
def zero_param_u : param_u := ⟨⟨0, 0, 0⟩, ⟨0, 0⟩⟩

/-- The all-zero struct tee_ta_param, what memset leaves. -/
def zero_ta_param : tee_ta_param := { types := 0, u := fun _ => zero_param_u }

/-- Assignment to ta_param->u[n]. -/
def set_u (ta : tee_ta_param) (n : Nat) (v : param_u) : tee_ta_param :=
  { ta with u := fun k => if k = n then v else ta.u k }

/-- Assignment to pt[n]; the array holds uint8_t. -/
def set_pt (pt : Nat → Nat) (n v : Nat) : Nat → Nat :=
  fun k => if k = n then v % 2 ^ 8 else pt k

/-- The loop of copy_in_params from index n on, with k iterations left; the
result is the value returned from inside the loop (TEE_SUCCESS when the loop
runs through), ta_param and the local array pt. -/
def copy_in_loop (shm : shm_region) (params : Nat → optee_msg_param) :
    Nat → Nat → tee_ta_param → (Nat → Nat) → Nat × tee_ta_param × (Nat → Nat)
  | 0, _, ta, pt => (TEE_SUCCESS, ta, pt)
  | k + 1, n, ta, pt =>
    if (params n).attr &&& OPTEE_MSG_ATTR_META ≠ 0 then (TEE_ERROR_BAD_PARAMETERS, ta, pt)
    else if (params n).attr &&& OPTEE_MSG_ATTR_FRAGMENT ≠ 0 then
      (TEE_ERROR_BAD_PARAMETERS, ta, pt)
    else
      let attr := to_uint32 ((params n).attr &&& OPTEE_MSG_ATTR_TYPE_MASK)
      if attr = OPTEE_MSG_ATTR_TYPE_NONE then
        copy_in_loop shm params k (n + 1) (set_u ta n zero_param_u)
          (set_pt pt n TEE_PARAM_TYPE_NONE)
      else if attr = OPTEE_MSG_ATTR_TYPE_VALUE_INPUT ∨ attr = OPTEE_MSG_ATTR_TYPE_VALUE_OUTPUT ∨
          attr = OPTEE_MSG_ATTR_TYPE_VALUE_INOUT then
        let v : param_val := ⟨to_uint32 (params n).a, to_uint32 (params n).b⟩
        copy_in_loop shm params k (n + 1) (set_u ta n { ta.u n with val := v })
          (set_pt pt n (TEE_PARAM_TYPE_VALUE_INPUT + attr - OPTEE_MSG_ATTR_TYPE_VALUE_INPUT))
      else if attr = OPTEE_MSG_ATTR_TYPE_TMEM_INPUT ∨ attr = OPTEE_MSG_ATTR_TYPE_TMEM_OUTPUT ∨
          attr = OPTEE_MSG_ATTR_TYPE_TMEM_INOUT then
        let pt1 := set_pt pt n
          (TEE_PARAM_TYPE_MEMREF_INPUT + attr - OPTEE_MSG_ATTR_TYPE_TMEM_INPUT)
        let r := set_mem_param shm (params n) (ta.u n).mem
        let ta1 := set_u ta n { ta.u n with mem := r.2 }
        if r.1 ≠ TEE_SUCCESS then (r.1, ta1, pt1)
        else copy_in_loop shm params k (n + 1) ta1 pt1
      else (TEE_ERROR_BAD_PARAMETERS, ta, pt)

/-- The function copy_in_params; pt is the content of the local array pt on
entry (it is not initialised) and ta_param the content of the output
structure on entry. -/

def copy_in_params (shm : shm_region) (params : Nat → optee_msg_param) (num_params : Nat)
    (ta_param : tee_ta_param) (pt : Nat → Nat) : Nat × tee_ta_param :=
  if num_params > TEE_NUM_PARAMS then (TEE_ERROR_BAD_PARAMETERS, ta_param)
  else
    let r := copy_in_loop shm params num_params 0 zero_ta_param pt
    if r.1 ≠ TEE_SUCCESS then (r.1, r.2.1)
    else
      (TEE_SUCCESS,
        { r.2.1 with types := TEE_PARAM_TYPES (r.2.2 0) (r.2.2 1) (r.2.2 2) (r.2.2 3) })

/-- The loop of copy_out_param from index n on, with k iterations left. -/
def copy_out_loop (ta_param : tee_ta_param) :
    Nat → Nat → (Nat → optee_msg_param) → (Nat → optee_msg_param)
  | 0, _, params => params
  | k + 1, n, params =>
    let ty := TEE_PARAM_TYPE_GET ta_param.types n
    let params1 : Nat → optee_msg_param :=
      if ty = TEE_PARAM_TYPE_MEMREF_OUTPUT ∨ ty = TEE_PARAM_TYPE_MEMREF_INOUT then
        fun j => if j = n then { params n with b := (ta_param.u n).mem.size } else params j
      else if ty = TEE_PARAM_TYPE_VALUE_OUTPUT ∨ ty = TEE_PARAM_TYPE_VALUE_INOUT then
        fun j =>
          if j = n then { params n with a := (ta_param.u n).val.a, b := (ta_param.u n).val.b }
          else params j
      else params
    copy_out_loop ta_param k (n + 1) params1

/-- The function copy_out_param. -/
def copy_out_param (ta_param : tee_ta_param) (num_params : Nat)
    (params : Nat → optee_msg_param) : Nat → optee_msg_param :=
  copy_out_loop ta_param num_params 0 params

/-- Example shared memory object: [0x1000, 0x2000). -/
def ex_shm : shm_region := ⟨1, 0x1000, 0x1000⟩

/-- The size that set_mem_param hands to core_is_buffer_inside: the size
converted to size_t, or 1 for a non-null pointer whose converted size is 0. -/
def checked_size (param : optee_msg_param) : Nat :=
  if param.tmem_buf_ptr ≠ 0 ∧ param.tmem_size % 2 ^ 32 = 0 then 1
  else param.tmem_size % 2 ^ 32

/-- A slot that copy_in_params does not accept: META or FRAGMENT set in attr,
or a type outside NONE, VALUE_INPUT/OUTPUT/INOUT and TMEM_INPUT/OUTPUT/INOUT. -/
def bad_slot (p : optee_msg_param) : Prop :=
  p.attr &&& OPTEE_MSG_ATTR_META ≠ 0 ∨ p.attr &&& OPTEE_MSG_ATTR_FRAGMENT ≠ 0 ∨
    ¬ (p.attr &&& OPTEE_MSG_ATTR_TYPE_MASK = OPTEE_MSG_ATTR_TYPE_NONE ∨
      p.attr &&& OPTEE_MSG_ATTR_TYPE_MASK = OPTEE_MSG_ATTR_TYPE_VALUE_INPUT ∨
      p.attr &&& OPTEE_MSG_ATTR_TYPE_MASK = OPTEE_MSG_ATTR_TYPE_VALUE_OUTPUT ∨
      p.attr &&& OPTEE_MSG_ATTR_TYPE_MASK = OPTEE_MSG_ATTR_TYPE_VALUE_INOUT ∨
      p.attr &&& OPTEE_MSG_ATTR_TYPE_MASK = OPTEE_MSG_ATTR_TYPE_TMEM_INPUT ∨
      p.attr &&& OPTEE_MSG_ATTR_TYPE_MASK = OPTEE_MSG_ATTR_TYPE_TMEM_OUTPUT ∨
      p.attr &&& OPTEE_MSG_ATTR_TYPE_MASK = OPTEE_MSG_ATTR_TYPE_TMEM_INOUT)

/-- What copy_out_param leaves in slot n, given what it found there. -/
def out_slot (ta_param : tee_ta_param) (n : Nat) (p : optee_msg_param) : optee_msg_param :=
  if TEE_PARAM_TYPE_GET ta_param.types n = TEE_PARAM_TYPE_MEMREF_OUTPUT ∨
      TEE_PARAM_TYPE_GET ta_param.types n = TEE_PARAM_TYPE_MEMREF_INOUT then
    { p with b := (ta_param.u n).mem.size }
  else if TEE_PARAM_TYPE_GET ta_param.types n = TEE_PARAM_TYPE_VALUE_OUTPUT ∨
      TEE_PARAM_TYPE_GET ta_param.types n = TEE_PARAM_TYPE_VALUE_INOUT then
    { p with a := (ta_param.u n).val.a, b := (ta_param.u n).val.b }
  else p

/-- Example array: two meta slots, then a bad slot (type 4). -/
def ex_params_bad : Nat → optee_msg_param :=
  fun n => if n = 1 then ⟨4, 0, 0, 0⟩ else ⟨OPTEE_MSG_ATTR_TYPE_VALUE_INPUT, 7, 8, 9⟩

/-- Example result of a command: slot 0 a value output, slot 1 a memref
output. -/
def ex_ta_out : tee_ta_param :=
  { types := TEE_PARAM_TYPES TEE_PARAM_TYPE_VALUE_OUTPUT TEE_PARAM_TYPE_MEMREF_OUTPUT
      TEE_PARAM_TYPE_NONE TEE_PARAM_TYPE_NONE
    u := fun _ => ⟨⟨1, 0x20, 0x800⟩, ⟨11, 12⟩⟩ }

/-- Example array of the client: every slot a temporary memory reference. -/
def ex_params_out : Nat → optee_msg_param :=
  fun _ => ⟨OPTEE_MSG_ATTR_TYPE_TMEM_OUTPUT, 0x1800, 0x100, 5⟩

/-- Modelled from the spec: struct optee_msg_arg of optee_msg.h (not under
src): the header fields and the parameter array that follows the header in
shared memory (OPTEE_MSG_GET_PARAMS). -/
structure optee_msg_arg where
  cmd : Nat
  func : Nat
  session : Nat
  cancel_id : Nat
  ret : Nat
  ret_origin : Nat
  num_params : Nat
  params : Nat → optee_msg_param

/-- Modelled from the spec: TEE_UUID of tee_api_types.h (not under src), held
as the two 64-bit words its 16 octets are read from. -/
structure TEE_UUID where
  w0 : Nat
  w1 : Nat
  deriving DecidableEq, Repr

/-- Modelled from the spec: TEE_Identity of tee_api_types.h (not under src);
login is a uint32_t. -/
structure TEE_Identity where
  login : Nat
  uuid : TEE_UUID
  deriving DecidableEq, Repr

/-- Modelled from the spec: tee_uuid_from_octets of tee/uuid.c (not under
src): the UUID made of the 16 octets at u.value, that is of the words
value.a and value.b. -/
def tee_uuid_from_octets (a b : Nat) : TEE_UUID := ⟨a, b⟩

/-- Modelled from the spec: TEE_LOGIN_PUBLIC of tee_api_defines.h (not under
src). -/
def TEE_LOGIN_PUBLIC : Nat := 0

/-- Modelled from the spec: TEE_LOGIN_USER of tee_api_defines.h. -/
def TEE_LOGIN_USER : Nat := 1

/-- Modelled from the spec: TEE_LOGIN_GROUP of tee_api_defines.h. -/
def TEE_LOGIN_GROUP : Nat := 2

/-- Modelled from the spec: TEE_LOGIN_APPLICATION of tee_api_defines.h. -/
def TEE_LOGIN_APPLICATION : Nat := 4

/-- Modelled from the spec: TEE_LOGIN_APPLICATION_USER of tee_api_defines.h. -/
def TEE_LOGIN_APPLICATION_USER : Nat := 5

/-- Modelled from the spec: TEE_LOGIN_APPLICATION_GROUP of
tee_api_defines.h. -/
def TEE_LOGIN_APPLICATION_GROUP : Nat := 6

/-- Modelled from the spec: TEE_ORIGIN_TEE of tee_api_defines.h (not under
src). -/
def TEE_ORIGIN_TEE : Nat := 3

/-- Modelled from the spec: OPTEE_SMC_RETURN_OK of sm/optee_smc.h (not under
src). -/
def OPTEE_SMC_RETURN_OK : Nat := 0

/-- Modelled from the spec: OPTEE_SMC_RETURN_EBADADDR of sm/optee_smc.h. -/
def OPTEE_SMC_RETURN_EBADADDR : Nat := 4

/-- Modelled from the spec: OPTEE_SMC_RETURN_EBADCMD of sm/optee_smc.h. -/
def OPTEE_SMC_RETURN_EBADCMD : Nat := 5

/-- Modelled from the spec: OPTEE_SMC_CALL_WITH_ARG of sm/optee_smc.h (not
under src), the function identifier of a standard call. -/
def OPTEE_SMC_CALL_WITH_ARG : Nat := 0x32000004

/-- Modelled from the spec: OPTEE_MSG_CMD_OPEN_SESSION of optee_msg.h (not
under src). -/
def OPTEE_MSG_CMD_OPEN_SESSION : Nat := 0

/-- Modelled from the spec: OPTEE_MSG_CMD_INVOKE_COMMAND of optee_msg.h. -/
def OPTEE_MSG_CMD_INVOKE_COMMAND : Nat := 1

/-- Modelled from the spec: OPTEE_MSG_CMD_CLOSE_SESSION of optee_msg.h. -/
def OPTEE_MSG_CMD_CLOSE_SESSION : Nat := 2

/-- Modelled from the spec: OPTEE_MSG_CMD_CANCEL of optee_msg.h. -/
def OPTEE_MSG_CMD_CANCEL : Nat := 3

/-- What tee_ta_open_session hands back: its return value, the error origin
and the session pointer it leaves in the variables of the caller, and the
parameters as the trusted application left them. -/
structure open_session_result where
  res : Nat
  err_orig : Nat
  s : Nat
  param : tee_ta_param

/-- What tee_ta_invoke_command hands back: its return value, the error origin
it leaves in the variable of the caller, and the parameters as the trusted
application left them. -/
structure invoke_command_result where
  res : Nat
  err_orig : Nat
  param : tee_ta_param

/-- The session layer (kernel/tee_ta_manager.c, not under src): what its
functions answer is a parameter of the model. -/
structure ta_layer where
  /-- The call tee_ta_open_session(&err_orig, &s, &tee_open_sessions, uuid,
  clnt_id, TEE_TIMEOUT_INFINITE, param). -/
  tee_ta_open_session : TEE_UUID → TEE_Identity → tee_ta_param → open_session_result
  /-- The call tee_ta_close_session(s, &tee_open_sessions, NSAPP_IDENTITY). -/
  tee_ta_close_session : Nat → Nat
  /-- The call tee_ta_get_session(id, exclusive, &tee_open_sessions), 0 for
  NULL. -/
  tee_ta_get_session : Nat → Bool → Nat
  /-- The call tee_ta_invoke_command(&err_orig, s, NSAPP_IDENTITY,
  TEE_TIMEOUT_INFINITE, func, param). -/
  tee_ta_invoke_command : Nat → Nat → tee_ta_param → invoke_command_result
  /-- The call tee_ta_cancel_command(&err_orig, s, NSAPP_IDENTITY): return
  value and error origin. -/
  tee_ta_cancel_command : Nat → Nat × Nat

/-- The calls that tee_entry_std and its command handlers make outside
entry_std.c, in the order they are made. -/
inductive entry_event where
  | thread_set_irq (enable : Bool)
  | tee_ta_open_session (uuid : TEE_UUID) (clnt_id : TEE_Identity) (param : tee_ta_param)
  | tee_ta_close_session (s : Nat)
  | tee_ta_get_session (id : Nat) (exclusive : Bool)
  | tee_ta_invoke_command (s : Nat) (func : Nat) (param : tee_ta_param)
  | tee_ta_cancel_command (s : Nat)
  | tee_ta_put_session (s : Nat)
  | plat_prng_add_jitter_entropy

/-- The content of the local variables that a command handler passes on
without initialising them: param, the array pt of copy_in_params, num_meta,
uuid and clnt_id. -/
structure entry_locals where
  param : tee_ta_param
  pt : Nat → Nat
  num_meta : Nat
  uuid : TEE_UUID
  clnt_id : TEE_Identity

/-- What a command handler leaves: the SMC arguments, the argument record and
the calls it made. -/
structure entry_result_std where
  smc_args : thread_smc_args
  arg : optee_msg_arg
  trace : List entry_event

/-- The function get_open_session_meta; the last three arguments are the
content of *num_meta, *uuid and *clnt_id on entry, the result holds the
return value and their content on return. -/
def get_open_session_meta (num_params : Nat) (params : Nat → optee_msg_param)
    (num_meta : Nat) (uuid : TEE_UUID) (clnt_id : TEE_Identity) :
    Nat × Nat × TEE_UUID × TEE_Identity :=
  let req_attr := OPTEE_MSG_ATTR_META ||| OPTEE_MSG_ATTR_TYPE_VALUE_INPUT
  if num_params < 2 then (TEE_ERROR_BAD_PARAMETERS, num_meta, uuid, clnt_id)
  else if (params 0).attr ≠ req_attr ∨ (params 1).attr ≠ req_attr then
    (TEE_ERROR_BAD_PARAMETERS, num_meta, uuid, clnt_id)
  else
    let uuid := tee_uuid_from_octets (params 0).a (params 0).b
    let clnt_id := { clnt_id with login := to_uint32 (params 1).c }
    if clnt_id.login = TEE_LOGIN_PUBLIC then
      (TEE_SUCCESS, 2, uuid, { clnt_id with uuid := ⟨0, 0⟩ })
    else if clnt_id.login = TEE_LOGIN_USER ∨ clnt_id.login = TEE_LOGIN_GROUP ∨
        clnt_id.login = TEE_LOGIN_APPLICATION ∨ clnt_id.login = TEE_LOGIN_APPLICATION_USER ∨
        clnt_id.login = TEE_LOGIN_APPLICATION_GROUP then
      (TEE_SUCCESS, 2, uuid,
        { clnt_id with uuid := tee_uuid_from_octets (params 1).a (params 1).b })
    else (TEE_ERROR_BAD_PARAMETERS, num_meta, uuid, clnt_id)

/-- The function entry_open_session. -/
def entry_open_session (sl : ta_layer) (shm : shm_region) (loc : entry_locals)
    (smc_args : thread_smc_args) (arg : optee_msg_arg) (num_params : Nat) :
    entry_result_std :=
  let params := arg.params
  let err_orig := TEE_ORIGIN_TEE
  let m := get_open_session_meta num_params params loc.num_meta loc.uuid loc.clnt_id
  if m.1 ≠ TEE_SUCCESS then
    { smc_args := { smc_args with a0 := OPTEE_SMC_RETURN_OK }
      arg := { arg with session := 0, ret := m.1, ret_origin := err_orig }
      trace := [] }
  else
    let num_meta := m.2.1
    let c := copy_in_params shm (fun n => params (n + num_meta)) (num_params - num_meta)
      loc.param loc.pt
    if c.1 ≠ TEE_SUCCESS then
      { smc_args := { smc_args with a0 := OPTEE_SMC_RETURN_OK }
        arg := { arg with session := 0, ret := c.1, ret_origin := err_orig }
        trace := [] }
    else
      let o := sl.tee_ta_open_session m.2.2.1 m.2.2.2 c.2
      let s := if o.res ≠ TEE_SUCCESS then 0 else o.s
      let out := copy_out_param o.param (num_params - num_meta) (fun n => params (n + num_meta))
      let params1 : Nat → optee_msg_param :=
        fun n => if n < num_meta then params n else out (n - num_meta)
      { smc_args := { smc_args with a0 := OPTEE_SMC_RETURN_OK }
        arg := { arg with
          params := params1
          session := (if s ≠ 0 then to_uint32 s else 0)
          ret := o.res
          ret_origin := o.err_orig }
        trace := [.tee_ta_open_session m.2.2.1 m.2.2.2 c.2, .plat_prng_add_jitter_entropy] }

/-- The function entry_close_session. -/
def entry_close_session (sl : ta_layer) (smc_args : thread_smc_args) (arg : optee_msg_arg)
    (num_params : Nat) : entry_result_std :=
  if num_params ≠ 0 then
    { smc_args := { smc_args with a0 := OPTEE_SMC_RETURN_OK }
      arg := { arg with ret := TEE_ERROR_BAD_PARAMETERS, ret_origin := TEE_ORIGIN_TEE }
      trace := [] }
  else
    let s := arg.session
    { smc_args := { smc_args with a0 := OPTEE_SMC_RETURN_OK }
      arg := { arg with ret := sl.tee_ta_close_session s, ret_origin := TEE_ORIGIN_TEE }
      trace := [.plat_prng_add_jitter_entropy, .tee_ta_close_session s] }

/-- The function entry_invoke_command. -/
def entry_invoke_command (sl : ta_layer) (shm : shm_region) (loc : entry_locals)
    (smc_args : thread_smc_args) (arg : optee_msg_arg) (num_params : Nat) :
    entry_result_std :=
  let params := arg.params
  let err_orig := TEE_ORIGIN_TEE
  let c := copy_in_params shm params num_params loc.param loc.pt
  if c.1 ≠ TEE_SUCCESS then
    { smc_args := { smc_args with a0 := OPTEE_SMC_RETURN_OK }
      arg := { arg with ret := c.1, ret_origin := err_orig }
      trace := [] }
  else
    let s := sl.tee_ta_get_session arg.session true
    if s = 0 then
      { smc_args := { smc_args with a0 := OPTEE_SMC_RETURN_OK }
        arg := { arg with ret := TEE_ERROR_BAD_PARAMETERS, ret_origin := err_orig }
        trace := [.tee_ta_get_session arg.session true] }
    else
      let i := sl.tee_ta_invoke_command s arg.func c.2
      { smc_args := { smc_args with a0 := OPTEE_SMC_RETURN_OK }
        arg := { arg with
          params := copy_out_param i.param num_params params
          ret := i.res
          ret_origin := i.err_orig }
        trace := [.tee_ta_get_session arg.session true,
          .tee_ta_invoke_command s arg.func c.2, .tee_ta_put_session s] }

/-- The function entry_cancel. -/
def entry_cancel (sl : ta_layer) (smc_args : thread_smc_args) (arg : optee_msg_arg)
    (num_params : Nat) : entry_result_std :=
  let err_orig := TEE_ORIGIN_TEE
  if num_params ≠ 0 then
    { smc_args := { smc_args with a0 := OPTEE_SMC_RETURN_OK }
      arg := { arg with ret := TEE_ERROR_BAD_PARAMETERS, ret_origin := err_orig }
      trace := [] }
  else
    let s := sl.tee_ta_get_session arg.session false
    if s = 0 then
      { smc_args := { smc_args with a0 := OPTEE_SMC_RETURN_OK }
        arg := { arg with ret := TEE_ERROR_BAD_PARAMETERS, ret_origin := err_orig }
        trace := [.tee_ta_get_session arg.session false] }
    else
      let r := sl.tee_ta_cancel_command s
      { smc_args := { smc_args with a0 := OPTEE_SMC_RETURN_OK }
        arg := { arg with ret := r.1, ret_origin := r.2 }
        trace := [.tee_ta_get_session arg.session false, .tee_ta_cancel_command s,
          .tee_ta_put_session s] }

/-- What tee_entry_std leaves: the SMC arguments, the non-secure shared memory
(the argument record found at each virtual address) and the calls made. -/
structure std_result where
  smc_args : thread_smc_args
  shmem : Nat → optee_msg_arg
  trace : List entry_event

/-- Store of the argument record at the virtual address va. -/
def store_arg (shmem : Nat → optee_msg_arg) (va : Nat) (arg : optee_msg_arg) :
    Nat → optee_msg_arg :=
  fun a => if a = va then arg else shmem a

/-- The function tee_entry_std.  shmem gives the argument record found at a
virtual address; paddr_t holds the 64 bits of parg; sizeof(struct
optee_msg_arg) is OPTEE_MSG_GET_ARG_SIZE(0). -/
def tee_entry_std (env : mem_env) (sl : ta_layer) (shm : shm_region) (loc : entry_locals)
    (shmem : Nat → optee_msg_arg) (smc_args : thread_smc_args) : std_result :=
  if smc_args.a0 ≠ OPTEE_SMC_CALL_WITH_ARG then
    ⟨{ smc_args with a0 := OPTEE_SMC_RETURN_EBADCMD }, shmem, []⟩
  else
    let parg := (smc_args.a1 <<< 32) ||| smc_args.a2
    if env.tee_pbuf_is_non_sec parg (env.arg_size 0) = false ∨
        env.alignment_is_ok parg = false ∨ env.phys_to_virt parg = 0 then
      ⟨{ smc_args with a0 := OPTEE_SMC_RETURN_EBADADDR }, shmem, []⟩
    else
      let va := env.phys_to_virt parg
      let arg := shmem va
      let num_params := arg.num_params
      if env.tee_pbuf_is_non_sec parg (env.arg_size num_params) = false then
        ⟨{ smc_args with a0 := OPTEE_SMC_RETURN_EBADADDR }, shmem, []⟩
      else if arg.cmd = OPTEE_MSG_CMD_OPEN_SESSION then
        let r := entry_open_session sl shm loc smc_args arg num_params
        ⟨r.smc_args, store_arg shmem va r.arg, .thread_set_irq true :: r.trace⟩
      else if arg.cmd = OPTEE_MSG_CMD_CLOSE_SESSION then
        let r := entry_close_session sl smc_args arg num_params
        ⟨r.smc_args, store_arg shmem va r.arg, .thread_set_irq true :: r.trace⟩
      else if arg.cmd = OPTEE_MSG_CMD_INVOKE_COMMAND then
        let r := entry_invoke_command sl shm loc smc_args arg num_params
        ⟨r.smc_args, store_arg shmem va r.arg, .thread_set_irq true :: r.trace⟩
      else if arg.cmd = OPTEE_MSG_CMD_CANCEL then
        let r := entry_cancel sl smc_args arg num_params
        ⟨r.smc_args, store_arg shmem va r.arg, .thread_set_irq true :: r.trace⟩
      else
        ⟨{ smc_args with a0 := OPTEE_SMC_RETURN_EBADCMD }, shmem, [.thread_set_irq true]⟩

/-- The argument pointer of a standard call passes the checks of
tee_entry_std: the header lies in non-secure memory, parg is aligned for
struct optee_msg_arg, it translates to a virtual address, and the whole record
of OPTEE_MSG_GET_ARG_SIZE(num_params) bytes lies in non-secure memory. -/
def arg_verified (env : mem_env) (shmem : Nat → optee_msg_arg) (smc_args : thread_smc_args) :
    Prop :=
  env.tee_pbuf_is_non_sec ((smc_args.a1 <<< 32) ||| smc_args.a2) (env.arg_size 0) = true ∧
  env.alignment_is_ok ((smc_args.a1 <<< 32) ||| smc_args.a2) = true ∧
  env.phys_to_virt ((smc_args.a1 <<< 32) ||| smc_args.a2) ≠ 0 ∧
  env.tee_pbuf_is_non_sec ((smc_args.a1 <<< 32) ||| smc_args.a2)
    (env.arg_size (shmem (env.phys_to_virt ((smc_args.a1 <<< 32) ||| smc_args.a2))).num_params)
    = true

/-- The argument record that a standard call points to. -/
def arg_of (env : mem_env) (shmem : Nat → optee_msg_arg) (smc_args : thread_smc_args) :
    optee_msg_arg :=
  shmem (env.phys_to_virt ((smc_args.a1 <<< 32) ||| smc_args.a2))

/-- Example session layer: it knows the session 0x5000, opens it for every
request and answers every invocation with the error 0xFFFF0000 of origin 4
(the trusted application), leaving the parameters as they are. -/
def ex_sl : ta_layer :=
  { tee_ta_open_session := fun _ _ p => ⟨TEE_SUCCESS, 4, 0x5000, p⟩
    tee_ta_close_session := fun _ => TEE_SUCCESS
    tee_ta_get_session := fun id _ => if id = 0x5000 then 0x5000 else 0
    tee_ta_invoke_command := fun _ _ p => ⟨0xFFFF0000, 4, p⟩
    tee_ta_cancel_command := fun _ => (TEE_SUCCESS, 4) }

/-- Example content of the uninitialised locals. -/
def ex_locals : entry_locals :=
  { param := zero_ta_param, pt := fun _ => 5, num_meta := 77, uuid := ⟨1, 2⟩,
    clnt_id := ⟨9, ⟨3, 4⟩⟩ }

/-- Example argument record: INVOKE_COMMAND of function 7 in session 0x5000
with one VALUE_INOUT parameter. -/
def ex_arg : optee_msg_arg :=
  { cmd := OPTEE_MSG_CMD_INVOKE_COMMAND, func := 7, session := 0x5000, cancel_id := 0,
    ret := 0x1234, ret_origin := 0x56, num_params := 1,
    params := fun _ => ⟨OPTEE_MSG_ATTR_TYPE_VALUE_INOUT, 1, 2, 3⟩ }

/-- Example shared memory: the same record at every address. -/
def ex_shmem : Nat → optee_msg_arg := fun _ => ex_arg

/-- Example standard call whose argument record is at 0x1000. -/
def ex_smc_std : thread_smc_args := ⟨OPTEE_SMC_CALL_WITH_ARG, 0, 0x1000, 0, 0, 0, 0, 0⟩

/-- Example standard call whose argument pointer is outside the non-secure
shared memory. -/
def ex_smc_bad_addr : thread_smc_args := ⟨OPTEE_SMC_CALL_WITH_ARG, 0, 0x3000, 0, 0, 0, 0, 0⟩

/-- The virtual address of the argument record of a standard call. -/
def arg_va (env : mem_env) (smc_args : thread_smc_args) : Nat :=
  env.phys_to_virt ((smc_args.a1 <<< 32) ||| smc_args.a2)

/-- The login values that get_open_session_meta accepts. -/
def known_login (x : Nat) : Prop :=
  x = TEE_LOGIN_PUBLIC ∨ x = TEE_LOGIN_USER ∨ x = TEE_LOGIN_GROUP ∨
    x = TEE_LOGIN_APPLICATION ∨ x = TEE_LOGIN_APPLICATION_USER ∨
    x = TEE_LOGIN_APPLICATION_GROUP

/-- The conditions under which get_open_session_meta succeeds: at least two
parameters, both meta slots exactly META | VALUE_INPUT, and the login, that is
value.c of the second slot converted to uint32_t, one of the known values. -/
def meta_ok (num_params : Nat) (params : Nat → optee_msg_param) : Prop :=
  2 ≤ num_params ∧
  (params 0).attr = OPTEE_MSG_ATTR_META ||| OPTEE_MSG_ATTR_TYPE_VALUE_INPUT ∧
  (params 1).attr = OPTEE_MSG_ATTR_META ||| OPTEE_MSG_ATTR_TYPE_VALUE_INPUT ∧
  known_login (to_uint32 (params 1).c)

/-- Example meta slots: a target UUID and a client whose login word is
2^32, which is none of the login values. -/
def ex_params_login : Nat → optee_msg_param :=
  fun n =>
    if n = 0 then ⟨OPTEE_MSG_ATTR_META ||| OPTEE_MSG_ATTR_TYPE_VALUE_INPUT, 0x11, 0x22, 0⟩
    else ⟨OPTEE_MSG_ATTR_META ||| OPTEE_MSG_ATTR_TYPE_VALUE_INPUT, 0x33, 0x44, 0x100000000⟩

/-- Example meta slots of a client with login TEE_LOGIN_USER. -/
def ex_params_user : Nat → optee_msg_param :=
  fun n =>
    if n = 0 then ⟨OPTEE_MSG_ATTR_META ||| OPTEE_MSG_ATTR_TYPE_VALUE_INPUT, 0x11, 0x22, 0⟩
    else ⟨OPTEE_MSG_ATTR_META ||| OPTEE_MSG_ATTR_TYPE_VALUE_INPUT, 0x33, 0x44, TEE_LOGIN_USER⟩

/-- Example parameter array of an OPEN_SESSION request: the two meta slots
(target UUID, client with login TEE_LOGIN_PUBLIC) and one VALUE_INPUT
parameter. -/
def ex_params_open : Nat → optee_msg_param :=
  fun n =>
    if n = 0 then ⟨OPTEE_MSG_ATTR_META ||| OPTEE_MSG_ATTR_TYPE_VALUE_INPUT, 0x11, 0x22, 0⟩
    else if n = 1 then
      ⟨OPTEE_MSG_ATTR_META ||| OPTEE_MSG_ATTR_TYPE_VALUE_INPUT, 0, 0, TEE_LOGIN_PUBLIC⟩
    else ⟨OPTEE_MSG_ATTR_TYPE_VALUE_INPUT, 7, 8, 9⟩

/-- Example argument record: OPEN_SESSION with the three slots of
ex_params_open. -/
def ex_arg_open : optee_msg_arg :=
  { cmd := OPTEE_MSG_CMD_OPEN_SESSION, func := 0, session := 0x77, cancel_id := 0,
    ret := 0x1234, ret_origin := 0x56, num_params := 3, params := ex_params_open }

/-- The types of the parameters handed to the session layer by the first call
of tee_ta_open_session or tee_ta_invoke_command in a trace. -/
def handed_types : List entry_event → Option Nat
  | [] => none
  | .tee_ta_open_session _ _ p :: _ => some p.types
  | .tee_ta_invoke_command _ _ p :: _ => some p.types
  | _ :: tr => handed_types tr

/-- The slots that hold a cached rpc_arg, in index order. -/
def cached_slots (ts : List thread_ctx) : List thread_ctx :=
  ts.filter (fun t => decide (t.rpc_arg ≠ 0))

/-- Consecutive calls of thread_disable_prealloc_rpc_cache(&cookie) on one
core: the core, the state and the variable cookie left by the last call, and
what each call returned (rv and the value of cookie after it). -/
def disable_calls : Nat → core_hw → State → Nat → core_hw × State × Nat × List (Ret (Bool × Nat))
  | 0, hw, s, cookie => (hw, s, cookie, [])
  | k + 1, hw, s, cookie =>
    let r := thread_disable_prealloc_rpc_cache hw s cookie
    let cookie1 := match r.2.2 with
      | .done v => v.2
      | _ => cookie
    let d := disable_calls k r.1 r.2.1 cookie1
    (d.1, d.2.1, d.2.2.1, r.2.2 :: d.2.2.2)

/-- Example: two FREE slots, both with a cached argument buffer, cookies 0x55
and 0x66, and the preallocation cache enabled. -/
def ex_two_cached : State :=
  { threads := [{ zero_thread with rpc_arg := 0x10001000, rpc_carg := 0x55 },
      { zero_thread with rpc_arg := 0x10001100, rpc_carg := 0x66 }]
    thread_core_local := [zero_core]
    thread_prealloc_rpc_cache := true }

/-- The cookies reported by a sequence of calls of
thread_disable_prealloc_rpc_cache that ran to their end. -/
def reported_cookies (rs : List (Ret (Bool × Nat))) : List Nat :=
  rs.filterMap (fun r => match r with
    | .done v => some v.2
    | _ => none)

/-- The state in which __thread_std_smc_entry, run on core cpu, calls the
registered handler: the state on entry when the thread has a cached rpc_arg,
else the state with rpc_arg and rpc_carg of the thread assigned from the
allocation; none when the handler is not called. -/
def std_entry_at_handler (env : mem_env) (s : State) (cpu : Nat) (reply : Nat × Nat) :
    Option State :=
  match thread_id_of s cpu with
  | .done n =>
    match s.threads[n]? with
    | none => none
    | some thr =>
      if thr.rpc_arg ≠ 0 then some s
      else
        let r := thread_rpc_alloc_arg env (env.arg_size THREAD_RPC_MAX_NUM_PARAMS) reply
        let parg := r.1.1
        let carg := r.1.2
        let arg := env.phys_to_virt parg
        if parg = 0 ∨ env.alignment_is_ok parg = false ∨ arg = 0 then none
        else
          some { s with threads :=
            (upd_thread (upd_thread s.threads n (fun t => { t with rpc_arg := arg })) n
              (fun t => { t with rpc_carg := carg })) }
  | _ => none

/-- The handler of the examples: it sets a0 to 0 and a1 to 0x99. -/
def ex_handler (args : thread_smc_args) : thread_smc_args :=
  { args with a0 := 0, a1 := 0x99 }

/-- Example: ex_pre after thread_alloc_and_run on core 0; the preallocation
cache is off. -/
def ex_taken_off : State := (thread_alloc_and_run ex_pre 0 ex_args 0x1001 0x1d3).1

/-- The mutex lists of all slots are the same in both states. -/
def same_mutexes (s s' : State) : Prop :=
  ∀ i : Nat, (s'.threads[i]?).map (fun t => t.mutexes) =
    (s.threads[i]?).map (fun t => t.mutexes)

/-- One step of an operation on the thread table other than thread_add_mutex
and thread_rem_mutex, run to its end. -/
inductive table_op : State → State → Prop where
  | clr (s s' : State) (cpu : Nat)
      (h : thread_clr_boot_thread s cpu = (s', .done ())) : table_op s s'
  | alloc (s s' : State) (cpu : Nat) (args : thread_smc_args) (entry cpsr : Nat)
      (r : thread_smc_args × smc_exit)
      (h : thread_alloc_and_run s cpu args entry cpsr = (s', .done r)) : table_op s s'
  | resume (s s' : State) (cpu : Nat) (args : thread_smc_args)
      (r : thread_smc_args × smc_exit)
      (h : thread_resume_from_rpc s cpu args = (s', .done r)) : table_op s s'
  | suspend (s s' : State) (cpu : Nat) (flags cpsr pc : Nat) (umap : Option Nat) (ct : Int)
      (h : thread_state_suspend s cpu flags cpsr pc umap = (s', .done ct)) : table_op s s'
  | free (s s' : State) (cpu : Nat)
      (h : thread_state_free s cpu = (s', .done ())) : table_op s s'
  | std_entry (env : mem_env) (s s' : State) (cpu : Nat) (args : thread_smc_args)
      (reply : Nat × Nat) (handler : thread_smc_args → thread_smc_args) (r : entry_result)
      (h : __thread_std_smc_entry env s cpu args reply handler = (s', .done r)) :
      table_op s s'
  | set_irq (hw hw' : core_hw) (s s' : State) (cpu : Nat) (enable : Bool)
      (h : thread_set_irq hw s cpu enable = (hw', s', .done ())) : table_op s s'
  | enable_cache (hw hw' : core_hw) (s s' : State) (rv : Bool)
      (h : thread_enable_prealloc_rpc_cache hw s = (hw', s', .done rv)) : table_op s s'
  | disable_cache (hw hw' : core_hw) (s s' : State) (cookie : Nat) (r : Bool × Nat)
      (h : thread_disable_prealloc_rpc_cache hw s cookie = (hw', s', .done r)) :
      table_op s s'

/-- The states of the running system together with the owner_id of every
mutex (by address).  Modelled from the spec: the mutexes start unowned
(owner_id = -1, what the initialiser of struct mutex in kernel/mutex.h, not
under src, gives); thread_add_mutex and thread_rem_mutex are applied to the
mutex as it is, and update its owner_id. -/
inductive ReachableMutex : State → (Nat → Int) → Prop where
  | boot (s0 s : State) (cpu : Nat) (owner : Nat → Int) (hown : ∀ a, owner a = -1)
      (h : thread_init_boot_thread s0 cpu = (s, .done ())) : ReachableMutex s owner
  | op (s s' : State) (owner : Nat → Int) (hs : ReachableMutex s owner)
      (h : table_op s s') : ReachableMutex s' owner
  | add_mutex (s s' : State) (cpu : Nat) (owner : Nat → Int) (a : Nat) (m' : mutex)
      (hs : ReachableMutex s owner)
      (h : thread_add_mutex s cpu ⟨a, owner a⟩ = (s', m', .done ())) :
      ReachableMutex s' (fun b => if b = a then m'.owner_id else owner b)
  | rem_mutex (s s' : State) (cpu : Nat) (owner : Nat → Int) (a : Nat) (m' : mutex)
      (hs : ReachableMutex s owner)
      (h : thread_rem_mutex s cpu ⟨a, owner a⟩ = (s', m', .done ())) :
      ReachableMutex s' (fun b => if b = a then m'.owner_id else owner b)

/-- Mutex accounting: a mutex is in the list of slot i if and only if its
owner_id is i, and no list holds a mutex twice. -/
def mutex_inv (s : State) (owner : Nat → Int) : Prop :=
  (∀ (i : Nat) (t : thread_ctx) (a : Nat), s.threads[i]? = some t →
    (a ∈ t.mutexes ↔ owner a = (i : Int))) ∧
  (∀ t ∈ s.threads, t.mutexes.Nodup)

/-- The TEE parameter type that matches the type of a message slot. -/
def tee_type_of (p : optee_msg_param) : Nat :=
  if p.attr &&& OPTEE_MSG_ATTR_TYPE_MASK = OPTEE_MSG_ATTR_TYPE_VALUE_INPUT then
    TEE_PARAM_TYPE_VALUE_INPUT
  else if p.attr &&& OPTEE_MSG_ATTR_TYPE_MASK = OPTEE_MSG_ATTR_TYPE_VALUE_OUTPUT then
    TEE_PARAM_TYPE_VALUE_OUTPUT
  else if p.attr &&& OPTEE_MSG_ATTR_TYPE_MASK = OPTEE_MSG_ATTR_TYPE_VALUE_INOUT then
    TEE_PARAM_TYPE_VALUE_INOUT
  else if p.attr &&& OPTEE_MSG_ATTR_TYPE_MASK = OPTEE_MSG_ATTR_TYPE_TMEM_INPUT then
    TEE_PARAM_TYPE_MEMREF_INPUT
  else if p.attr &&& OPTEE_MSG_ATTR_TYPE_MASK = OPTEE_MSG_ATTR_TYPE_TMEM_OUTPUT then
    TEE_PARAM_TYPE_MEMREF_OUTPUT
  else if p.attr &&& OPTEE_MSG_ATTR_TYPE_MASK = OPTEE_MSG_ATTR_TYPE_TMEM_INOUT then
    TEE_PARAM_TYPE_MEMREF_INOUT
  else TEE_PARAM_TYPE_NONE

/-- The slot is a value parameter. -/
def is_value_slot (p : optee_msg_param) : Prop :=
  p.attr &&& OPTEE_MSG_ATTR_TYPE_MASK = OPTEE_MSG_ATTR_TYPE_VALUE_INPUT ∨
  p.attr &&& OPTEE_MSG_ATTR_TYPE_MASK = OPTEE_MSG_ATTR_TYPE_VALUE_OUTPUT ∨
  p.attr &&& OPTEE_MSG_ATTR_TYPE_MASK = OPTEE_MSG_ATTR_TYPE_VALUE_INOUT

/-- Example session layer whose tee_ta_open_session fails with the error
0xFFFF0000 of origin 4 although it leaves the session pointer 0x5000 in the
variable of the caller. -/
def ex_sl_fail : ta_layer :=
  { ex_sl with tee_ta_open_session := fun _ _ p => ⟨0xFFFF0000, 4, 0x5000, p⟩ }

/-- Example: two slots and two cores after boot on core 0. -/
def ex_z0 : State := (thread_init_boot_thread (zero_state 2 2) 0).1

/-- Example: ex_z0 after thread_clr_boot_thread: both slots FREE. -/
def ex_z1 : State := (thread_clr_boot_thread ex_z0 0).1

/-- Example: ex_z1 with the preallocation cache enabled. -/
def ex_z2 : State := (thread_enable_prealloc_rpc_cache ⟨0x1d3, 0⟩ ex_z1).2.1

/-- Example: ex_z2 after thread_alloc_and_run on core 0 (slot 0). -/
def ex_z3 : State := (thread_alloc_and_run ex_z2 0 ex_args 0x1001 0x1d3).1

/-- Example: ex_z3 after thread_alloc_and_run on core 1 (slot 1). -/
def ex_z4 : State := (thread_alloc_and_run ex_z3 1 ex_args 0x1001 0x1d3).1

/-- Example: ex_z4 after __thread_std_smc_entry on core 0, the normal world
answering the ALLOC RPC with the address 0x1000 and the cookie 0. -/
def ex_z5 : State := (__thread_std_smc_entry ex_env ex_z4 0 ex_args (0x1000, 0) id).1

/-- Example: ex_z5 after __thread_std_smc_entry on core 1, the normal world
answering the ALLOC RPC with the address 0x1100 and the cookie 0x66. -/
def ex_z6 : State := (__thread_std_smc_entry ex_env ex_z5 1 ex_args (0x1100, 0x66) id).1

/-- Example: ex_z6 after thread_state_free on core 0. -/
def ex_z7 : State := (thread_state_free ex_z6 0).1

/-- Example: ex_z7 after thread_state_free on core 1: both slots are FREE and
hold a cached argument buffer, slot 0 with the cookie 0 and slot 1 with the
cookie 0x66; the preallocation cache is enabled. -/
def ex_zero_cookie : State := (thread_state_free ex_z7 1).1

/-! ## Lazy save and restore of the VFP state (CFG_WITH_VFP) -/

/-- The save areas that the functions of vfp.c are called on: the fields ns and
sec of the vfp_state of thread n, and the field vfp of the user state at the
address uvfp. -/
inductive vfp_area where
  | ns (n : Nat)
  | sec (n : Nat)
  | user (uvfp : Nat)
  deriving DecidableEq, Repr

/-- The VFP unit together with the save areas, of type U, and the functions of
arch/arm/kernel/vfp.c (not under src) that work on it: what they do is a
parameter of the model. -/
structure vfp_ops (U : Type) where
  /-- The test vfp_is_enabled(). -/
  vfp_is_enabled : U → Bool
  /-- The call vfp_enable(). -/
  vfp_enable : U → U
  /-- The call vfp_disable(). -/
  vfp_disable : U → U
  /-- The call vfp_lazy_save_state_init(area). -/
  vfp_lazy_save_state_init : vfp_area → U → U
  /-- The call vfp_lazy_save_state_final(area). -/
  vfp_lazy_save_state_final : vfp_area → U → U
  /-- The call vfp_lazy_restore_state(area, full_state). -/
  vfp_lazy_restore_state : vfp_area → Bool → U → U

/-- Modelled from the spec: struct thread_vfp_state of thread_private.h (not
under src), the flags and the reference uvfp (0 for NULL); the areas ns and sec
are part of the unit. -/
structure thread_vfp_state where
  ns_saved : Bool
  sec_saved : Bool
  sec_lazy_saved : Bool
  uvfp : Nat
  deriving DecidableEq, Repr

/-- Modelled from the spec: struct thread_user_vfp_state of thread.h (not
under src), the flags; the area vfp is part of the unit. -/
structure thread_user_vfp_state where
  lazy_saved : Bool
  saved : Bool
  deriving DecidableEq, Repr

/-- What the VFP operations work on: the status register of the core, the
unit, the vfp_state of every slot of the thread table, and the user states by
address. -/
structure vfp_world (U : Type) where
  hw : core_hw
  unit : U
  vfp : Nat → thread_vfp_state
  user : Nat → thread_user_vfp_state

/-- Assignment to threads[n].vfp_state. -/
def set_vfp {U : Type} (w : vfp_world U) (n : Nat) (v : thread_vfp_state) : vfp_world U :=
  { w with vfp := fun k => if k = n then v else w.vfp k }

/-- Assignment to the flags of the user state at the address a. -/
def set_user {U : Type} (w : vfp_world U) (a : Nat) (v : thread_user_vfp_state) :
    vfp_world U :=
  { w with user := fun k => if k = a then v else w.user k }

/-- The expression threads + thread_get_id(): the index of the current thread,
none when an assertion of thread_get_id fails. -/
def vfp_thread_id (hw : core_hw) (s : State) (cpu : Nat) : core_hw × Option Nat :=
  match thread_get_id hw s cpu with
  | (hw1, .done ct) => (hw1, some ct.toNat)
  | (hw1, _) => (hw1, none)

/-- The function thread_lazy_save_ns_vfp with CFG_WITH_VFP, on ARM32. -/
def thread_lazy_save_ns_vfp {U : Type} (ops : vfp_ops U) (s : State) (cpu : Nat)
    (w : vfp_world U) : vfp_world U × Ret Unit :=
  match vfp_thread_id w.hw s cpu with
  | (hw1, none) => ({ w with hw := hw1 }, .assert_failed)
  | (hw1, some n) =>
    let w1 := set_vfp { w with hw := hw1 } n { w.vfp n with ns_saved := false }
    ({ w1 with unit := ops.vfp_lazy_save_state_init (.ns n) w1.unit }, .done ())

/-- The function thread_lazy_restore_ns_vfp with CFG_WITH_VFP. -/
def thread_lazy_restore_ns_vfp {U : Type} (ops : vfp_ops U) (s : State) (cpu : Nat)
    (w : vfp_world U) : vfp_world U × Ret Unit :=
  match vfp_thread_id w.hw s cpu with
  | (hw1, none) => ({ w with hw := hw1 }, .assert_failed)
  | (hw1, some n) =>
    let w1 := { w with hw := hw1 }
    let tuv := (w1.vfp n).uvfp
    if (w1.vfp n).sec_lazy_saved = true ∨ (w1.vfp n).sec_saved = true then
      (w1, .assert_failed)
    else
      let w2 :=
        if tuv ≠ 0 ∧ (w1.user tuv).lazy_saved = true ∧ (w1.user tuv).saved = false then
          set_user { w1 with unit := ops.vfp_lazy_save_state_final (.user tuv) w1.unit } tuv
            { w1.user tuv with saved := true }
        else w1
      let w3 := { w2 with
        unit := ops.vfp_lazy_restore_state (.ns n) (w2.vfp n).ns_saved w2.unit }
      (set_vfp w3 n { w3.vfp n with ns_saved := false }, .done ())

/-- The function thread_kernel_enable_vfp. -/
def thread_kernel_enable_vfp {U : Type} (ops : vfp_ops U) (s : State) (cpu : Nat)
    (w : vfp_world U) : vfp_world U × Ret Nat :=
  match thread_mask_exceptions w.hw THREAD_EXCP_IRQ with
  | (hw0, .done exceptions) =>
    match vfp_thread_id hw0 s cpu with
    | (hw1, none) => ({ w with hw := hw1 }, .assert_failed)
    | (hw1, some n) =>
      let w1 := { w with hw := hw1 }
      let tuv := (w1.vfp n).uvfp
      if ops.vfp_is_enabled w1.unit = true then (w1, .assert_failed)
      else
        let w2 :=
          if (w1.vfp n).ns_saved = false then
            set_vfp { w1 with unit := ops.vfp_lazy_save_state_final (.ns n) w1.unit } n
              { w1.vfp n with ns_saved := true }
          else if (w1.vfp n).sec_lazy_saved = true ∧ (w1.vfp n).sec_saved = false then
            set_vfp { w1 with unit := ops.vfp_lazy_save_state_final (.sec n) w1.unit } n
              { w1.vfp n with sec_saved := true }
          else if tuv ≠ 0 ∧ (w1.user tuv).lazy_saved = true ∧
              (w1.user tuv).saved = false then
            set_user { w1 with unit := ops.vfp_lazy_save_state_final (.user tuv) w1.unit } tuv
              { w1.user tuv with saved := true }
          else w1
        ({ w2 with unit := ops.vfp_enable w2.unit }, .done exceptions)
  | (hw0, _) => ({ w with hw := hw0 }, .assert_failed)

/-- The function thread_kernel_disable_vfp. -/
def thread_kernel_disable_vfp {U : Type} (ops : vfp_ops U) (w : vfp_world U) (state : Nat) :
    vfp_world U × Ret Unit :=
  if ops.vfp_is_enabled w.unit = false then (w, .assert_failed)
  else
    let w1 := { w with unit := ops.vfp_disable w.unit }
    let exceptions := thread_get_exceptions w1.hw
    if exceptions &&& THREAD_EXCP_IRQ = 0 then (w1, .assert_failed)
    else
      let exceptions := exceptions &&& not32 THREAD_EXCP_IRQ
      let exceptions := exceptions ||| (state &&& THREAD_EXCP_IRQ)
      match thread_set_exceptions w1.hw exceptions with
      | (hw2, r) => ({ w1 with hw := hw2 }, r)

/-- The function thread_kernel_save_vfp. -/
def thread_kernel_save_vfp {U : Type} (ops : vfp_ops U) (s : State) (cpu : Nat)
    (w : vfp_world U) : vfp_world U × Ret Unit :=
  match vfp_thread_id w.hw s cpu with
  | (hw1, none) => ({ w with hw := hw1 }, .assert_failed)
  | (hw1, some n) =>
    let w1 := { w with hw := hw1 }
    if thread_get_exceptions w1.hw &&& THREAD_EXCP_IRQ = 0 then (w1, .assert_failed)
    else if ops.vfp_is_enabled w1.unit = true then
      (set_vfp { w1 with unit := ops.vfp_lazy_save_state_init (.sec n) w1.unit } n
        { w1.vfp n with sec_lazy_saved := true }, .done ())
    else (w1, .done ())

/-- The function thread_kernel_restore_vfp. -/
def thread_kernel_restore_vfp {U : Type} (ops : vfp_ops U) (s : State) (cpu : Nat)
    (w : vfp_world U) : vfp_world U × Ret Unit :=
  match vfp_thread_id w.hw s cpu with
  | (hw1, none) => ({ w with hw := hw1 }, .assert_failed)
  | (hw1, some n) =>
    let w1 := { w with hw := hw1 }
    if thread_get_exceptions w1.hw &&& THREAD_EXCP_IRQ = 0 then (w1, .assert_failed)
    else if ops.vfp_is_enabled w1.unit = true then (w1, .assert_failed)
    else if (w1.vfp n).sec_lazy_saved = true then
      (set_vfp
        { w1 with
          unit := ops.vfp_lazy_restore_state (.sec n) (w1.vfp n).sec_saved w1.unit } n
        { w1.vfp n with sec_saved := false, sec_lazy_saved := false }, .done ())
    else (w1, .done ())

/-- The function thread_user_enable_vfp; uvfp is the address of the user state
(dereferencing the address 0 ends the run as out_of_bounds). -/
def thread_user_enable_vfp {U : Type} (ops : vfp_ops U) (s : State) (cpu : Nat)
    (w : vfp_world U) (uvfp : Nat) : vfp_world U × Ret Unit :=
  match vfp_thread_id w.hw s cpu with
  | (hw1, none) => ({ w with hw := hw1 }, .assert_failed)
  | (hw1, some n) =>
    let w1 := { w with hw := hw1 }
    let tuv := (w1.vfp n).uvfp
    if thread_get_exceptions w1.hw &&& THREAD_EXCP_IRQ = 0 then (w1, .assert_failed)
    else if ops.vfp_is_enabled w1.unit = true then (w1, .assert_failed)
    else
      let w2 :=
        if (w1.vfp n).ns_saved = false then
          set_vfp { w1 with unit := ops.vfp_lazy_save_state_final (.ns n) w1.unit } n
            { w1.vfp n with ns_saved := true }
        else if tuv ≠ 0 ∧ uvfp ≠ tuv then
          if (w1.user tuv).lazy_saved = true ∧ (w1.user tuv).saved = false then
            set_user { w1 with unit := ops.vfp_lazy_save_state_final (.user tuv) w1.unit } tuv
              { w1.user tuv with saved := true }
          else w1
        else w1
      if uvfp = 0 then (w2, .out_of_bounds)
      else
        let w3 :=
          if (w2.user uvfp).lazy_saved = true then
            { w2 with
              unit := ops.vfp_lazy_restore_state (.user uvfp) (w2.user uvfp).saved w2.unit }
          else w2
        let w4 := set_user w3 uvfp { lazy_saved := false, saved := false }
        let w5 := set_vfp w4 n { w4.vfp n with uvfp := uvfp }
        ({ w5 with unit := ops.vfp_enable w5.unit }, .done ())

/-- The function thread_user_save_vfp. -/
def thread_user_save_vfp {U : Type} (ops : vfp_ops U) (s : State) (cpu : Nat)
    (w : vfp_world U) : vfp_world U × Ret Unit :=
  match vfp_thread_id w.hw s cpu with
  | (hw1, none) => ({ w with hw := hw1 }, .assert_failed)
  | (hw1, some n) =>
    let w1 := { w with hw := hw1 }
    let tuv := (w1.vfp n).uvfp
    if thread_get_exceptions w1.hw &&& THREAD_EXCP_IRQ = 0 then (w1, .assert_failed)
    else if ops.vfp_is_enabled w1.unit = false then (w1, .done ())
    else if tuv = 0 ∨ (w1.user tuv).lazy_saved = true ∨ (w1.user tuv).saved = true then
      (w1, .assert_failed)
    else
      (set_user { w1 with unit := ops.vfp_lazy_save_state_init (.user tuv) w1.unit } tuv
        { w1.user tuv with lazy_saved := true }, .done ())

/-- The function thread_user_clear_vfp; uvfp is the address of the user state
(dereferencing the address 0 ends the run as out_of_bounds). -/
def thread_user_clear_vfp {U : Type} (s : State) (cpu : Nat)
    (w : vfp_world U) (uvfp : Nat) : vfp_world U × Ret Unit :=
  match vfp_thread_id w.hw s cpu with
  | (hw1, none) => ({ w with hw := hw1 }, .assert_failed)
  | (hw1, some n) =>
    let w1 := { w with hw := hw1 }
    let w2 :=
      if uvfp = (w1.vfp n).uvfp then set_vfp w1 n { w1.vfp n with uvfp := 0 }
      else w1
    if uvfp = 0 then (w2, .out_of_bounds)
    else (set_user w2 uvfp { lazy_saved := false, saved := false }, .done ())

/-- The FPU operations of thread.c. -/
inductive vfp_op where
  | thread_kernel_enable_vfp
  | thread_kernel_disable_vfp (state : Nat)
  | thread_kernel_save_vfp
  | thread_kernel_restore_vfp
  | thread_user_enable_vfp (uvfp : Nat)
  | thread_user_save_vfp
  | thread_user_clear_vfp (uvfp : Nat)
  | thread_lazy_save_ns_vfp
  | thread_lazy_restore_ns_vfp
  deriving DecidableEq, Repr

/-- The state in which an FPU operation, run on core cpu, ends (whether it
returns or stops at an assertion). -/
def run_vfp_op {U : Type} (ops : vfp_ops U) (s : State) (cpu : Nat) (w : vfp_world U) :
    vfp_op → vfp_world U
  | .thread_kernel_enable_vfp => (thread_kernel_enable_vfp ops s cpu w).1
  | .thread_kernel_disable_vfp state => (thread_kernel_disable_vfp ops w state).1
  | .thread_kernel_save_vfp => (thread_kernel_save_vfp ops s cpu w).1
  | .thread_kernel_restore_vfp => (thread_kernel_restore_vfp ops s cpu w).1
  | .thread_user_enable_vfp uvfp => (thread_user_enable_vfp ops s cpu w uvfp).1
  | .thread_user_save_vfp => (thread_user_save_vfp ops s cpu w).1
  | .thread_user_clear_vfp uvfp => (thread_user_clear_vfp s cpu w uvfp).1
  | .thread_lazy_save_ns_vfp => (thread_lazy_save_ns_vfp ops s cpu w).1
  | .thread_lazy_restore_ns_vfp => (thread_lazy_restore_ns_vfp ops s cpu w).1

/-- The flag predicate of the secure-kernel context of thread n: sec_saved
implies sec_lazy_saved. -/
def sec_flags_ok {U : Type} (w : vfp_world U) (n : Nat) : Prop :=
  (w.vfp n).sec_saved = true → (w.vfp n).sec_lazy_saved = true

/-- The flag predicate of a user state: saved implies lazy_saved. -/
def user_flags_ok (u : thread_user_vfp_state) : Prop :=
  u.saved = true → u.lazy_saved = true

/-- The flag predicate of the user state bound to thread n, if any. -/
def bound_user_ok {U : Type} (w : vfp_world U) (n : Nat) : Prop :=
  (w.vfp n).uvfp ≠ 0 → user_flags_ok (w.user (w.vfp n).uvfp)

/-- Example unit: the only content is whether the VFP is enabled. -/
def ex_vfp_ops : vfp_ops Bool :=
  { vfp_is_enabled := fun u => u
    vfp_enable := fun _ => true
    vfp_disable := fun _ => false
    vfp_lazy_save_state_init := fun _ _ => false
    vfp_lazy_save_state_final := fun _ u => u
    vfp_lazy_restore_state := fun _ _ u => u }

/-- Example world: IRQ masked, the VFP disabled, thread 0 with the non-secure
state saved and the kernel state lazily saved, no user state bound. -/
def ex_vfp_world : vfp_world Bool :=
  { hw := ⟨0x1d3, 0⟩
    unit := false
    vfp := fun _ => { ns_saved := true, sec_saved := false, sec_lazy_saved := true, uvfp := 0 }
    user := fun _ => { lazy_saved := false, saved := false } }

/-- Example world: as ex_vfp_world, with the user state at 0x40 bound to every
thread and lazily saved. -/
def ex_vfp_world_user : vfp_world Bool :=
  { hw := ⟨0x1d3, 0⟩
    unit := false
    vfp := fun _ => { ns_saved := true, sec_saved := false, sec_lazy_saved := false, uvfp := 0x40 }
    user := fun _ => { lazy_saved := true, saved := false } }

/-- What every FPU operation guarantees between the state it starts in and the
state it ends in. -/
def vfp_flags_kept {U : Type} (w w' : vfp_world U) : Prop :=
  ∀ n, (sec_flags_ok w n → sec_flags_ok w' n) ∧ (bound_user_ok w n → bound_user_ok w' n)

/-- Every user state, bound or not, keeps its flag predicate. -/
def vfp_user_kept {U : Type} (w w' : vfp_world U) : Prop :=
  ∀ a, user_flags_ok (w.user a) → user_flags_ok (w'.user a)

/-! ## Facts about the array accessors and closed forms of the operations -/

theorem getElem?_upd_thread (ts : List thread_ctx) (n : Nat) (f : thread_ctx → thread_ctx)
    (m : Nat) : (upd_thread ts n f)[m]? = if m = n then (ts[n]?).map f else ts[m]? := by
  unfold upd_thread
  cases h : ts[n]? with
  | none =>
    by_cases hm : m = n
    · subst hm; simp [h]
    · simp [hm]
  | some t =>
    have hlt : n < ts.length := (List.getElem?_eq_some.mp h).1
    by_cases hm : m = n
    · subst hm; simp [hlt]
    · have : n ≠ m := fun e => hm e.symm
      simp [hm, List.getElem?_set_ne this]

theorem length_upd_thread (ts : List thread_ctx) (n : Nat) (f : thread_ctx → thread_ctx) :
    (upd_thread ts n f).length = ts.length := by
  unfold upd_thread
  cases ts[n]? <;> simp

theorem getElem?_set_curr_thread (ls : List thread_core_local) (cpu : Nat) (v : Int)
    (d : Nat) :
    (set_curr_thread ls cpu v)[d]? =
      if d = cpu then (ls[cpu]?).map (fun l => { l with curr_thread := v }) else ls[d]? := by
  unfold set_curr_thread
  cases h : ls[cpu]? with
  | none =>
    by_cases hm : d = cpu
    · subst hm; simp [h]
    · simp [hm]
  | some t =>
    have hlt : cpu < ls.length := (List.getElem?_eq_some.mp h).1
    by_cases hm : d = cpu
    · subst hm; simp [hlt]
    · have : cpu ≠ d := fun e => hm e.symm
      simp [hm, List.getElem?_set_ne this]

theorem length_set_curr_thread (ls : List thread_core_local) (cpu : Nat) (v : Int) :
    (set_curr_thread ls cpu v).length = ls.length := by
  unfold set_curr_thread
  cases ls[cpu]? <;> simp

theorem thread_get_core_local_eq (s : State) (cpu : Nat) :
    thread_get_core_local s cpu = s.thread_core_local[cpu]? := by
  unfold thread_get_core_local CFG_TEE_CORE_NB_CORE
  split
  · rfl
  · rename_i h
    exact (List.getElem?_eq_none (Nat.le_of_not_lt h)).symm

theorem upd_thread_upd_thread (ts : List thread_ctx) (n : Nat) (f g : thread_ctx → thread_ctx) :
    upd_thread (upd_thread ts n f) n g = upd_thread ts n (fun t => g (f t)) := by
  apply List.ext_getElem?
  intro m
  simp only [getElem?_upd_thread]
  by_cases hm : m = n
  · simp [hm, Function.comp_def]
  · simp [hm]

/-- What the loop of thread_alloc_and_run computes: with no FREE slot the
table is unchanged; otherwise the first FREE slot is made ACTIVE. -/
theorem alloc_loop_spec (ts : List thread_ctx) (k : Nat) :
    ((alloc_loop ts k).2 = none ∧ (alloc_loop ts k).1 = ts ∧
        ∀ t ∈ ts, t.state ≠ THREAD_STATE_FREE) ∨
    (∃ i t, (alloc_loop ts k).2 = some (k + i) ∧ ts[i]? = some t ∧
        t.state = THREAD_STATE_FREE ∧
        (∀ j t', j < i → ts[j]? = some t' → t'.state ≠ THREAD_STATE_FREE) ∧
        (alloc_loop ts k).1 =
          upd_thread ts i (fun t => { t with state := THREAD_STATE_ACTIVE })) := by
  induction ts generalizing k with
  | nil => left; simp [alloc_loop]
  | cons t ts ih =>
    by_cases hf : t.state = THREAD_STATE_FREE
    · right
      refine ⟨0, t, ?_, by simp, hf, ?_, ?_⟩
      · simp [alloc_loop, hf]
      · intro j t' hj; omega
      · simp [alloc_loop, hf, upd_thread]
    · rcases ih (k + 1) with ⟨h1, h2, h3⟩ | ⟨i, t', h1, h2, h3, h4, h5⟩
      · left
        refine ⟨by simp [alloc_loop, hf, h1], by simp [alloc_loop, hf, h2], ?_⟩
        intro u hu
        rcases List.mem_cons.mp hu with rfl | hu
        · exact hf
        · exact h3 u hu
      · right
        refine ⟨i + 1, t', ?_, by simpa using h2, h3, ?_, ?_⟩
        · simp [alloc_loop, hf, h1]; omega
        · intro j u hj hu
          cases j with
          | zero => simp at hu; subst hu; exact hf
          | succ j => exact h4 j u (by omega) (by simpa using hu)
        · simp only [alloc_loop, hf, if_false, h5]
          simp [upd_thread, h2]

theorem curr_thread_of_eq_some {s : State} {cpu : Nat} {v : Int}
    (h : curr_thread_of s cpu = some v) :
    ∃ l, s.thread_core_local[cpu]? = some l ∧ l.curr_thread = v := by
  unfold curr_thread_of at h
  cases hl : s.thread_core_local[cpu]? with
  | none => simp [hl] at h
  | some l => exact ⟨l, rfl, by simpa [hl] using h⟩

theorem thread_alloc_and_run_full (s : State) (cpu : Nat) (args : thread_smc_args)
    (entry cpsr : Nat) (hfull : ∀ t ∈ s.threads, t.state ≠ THREAD_STATE_FREE) :
    (thread_alloc_and_run s cpu args entry cpsr).1 = s ∧
    (curr_thread_of s cpu = some (-1) →
      (thread_alloc_and_run s cpu args entry cpsr).2 =
        .done ({ args with a0 := OPTEE_SMC_RETURN_ETHREAD_LIMIT }, .returned)) := by
  have hnone : (alloc_loop s.threads 0).2 = none := by
    rcases alloc_loop_spec s.threads 0 with ⟨h, -, -⟩ | ⟨i, t, -, h2, h3, -, -⟩
    · exact h
    · exact absurd h3 (hfull t (List.mem_iff_getElem?.mpr ⟨i, h2⟩))
  constructor
  · unfold thread_alloc_and_run
    cases thread_get_core_local s cpu with
    | none => rfl
    | some l =>
      by_cases hc : l.curr_thread = -1
      · simp only [hc, ne_eq, not_true_eq_false, if_false]
        split
        · rfl
        · rename_i ts n heq
          rw [heq] at hnone; simp at hnone
      · simp [hc]
  · intro hidle
    obtain ⟨l, hl, hc⟩ := curr_thread_of_eq_some hidle
    unfold thread_alloc_and_run
    rw [thread_get_core_local_eq, hl]
    simp only [hc, ne_eq, not_true_eq_false, if_false]
    split
    · rfl
    · rename_i ts n heq
      rw [heq] at hnone; simp at hnone

theorem thread_alloc_and_run_found (s : State) (cpu : Nat) (args : thread_smc_args)
    (entry cpsr : Nat) (i : Nat) (t : thread_ctx)
    (hidle : curr_thread_of s cpu = some (-1))
    (hi : s.threads[i]? = some t) (hf : t.state = THREAD_STATE_FREE)
    (hlow : ∀ j t', j < i → s.threads[j]? = some t' → t'.state ≠ THREAD_STATE_FREE) :
    thread_alloc_and_run s cpu args entry cpsr =
      ({ s with
          threads := upd_thread s.threads i (fun t => alloc_slot t args entry cpsr)
          thread_core_local := set_curr_thread s.thread_core_local cpu (i : Int) },
        .done (args, .resumed i)) := by
  obtain ⟨l, hl, hc⟩ := curr_thread_of_eq_some hidle
  have hloop : alloc_loop s.threads 0 =
      (upd_thread s.threads i (fun t => { t with state := THREAD_STATE_ACTIVE }), some i) := by
    rcases alloc_loop_spec s.threads 0 with ⟨-, -, h⟩ | ⟨i', t', h1, h2, h3, h4, h5⟩
    · exact absurd hf (h t (List.mem_iff_getElem?.mpr ⟨i, hi⟩))
    · have hii : i' = i := by
        rcases Nat.lt_trichotomy i' i with hlt | heq | hgt
        · exact absurd h3 (hlow i' t' hlt h2)
        · exact heq
        · exact absurd hf (h4 i t hgt hi)
      subst hii
      apply Prod.ext
      · exact h5
      · simpa using h1
  unfold thread_alloc_and_run
  rw [thread_get_core_local_eq, hl]
  simp only [hc, ne_eq, not_true_eq_false, if_false, hloop, upd_thread_upd_thread]
  rfl

theorem thread_at_eq_some {s : State} {ct : Int} {t : thread_ctx}
    (h : thread_at s ct = some t) : 0 ≤ ct ∧ s.threads[ct.toNat]? = some t := by
  unfold thread_at at h
  by_cases h0 : 0 ≤ ct
  · simp [h0] at h; exact ⟨h0, h⟩
  · simp [h0] at h

theorem thread_at_natCast (s : State) (n : Nat) : thread_at s (n : Int) = s.threads[n]? := by
  simp [thread_at]

theorem thread_resume_from_rpc_bad (s : State) (cpu : Nat) (args : thread_smc_args)
    (hbad : ∀ t, s.threads[args.a3]? = some t →
      ¬ (t.state = THREAD_STATE_SUSPENDED ∧ args.a7 = t.hyp_clnt_id)) :
    (thread_resume_from_rpc s cpu args).1 = s ∧
    (curr_thread_of s cpu = some (-1) →
      (thread_resume_from_rpc s cpu args).2 =
        .done ({ args with a0 := OPTEE_SMC_RETURN_ERESUME }, .returned)) := by
  have hok : resume_cond s args = false := by
    unfold resume_cond
    cases h : s.threads[args.a3]? with
    | none => simp
    | some t =>
      have := hbad t h
      simp only [Bool.and_eq_false_iff, decide_eq_false_iff_not]
      right
      by_cases h1 : t.state = THREAD_STATE_SUSPENDED
      · right; exact fun h2 => this ⟨h1, h2⟩
      · left; exact h1
  constructor
  · unfold thread_resume_from_rpc
    cases thread_get_core_local s cpu with
    | none => rfl
    | some l =>
      by_cases hc : l.curr_thread = -1
      · simp only [hc, hok, ne_eq, not_true_eq_false, if_false, Bool.false_eq_true]
        simp [OPTEE_SMC_RETURN_ERESUME]
      · simp [hc]
  · intro hidle
    obtain ⟨l, hl, hc⟩ := curr_thread_of_eq_some hidle
    unfold thread_resume_from_rpc
    rw [thread_get_core_local_eq, hl]
    simp only [hc, hok, ne_eq, not_true_eq_false, if_false, Bool.false_eq_true]
    simp [OPTEE_SMC_RETURN_ERESUME]

theorem thread_resume_from_rpc_ok (s : State) (cpu : Nat) (args : thread_smc_args)
    (t : thread_ctx) (hidle : curr_thread_of s cpu = some (-1))
    (hn : s.threads[args.a3]? = some t) (hs : t.state = THREAD_STATE_SUSPENDED)
    (hid : args.a7 = t.hyp_clnt_id) :
    thread_resume_from_rpc s cpu args =
      ({ s with
          threads := upd_thread s.threads args.a3 (fun t => resume_slot t args)
          thread_core_local := set_curr_thread s.thread_core_local cpu (args.a3 : Int) },
        .done (args, .resumed args.a3)) := by
  obtain ⟨l, hl, hc⟩ := curr_thread_of_eq_some hidle
  have hlt : args.a3 < CFG_NUM_THREADS s := (List.getElem?_eq_some.mp hn).1
  have hok : resume_cond s args = true := by
    unfold resume_cond
    simp [hn, hs, hid, hlt]
  unfold thread_resume_from_rpc
  rw [thread_get_core_local_eq, hl]
  simp only [hc, hok, ne_eq, not_true_eq_false, if_false, if_true, upd_thread_upd_thread]
  congr 2

theorem thread_state_suspend_ok (s : State) (cpu : Nat) (flags cpsr pc : Nat)
    (umap : Option Nat) (ct : Int) (t : thread_ctx)
    (hcur : curr_thread_of s cpu = some ct) (ht : thread_at s ct = some t)
    (hact : t.state = THREAD_STATE_ACTIVE) :
    thread_state_suspend s cpu flags cpsr pc umap =
      ({ s with
          threads := upd_thread s.threads ct.toNat
            (fun t => suspend_slot t flags cpsr pc umap)
          thread_core_local := set_curr_thread s.thread_core_local cpu (-1) },
        .done ct) := by
  obtain ⟨l, hl, hc⟩ := curr_thread_of_eq_some hcur
  have h0 := (thread_at_eq_some ht).1
  have hne : ct ≠ -1 := by omega
  unfold thread_state_suspend
  rw [thread_get_core_local_eq, hl]
  simp only [hc, hne, if_false, ht, hact, ne_eq, not_true_eq_false, upd_thread_upd_thread]
  congr 2
  congr 1
  funext u
  unfold suspend_slot
  cases umap <;> rfl

theorem thread_state_free_ok (s : State) (cpu : Nat) (ct : Int) (t : thread_ctx)
    (hcur : curr_thread_of s cpu = some ct) (ht : thread_at s ct = some t)
    (hact : t.state = THREAD_STATE_ACTIVE) (hmtx : t.mutexes = []) :
    thread_state_free s cpu =
      ({ s with
          threads := upd_thread s.threads ct.toNat
            (fun t => { t with state := THREAD_STATE_FREE, flags := 0 })
          thread_core_local := set_curr_thread s.thread_core_local cpu (-1) },
        .done ()) := by
  obtain ⟨l, hl, hc⟩ := curr_thread_of_eq_some hcur
  have h0 := (thread_at_eq_some ht).1
  have hne : ct ≠ -1 := by omega
  unfold thread_state_free
  rw [thread_get_core_local_eq, hl]
  simp only [hc, hne, if_false, ht, hact, hmtx, ne_eq, not_true_eq_false,
    upd_thread_upd_thread]

/-! ## The invariant of the thread table -/

theorem curr_thread_of_set (s : State) (ts : List thread_ctx) (cpu : Nat) (v : Int) (d : Nat) :
    curr_thread_of
        { s with threads := ts
                 thread_core_local := set_curr_thread s.thread_core_local cpu v } d =
      if d = cpu then (curr_thread_of s cpu).map (fun _ => v) else curr_thread_of s d := by
  unfold curr_thread_of
  simp only [getElem?_set_curr_thread]
  by_cases h : d = cpu
  · simp only [h, if_true]
    cases s.thread_core_local[cpu]? <;> rfl
  · simp [h]

theorem thread_at_upd (s : State) (n : Nat) (f : thread_ctx → thread_ctx)
    (ls : List thread_core_local) (i : Int) :
    thread_at { s with threads := upd_thread s.threads n f, thread_core_local := ls } i =
      if i = (n : Int) then (thread_at s i).map f else thread_at s i := by
  unfold thread_at
  by_cases h0 : 0 ≤ i
  · simp only [h0, if_true, getElem?_upd_thread]
    by_cases h : i = (n : Int)
    · subst h; simp
    · have : i.toNat ≠ n := by omega
      simp [h, this]
  · have : i ≠ (n : Int) := by omega
    simp [h0, this]

/-- A core without a thread takes a slot that is not ACTIVE and makes it
ACTIVE: the invariant is kept (thread_alloc_and_run, thread_resume_from_rpc). -/
theorem table_inv_acquire (s : State) (cpu n : Nat) (t : thread_ctx)
    (f : thread_ctx → thread_ctx) (hinv : table_inv s)
    (hidle : curr_thread_of s cpu = some (-1)) (hn : s.threads[n]? = some t)
    (hst : t.state ≠ THREAD_STATE_ACTIVE) (hf : ∀ u, (f u).state = THREAD_STATE_ACTIVE) :
    table_inv { s with threads := upd_thread s.threads n f
                       thread_core_local := set_curr_thread s.thread_core_local cpu (n : Int) } := by
  obtain ⟨h1, h2, h3⟩ := hinv
  have hnot : ∀ c, curr_thread_of s c ≠ some (n : Int) := by
    intro c hc
    obtain ⟨u, hu, hua⟩ := h1 c n hc (by omega)
    rw [thread_at_natCast, hn] at hu
    cases hu
    exact hst hua
  refine ⟨?_, ?_, ?_⟩
  · intro c i hc hi
    rw [curr_thread_of_set] at hc
    rw [thread_at_upd]
    by_cases hcc : c = cpu
    · simp only [hcc, if_true, hidle, Option.map_some'] at hc
      cases hc
      simp [thread_at_natCast, hn, hf]
    · simp only [hcc, if_false] at hc
      have hin : i ≠ (n : Int) := fun e => hnot c (e ▸ hc)
      simp only [hin, if_false]
      exact h1 c i hc hi
  · intro c1 c2 i hc1 hc2 hi
    rw [curr_thread_of_set] at hc1 hc2
    by_cases e1 : c1 = cpu <;> by_cases e2 : c2 = cpu
    · rw [e1, e2]
    · simp only [e1, if_true, hidle, Option.map_some'] at hc1
      simp only [e2, if_false] at hc2
      cases hc1
      exact absurd hc2 (hnot c2)
    · simp only [e2, if_true, hidle, Option.map_some'] at hc2
      simp only [e1, if_false] at hc1
      cases hc2
      exact absurd hc1 (hnot c1)
    · simp only [e1, e2, if_false] at hc1 hc2
      exact h2 c1 c2 i hc1 hc2 hi
  · intro m u hm hu
    simp only [getElem?_upd_thread] at hm
    by_cases hmn : m = n
    · subst hmn
      exact ⟨cpu, by rw [curr_thread_of_set]; simp [hidle]⟩
    · simp only [hmn, if_false] at hm
      obtain ⟨c, hc⟩ := h3 m u hm hu
      refine ⟨c, ?_⟩
      rw [curr_thread_of_set]
      by_cases hcc : c = cpu
      · subst hcc
        rw [hidle] at hc
        cases hc
      · simp [hcc, hc]

/-- A core gives up its current thread and the slot leaves the ACTIVE state:
the invariant is kept (thread_state_suspend, thread_state_free,
thread_clr_boot_thread). -/
theorem table_inv_release (s : State) (cpu : Nat) (ct : Int)
    (f : thread_ctx → thread_ctx) (hinv : table_inv s)
    (hcur : curr_thread_of s cpu = some ct) (hct : ct ≠ -1)
    (hf : ∀ u, (f u).state ≠ THREAD_STATE_ACTIVE) :
    table_inv { s with threads := upd_thread s.threads ct.toNat f
                       thread_core_local := set_curr_thread s.thread_core_local cpu (-1) } := by
  obtain ⟨h1, h2, h3⟩ := hinv
  obtain ⟨t, ht, -⟩ := h1 cpu ct hcur hct
  have h0 := (thread_at_eq_some ht).1
  have hcast : ((ct.toNat : Nat) : Int) = ct := Int.toNat_of_nonneg h0
  refine ⟨?_, ?_, ?_⟩
  · intro c i hc hi
    rw [curr_thread_of_set] at hc
    rw [thread_at_upd]
    by_cases hcc : c = cpu
    · simp only [hcc, if_true, hcur, Option.map_some'] at hc
      cases hc
      exact absurd rfl hi
    · simp only [hcc, if_false] at hc
      have hin : i ≠ ((ct.toNat : Nat) : Int) := by
        intro e
        rw [hcast] at e
        subst e
        exact hcc (h2 c cpu i hc hcur hi)
      simp only [hin, if_false]
      exact h1 c i hc hi
  · intro c1 c2 i hc1 hc2 hi
    rw [curr_thread_of_set] at hc1 hc2
    by_cases e1 : c1 = cpu
    · simp only [e1, if_true, hcur, Option.map_some'] at hc1
      cases hc1
      exact absurd rfl hi
    · by_cases e2 : c2 = cpu
      · simp only [e2, if_true, hcur, Option.map_some'] at hc2
        cases hc2
        exact absurd rfl hi
      · simp only [e1, e2, if_false] at hc1 hc2
        exact h2 c1 c2 i hc1 hc2 hi
  · intro m u hm hu
    simp only [getElem?_upd_thread] at hm
    by_cases hmn : m = ct.toNat
    · simp only [hmn, if_true] at hm
      cases hx : s.threads[ct.toNat]? with
      | none => simp [hx] at hm
      | some x =>
        simp only [hx, Option.map_some', Option.some.injEq] at hm
        subst hm
        exact absurd hu (hf x)
    · simp only [hmn, if_false] at hm
      obtain ⟨c, hc⟩ := h3 m u hm hu
      refine ⟨c, ?_⟩
      rw [curr_thread_of_set]
      by_cases hcc : c = cpu
      · subst hcc
        rw [hcur] at hc
        cases hc
        exact absurd (by omega) hmn
      · simp [hcc, hc]

theorem curr_thread_of_of_core {s : State} {cpu : Nat} {l : thread_core_local}
    (h : thread_get_core_local s cpu = some l) :
    curr_thread_of s cpu = some l.curr_thread := by
  rw [thread_get_core_local_eq] at h
  simp [curr_thread_of, h]

theorem thread_alloc_and_run_done {s s' : State} {cpu : Nat} {args : thread_smc_args}
    {entry cpsr : Nat} {r : thread_smc_args × smc_exit}
    (h : thread_alloc_and_run s cpu args entry cpsr = (s', .done r)) :
    curr_thread_of s cpu = some (-1) := by
  unfold thread_alloc_and_run at h
  cases hl : thread_get_core_local s cpu with
  | none => simp [hl] at h
  | some l =>
    by_cases hc : l.curr_thread = -1
    · rw [curr_thread_of_of_core hl, hc]
    · simp [hl, hc] at h

theorem thread_resume_from_rpc_done {s s' : State} {cpu : Nat} {args : thread_smc_args}
    {r : thread_smc_args × smc_exit}
    (h : thread_resume_from_rpc s cpu args = (s', .done r)) :
    curr_thread_of s cpu = some (-1) := by
  unfold thread_resume_from_rpc at h
  cases hl : thread_get_core_local s cpu with
  | none => simp [hl] at h
  | some l =>
    by_cases hc : l.curr_thread = -1
    · rw [curr_thread_of_of_core hl, hc]
    · simp [hl, hc] at h

theorem thread_state_free_done {s s' : State} {cpu : Nat} {u : Unit}
    (h : thread_state_free s cpu = (s', .done u)) :
    ∃ ct t, curr_thread_of s cpu = some ct ∧ thread_at s ct = some t ∧
      t.state = THREAD_STATE_ACTIVE ∧ t.mutexes = [] := by
  unfold thread_state_free at h
  cases hl : thread_get_core_local s cpu with
  | none => simp [hl] at h
  | some l =>
    simp only [hl] at h
    by_cases hc : l.curr_thread = -1
    · simp [hc] at h
    · simp only [hc, if_false] at h
      cases ht : thread_at s l.curr_thread with
      | none => simp [ht] at h
      | some t =>
        simp only [ht] at h
        by_cases hm : t.mutexes = []
        · by_cases hs : t.state = THREAD_STATE_ACTIVE
          · exact ⟨l.curr_thread, t, curr_thread_of_of_core hl, ht, hs, hm⟩
          · simp [hm, hs] at h
        · simp [hm] at h

theorem thread_state_suspend_done {s s' : State} {cpu : Nat} {flags cpsr pc : Nat}
    {umap : Option Nat} {ct : Int}
    (h : thread_state_suspend s cpu flags cpsr pc umap = (s', .done ct)) :
    ∃ t, curr_thread_of s cpu = some ct ∧ thread_at s ct = some t ∧
      t.state = THREAD_STATE_ACTIVE := by
  unfold thread_state_suspend at h
  cases hl : thread_get_core_local s cpu with
  | none => simp [hl] at h
  | some l =>
    simp only [hl] at h
    by_cases hc : l.curr_thread = -1
    · simp [hc] at h
    · simp only [hc, if_false] at h
      cases ht : thread_at s l.curr_thread with
      | none => simp [ht] at h
      | some t =>
        simp only [ht] at h
        by_cases hs : t.state = THREAD_STATE_ACTIVE
        · simp only [hs, ne_eq, not_true_eq_false, if_false, Prod.mk.injEq,
            Ret.done.injEq] at h
          obtain ⟨-, rfl⟩ := h
          exact ⟨t, curr_thread_of_of_core hl, ht, hs⟩
        · simp [hs] at h

theorem thread_clr_boot_thread_done {s s' : State} {cpu : Nat} {u : Unit}
    (h : thread_clr_boot_thread s cpu = (s', .done u)) :
    ∃ ct t, curr_thread_of s cpu = some ct ∧ thread_at s ct = some t ∧
      t.state = THREAD_STATE_ACTIVE ∧
      s' = { s with
              threads := upd_thread s.threads ct.toNat
                (fun t => { t with state := THREAD_STATE_FREE })
              thread_core_local := set_curr_thread s.thread_core_local cpu (-1) } := by
  unfold thread_clr_boot_thread at h
  cases hl : thread_get_core_local s cpu with
  | none => simp [hl] at h
  | some l =>
    simp only [hl] at h
    by_cases hr : 0 ≤ l.curr_thread ∧ l.curr_thread < (CFG_NUM_THREADS s : Int)
    · simp only [hr, and_self, not_true_eq_false, if_false] at h
      cases ht : thread_at s l.curr_thread with
      | none => simp [ht] at h
      | some t =>
        simp only [ht] at h
        by_cases hs : t.state = THREAD_STATE_ACTIVE
        · by_cases hm : t.mutexes = []
          · simp only [hs, hm, ne_eq, not_true_eq_false, if_false, Prod.mk.injEq] at h
            exact ⟨l.curr_thread, t, curr_thread_of_of_core hl, ht, hs, h.1.symm⟩
          · simp [hs, hm] at h
        · simp [hs] at h
    · simp [hr] at h

/-- The state left by thread_init_boot_thread on a table whose slots are all
FREE satisfies the invariant. -/
theorem table_inv_boot {s0 s : State} {cpu : Nat} {u : Unit}
    (hfree : ∀ t ∈ s0.threads, t.state = THREAD_STATE_FREE)
    (h : thread_init_boot_thread s0 cpu = (s, .done u)) : table_inv s := by
  unfold thread_init_boot_thread at h
  cases hl : thread_get_core_local s0 cpu with
  | none => simp [hl] at h
  | some l =>
    simp only [hl] at h
    rw [thread_get_core_local_eq] at hl
    cases h0 : (s0.threads.map (fun t => { t with mutexes := [] }))[0]? with
    | none => simp [h0] at h
    | some t0 =>
      simp only [h0, Prod.mk.injEq, and_true] at h
      subst h
      have hcur : ∀ c i,
          curr_thread_of
            { s0 with
              threads := upd_thread (s0.threads.map (fun t => { t with mutexes := [] })) 0
                (fun t => { t with state := THREAD_STATE_ACTIVE })
              thread_core_local := set_curr_thread
                (s0.thread_core_local.map (fun l => { l with curr_thread := -1 })) cpu 0 } c
            = some i → i ≠ -1 → c = cpu ∧ i = 0 := by
        intro c i hc hi
        simp only [curr_thread_of, getElem?_set_curr_thread, List.getElem?_map] at hc
        by_cases hcc : c = cpu
        · simp only [hcc, if_true, hl, Option.map_some', Option.some.injEq] at hc
          exact ⟨hcc, hc.symm⟩
        · simp only [hcc, if_false] at hc
          cases hx : s0.thread_core_local[c]? with
          | none => simp [hx] at hc
          | some x =>
            simp only [hx, Option.map_some', Option.some.injEq] at hc
            exact absurd hc.symm hi
      refine ⟨?_, ?_, ?_⟩
      · intro c i hc hi
        obtain ⟨-, rfl⟩ := hcur c i hc hi
        simp [thread_at, getElem?_upd_thread, h0]
      · intro c1 c2 i hc1 hc2 hi
        rw [(hcur c1 i hc1 hi).1, (hcur c2 i hc2 hi).1]
      · intro n t hn ht
        simp only [getElem?_upd_thread, List.getElem?_map] at hn
        by_cases hn0 : n = 0
        · subst hn0
          refine ⟨cpu, ?_⟩
          simp [curr_thread_of, getElem?_set_curr_thread, hl]
        · simp only [hn0, if_false] at hn
          cases hx : s0.threads[n]? with
          | none => simp [hx] at hn
          | some x =>
            simp only [hx, Option.map_some', Option.some.injEq] at hn
            subst hn
            have := hfree x (List.mem_iff_getElem?.mpr ⟨n, hx⟩)
            simp only at ht
            rw [this] at ht
            cases ht

theorem table_inv_alloc {s s' : State} {cpu : Nat} {args : thread_smc_args}
    {entry cpsr : Nat} {r : thread_smc_args × smc_exit} (hinv : table_inv s)
    (h : thread_alloc_and_run s cpu args entry cpsr = (s', .done r)) : table_inv s' := by
  have hidle := thread_alloc_and_run_done h
  rcases alloc_loop_spec s.threads 0 with ⟨-, -, hfull⟩ | ⟨i, t, -, h2, h3, h4, -⟩
  · have := (thread_alloc_and_run_full s cpu args entry cpsr hfull).1
    rw [h] at this
    simp only at this
    rw [this]
    exact hinv
  · rw [thread_alloc_and_run_found s cpu args entry cpsr i t hidle h2 h3 h4] at h
    simp only [Prod.mk.injEq] at h
    rw [← h.1]
    exact table_inv_acquire s cpu i t _ hinv hidle h2 (by rw [h3]; decide) (fun u => rfl)

theorem table_inv_resume {s s' : State} {cpu : Nat} {args : thread_smc_args}
    {r : thread_smc_args × smc_exit} (hinv : table_inv s)
    (h : thread_resume_from_rpc s cpu args = (s', .done r)) : table_inv s' := by
  have hidle := thread_resume_from_rpc_done h
  by_cases hgood : ∃ t, s.threads[args.a3]? = some t ∧
      t.state = THREAD_STATE_SUSPENDED ∧ args.a7 = t.hyp_clnt_id
  · obtain ⟨t, h1, h2, h3⟩ := hgood
    rw [thread_resume_from_rpc_ok s cpu args t hidle h1 h2 h3] at h
    simp only [Prod.mk.injEq] at h
    rw [← h.1]
    refine table_inv_acquire s cpu args.a3 t _ hinv hidle h1 (by rw [h2]; decide) ?_
    intro u
    unfold resume_slot
    split <;> rfl
  · have hbad : ∀ t, s.threads[args.a3]? = some t →
        ¬ (t.state = THREAD_STATE_SUSPENDED ∧ args.a7 = t.hyp_clnt_id) :=
      fun t ht hc => hgood ⟨t, ht, hc.1, hc.2⟩
    have := (thread_resume_from_rpc_bad s cpu args hbad).1
    rw [h] at this
    simp only at this
    rw [this]
    exact hinv

theorem table_inv_suspend {s s' : State} {cpu : Nat} {flags cpsr pc : Nat}
    {umap : Option Nat} {ct : Int} (hinv : table_inv s)
    (h : thread_state_suspend s cpu flags cpsr pc umap = (s', .done ct)) : table_inv s' := by
  obtain ⟨t, hcur, ht, hact⟩ := thread_state_suspend_done h
  rw [thread_state_suspend_ok s cpu flags cpsr pc umap ct t hcur ht hact] at h
  simp only [Prod.mk.injEq] at h
  rw [← h.1]
  have h0 := (thread_at_eq_some ht).1
  exact table_inv_release s cpu ct _ hinv hcur (by omega) (fun u => by simp [suspend_slot])

theorem table_inv_free {s s' : State} {cpu : Nat} {u : Unit} (hinv : table_inv s)
    (h : thread_state_free s cpu = (s', .done u)) : table_inv s' := by
  obtain ⟨ct, t, hcur, ht, hact, hm⟩ := thread_state_free_done h
  rw [thread_state_free_ok s cpu ct t hcur ht hact hm] at h
  simp only [Prod.mk.injEq] at h
  rw [← h.1]
  have h0 := (thread_at_eq_some ht).1
  exact table_inv_release s cpu ct _ hinv hcur (by omega) (fun u => by simp)

theorem table_inv_clr {s s' : State} {cpu : Nat} {u : Unit} (hinv : table_inv s)
    (h : thread_clr_boot_thread s cpu = (s', .done u)) : table_inv s' := by
  obtain ⟨ct, t, hcur, ht, -, hs'⟩ := thread_clr_boot_thread_done h
  rw [hs']
  have h0 := (thread_at_eq_some ht).1
  exact table_inv_release s cpu ct _ hinv hcur (by omega) (fun u => by simp)

theorem reachable_table_inv {s : State} (h : Reachable s) : table_inv s := by
  induction h with
  | boot s0 s cpu hfree h => exact table_inv_boot hfree h
  | clr s s' cpu _ h ih => exact table_inv_clr ih h
  | alloc s s' cpu args entry cpsr r _ h ih => exact table_inv_alloc ih h
  | resume s s' cpu args r _ h ih => exact table_inv_resume ih h
  | suspend s s' cpu flags cpsr pc umap ct _ h ih => exact table_inv_suspend ih h
  | free s s' cpu _ h ih => exact table_inv_free ih h

theorem table_inv_state_curr {s : State} (h : table_inv s) : inv_state_curr s := by
  obtain ⟨h1, h2, h3⟩ := h
  intro n t hn
  constructor
  · intro ha
    obtain ⟨c, hc⟩ := h3 n t hn ha
    exact ⟨c, hc, fun c' hc' => h2 c' c n hc' hc (by omega)⟩
  · intro hna c hc
    obtain ⟨u, hu, hua⟩ := h1 c n hc (by omega)
    rw [thread_at_natCast, hn] at hu
    cases hu
    exact hna hua

theorem countP_active_le (cur : Nat → Option Int) (ts : List thread_ctx) (k : Nat)
    (S : Finset Nat)
    (h : ∀ (i : Nat) (t : thread_ctx), ts[i]? = some t → t.state = THREAD_STATE_ACTIVE →
      ∃ c ∈ S, cur c = some ((k + i : Nat) : Int)) :
    ts.countP (fun t => decide (t.state = THREAD_STATE_ACTIVE)) ≤ S.card := by
  induction ts generalizing k S with
  | nil => simp
  | cons t ts ih =>
    by_cases ha : t.state = THREAD_STATE_ACTIVE
    · obtain ⟨c0, hc0, hcur0⟩ := h 0 t (by simp) ha
      have htail : ∀ (i : Nat) (u : thread_ctx), ts[i]? = some u →
          u.state = THREAD_STATE_ACTIVE →
          ∃ c ∈ S.erase c0, cur c = some ((k + 1 + i : Nat) : Int) := by
        intro i u hi hu
        obtain ⟨c, hc, hcur⟩ := h (i + 1) u (by simpa using hi) hu
        refine ⟨c, Finset.mem_erase.mpr ⟨?_, hc⟩, ?_⟩
        · intro e
          subst e
          rw [hcur0] at hcur
          simp only [Option.some.injEq] at hcur
          omega
        · rw [hcur]
          congr 2
          omega
      have := ih (k + 1) (S.erase c0) htail
      rw [Finset.card_erase_of_mem hc0] at this
      have hpos : 0 < S.card := Finset.card_pos.mpr ⟨c0, hc0⟩
      rw [List.countP_cons_of_pos _ _ (by simpa using ha)]
      omega
    · have htail : ∀ (i : Nat) (u : thread_ctx), ts[i]? = some u →
          u.state = THREAD_STATE_ACTIVE →
          ∃ c ∈ S, cur c = some ((k + 1 + i : Nat) : Int) := by
        intro i u hi hu
        obtain ⟨c, hc, hcur⟩ := h (i + 1) u (by simpa using hi) hu
        refine ⟨c, hc, ?_⟩
        rw [hcur]
        congr 2
        omega
      rw [List.countP_cons_of_neg _ _ (by simpa using ha)]
      exact ih (k + 1) S htail

theorem num_active_le_of_inv {s : State} (h : table_inv s) :
    num_active s ≤ min (CFG_TEE_CORE_NB_CORE s) (CFG_NUM_THREADS s) := by
  apply Nat.le_min.mpr
  constructor
  · have := countP_active_le (curr_thread_of s) s.threads 0
      (Finset.range s.thread_core_local.length) (by
        intro i t hi ht
        obtain ⟨c, hc⟩ := h.2.2 i t hi ht
        refine ⟨c, ?_, by simpa using hc⟩
        obtain ⟨l, hl, -⟩ := curr_thread_of_eq_some hc
        exact Finset.mem_range.mpr (List.getElem?_eq_some.mp hl).1)
    simpa [num_active, CFG_TEE_CORE_NB_CORE] using this
  · exact List.countP_le_length _

/-! ## The claims on the thread table (C1 to C10) -/

theorem exists_first_free (ts : List thread_ctx)
    (h : ∃ t ∈ ts, t.state = THREAD_STATE_FREE) :
    ∃ (n : Nat) (t : thread_ctx), ts[n]? = some t ∧ t.state = THREAD_STATE_FREE ∧
      ∀ (j : Nat) (u : thread_ctx), j < n → ts[j]? = some u → u.state ≠ THREAD_STATE_FREE := by
  rcases alloc_loop_spec ts 0 with ⟨-, -, hfull⟩ | ⟨i, t, -, h2, h3, h4, -⟩
  · obtain ⟨t, ht, hf⟩ := h
    exact absurd hf (hfull t ht)
  · exact ⟨i, t, h2, h3, h4⟩

/-- C1: in every state reachable from thread_init_boot_thread by
thread_clr_boot_thread, thread_alloc_and_run, thread_resume_from_rpc,
thread_state_suspend and thread_state_free steps, (1) the current thread of
every core is an ACTIVE slot, (2) no two cores have the same current thread,
and (3) every ACTIVE slot is the current thread of exactly one core while a
SUSPENDED or FREE slot is the current thread of none. -/
theorem C1_thread_table_invariant (s : State) (h : Reachable s) :
    inv_curr_active s ∧ inv_curr_unique s ∧ inv_state_curr s :=
  have hinv := reachable_table_inv h
  ⟨hinv.1, hinv.2.1, table_inv_state_curr hinv⟩

theorem ex_run_reachable : Reachable ex_run :=
  Reachable.alloc ex_boot ex_run 1 ex_args 0x1001 0x1d3 (ex_args, .resumed 1)
    (Reachable.boot (zero_state 3 2) ex_boot 0 (by decide) rfl) rfl

theorem C1_thread_table_invariant_witness :
    Reachable ex_run ∧
      (inv_curr_active ex_run ∧ inv_curr_unique ex_run ∧ inv_state_curr ex_run) :=
  ⟨ex_run_reachable, C1_thread_table_invariant ex_run ex_run_reachable⟩

/-- C2: thread_alloc_and_run on a table in which no slot is FREE leaves the
whole state (every slot and the current thread of every core) unchanged and,
called on a core that runs no thread, returns with a0 =
OPTEE_SMC_RETURN_ETHREAD_LIMIT. -/
theorem C2_alloc_and_run_thread_limit (s : State) (cpu : Nat) (args : thread_smc_args)
    (entry cpsr : Nat) (hfull : ∀ t ∈ s.threads, t.state ≠ THREAD_STATE_FREE) :
    (thread_alloc_and_run s cpu args entry cpsr).1 = s ∧
    (curr_thread_of s cpu = some (-1) →
      (thread_alloc_and_run s cpu args entry cpsr).2 =
        .done ({ args with a0 := OPTEE_SMC_RETURN_ETHREAD_LIMIT }, .returned)) :=
  thread_alloc_and_run_full s cpu args entry cpsr hfull

theorem C2_alloc_and_run_thread_limit_witness :
    (∀ t ∈ ex_full.threads, t.state ≠ THREAD_STATE_FREE) ∧
    curr_thread_of ex_full 1 = some (-1) ∧
    (thread_alloc_and_run ex_full 1 ex_args 0x1001 0x1d3).1 = ex_full ∧
    (thread_alloc_and_run ex_full 1 ex_args 0x1001 0x1d3).2 =
      .done ({ ex_args with a0 := OPTEE_SMC_RETURN_ETHREAD_LIMIT }, .returned) :=
  have h := C2_alloc_and_run_thread_limit ex_full 1 ex_args 0x1001 0x1d3 (by decide)
  ⟨by decide, by decide, h.1, h.2 (by decide)⟩

/-- C3: on a table with at least one FREE slot, thread_alloc_and_run called on
a core that runs no thread takes the lowest-index FREE slot n and resumes it:
afterwards slot n is ACTIVE and the current thread of the core, its flags are
0, its hyp_clnt_id is args.a7, the saved r0..r7 are a0..a7, the saved stack
pointer is stack_va_end, and every other slot is unchanged. -/
theorem C3_alloc_and_run_first_free (s : State) (cpu : Nat) (args : thread_smc_args)
    (entry cpsr : Nat) (hfree : ∃ t ∈ s.threads, t.state = THREAD_STATE_FREE)
    (hidle : curr_thread_of s cpu = some (-1)) :
    ∃ (n : Nat) (t0 t1 : thread_ctx) (s' : State),
      s.threads[n]? = some t0 ∧ t0.state = THREAD_STATE_FREE ∧
      (∀ (j : Nat) (u : thread_ctx), j < n → s.threads[j]? = some u →
        u.state ≠ THREAD_STATE_FREE) ∧
      thread_alloc_and_run s cpu args entry cpsr = (s', .done (args, .resumed n)) ∧
      s'.threads[n]? = some t1 ∧ t1.state = THREAD_STATE_ACTIVE ∧
      curr_thread_of s' cpu = some (n : Int) ∧
      t1.flags = 0 ∧ t1.hyp_clnt_id = args.a7 ∧
      t1.regs.r0 = args.a0 ∧ t1.regs.r1 = args.a1 ∧ t1.regs.r2 = args.a2 ∧
      t1.regs.r3 = args.a3 ∧ t1.regs.r4 = args.a4 ∧ t1.regs.r5 = args.a5 ∧
      t1.regs.r6 = args.a6 ∧ t1.regs.r7 = args.a7 ∧
      t1.regs.svc_sp = t1.stack_va_end ∧ t1.stack_va_end = t0.stack_va_end ∧
      (∀ m : Nat, m ≠ n → s'.threads[m]? = s.threads[m]?) := by
  obtain ⟨n, t0, hn, hf, hlow⟩ := exists_first_free s.threads hfree
  refine ⟨n, t0, alloc_slot t0 args entry cpsr, _, hn, hf, hlow,
    thread_alloc_and_run_found s cpu args entry cpsr n t0 hidle hn hf hlow, ?_, rfl, ?_,
    rfl, rfl, rfl, rfl, rfl, rfl, rfl, rfl, rfl, rfl, rfl, rfl, ?_⟩
  · simp [getElem?_upd_thread, hn]
  · rw [curr_thread_of_set]; simp [hidle]
  · intro m hm
    simp [getElem?_upd_thread, hm]

theorem C3_alloc_and_run_first_free_witness :
    ∃ (n : Nat) (t0 t1 : thread_ctx) (s' : State),
      ex_boot.threads[n]? = some t0 ∧ t0.state = THREAD_STATE_FREE ∧
      (∀ (j : Nat) (u : thread_ctx), j < n → ex_boot.threads[j]? = some u →
        u.state ≠ THREAD_STATE_FREE) ∧
      thread_alloc_and_run ex_boot 1 ex_args 0x1001 0x1d3 =
        (s', .done (ex_args, .resumed n)) ∧
      s'.threads[n]? = some t1 ∧ t1.state = THREAD_STATE_ACTIVE ∧
      curr_thread_of s' 1 = some (n : Int) ∧
      t1.flags = 0 ∧ t1.hyp_clnt_id = ex_args.a7 ∧
      t1.regs.r0 = ex_args.a0 ∧ t1.regs.r1 = ex_args.a1 ∧ t1.regs.r2 = ex_args.a2 ∧
      t1.regs.r3 = ex_args.a3 ∧ t1.regs.r4 = ex_args.a4 ∧ t1.regs.r5 = ex_args.a5 ∧
      t1.regs.r6 = ex_args.a6 ∧ t1.regs.r7 = ex_args.a7 ∧
      t1.regs.svc_sp = t1.stack_va_end ∧ t1.stack_va_end = t0.stack_va_end ∧
      (∀ m : Nat, m ≠ n → s'.threads[m]? = ex_boot.threads[m]?) :=
  C3_alloc_and_run_first_free ex_boot 1 ex_args 0x1001 0x1d3
    ⟨zero_thread, by decide, rfl⟩ (by decide)

/-- C4: thread_resume_from_rpc, called on a core that runs no thread, rejects
every bad resume: when args.a3 is not below CFG_NUM_THREADS, or slot args.a3 is
not SUSPENDED, or args.a7 differs from the hyp_clnt_id of the slot, it returns
with a0 = OPTEE_SMC_RETURN_ERESUME and the whole state unchanged; in every
other case it does not return to the caller but resumes slot args.a3, the
argument registers untouched. -/
theorem C4_resume_from_rpc_rejects (s : State) (cpu : Nat) (args : thread_smc_args)
    (hidle : curr_thread_of s cpu = some (-1)) :
    ((CFG_NUM_THREADS s ≤ args.a3 ∨
        ∃ t, s.threads[args.a3]? = some t ∧
          (t.state ≠ THREAD_STATE_SUSPENDED ∨ args.a7 ≠ t.hyp_clnt_id)) →
      thread_resume_from_rpc s cpu args =
        (s, .done ({ args with a0 := OPTEE_SMC_RETURN_ERESUME }, .returned))) ∧
    (¬ (CFG_NUM_THREADS s ≤ args.a3 ∨
        ∃ t, s.threads[args.a3]? = some t ∧
          (t.state ≠ THREAD_STATE_SUSPENDED ∨ args.a7 ≠ t.hyp_clnt_id)) →
      (thread_resume_from_rpc s cpu args).2 = .done (args, .resumed args.a3)) := by
  constructor
  · intro hbad
    have hb : ∀ t, s.threads[args.a3]? = some t →
        ¬ (t.state = THREAD_STATE_SUSPENDED ∧ args.a7 = t.hyp_clnt_id) := by
      intro t ht hc
      rcases hbad with hge | ⟨u, hu, hor⟩
      · have := (List.getElem?_eq_some.mp ht).1
        unfold CFG_NUM_THREADS at hge
        omega
      · rw [ht] at hu
        cases hu
        rcases hor with h1 | h2
        · exact h1 hc.1
        · exact h2 hc.2
    have h := thread_resume_from_rpc_bad s cpu args hb
    exact Prod.ext h.1 (h.2 hidle)
  · intro hgood
    have hlt : args.a3 < s.threads.length := by
      by_contra hge
      exact hgood (Or.inl (by unfold CFG_NUM_THREADS; omega))
    obtain ⟨t, ht⟩ : ∃ t, s.threads[args.a3]? = some t :=
      ⟨_, List.getElem?_eq_getElem hlt⟩
    have hs : t.state = THREAD_STATE_SUSPENDED := by
      by_contra hne
      exact hgood (Or.inr ⟨t, ht, Or.inl hne⟩)
    have hid : args.a7 = t.hyp_clnt_id := by
      by_contra hne
      exact hgood (Or.inr ⟨t, ht, Or.inr hne⟩)
    rw [thread_resume_from_rpc_ok s cpu args t hidle ht hs hid]

theorem C4_resume_from_rpc_rejects_witness :
    curr_thread_of ex_susp 1 = some (-1) ∧
    thread_resume_from_rpc ex_susp 1 ⟨0, 0, 0, 1, 0, 0, 0, 13⟩ =
      (ex_susp, .done (⟨OPTEE_SMC_RETURN_ERESUME, 0, 0, 1, 0, 0, 0, 13⟩, .returned)) ∧
    (thread_resume_from_rpc ex_susp 1 ⟨0, 0, 0, 1, 0, 0, 0, 12⟩).2 =
      .done (⟨0, 0, 0, 1, 0, 0, 0, 12⟩, .resumed 1) :=
  have h := C4_resume_from_rpc_rejects ex_susp 1 ⟨0, 0, 0, 1, 0, 0, 0, 13⟩ (by decide)
  have h' := C4_resume_from_rpc_rejects ex_susp 1 ⟨0, 0, 0, 1, 0, 0, 0, 12⟩ (by decide)
  ⟨by decide, h.1 (Or.inr ⟨_, rfl, Or.inr (by decide)⟩),
    h'.2 (by
      rintro (hge | ⟨t, ht, hor⟩)
      · exact absurd hge (by decide)
      · have : t = (alloc_slot zero_thread ex_args 0x1001 0x1d3 |> fun u =>
            suspend_slot u 1 0x1d3 0x2000 none) := by
          have h2 : ex_susp.threads[1]? = some (suspend_slot
              (alloc_slot zero_thread ex_args 0x1001 0x1d3) 1 0x1d3 0x2000 none) := by decide
          rw [h2] at ht
          exact (Option.some.inj ht).symm
        subst this
        rcases hor with h1 | h2
        · exact h1 (by decide)
        · exact h2 (by decide))⟩

theorem not32_copy_args_and (x : Nat) :
    (x &&& not32 THREAD_FLAGS_COPY_ARGS_ON_RETURN) &&& THREAD_FLAGS_COPY_ARGS_ON_RETURN = 0 := by
  rw [Nat.and_assoc]
  have : not32 THREAD_FLAGS_COPY_ARGS_ON_RETURN &&& THREAD_FLAGS_COPY_ARGS_ON_RETURN = 0 := by
    decide
  rw [this, Nat.and_zero]

theorem not32_testBit (m b : Nat) (hb : b < 32) (hm : m.testBit b = false) :
    (not32 m).testBit b = true := by
  unfold not32
  rw [Nat.testBit_xor, hm]
  have : (0xFFFFFFFF : Nat) = 2 ^ 32 - 1 := by norm_num
  rw [this, Nat.testBit_two_pow_sub_one]
  simp [hb]

/-- C5: a successful thread_resume_from_rpc (slot n = args.a3 SUSPENDED,
args.a7 equal to its hyp_clnt_id, on a core that runs no thread) makes slot n
ACTIVE and the current thread of the core; the saved r0..r5 become a0..a5 when
THREAD_FLAGS_COPY_ARGS_ON_RETURN was set and keep their values when it was
not; the flag is clear afterwards, every other bit of the 32-bit flags word
and every other saved register are unchanged. -/
theorem C5_resume_from_rpc_success (s : State) (cpu : Nat) (args : thread_smc_args)
    (t : thread_ctx) (hidle : curr_thread_of s cpu = some (-1))
    (hn : s.threads[args.a3]? = some t) (hs : t.state = THREAD_STATE_SUSPENDED)
    (hid : args.a7 = t.hyp_clnt_id) :
    ∃ (s' : State) (t' : thread_ctx),
      thread_resume_from_rpc s cpu args = (s', .done (args, .resumed args.a3)) ∧
      s'.threads[args.a3]? = some t' ∧ t'.state = THREAD_STATE_ACTIVE ∧
      curr_thread_of s' cpu = some (args.a3 : Int) ∧
      (t.flags &&& THREAD_FLAGS_COPY_ARGS_ON_RETURN ≠ 0 →
        t'.regs.r0 = args.a0 ∧ t'.regs.r1 = args.a1 ∧ t'.regs.r2 = args.a2 ∧
        t'.regs.r3 = args.a3 ∧ t'.regs.r4 = args.a4 ∧ t'.regs.r5 = args.a5) ∧
      (t.flags &&& THREAD_FLAGS_COPY_ARGS_ON_RETURN = 0 →
        t'.regs.r0 = t.regs.r0 ∧ t'.regs.r1 = t.regs.r1 ∧ t'.regs.r2 = t.regs.r2 ∧
        t'.regs.r3 = t.regs.r3 ∧ t'.regs.r4 = t.regs.r4 ∧ t'.regs.r5 = t.regs.r5) ∧
      t'.flags &&& THREAD_FLAGS_COPY_ARGS_ON_RETURN = 0 ∧
      (∀ b : Nat, b < 32 → THREAD_FLAGS_COPY_ARGS_ON_RETURN.testBit b = false →
        t'.flags.testBit b = t.flags.testBit b) ∧
      t'.regs.r6 = t.regs.r6 ∧ t'.regs.r7 = t.regs.r7 ∧ t'.regs.r8 = t.regs.r8 ∧
      t'.regs.r9 = t.regs.r9 ∧ t'.regs.r10 = t.regs.r10 ∧ t'.regs.r11 = t.regs.r11 ∧
      t'.regs.r12 = t.regs.r12 ∧ t'.regs.usr_sp = t.regs.usr_sp ∧
      t'.regs.usr_lr = t.regs.usr_lr ∧ t'.regs.svc_spsr = t.regs.svc_spsr ∧
      t'.regs.svc_sp = t.regs.svc_sp ∧ t'.regs.svc_lr = t.regs.svc_lr ∧
      t'.regs.pc = t.regs.pc ∧ t'.regs.cpsr = t.regs.cpsr := by
  refine ⟨_, resume_slot t args, thread_resume_from_rpc_ok s cpu args t hidle hn hs hid,
    ?_, ?_, ?_, ?_, ?_, ?_, ?_, ?_⟩
  · simp [getElem?_upd_thread, hn]
  · unfold resume_slot; split <;> rfl
  · rw [curr_thread_of_set]; simp [hidle]
  · intro hset
    simp [resume_slot, hset, copy_a0_to_a5]
  · intro hclr
    simp [resume_slot, hclr]
  · by_cases hset : t.flags &&& THREAD_FLAGS_COPY_ARGS_ON_RETURN = 0
    · simp [resume_slot, hset]
    · simp only [resume_slot, hset, ne_eq, not_false_eq_true, if_true]
      exact not32_copy_args_and t.flags
  · intro b hb hbit
    by_cases hset : t.flags &&& THREAD_FLAGS_COPY_ARGS_ON_RETURN = 0
    · simp [resume_slot, hset]
    · simp only [resume_slot, hset, ne_eq, not_false_eq_true, if_true]
      rw [Nat.testBit_and, not32_testBit _ b hb hbit, Bool.and_true]
  · by_cases hset : t.flags &&& THREAD_FLAGS_COPY_ARGS_ON_RETURN = 0
    · simp [resume_slot, hset]
    · simp [resume_slot, hset, copy_a0_to_a5]

theorem C5_resume_from_rpc_success_witness :
    curr_thread_of ex_susp 0 = some 0 ∧ curr_thread_of ex_susp 1 = some (-1) ∧
    ∃ (s' : State) (t' : thread_ctx),
      thread_resume_from_rpc ex_susp 1 ⟨21, 22, 23, 1, 25, 26, 27, 12⟩ =
        (s', .done (⟨21, 22, 23, 1, 25, 26, 27, 12⟩, .resumed 1)) ∧
      s'.threads[1]? = some t' ∧ t'.state = THREAD_STATE_ACTIVE ∧
      curr_thread_of s' 1 = some 1 ∧ t'.regs.r0 = 21 ∧ t'.regs.r5 = 26 ∧
      t'.regs.r6 = 11 ∧ t'.regs.pc = 0x2000 ∧ t'.flags = 0 := by
  refine ⟨by decide, by decide, ?_⟩
  obtain ⟨s', t', h1, h2, h3, h4, h5, -, -, -, h6, -, -, -, -, -, -, -, -, -, -, -, h7, -⟩ :=
    C5_resume_from_rpc_success ex_susp 1 ⟨21, 22, 23, 1, 25, 26, 27, 12⟩
      (suspend_slot (alloc_slot zero_thread ex_args 0x1001 0x1d3) 1 0x1d3 0x2000 none)
      (by decide) (by decide) (by decide) (by decide)
  have hs : s' = (thread_resume_from_rpc ex_susp 1 ⟨21, 22, 23, 1, 25, 26, 27, 12⟩).1 := by
    rw [h1]
  have ht : some t' = (thread_resume_from_rpc ex_susp 1
      ⟨21, 22, 23, 1, 25, 26, 27, 12⟩).1.threads[1]? := by
    rw [← hs]; exact h2.symm
  have hfl : (some t').map (fun u => u.flags) = some 0 := by
    rw [ht]; decide
  have h5' := h5 (by decide)
  exact ⟨s', t', h1, h2, h3, h4, h5'.1, h5'.2.2.2.2.2, h6, h7, by simpa using hfl⟩

/-- C6: thread_state_suspend(flags, cpsr, pc) called on a core whose current
thread ct is ACTIVE runs to its end and returns ct; afterwards slot ct is
SUSPENDED with saved pc and cpsr as given, its flags contain every bit of the
given flags and every bit set before, the core runs no thread, and no other
slot and no other core has changed. -/
theorem C6_state_suspend (s : State) (cpu : Nat) (flags cpsr pc : Nat) (umap : Option Nat)
    (ct : Int) (t : thread_ctx) (hcur : curr_thread_of s cpu = some ct)
    (ht : thread_at s ct = some t) (hact : t.state = THREAD_STATE_ACTIVE) :
    ∃ (s' : State) (t' : thread_ctx),
      thread_state_suspend s cpu flags cpsr pc umap = (s', .done ct) ∧
      thread_at s' ct = some t' ∧ t'.state = THREAD_STATE_SUSPENDED ∧
      t'.regs.pc = pc ∧ t'.regs.cpsr = cpsr ∧
      (∀ b : Nat, flags.testBit b = true → t'.flags.testBit b = true) ∧
      (∀ b : Nat, t.flags.testBit b = true → t'.flags.testBit b = true) ∧
      curr_thread_of s' cpu = some (-1) ∧
      (∀ m : Nat, (m : Int) ≠ ct → s'.threads[m]? = s.threads[m]?) ∧
      (∀ d : Nat, d ≠ cpu → s'.thread_core_local[d]? = s.thread_core_local[d]?) := by
  have h0 := (thread_at_eq_some ht).1
  refine ⟨_, suspend_slot t flags cpsr pc umap,
    thread_state_suspend_ok s cpu flags cpsr pc umap ct t hcur ht hact, ?_, rfl, rfl, rfl,
    ?_, ?_, ?_, ?_, ?_⟩
  · rw [thread_at_upd]
    simp [Int.toNat_of_nonneg h0, ht]
  · intro b hb
    simp [suspend_slot, Nat.testBit_or, hb]
  · intro b hb
    simp [suspend_slot, Nat.testBit_or, hb]
  · rw [curr_thread_of_set]; simp [hcur]
  · intro m hm
    have : m ≠ ct.toNat := by omega
    simp [getElem?_upd_thread, this]
  · intro d hd
    simp [getElem?_set_curr_thread, hd]

theorem C6_state_suspend_witness :
    curr_thread_of ex_run 1 = some 1 ∧
    ∃ (s' : State) (t' : thread_ctx),
      thread_state_suspend ex_run 1 6 0x1d3 0x2000 (some 4) = (s', .done 1) ∧
      thread_at s' 1 = some t' ∧ t'.state = THREAD_STATE_SUSPENDED ∧
      t'.regs.pc = 0x2000 ∧ t'.regs.cpsr = 0x1d3 ∧
      (∀ b : Nat, (6 : Nat).testBit b = true → t'.flags.testBit b = true) ∧
      (∀ b : Nat, (alloc_slot zero_thread ex_args 0x1001 0x1d3).flags.testBit b = true →
        t'.flags.testBit b = true) ∧
      curr_thread_of s' 1 = some (-1) ∧
      (∀ m : Nat, (m : Int) ≠ 1 → s'.threads[m]? = ex_run.threads[m]?) ∧
      (∀ d : Nat, d ≠ 1 → s'.thread_core_local[d]? = ex_run.thread_core_local[d]?) :=
  ⟨by decide,
    C6_state_suspend ex_run 1 6 0x1d3 0x2000 (some 4) 1
      (alloc_slot zero_thread ex_args 0x1001 0x1d3) (by decide) (by decide) (by decide)⟩

theorem thread_alloc_and_run_resumed {s s1 : State} {cpu : Nat} {args a' : thread_smc_args}
    {entry cpsr n : Nat}
    (h : thread_alloc_and_run s cpu args entry cpsr = (s1, .done (a', .resumed n))) :
    curr_thread_of s cpu = some (-1) ∧
    ∃ t0, s.threads[n]? = some t0 ∧ t0.state = THREAD_STATE_FREE ∧
      (∀ (j : Nat) (u : thread_ctx), j < n → s.threads[j]? = some u →
        u.state ≠ THREAD_STATE_FREE) ∧
      s1 = { s with
              threads := upd_thread s.threads n (fun t => alloc_slot t args entry cpsr)
              thread_core_local := set_curr_thread s.thread_core_local cpu (n : Int) } := by
  have hidle := thread_alloc_and_run_done h
  refine ⟨hidle, ?_⟩
  rcases alloc_loop_spec s.threads 0 with ⟨-, -, hfull⟩ | ⟨i, t, -, h2, h3, h4, -⟩
  · have := (thread_alloc_and_run_full s cpu args entry cpsr hfull).2 hidle
    rw [h] at this
    simp at this
  · rw [thread_alloc_and_run_found s cpu args entry cpsr i t hidle h2 h3 h4] at h
    simp only [Prod.mk.injEq, Ret.done.injEq, smc_exit.resumed.injEq] at h
    obtain ⟨hs, -, hin⟩ := h
    subst hin
    exact ⟨t, h2, h3, h4, hs.symm⟩

theorem init_regs_cpsr_ne_zero (t : thread_ctx) (args : thread_smc_args) (entry cpsr : Nat) :
    (init_regs t args entry cpsr).regs.cpsr ≠ 0 := by
  intro h
  have hsvc : (CPSR_MODE_SVC ||| CPSR_I ||| CPSR_A).testBit 0 = true := by decide
  have hb : ((init_regs t args entry cpsr).regs.cpsr).testBit 0 = true := by
    unfold init_regs
    simp only
    split
    · rw [Nat.testBit_or, Nat.testBit_or, hsvc, Bool.or_true, Bool.true_or]
    · rw [Nat.testBit_or, hsvc, Bool.or_true]
  rw [h] at hb
  simp at hb

/-- C7 (as stated, refuted): on ex_idle, thread_alloc_and_run on core 0 with
a0..a7 = 5..12 takes slot 0 and thread_state_free on core 0 then runs to its
end; slot 0 is FREE with flags 0 and the core runs no thread, but the saved
registers of the slot are not cleared: r0 still holds 5, so they are not the
all-zero register context. -/
theorem C7_alloc_free_regs_counterexample :
    (thread_alloc_and_run ex_idle 0 ex_args 0x1001 0x1d3).2 =
      .done (ex_args, .resumed 0) ∧
    (thread_state_free (thread_alloc_and_run ex_idle 0 ex_args 0x1001 0x1d3).1 0).2 =
      .done () ∧
    ((thread_state_free (thread_alloc_and_run ex_idle 0 ex_args 0x1001 0x1d3).1 0).1.threads[0]?).map
      (fun t => (t.state, t.flags, t.regs.r0)) = some (THREAD_STATE_FREE, 0, 5) ∧
    ¬ (((thread_state_free
          (thread_alloc_and_run ex_idle 0 ex_args 0x1001 0x1d3).1 0).1.threads[0]?).map
        (fun t => t.regs) = some zero_regs) := by
  decide

/-- C7 (amended): after thread_alloc_and_run has taken slot n, a call of
thread_state_free on that core runs to its end when the slot holds no mutex,
and whenever it runs to its end slot n is FREE, the core runs no thread, the
flags of the slot are 0, and the saved registers are left as
thread_alloc_and_run wrote them (r0..r7 are the SMC arguments, the saved stack
pointer is stack_va_end, pc is the entry address): they are not cleared, the
register context is never the all-zero one. -/
theorem C7_alloc_free_round_trip (s s1 : State) (cpu : Nat) (args a' : thread_smc_args)
    (entry cpsr n : Nat)
    (h1 : thread_alloc_and_run s cpu args entry cpsr = (s1, .done (a', .resumed n))) :
    ((∀ t, s.threads[n]? = some t → t.mutexes = []) →
      ∃ s2, thread_state_free s1 cpu = (s2, .done ())) ∧
    (∀ s2, thread_state_free s1 cpu = (s2, .done ()) →
      ∃ (t1 t2 : thread_ctx), s1.threads[n]? = some t1 ∧ s2.threads[n]? = some t2 ∧
        t2.state = THREAD_STATE_FREE ∧ curr_thread_of s2 cpu = some (-1) ∧
        t2.flags = 0 ∧ t2.regs = t1.regs ∧ t2.regs ≠ zero_regs ∧
        t2.regs.r0 = args.a0 ∧ t2.regs.r1 = args.a1 ∧ t2.regs.r2 = args.a2 ∧
        t2.regs.r3 = args.a3 ∧ t2.regs.r4 = args.a4 ∧ t2.regs.r5 = args.a5 ∧
        t2.regs.r6 = args.a6 ∧ t2.regs.r7 = args.a7 ∧
        t2.regs.svc_sp = t2.stack_va_end ∧ t2.regs.pc = entry) := by
  obtain ⟨hidle, t0, hn, -, -, hs1⟩ := thread_alloc_and_run_resumed h1
  have hcur : curr_thread_of s1 cpu = some (n : Int) := by
    rw [hs1, curr_thread_of_set]; simp [hidle]
  have hslot : s1.threads[n]? = some (alloc_slot t0 args entry cpsr) := by
    rw [hs1]; simp [getElem?_upd_thread, hn]
  have hat : thread_at s1 (n : Int) = some (alloc_slot t0 args entry cpsr) := by
    rw [thread_at_natCast, hslot]
  have hfree : ∀ (hm : t0.mutexes = []), thread_state_free s1 cpu =
      ({ s1 with
          threads := upd_thread s1.threads n
            (fun t => { t with state := THREAD_STATE_FREE, flags := 0 })
          thread_core_local := set_curr_thread s1.thread_core_local cpu (-1) },
        .done ()) := by
    intro hm
    have := thread_state_free_ok s1 cpu (n : Int) _ hcur hat rfl hm
    simpa using this
  constructor
  · intro hm
    exact ⟨_, hfree (hm t0 hn)⟩
  · intro s2 h2
    obtain ⟨ct, t, hc, htat, -, hmt⟩ := thread_state_free_done h2
    rw [hcur] at hc
    cases hc
    rw [hat] at htat
    cases htat
    rw [hfree hmt] at h2
    simp only [Prod.mk.injEq, and_true] at h2
    subst h2
    refine ⟨alloc_slot t0 args entry cpsr,
      { alloc_slot t0 args entry cpsr with state := THREAD_STATE_FREE, flags := 0 },
      hslot, ?_, rfl, ?_, rfl, rfl, ?_, rfl, rfl, rfl, rfl, rfl, rfl, rfl, rfl, rfl, rfl⟩
    · simp [getElem?_upd_thread, hslot]
    · rw [curr_thread_of_set]; simp [hcur]
    · intro hz
      exact init_regs_cpsr_ne_zero _ args entry cpsr (congrArg thread_ctx_regs.cpsr hz)

theorem C7_alloc_free_round_trip_witness :
    thread_alloc_and_run ex_boot 1 ex_args 0x1001 0x1d3 =
      (ex_run, .done (ex_args, .resumed 1)) ∧
    (∃ s2, thread_state_free ex_run 1 = (s2, .done ())) ∧
    (∀ s2, thread_state_free ex_run 1 = (s2, .done ()) →
      ∃ (t1 t2 : thread_ctx), ex_run.threads[1]? = some t1 ∧ s2.threads[1]? = some t2 ∧
        t2.state = THREAD_STATE_FREE ∧ curr_thread_of s2 1 = some (-1) ∧
        t2.flags = 0 ∧ t2.regs = t1.regs ∧ t2.regs ≠ zero_regs ∧
        t2.regs.r0 = 5 ∧ t2.regs.r1 = 6 ∧ t2.regs.r2 = 7 ∧
        t2.regs.r3 = 8 ∧ t2.regs.r4 = 9 ∧ t2.regs.r5 = 10 ∧
        t2.regs.r6 = 11 ∧ t2.regs.r7 = 12 ∧
        t2.regs.svc_sp = t2.stack_va_end ∧ t2.regs.pc = 0x1001) :=
  have h := C7_alloc_free_round_trip ex_boot ex_run 1 ex_args ex_args 0x1001 0x1d3 1 rfl
  ⟨rfl, h.1 (by
      intro t ht
      have h2 : ex_boot.threads[1]? = some zero_thread := by decide
      rw [h2] at ht
      cases ht
      rfl), h.2⟩

theorem thread_state_free_fail (s : State) (cpu : Nat) :
    (curr_thread_of s cpu = some (-1) → thread_state_free s cpu = (s, .assert_failed)) ∧
    (∀ (ct : Int) (t : thread_ctx), curr_thread_of s cpu = some ct →
      thread_at s ct = some t → t.mutexes ≠ [] →
      thread_state_free s cpu = (s, .assert_failed)) := by
  constructor
  · intro hcur
    obtain ⟨l, hl, hc⟩ := curr_thread_of_eq_some hcur
    unfold thread_state_free
    rw [thread_get_core_local_eq, hl]
    simp [hc]
  · intro ct t hcur ht hm
    obtain ⟨l, hl, hc⟩ := curr_thread_of_eq_some hcur
    have h0 := (thread_at_eq_some ht).1
    have hne : ct ≠ -1 := by omega
    unfold thread_state_free
    rw [thread_get_core_local_eq, hl]
    simp [hc, hne, ht, hm]

/-- C8: thread_state_free stops at a failed assertion, the state unchanged,
when the core has no current thread and when the mutex list of the current
thread is not empty; when the current thread is ACTIVE with an empty mutex
list it runs to its end and the slot is FREE afterwards. -/
theorem C8_state_free_assertions (s : State) (cpu : Nat) :
    (curr_thread_of s cpu = some (-1) → thread_state_free s cpu = (s, .assert_failed)) ∧
    (∀ (ct : Int) (t : thread_ctx), curr_thread_of s cpu = some ct →
      thread_at s ct = some t → t.mutexes ≠ [] →
      thread_state_free s cpu = (s, .assert_failed)) ∧
    (∀ (ct : Int) (t : thread_ctx), curr_thread_of s cpu = some ct →
      thread_at s ct = some t → t.state = THREAD_STATE_ACTIVE → t.mutexes = [] →
      ∃ (s' : State) (t' : thread_ctx), thread_state_free s cpu = (s', .done ()) ∧
        thread_at s' ct = some t' ∧ t'.state = THREAD_STATE_FREE) := by
  refine ⟨(thread_state_free_fail s cpu).1, (thread_state_free_fail s cpu).2, ?_⟩
  intro ct t hcur ht hact hm
  have h0 := (thread_at_eq_some ht).1
  refine ⟨_, { t with state := THREAD_STATE_FREE, flags := 0 },
    thread_state_free_ok s cpu ct t hcur ht hact hm, ?_, rfl⟩
  rw [thread_at_upd]
  simp [Int.toNat_of_nonneg h0, ht]

theorem C8_state_free_assertions_witness :
    thread_state_free ex_boot 1 = (ex_boot, .assert_failed) ∧
    thread_state_free ex_mutex 1 = (ex_mutex, .assert_failed) ∧
    ∃ (s' : State) (t' : thread_ctx), thread_state_free ex_run 1 = (s', .done ()) ∧
      thread_at s' 1 = some t' ∧ t'.state = THREAD_STATE_FREE :=
  have h1 := C8_state_free_assertions ex_boot 1
  have h2 := C8_state_free_assertions ex_mutex 1
  have h3 := C8_state_free_assertions ex_run 1
  ⟨h1.1 (by decide),
    h2.2.1 1 { alloc_slot zero_thread ex_args 0x1001 0x1d3 with mutexes := [64] }
      (by decide) (by decide) (by decide),
    h3.2.2 1 (alloc_slot zero_thread ex_args 0x1001 0x1d3) (by decide) (by decide)
      (by decide) (by decide)⟩

/-- C9: suspend and resume across cores.  In a state where no two cores have
the same current thread, if thread_state_suspend(flags, cpsr, pc) on core A
returns n and thread_resume_from_rpc is then run on a core B that runs no
thread (B may differ from A) with args.a3 = n and args.a7 the hyp_clnt_id of
slot n, then the resume goes through: slot n is ACTIVE, it is the current
thread of B, A runs no thread when A differs from B, no core other than B has
n as its current thread, and the saved pc and cpsr of slot n are the ones
given to the suspend. -/
theorem C9_suspend_resume_cross_core (s s1 : State) (A B : Nat) (flags cpsr pc : Nat)
    (umap : Option Nat) (n : Int) (args : thread_smc_args) (hinv : inv_curr_unique s)
    (h1 : thread_state_suspend s A flags cpsr pc umap = (s1, .done n))
    (hB : curr_thread_of s1 B = some (-1)) (ha3 : (args.a3 : Int) = n)
    (ha7 : ∃ t, thread_at s1 n = some t ∧ args.a7 = t.hyp_clnt_id) :
    ∃ (s2 : State) (t2 : thread_ctx),
      thread_resume_from_rpc s1 B args = (s2, .done (args, .resumed args.a3)) ∧
      thread_at s2 n = some t2 ∧ t2.state = THREAD_STATE_ACTIVE ∧
      curr_thread_of s2 B = some n ∧
      (A ≠ B → curr_thread_of s2 A = some (-1)) ∧
      (∀ D : Nat, D ≠ B → curr_thread_of s2 D ≠ some n) ∧
      t2.regs.pc = pc ∧ t2.regs.cpsr = cpsr := by
  obtain ⟨t, hcur, ht, hact⟩ := thread_state_suspend_done h1
  have h0 := (thread_at_eq_some ht).1
  have hcast : ((n.toNat : Nat) : Int) = n := Int.toNat_of_nonneg h0
  have hn3 : n.toNat = args.a3 := by omega
  rw [thread_state_suspend_ok s A flags cpsr pc umap n t hcur ht hact] at h1
  simp only [Prod.mk.injEq, and_true] at h1
  have hslot : s1.threads[args.a3]? = some (suspend_slot t flags cpsr pc umap) := by
    rw [← h1]
    simp only [getElem?_upd_thread, hn3, if_true]
    rw [← hn3, (thread_at_eq_some ht).2]
    rfl
  have hid : args.a7 = (suspend_slot t flags cpsr pc umap).hyp_clnt_id := by
    obtain ⟨u, hu, hu7⟩ := ha7
    rw [← ha3, thread_at_natCast, hslot] at hu
    cases hu
    exact hu7
  have hA1 : curr_thread_of s1 A = some (-1) := by
    rw [← h1, curr_thread_of_set]; simp [hcur]
  have hother : ∀ D : Nat, D ≠ A → curr_thread_of s1 D = curr_thread_of s D := by
    intro D hD
    rw [← h1, curr_thread_of_set]; simp [hD]
  refine ⟨_, resume_slot (suspend_slot t flags cpsr pc umap) args,
    thread_resume_from_rpc_ok s1 B args _ hB hslot rfl hid, ?_, ?_, ?_, ?_, ?_, ?_, ?_⟩
  · rw [thread_at_upd, ← ha3]
    simp [thread_at_natCast, hslot]
  · unfold resume_slot; split <;> rfl
  · rw [curr_thread_of_set, ha3]; simp [hB]
  · intro hAB
    rw [curr_thread_of_set]
    simp [hAB, hA1]
  · intro D hD
    rw [curr_thread_of_set]
    simp only [hD, if_false]
    by_cases hDA : D = A
    · rw [hDA, hA1]
      intro e
      cases e
      omega
    · rw [hother D hDA]
      intro e
      exact hDA (hinv D A n e hcur (by omega))
  · unfold resume_slot; split <;> rfl
  · unfold resume_slot; split <;> rfl

theorem ex_cross_unique : inv_curr_unique ex_cross := by
  intro c1 c2 i h1 h2 hi
  have key : ∀ c : Nat, curr_thread_of ex_cross c = some i → c = 0 := by
    intro c hc
    match c, hc with
    | 0, _ => rfl
    | 1, hc => exact absurd (Option.some.inj hc).symm hi
    | 2, hc => exact absurd (Option.some.inj hc).symm hi
    | (k + 3), hc => exact absurd hc (by simp [curr_thread_of, ex_cross])
  rw [key c1 h1, key c2 h2]

theorem C9_suspend_resume_cross_core_witness :
    ∃ (s2 : State) (t2 : thread_ctx),
      thread_resume_from_rpc (thread_state_suspend ex_cross 0 1 0x1d3 0x2000 none).1 1
          ⟨21, 22, 23, 2, 25, 26, 27, 7⟩ =
        (s2, .done (⟨21, 22, 23, 2, 25, 26, 27, 7⟩, .resumed 2)) ∧
      thread_at s2 2 = some t2 ∧ t2.state = THREAD_STATE_ACTIVE ∧
      curr_thread_of s2 1 = some 2 ∧
      ((0 : Nat) ≠ 1 → curr_thread_of s2 0 = some (-1)) ∧
      (∀ D : Nat, D ≠ 1 → curr_thread_of s2 D ≠ some 2) ∧
      t2.regs.pc = 0x2000 ∧ t2.regs.cpsr = 0x1d3 :=
  C9_suspend_resume_cross_core ex_cross
    (thread_state_suspend ex_cross 0 1 0x1d3 0x2000 none).1 0 1 1 0x1d3 0x2000 none 2
    ⟨21, 22, 23, 2, 25, 26, 27, 7⟩ ex_cross_unique rfl (by decide) rfl
    ⟨suspend_slot { zero_thread with state := THREAD_STATE_ACTIVE, hyp_clnt_id := 7 }
      1 0x1d3 0x2000 none, by decide, rfl⟩

/-- C10: in every reachable state of a system with C cores and N slots the
number of ACTIVE slots is at most min(C, N). -/
theorem C10_active_slots_bound (s : State) (h : Reachable s) :
    num_active s ≤ min (CFG_TEE_CORE_NB_CORE s) (CFG_NUM_THREADS s) :=
  num_active_le_of_inv (reachable_table_inv h)

theorem C10_active_slots_bound_witness :
    Reachable ex_run ∧ num_active ex_run = 2 ∧
      num_active ex_run ≤ min (CFG_TEE_CORE_NB_CORE ex_run) (CFG_NUM_THREADS ex_run) :=
  ⟨ex_run_reachable, by decide, C10_active_slots_bound ex_run ex_run_reachable⟩

theorem excp_field_testBit (i : Nat) :
    (THREAD_EXCP_ALL <<< CPSR_F_SHIFT).testBit i = decide (6 ≤ i ∧ i < 9) := by
  have h7 : THREAD_EXCP_ALL = 2 ^ 3 - 1 := by decide
  rw [Nat.testBit_shiftLeft, h7, Nat.testBit_two_pow_sub_one]
  simp only [CPSR_F_SHIFT, ge_iff_le]
  by_cases h : 6 ≤ i
  · have : (i - 6 < 3) ↔ i < 9 := by omega
    simp [h, this]
  · simp [h]

theorem excp_all_testBit (i : Nat) : THREAD_EXCP_ALL.testBit i = decide (i < 3) := by
  have h7 : THREAD_EXCP_ALL = 2 ^ 3 - 1 := by decide
  rw [h7, Nat.testBit_two_pow_sub_one]

theorem not32_field_testBit (j : Nat) :
    (not32 (THREAD_EXCP_ALL <<< CPSR_F_SHIFT)).testBit j =
      (decide (j < 32) && !decide (6 ≤ j ∧ j < 9)) := by
  unfold not32
  have : (0xFFFFFFFF : Nat) = 2 ^ 32 - 1 := by norm_num
  rw [Nat.testBit_xor, excp_field_testBit, this, Nat.testBit_two_pow_sub_one]
  by_cases h1 : j < 32 <;> by_cases h2 : 6 ≤ j ∧ j < 9
  · simp [h1, h2]
  · simp [h1, h2]
  · omega
  · simp [h1, h2]

/-- Reading the mask back after the status register has been written. -/
theorem get_after_write (c e : Nat) :
    ((c &&& not32 (THREAD_EXCP_ALL <<< CPSR_F_SHIFT) |||
        ((e &&& THREAD_EXCP_ALL) <<< CPSR_F_SHIFT)) >>> CPSR_F_SHIFT) &&& THREAD_EXCP_ALL =
      e &&& THREAD_EXCP_ALL := by
  apply Nat.eq_of_testBit_eq
  intro i
  simp only [Nat.testBit_and, Nat.testBit_shiftRight, Nat.testBit_or, Nat.testBit_shiftLeft,
    not32_field_testBit, excp_all_testBit]
  by_cases hi : i < 3
  · have h1 : (6 ≤ CPSR_F_SHIFT + i ∧ CPSR_F_SHIFT + i < 9) := by
      simp only [CPSR_F_SHIFT]; omega
    have h2 : CPSR_F_SHIFT + i ≥ CPSR_F_SHIFT := by omega
    simp [hi, h1, h2]
  · simp [hi]

/-- Writing the mask leaves the bits outside the mask field as they are. -/
theorem write_outside (c e j : Nat) (hj : j < 32) (hout : ¬ (6 ≤ j ∧ j < 9)) :
    (c &&& not32 (THREAD_EXCP_ALL <<< CPSR_F_SHIFT) |||
        ((e &&& THREAD_EXCP_ALL) <<< CPSR_F_SHIFT)).testBit j = c.testBit j := by
  simp only [Nat.testBit_and, Nat.testBit_or, Nat.testBit_shiftLeft, not32_field_testBit,
    excp_all_testBit]
  simp only [CPSR_F_SHIFT]
  by_cases h6 : 6 ≤ j
  · have : ¬ (j - 6 < 3) := by omega
    simp [hj, hout, this]
  · simp [hj, hout, h6]

/-- Writing back the mask that is in force gives back the status register, for
a 32-bit register value. -/
theorem write_same (c : Nat) (hc : c < 2 ^ 32) :
    (c &&& not32 (THREAD_EXCP_ALL <<< CPSR_F_SHIFT) |||
        ((((c >>> CPSR_F_SHIFT) &&& THREAD_EXCP_ALL) &&& THREAD_EXCP_ALL) <<< CPSR_F_SHIFT)) = c := by
  apply Nat.eq_of_testBit_eq
  intro j
  by_cases hj : j < 32
  · by_cases hin : 6 ≤ j ∧ j < 9
    · simp only [Nat.testBit_and, Nat.testBit_or, Nat.testBit_shiftLeft,
        Nat.testBit_shiftRight, not32_field_testBit, excp_all_testBit]
      simp only [CPSR_F_SHIFT]
      have h3 : j - 6 < 3 := by omega
      have h6 : 6 + (j - 6) = j := by omega
      simp [hj, hin, h3, h6]
    · exact write_outside c _ j hj hin
  · have hz : c.testBit j = false := by
      apply Nat.testBit_lt_two_pow
      calc c < 2 ^ 32 := hc
        _ ≤ 2 ^ j := Nat.pow_le_pow_right (by norm_num) (by omega)
    simp only [Nat.testBit_and, Nat.testBit_or, Nat.testBit_shiftLeft,
      Nat.testBit_shiftRight, not32_field_testBit, excp_all_testBit, hz]
    simp only [CPSR_F_SHIFT]
    have : ¬ (j - 6 < 3) := by omega
    simp [hj, this]

theorem and_all_and_irq (x : Nat) :
    (x &&& THREAD_EXCP_ALL) &&& THREAD_EXCP_IRQ = x &&& THREAD_EXCP_IRQ := by
  rw [Nat.and_assoc]
  have : THREAD_EXCP_ALL &&& THREAD_EXCP_IRQ = THREAD_EXCP_IRQ := by decide
  rw [this]

theorem get_and_all (hw : core_hw) :
    thread_get_exceptions hw &&& THREAD_EXCP_ALL = thread_get_exceptions hw := by
  unfold thread_get_exceptions
  rw [Nat.and_assoc, Nat.and_self]

theorem or_and_all (x m : Nat) :
    (x &&& THREAD_EXCP_ALL ||| (m &&& THREAD_EXCP_ALL)) &&& THREAD_EXCP_ALL =
      x &&& THREAD_EXCP_ALL ||| (m &&& THREAD_EXCP_ALL) := by
  apply Nat.eq_of_testBit_eq
  intro i
  simp only [Nat.testBit_and, Nat.testBit_or, excp_all_testBit]
  by_cases hi : i < 3 <;> simp [hi]

theorem thread_set_exceptions_ok (hw : core_hw) (e : Nat)
    (h : e &&& THREAD_EXCP_IRQ ≠ 0 ∨ hw.locked_count = 0) :
    thread_set_exceptions hw e = ({ hw with cpsr := cpsr_with hw.cpsr e }, .done ()) := by
  unfold thread_set_exceptions have_no_spinlock cpsr_with
  rcases h with h | h
  · simp [h]
  · simp [h]

theorem thread_set_exceptions_fail (hw : core_hw) (e : Nat)
    (h1 : e &&& THREAD_EXCP_IRQ = 0) (h2 : hw.locked_count ≠ 0) :
    thread_set_exceptions hw e = (hw, .assert_failed) := by
  unfold thread_set_exceptions have_no_spinlock
  simp [h1, h2]

theorem get_cpsr_with (hw : core_hw) (e : Nat) :
    thread_get_exceptions { hw with cpsr := cpsr_with hw.cpsr e } = e &&& THREAD_EXCP_ALL := by
  unfold thread_get_exceptions cpsr_with
  exact get_after_write hw.cpsr e

theorem or_irq_ne_zero (x y : Nat) (h : x &&& THREAD_EXCP_IRQ ≠ 0) :
    (x ||| y) &&& THREAD_EXCP_IRQ ≠ 0 := by
  intro h0
  apply h
  apply Nat.eq_of_testBit_eq
  intro i
  have := congrArg (fun z => Nat.testBit z i) h0
  simp only [Nat.testBit_and, Nat.testBit_or, Nat.zero_testBit] at this ⊢
  cases hx : x.testBit i <;> cases hq : THREAD_EXCP_IRQ.testBit i <;> simp_all

theorem excp_field_and_all (e j : Nat) :
    (decide (j ≥ CPSR_F_SHIFT) && (e &&& THREAD_EXCP_ALL).testBit (j - CPSR_F_SHIFT)) =
      (decide (6 ≤ j ∧ j < 9) && e.testBit (j - 6)) := by
  rw [Nat.testBit_and, excp_all_testBit]
  simp only [CPSR_F_SHIFT, ge_iff_le]
  by_cases h6 : 6 ≤ j
  · by_cases h9 : j < 9
    · have : j - 6 < 3 := by omega
      simp [h6, h9, this]
    · have : ¬ (j - 6 < 3) := by omega
      simp [h6, h9, this]
  · simp [h6]

theorem cpsr_with_cpsr_with (c e1 e2 : Nat) :
    cpsr_with (cpsr_with c e1) e2 = cpsr_with c e2 := by
  apply Nat.eq_of_testBit_eq
  intro j
  unfold cpsr_with
  rw [Nat.testBit_or, Nat.testBit_or (c &&& _)]
  congr 1
  rw [Nat.testBit_and, Nat.testBit_and c, Nat.testBit_or, Nat.testBit_and c,
    Nat.testBit_shiftLeft, not32_field_testBit, excp_field_and_all e1 j]
  by_cases hj : j < 32 <;> by_cases hin : 6 ≤ j ∧ j < 9 <;> simp [hj, hin, CPSR_F_SHIFT]

theorem cpsr_with_get (c : Nat) (hc : c < 2 ^ 32) :
    cpsr_with c ((c >>> CPSR_F_SHIFT) &&& THREAD_EXCP_ALL) = c := by
  unfold cpsr_with
  exact write_same c hc

/-- C12: for every 32-bit status register value and every mask m, on a core
that does not hold a spinlock with IRQ unmasked, prev =
thread_mask_exceptions(m) followed by thread_unmask_exceptions(prev) restores
the exception mask and the whole status register; prev is the mask in force
before the call, between the two calls the mask is prev | (m &
THREAD_EXCP_ALL), and the bits of the status register outside the mask field
are never changed. -/
theorem C12_mask_unmask_round_trip (hw : core_hw) (m : Nat) (hc : hw.cpsr < 2 ^ 32)
    (hlock : hw.locked_count = 0 ∨ thread_get_exceptions hw &&& THREAD_EXCP_IRQ ≠ 0) :
    ∃ (hw1 hw2 : core_hw),
      thread_mask_exceptions hw m = (hw1, .done (thread_get_exceptions hw)) ∧
      thread_get_exceptions hw1 = thread_get_exceptions hw ||| (m &&& THREAD_EXCP_ALL) ∧
      (∀ j : Nat, j < 32 → (THREAD_EXCP_ALL <<< CPSR_F_SHIFT).testBit j = false →
        hw1.cpsr.testBit j = hw.cpsr.testBit j) ∧
      thread_unmask_exceptions hw1 (thread_get_exceptions hw) = (hw2, .done ()) ∧
      thread_get_exceptions hw2 = thread_get_exceptions hw ∧
      hw2 = hw := by
  have hset1 := thread_set_exceptions_ok hw
      (thread_get_exceptions hw ||| (m &&& THREAD_EXCP_ALL))
      (by
        rcases hlock with h | h
        · exact Or.inr h
        · exact Or.inl (or_irq_ne_zero _ _ h))
  have hset2 := thread_set_exceptions_ok
      { hw with
        cpsr := cpsr_with hw.cpsr (thread_get_exceptions hw ||| (m &&& THREAD_EXCP_ALL)) }
      (thread_get_exceptions hw &&& THREAD_EXCP_ALL)
      (by
        rcases hlock with h | h
        · exact Or.inr h
        · left; rw [and_all_and_irq]; exact h)
  have hback : cpsr_with (cpsr_with hw.cpsr
      (thread_get_exceptions hw ||| (m &&& THREAD_EXCP_ALL)))
      (thread_get_exceptions hw &&& THREAD_EXCP_ALL) = hw.cpsr := by
    rw [cpsr_with_cpsr_with, get_and_all]
    exact cpsr_with_get hw.cpsr hc
  refine ⟨{ hw with
      cpsr := cpsr_with hw.cpsr (thread_get_exceptions hw ||| (m &&& THREAD_EXCP_ALL)) },
    hw, ?_, ?_, ?_, ?_, rfl, rfl⟩
  · simp only [thread_mask_exceptions, hset1]
  · rw [get_cpsr_with]
    conv_lhs => rw [← get_and_all hw]
    rw [or_and_all, get_and_all]
  · intro j hj hout
    rw [excp_field_testBit] at hout
    exact write_outside _ _ j hj (by simpa using hout)
  · unfold thread_unmask_exceptions
    rw [hset2, hback]

theorem C12_mask_unmask_round_trip_witness :
    ∃ (hw1 hw2 : core_hw),
      thread_mask_exceptions ⟨0x113, 0⟩ 2 = (hw1, .done (thread_get_exceptions ⟨0x113, 0⟩)) ∧
      thread_get_exceptions hw1 =
        thread_get_exceptions ⟨0x113, 0⟩ ||| (2 &&& THREAD_EXCP_ALL) ∧
      (∀ j : Nat, j < 32 → (THREAD_EXCP_ALL <<< CPSR_F_SHIFT).testBit j = false →
        hw1.cpsr.testBit j = (0x113 : Nat).testBit j) ∧
      thread_unmask_exceptions hw1 (thread_get_exceptions ⟨0x113, 0⟩) = (hw2, .done ()) ∧
      thread_get_exceptions hw2 = thread_get_exceptions ⟨0x113, 0⟩ ∧
      hw2 = ⟨0x113, 0⟩ :=
  C12_mask_unmask_round_trip ⟨0x113, 0⟩ 2 (by decide) (Or.inl rfl)

/-- C13: thread_set_exceptions, and so thread_unmask_exceptions, stops at the
no-spinlock assertion without writing the status register whenever the
requested mask has the IRQ bit clear while the core holds a spinlock; a mask
with the IRQ bit set is written whatever the number of held spinlocks, and the
mask read back is the requested one. -/
theorem C13_set_exceptions_spinlock (hw : core_hw) (mask : Nat) :
    (mask &&& THREAD_EXCP_IRQ = 0 → hw.locked_count ≠ 0 →
      thread_set_exceptions hw mask = (hw, .assert_failed) ∧
      thread_unmask_exceptions hw mask = (hw, .assert_failed)) ∧
    (mask &&& THREAD_EXCP_IRQ ≠ 0 →
      thread_set_exceptions hw mask =
        ({ hw with cpsr := hw.cpsr &&& not32 (THREAD_EXCP_ALL <<< CPSR_F_SHIFT) |||
            ((mask &&& THREAD_EXCP_ALL) <<< CPSR_F_SHIFT) }, .done ()) ∧
      thread_get_exceptions (thread_set_exceptions hw mask).1 = mask &&& THREAD_EXCP_ALL ∧
      (thread_unmask_exceptions hw mask).2 = .done ()) := by
  constructor
  · intro h1 h2
    refine ⟨thread_set_exceptions_fail hw mask h1 h2, ?_⟩
    unfold thread_unmask_exceptions
    exact thread_set_exceptions_fail hw _ (by rw [and_all_and_irq]; exact h1) h2
  · intro h
    have hs := thread_set_exceptions_ok hw mask (Or.inl h)
    refine ⟨hs, ?_, ?_⟩
    · rw [hs]; exact get_cpsr_with hw mask
    · unfold thread_unmask_exceptions
      rw [thread_set_exceptions_ok hw _ (Or.inl (by rw [and_all_and_irq]; exact h))]

theorem C13_set_exceptions_spinlock_witness :
    (thread_set_exceptions ⟨0x1d3, 1⟩ 5 = (⟨0x1d3, 1⟩, .assert_failed) ∧
      thread_unmask_exceptions ⟨0x1d3, 1⟩ 5 = (⟨0x1d3, 1⟩, .assert_failed)) ∧
    thread_set_exceptions ⟨0x113, 1⟩ 2 = (⟨0x93, 1⟩, .done ()) :=
  ⟨(C13_set_exceptions_spinlock ⟨0x1d3, 1⟩ 5).1 (by decide) (by decide),
    ((C13_set_exceptions_spinlock ⟨0x113, 1⟩ 2).2 (by decide)).1.trans (by decide)⟩

theorem thread_mask_exceptions_irq (hw : core_hw) :
    thread_mask_exceptions hw THREAD_EXCP_IRQ =
      (irq_masked_hw hw, .done (thread_get_exceptions hw)) := by
  have h : (thread_get_exceptions hw ||| (THREAD_EXCP_IRQ &&& THREAD_EXCP_ALL)) &&&
      THREAD_EXCP_IRQ ≠ 0 := by
    rw [Nat.or_comm]
    apply or_irq_ne_zero
    decide
  simp only [thread_mask_exceptions, thread_set_exceptions_ok hw _ (Or.inl h), irq_masked_hw]

theorem get_irq_masked_hw (hw : core_hw) :
    thread_get_exceptions (irq_masked_hw hw) = thread_get_exceptions hw ||| THREAD_EXCP_IRQ := by
  unfold irq_masked_hw
  rw [get_cpsr_with]
  have h1 : THREAD_EXCP_IRQ &&& THREAD_EXCP_ALL = THREAD_EXCP_IRQ := by decide
  rw [h1]
  conv_lhs => rw [← get_and_all hw, ← h1, or_and_all, get_and_all, h1]

theorem irq_masked_hw_irq (hw : core_hw) :
    thread_get_exceptions (irq_masked_hw hw) &&& THREAD_EXCP_IRQ ≠ 0 := by
  rw [get_irq_masked_hw, Nat.or_comm]
  apply or_irq_ne_zero
  decide

theorem thread_get_core_local_hw_masked (hw : core_hw) (s : State) (cpu : Nat) :
    thread_get_core_local_hw (irq_masked_hw hw) s cpu = thread_get_core_local s cpu := by
  unfold thread_get_core_local_hw
  simp [irq_masked_hw_irq hw]

theorem thread_unmask_exceptions_back (hw : core_hw) (hc : hw.cpsr < 2 ^ 32)
    (hlock : hw.locked_count = 0 ∨ thread_get_exceptions hw &&& THREAD_EXCP_IRQ ≠ 0) :
    thread_unmask_exceptions (irq_masked_hw hw) (thread_get_exceptions hw) = (hw, .done ()) := by
  unfold thread_unmask_exceptions
  rw [thread_set_exceptions_ok]
  · simp only [irq_masked_hw, cpsr_with_cpsr_with, get_and_all]
    have := cpsr_with_get hw.cpsr hc
    unfold thread_get_exceptions
    rw [this]
  · rcases hlock with h | h
    · right; exact h
    · left; rw [and_all_and_irq]; exact h

theorem unlock_lock_global (hw : core_hw) : unlock_global (lock_global hw) = hw := by
  simp [unlock_global, lock_global]

theorem thread_get_id_may_fail_ok (hw : core_hw) (s : State) (cpu : Nat)
    (l : thread_core_local) (hc : hw.cpsr < 2 ^ 32)
    (hlock : hw.locked_count = 0 ∨ thread_get_exceptions hw &&& THREAD_EXCP_IRQ ≠ 0)
    (hl : thread_get_core_local s cpu = some l) :
    thread_get_id_may_fail hw s cpu = (hw, .done l.curr_thread) := by
  simp only [thread_get_id_may_fail, thread_mask_exceptions_irq,
    thread_get_core_local_hw_masked, hl, thread_unmask_exceptions_back hw hc hlock]

theorem thread_enable_prealloc_rpc_cache_ok (hw : core_hw) (s : State)
    (hc : hw.cpsr < 2 ^ 32)
    (hlock : hw.locked_count = 0 ∨ thread_get_exceptions hw &&& THREAD_EXCP_IRQ ≠ 0) :
    thread_enable_prealloc_rpc_cache hw s =
      (hw, (if all_free_loop s.threads = false then s
            else { s with thread_prealloc_rpc_cache := true }),
        .done (all_free_loop s.threads)) := by
  simp only [thread_enable_prealloc_rpc_cache, thread_mask_exceptions_irq,
    unlock_lock_global, thread_unmask_exceptions_back hw hc hlock]
  cases all_free_loop s.threads <;> rfl

theorem thread_disable_prealloc_rpc_cache_ok (hw : core_hw) (s : State) (cookie : Nat)
    (hc : hw.cpsr < 2 ^ 32)
    (hlock : hw.locked_count = 0 ∨ thread_get_exceptions hw &&& THREAD_EXCP_IRQ ≠ 0) :
    thread_disable_prealloc_rpc_cache hw s cookie =
      (hw, (disable_prealloc_out s cookie).1,
        .done ((disable_prealloc_out s cookie).2.1, (disable_prealloc_out s cookie).2.2)) := by
  simp only [thread_disable_prealloc_rpc_cache, thread_mask_exceptions_irq,
    unlock_lock_global, thread_unmask_exceptions_back hw hc hlock, disable_prealloc_out]

theorem not32_irq_and_irq (x : Nat) : (x &&& not32 THREAD_EXCP_IRQ) &&& THREAD_EXCP_IRQ = 0 := by
  rw [Nat.and_assoc]
  have : not32 THREAD_EXCP_IRQ &&& THREAD_EXCP_IRQ = 0 := by decide
  rw [this, Nat.and_zero]

theorem get_and_not32_irq_all (hw : core_hw) :
    (thread_get_exceptions hw &&& not32 THREAD_EXCP_IRQ) &&& THREAD_EXCP_ALL =
      thread_get_exceptions hw &&& not32 THREAD_EXCP_IRQ := by
  rw [Nat.and_assoc, Nat.and_comm (not32 THREAD_EXCP_IRQ), ← Nat.and_assoc, get_and_all]

theorem thread_set_exceptions_unmask_irq (hw : core_hw) (h0 : hw.locked_count = 0) :
    thread_set_exceptions (irq_masked_hw hw)
        (thread_get_exceptions hw &&& not32 THREAD_EXCP_IRQ) =
      (irq_unmasked_hw hw, .done ()) := by
  rw [thread_set_exceptions_ok _ _ (Or.inr (by simpa [irq_masked_hw] using h0))]
  simp only [irq_masked_hw, irq_unmasked_hw, cpsr_with_cpsr_with]

theorem get_irq_unmasked_hw (hw : core_hw) :
    thread_get_exceptions (irq_unmasked_hw hw) =
      thread_get_exceptions hw &&& not32 THREAD_EXCP_IRQ := by
  unfold irq_unmasked_hw
  rw [get_cpsr_with, get_and_not32_irq_all]

theorem thread_set_irq_false (hw : core_hw) (s : State) (cpu : Nat) (l : thread_core_local)
    (t : thread_ctx) (hl : thread_get_core_local s cpu = some l)
    (ht : thread_at s l.curr_thread = some t) :
    thread_set_irq hw s cpu false =
      (irq_masked_hw hw,
        { s with threads := (upd_thread s.threads l.curr_thread.toNat
            (fun t => { t with flags := t.flags &&& not32 THREAD_FLAGS_IRQ_ENABLE })) },
        .done ()) := by
  have hne : l.curr_thread ≠ -1 := by
    have := (thread_at_eq_some ht).1
    omega
  simp [thread_set_irq, thread_mask_exceptions_irq, thread_get_core_local_hw_masked, hl,
    hne, ht]

theorem thread_set_irq_true (hw : core_hw) (s : State) (cpu : Nat) (l : thread_core_local)
    (t : thread_ctx) (hl : thread_get_core_local s cpu = some l)
    (ht : thread_at s l.curr_thread = some t) (h0 : hw.locked_count = 0) :
    thread_set_irq hw s cpu true =
      (irq_unmasked_hw hw,
        { s with threads := (upd_thread s.threads l.curr_thread.toNat
            (fun t => { t with flags := t.flags ||| THREAD_FLAGS_IRQ_ENABLE })) },
        .done ()) := by
  have hne : l.curr_thread ≠ -1 := by
    have := (thread_at_eq_some ht).1
    omega
  simp [thread_set_irq, thread_mask_exceptions_irq, thread_get_core_local_hw_masked, hl,
    hne, ht, thread_set_exceptions_unmask_irq hw h0]

theorem thread_restore_irq_ok (hw : core_hw) (s : State) (cpu : Nat) (l : thread_core_local)
    (t : thread_ctx) (hl : thread_get_core_local s cpu = some l)
    (ht : thread_at s l.curr_thread = some t) :
    (t.flags &&& THREAD_FLAGS_IRQ_ENABLE = 0 →
      thread_restore_irq hw s cpu = (irq_masked_hw hw, .done ())) ∧
    (t.flags &&& THREAD_FLAGS_IRQ_ENABLE ≠ 0 → hw.locked_count = 0 →
      thread_restore_irq hw s cpu = (irq_unmasked_hw hw, .done ())) := by
  have hne : l.curr_thread ≠ -1 := by
    have := (thread_at_eq_some ht).1
    omega
  constructor
  · intro hf
    simp [thread_restore_irq, thread_mask_exceptions_irq, thread_get_core_local_hw_masked, hl,
      hne, ht, hf]
  · intro hf h0
    simp [thread_restore_irq, thread_mask_exceptions_irq, thread_get_core_local_hw_masked, hl,
      hne, ht, hf, thread_set_exceptions_unmask_irq hw h0]

/-- C14 (as stated, refuted): thread_set_irq(true), entered on core 1 of ex_run
with FIQ, IRQ and asynchronous abort masked and no spinlock held, runs to its
end and returns with IRQ unmasked: the exception mask is 5 on return, it was 7
on entry. -/
theorem C14_set_irq_counterexample :
    thread_get_exceptions ⟨0x1d3, 0⟩ = 7 ∧
    (thread_set_irq ⟨0x1d3, 0⟩ ex_run 1 true).2.2 = .done () ∧
    thread_get_exceptions (thread_set_irq ⟨0x1d3, 0⟩ ex_run 1 true).1 = 5 ∧
    ¬ (thread_get_exceptions (thread_set_irq ⟨0x1d3, 0⟩ ex_run 1 true).1 =
        thread_get_exceptions ⟨0x1d3, 0⟩) := by
  decide

/-- C14 (amended): on a core with a 32-bit status register that does not hold
a spinlock with IRQ unmasked, thread_get_id_may_fail, thread_get_id,
thread_enable_prealloc_rpc_cache and thread_disable_prealloc_rpc_cache run to
their end and return with the status register, and so the exception mask, as
it was on entry.  thread_set_irq and thread_restore_irq do not restore the
mask: thread_set_irq(false) returns with IRQ masked, thread_set_irq(true)
returns with IRQ unmasked, thread_restore_irq returns with IRQ unmasked when
THREAD_FLAGS_IRQ_ENABLE is set in the flags of the current thread and with IRQ
masked otherwise; the FIQ and abort bits of the mask are as on entry. -/
theorem C14_exception_mask_across_operations (hw : core_hw) (s : State) (cpu : Nat)
    (l : thread_core_local) (hc : hw.cpsr < 2 ^ 32)
    (hlock : hw.locked_count = 0 ∨ thread_get_exceptions hw &&& THREAD_EXCP_IRQ ≠ 0)
    (hl : thread_get_core_local s cpu = some l) :
    thread_get_id_may_fail hw s cpu = (hw, .done l.curr_thread) ∧
    ((0 ≤ l.curr_thread ∧ l.curr_thread < (CFG_NUM_THREADS s : Int)) →
      thread_get_id hw s cpu = (hw, .done l.curr_thread)) ∧
    (∃ (s' : State) (rv : Bool), thread_enable_prealloc_rpc_cache hw s = (hw, s', .done rv)) ∧
    (∀ cookie : Nat, ∃ (s' : State) (r : Bool × Nat),
      thread_disable_prealloc_rpc_cache hw s cookie = (hw, s', .done r)) ∧
    (∀ t : thread_ctx, thread_at s l.curr_thread = some t →
      (∃ (hw' : core_hw) (s' : State), thread_set_irq hw s cpu false = (hw', s', .done ()) ∧
        thread_get_exceptions hw' = thread_get_exceptions hw ||| THREAD_EXCP_IRQ) ∧
      (hw.locked_count = 0 →
        ∃ (hw' : core_hw) (s' : State), thread_set_irq hw s cpu true = (hw', s', .done ()) ∧
          thread_get_exceptions hw' = thread_get_exceptions hw &&& not32 THREAD_EXCP_IRQ) ∧
      (t.flags &&& THREAD_FLAGS_IRQ_ENABLE = 0 →
        ∃ hw' : core_hw, thread_restore_irq hw s cpu = (hw', .done ()) ∧
          thread_get_exceptions hw' = thread_get_exceptions hw ||| THREAD_EXCP_IRQ) ∧
      (t.flags &&& THREAD_FLAGS_IRQ_ENABLE ≠ 0 → hw.locked_count = 0 →
        ∃ hw' : core_hw, thread_restore_irq hw s cpu = (hw', .done ()) ∧
          thread_get_exceptions hw' =
            thread_get_exceptions hw &&& not32 THREAD_EXCP_IRQ)) := by
  have h1 := thread_get_id_may_fail_ok hw s cpu l hc hlock hl
  refine ⟨h1, ?_, ⟨_, _, thread_enable_prealloc_rpc_cache_ok hw s hc hlock⟩, ?_, ?_⟩
  · intro hr
    simp only [thread_get_id, h1, hr, and_self, if_true]
  · intro cookie
    exact ⟨_, _, thread_disable_prealloc_rpc_cache_ok hw s cookie hc hlock⟩
  · intro t ht
    have hr := thread_restore_irq_ok hw s cpu l t hl ht
    refine ⟨⟨_, _, thread_set_irq_false hw s cpu l t hl ht, get_irq_masked_hw hw⟩, ?_, ?_, ?_⟩
    · intro h0
      exact ⟨_, _, thread_set_irq_true hw s cpu l t hl ht h0, get_irq_unmasked_hw hw⟩
    · intro hf
      exact ⟨_, hr.1 hf, get_irq_masked_hw hw⟩
    · intro hf h0
      exact ⟨_, hr.2 hf h0, get_irq_unmasked_hw hw⟩

theorem C14_exception_mask_across_operations_witness :
    thread_get_id_may_fail ⟨0x113, 0⟩ ex_run 1 = (⟨0x113, 0⟩, .done 1) ∧
    thread_get_id ⟨0x113, 0⟩ ex_run 1 = (⟨0x113, 0⟩, .done 1) ∧
    (∃ (s' : State) (rv : Bool),
      thread_enable_prealloc_rpc_cache ⟨0x113, 0⟩ ex_run = (⟨0x113, 0⟩, s', .done rv)) ∧
    (∃ (s' : State) (r : Bool × Nat),
      thread_disable_prealloc_rpc_cache ⟨0x113, 0⟩ ex_run 9 = (⟨0x113, 0⟩, s', .done r)) ∧
    (∃ (hw' : core_hw) (s' : State),
      thread_set_irq ⟨0x113, 0⟩ ex_run 1 true = (hw', s', .done ()) ∧
        thread_get_exceptions hw' =
          thread_get_exceptions ⟨0x113, 0⟩ &&& not32 THREAD_EXCP_IRQ) :=
  have h := C14_exception_mask_across_operations ⟨0x113, 0⟩ ex_run 1
    { zero_core with curr_thread := 1 } (by decide) (Or.inl rfl) (by decide)
  ⟨h.1, h.2.1 (by decide), h.2.2.1, h.2.2.2.1 9,
    (h.2.2.2.2 (alloc_slot zero_thread ex_args 0x1001 0x1d3) (by decide)).2.1 rfl⟩

theorem mem_upd_thread {ts : List thread_ctx} {n : Nat} {f : thread_ctx → thread_ctx}
    {u : thread_ctx} (h : u ∈ upd_thread ts n f) :
    u ∈ ts ∨ ∃ t, ts[n]? = some t ∧ u = f t := by
  obtain ⟨m, hm⟩ := List.mem_iff_getElem?.mp h
  rw [getElem?_upd_thread] at hm
  by_cases hmn : m = n
  · simp only [hmn, if_true] at hm
    cases ht : ts[n]? with
    | none => simp [ht] at hm
    | some t =>
      right
      simp only [ht, Option.map_some', Option.some.injEq] at hm
      exact ⟨t, rfl, hm.symm⟩
  · simp only [hmn, if_false] at hm
    exact Or.inl (List.mem_iff_getElem?.mpr ⟨m, hm⟩)

theorem table_inv_transfer {s s' : State}
    (hc : s'.thread_core_local = s.thread_core_local)
    (hst : ∀ m : Nat, (s'.threads[m]?).map (fun t => t.state) =
      (s.threads[m]?).map (fun t => t.state))
    (h : table_inv s) : table_inv s' := by
  obtain ⟨h1, h2, h3⟩ := h
  have hcur : ∀ c, curr_thread_of s' c = curr_thread_of s c := by
    intro c; simp [curr_thread_of, hc]
  refine ⟨?_, ?_, ?_⟩
  · intro c i hci hi
    rw [hcur] at hci
    obtain ⟨t, ht, ha⟩ := h1 c i hci hi
    obtain ⟨h0, hget⟩ := thread_at_eq_some ht
    have := hst i.toNat
    rw [hget] at this
    cases hx : s'.threads[i.toNat]? with
    | none => simp [hx] at this
    | some x =>
      simp only [hx, Option.map_some', Option.some.injEq] at this
      exact ⟨x, by simp [thread_at, h0, hx], by rw [this, ha]⟩
  · intro c1 c2 i hc1 hc2 hi
    rw [hcur] at hc1 hc2
    exact h2 c1 c2 i hc1 hc2 hi
  · intro n t hn ha
    have := hst n
    rw [hn] at this
    cases hx : s.threads[n]? with
    | none => simp [hx] at this
    | some x =>
      simp only [hx, Option.map_some', Option.some.injEq] at this
      obtain ⟨c, hc'⟩ := h3 n x hx (by rw [← this, ha])
      exact ⟨c, by rw [hcur]; exact hc'⟩

theorem table_inv_upd_same_state {s : State} (n : Nat) (f : thread_ctx → thread_ctx)
    (hf : ∀ t, (f t).state = t.state) (h : table_inv s) :
    table_inv { s with threads := upd_thread s.threads n f } := by
  refine table_inv_transfer (s := s) rfl ?_ h
  intro m
  simp only [getElem?_upd_thread]
  by_cases hm : m = n
  · simp only [hm, if_true]
    cases s.threads[n]? <;> simp [hf]
  · simp [hm]

/-- The two facts on FREE slots are kept by an assignment to one slot that
respects them. -/
theorem free_facts_upd {s : State} (n : Nat) (f : thread_ctx → thread_ctx)
    (ls : List thread_core_local)
    (hmx : ∀ t, s.threads[n]? = some t → (f t).state = THREAD_STATE_FREE →
      (f t).mutexes = [] ∨ (t.state = THREAD_STATE_FREE ∧ (f t).mutexes = t.mutexes))
    (hrpc : s.thread_prealloc_rpc_cache = false →
      ∀ t, s.threads[n]? = some t → t.rpc_arg = 0 → (f t).rpc_arg = 0)
    (h : free_no_mutex s ∧ no_cache_when_off s) :
    free_no_mutex { s with threads := upd_thread s.threads n f, thread_core_local := ls } ∧
    no_cache_when_off
      { s with threads := upd_thread s.threads n f, thread_core_local := ls } := by
  constructor
  · intro u hu hfree
    rcases mem_upd_thread hu with hmem | ⟨t, ht, rfl⟩
    · exact h.1 u hmem hfree
    · rcases hmx t ht hfree with hx | ⟨hx1, hx2⟩
      · exact hx
      · rw [hx2]
        exact h.1 t (List.mem_iff_getElem?.mpr ⟨n, ht⟩) hx1
  · intro hoff u hu
    rcases mem_upd_thread hu with hmem | ⟨t, ht, rfl⟩
    · exact h.2 hoff u hmem
    · exact hrpc hoff t ht (h.2 hoff t (List.mem_iff_getElem?.mpr ⟨n, ht⟩))

theorem free_facts_slot_step {s s' : State} (hstep : slot_step s s')
    (h : free_no_mutex s ∧ no_cache_when_off s) :
    free_no_mutex s' ∧ no_cache_when_off s' := by
  rcases hstep with rfl | ⟨n, f, ls, rfl, hf⟩
  · exact h
  · exact free_facts_upd n f ls (fun t ht => (hf t ht).1) (fun hoff t ht => (hf t ht).2 hoff) h

theorem slot_step_alloc {s s' : State} {cpu : Nat} {args : thread_smc_args}
    {entry cpsr : Nat} {r : thread_smc_args × smc_exit}
    (h : thread_alloc_and_run s cpu args entry cpsr = (s', .done r)) : slot_step s s' := by
  have hidle := thread_alloc_and_run_done h
  rcases alloc_loop_spec s.threads 0 with ⟨-, -, hfull⟩ | ⟨i, t, -, h2, h3, h4, -⟩
  · have := (thread_alloc_and_run_full s cpu args entry cpsr hfull).1
    rw [h] at this
    exact Or.inl this
  · rw [thread_alloc_and_run_found s cpu args entry cpsr i t hidle h2 h3 h4] at h
    simp only [Prod.mk.injEq] at h
    refine Or.inr ⟨i, _, _, h.1.symm, ?_⟩
    intro u _
    exact ⟨fun hfree => by simp [alloc_slot, init_regs] at hfree, fun _ hu => hu⟩

theorem slot_step_resume {s s' : State} {cpu : Nat} {args : thread_smc_args}
    {r : thread_smc_args × smc_exit}
    (h : thread_resume_from_rpc s cpu args = (s', .done r)) : slot_step s s' := by
  have hidle := thread_resume_from_rpc_done h
  by_cases hgood : ∃ t, s.threads[args.a3]? = some t ∧
      t.state = THREAD_STATE_SUSPENDED ∧ args.a7 = t.hyp_clnt_id
  · obtain ⟨t, h1, h2, h3⟩ := hgood
    rw [thread_resume_from_rpc_ok s cpu args t hidle h1 h2 h3] at h
    simp only [Prod.mk.injEq] at h
    refine Or.inr ⟨args.a3, _, _, h.1.symm, ?_⟩
    intro u _
    constructor
    · intro hfree
      unfold resume_slot at hfree
      split at hfree <;> simp at hfree
    · intro _ hu
      unfold resume_slot
      split <;> exact hu
  · have hbad : ∀ t, s.threads[args.a3]? = some t →
        ¬ (t.state = THREAD_STATE_SUSPENDED ∧ args.a7 = t.hyp_clnt_id) :=
      fun t ht hc => hgood ⟨t, ht, hc.1, hc.2⟩
    have := (thread_resume_from_rpc_bad s cpu args hbad).1
    rw [h] at this
    exact Or.inl this

theorem slot_step_suspend {s s' : State} {cpu : Nat} {flags cpsr pc : Nat}
    {umap : Option Nat} {ct : Int}
    (h : thread_state_suspend s cpu flags cpsr pc umap = (s', .done ct)) : slot_step s s' := by
  obtain ⟨t, hcur, ht, hact⟩ := thread_state_suspend_done h
  rw [thread_state_suspend_ok s cpu flags cpsr pc umap ct t hcur ht hact] at h
  simp only [Prod.mk.injEq] at h
  refine Or.inr ⟨ct.toNat, _, _, h.1.symm, ?_⟩
  intro u _
  exact ⟨fun hfree => by simp [suspend_slot] at hfree, fun _ hu => hu⟩

theorem slot_step_free {s s' : State} {cpu : Nat} {u : Unit}
    (h : thread_state_free s cpu = (s', .done u)) : slot_step s s' := by
  obtain ⟨ct, t, hcur, ht, hact, hm⟩ := thread_state_free_done h
  rw [thread_state_free_ok s cpu ct t hcur ht hact hm] at h
  simp only [Prod.mk.injEq] at h
  refine Or.inr ⟨ct.toNat, _, _, h.1.symm, ?_⟩
  intro v hv
  rw [(thread_at_eq_some ht).2] at hv
  cases hv
  exact ⟨fun _ => Or.inl hm, fun _ hu => hu⟩

theorem thread_clr_boot_thread_mutexes {s s' : State} {cpu : Nat} {u : Unit}
    (h : thread_clr_boot_thread s cpu = (s', .done u)) :
    ∃ ct t, curr_thread_of s cpu = some ct ∧ thread_at s ct = some t ∧ t.mutexes = [] := by
  unfold thread_clr_boot_thread at h
  cases hl : thread_get_core_local s cpu with
  | none => simp [hl] at h
  | some l =>
    simp only [hl] at h
    by_cases hr : 0 ≤ l.curr_thread ∧ l.curr_thread < (CFG_NUM_THREADS s : Int)
    · simp only [hr, and_self, not_true_eq_false, if_false] at h
      cases ht : thread_at s l.curr_thread with
      | none => simp [ht] at h
      | some t =>
        simp only [ht] at h
        by_cases hs : t.state = THREAD_STATE_ACTIVE
        · by_cases hm : t.mutexes = []
          · exact ⟨l.curr_thread, t, curr_thread_of_of_core hl, ht, hm⟩
          · simp [hs, hm] at h
        · simp [hs] at h
    · simp [hr] at h

theorem slot_step_clr {s s' : State} {cpu : Nat} {u : Unit}
    (h : thread_clr_boot_thread s cpu = (s', .done u)) : slot_step s s' := by
  obtain ⟨ct, t, hcur, ht, -, hs'⟩ := thread_clr_boot_thread_done h
  obtain ⟨ct2, t2, hcur2, ht2, hm⟩ := thread_clr_boot_thread_mutexes h
  rw [hcur] at hcur2
  cases hcur2
  rw [ht] at ht2
  cases ht2
  refine Or.inr ⟨ct.toNat, _, _, hs', ?_⟩
  intro v hv
  rw [(thread_at_eq_some ht).2] at hv
  cases hv
  exact ⟨fun _ => Or.inl hm, fun _ hu => hu⟩

/-- An assignment to one slot that keeps its state, and its mutex list when the
slot is FREE, is a slot step and keeps the invariant of the table. -/
theorem same_state_step (s : State) (n : Nat) (f : thread_ctx → thread_ctx)
    (hst : ∀ t, (f t).state = t.state)
    (hmx : ∀ t, s.threads[n]? = some t → t.state = THREAD_STATE_FREE →
      (f t).mutexes = t.mutexes)
    (hrpc : s.thread_prealloc_rpc_cache = false → ∀ t, t.rpc_arg = 0 → (f t).rpc_arg = 0) :
    slot_step s { s with threads := upd_thread s.threads n f } ∧
    (table_inv s → table_inv { s with threads := upd_thread s.threads n f }) := by
  refine ⟨Or.inr ⟨n, f, s.thread_core_local, rfl, ?_⟩, table_inv_upd_same_state n f hst⟩
  intro t ht
  refine ⟨fun hfree => Or.inr ?_, fun hoff h0 => hrpc hoff t h0⟩
  rw [hst] at hfree
  exact ⟨hfree, hmx t ht hfree⟩

theorem step_add_mutex {s s' : State} {cpu : Nat} {m m' : mutex} {u : Unit}
    (h : thread_add_mutex s cpu m = (s', m', .done u)) :
    slot_step s s' ∧ (table_inv s → table_inv s') := by
  unfold thread_add_mutex at h
  cases hl : thread_get_core_local s cpu with
  | none => simp [hl] at h
  | some l =>
    simp only [hl] at h
    by_cases hc : l.curr_thread = -1
    · simp [hc] at h
    · simp only [hc, if_false] at h
      cases ht : thread_at s l.curr_thread with
      | none => simp [ht] at h
      | some t =>
        simp only [ht] at h
        by_cases hs : t.state = THREAD_STATE_ACTIVE
        · by_cases ho : m.owner_id = -1
          · simp only [hs, ho, ne_eq, not_true_eq_false, if_false, Prod.mk.injEq] at h
            rw [← h.1]
            refine same_state_step s _ _ (fun _ => rfl) ?_ (fun _ _ h0 => h0)
            intro v hv hfree
            rw [(thread_at_eq_some ht).2] at hv
            cases hv
            rw [hs] at hfree
            cases hfree
          · simp [hs, ho] at h
        · simp [hs] at h

theorem step_rem_mutex {s s' : State} {cpu : Nat} {m m' : mutex} {u : Unit}
    (h : thread_rem_mutex s cpu m = (s', m', .done u)) :
    slot_step s s' ∧ (table_inv s → table_inv s') := by
  unfold thread_rem_mutex at h
  cases hl : thread_get_core_local s cpu with
  | none => simp [hl] at h
  | some l =>
    simp only [hl] at h
    by_cases hc : l.curr_thread = -1
    · simp [hc] at h
    · simp only [hc, if_false] at h
      cases ht : thread_at s l.curr_thread with
      | none => simp [ht] at h
      | some t =>
        simp only [ht] at h
        by_cases hs : t.state = THREAD_STATE_ACTIVE
        · by_cases ho : m.owner_id = l.curr_thread
          · simp only [hs, ho, ne_eq, not_true_eq_false, if_false, Prod.mk.injEq] at h
            rw [← h.1]
            refine same_state_step s _ _ (fun _ => rfl) ?_ (fun _ _ h0 => h0)
            intro v hv hfree
            rw [(thread_at_eq_some ht).2] at hv
            cases hv
            rw [hs] at hfree
            cases hfree
          · simp [hs, ho] at h
        · simp [hs] at h

theorem same_state_step_twice (s : State) (n : Nat) (f g : thread_ctx → thread_ctx)
    (hst : ∀ t, (g (f t)).state = t.state)
    (hmx : ∀ t, (g (f t)).mutexes = t.mutexes)
    (hrpc : s.thread_prealloc_rpc_cache = false → ∀ t, t.rpc_arg = 0 → (g (f t)).rpc_arg = 0) :
    slot_step s { s with threads := upd_thread (upd_thread s.threads n f) n g } ∧
    (table_inv s →
      table_inv { s with threads := upd_thread (upd_thread s.threads n f) n g }) := by
  rw [upd_thread_upd_thread]
  exact same_state_step s n _ hst (fun t _ _ => hmx t) hrpc

theorem step_std_smc_entry {env : mem_env} {s s' : State} {cpu : Nat}
    {args : thread_smc_args} {reply : Nat × Nat} {handler : thread_smc_args → thread_smc_args}
    {r : Ret entry_result}
    (h : __thread_std_smc_entry env s cpu args reply handler = (s', r)) :
    slot_step s s' ∧ (table_inv s → table_inv s') := by
  unfold __thread_std_smc_entry at h
  cases hid : thread_id_of s cpu with
  | assert_failed =>
    simp only [hid, Prod.mk.injEq] at h
    rw [← h.1]; exact ⟨Or.inl rfl, id⟩
  | out_of_bounds =>
    simp only [hid, Prod.mk.injEq] at h
    rw [← h.1]; exact ⟨Or.inl rfl, id⟩
  | done n =>
    simp only [hid] at h
    cases hthr : s.threads[n]? with
    | none =>
      simp only [hthr, Prod.mk.injEq] at h
      rw [← h.1]; exact ⟨Or.inl rfl, id⟩
    | some thr =>
      simp only [hthr] at h
      split at h
      · simp only [Prod.mk.injEq] at h
        rw [← h.1]; exact ⟨Or.inl rfl, id⟩
      · by_cases hoff : s.thread_prealloc_rpc_cache = false
        · rw [if_pos hoff] at h
          simp only [Prod.mk.injEq] at h
          rw [← h.1]
          by_cases h0 : thr.rpc_arg = 0
          · simp only [h0, if_true, upd_thread_upd_thread]
            exact same_state_step s n _ (fun _ => rfl) (fun _ _ _ => rfl) (fun _ _ _ => rfl)
          · simp only [h0, if_false, upd_thread_upd_thread]
            exact same_state_step s n _ (fun _ => rfl) (fun _ _ _ => rfl) (fun _ _ _ => rfl)
        · rw [if_neg hoff] at h
          simp only [Prod.mk.injEq] at h
          rw [← h.1]
          by_cases h0 : thr.rpc_arg = 0
          · simp only [h0, if_true, upd_thread_upd_thread]
            exact same_state_step s n _ (fun _ => rfl) (fun _ _ _ => rfl)
              (fun hx => absurd hx hoff)
          · simp only [h0, if_false]
            exact ⟨Or.inl rfl, id⟩

theorem step_set_irq {hw hw' : core_hw} {s s' : State} {cpu : Nat} {enable : Bool}
    {r : Ret Unit} (h : thread_set_irq hw s cpu enable = (hw', s', r)) :
    slot_step s s' ∧ (table_inv s → table_inv s') := by
  simp only [thread_set_irq, thread_mask_exceptions_irq] at h
  cases hl : thread_get_core_local_hw (irq_masked_hw hw) s cpu with
  | none =>
    simp only [hl, Prod.mk.injEq] at h
    rw [← h.2.1]; exact ⟨Or.inl rfl, id⟩
  | some l =>
    simp only [hl] at h
    by_cases hc : l.curr_thread = -1
    · simp only [hc, if_true, Prod.mk.injEq] at h
      rw [← h.2.1]; exact ⟨Or.inl rfl, id⟩
    · simp only [hc, if_false] at h
      cases ht : thread_at s l.curr_thread with
      | none =>
        simp only [ht, Prod.mk.injEq] at h
        rw [← h.2.1]; exact ⟨Or.inl rfl, id⟩
      | some t =>
        simp only [ht] at h
        cases enable with
        | true =>
          simp only [if_true, Prod.mk.injEq] at h
          rw [← h.2.1]
          exact same_state_step s _ _ (fun _ => rfl) (fun _ _ _ => rfl) (fun _ _ h0 => h0)
        | false =>
          simp only [Bool.false_eq_true, if_false, Prod.mk.injEq] at h
          rw [← h.2.1]
          exact same_state_step s _ _ (fun _ => rfl) (fun _ _ _ => rfl) (fun _ _ h0 => h0)

/-- What the second loop of thread_disable_prealloc_rpc_cache computes: with
no cached rpc_arg the table is unchanged; otherwise the first slot with a
cached rpc_arg gives its rpc_carg and is cleared. -/
theorem reclaim_loop_spec (ts : List thread_ctx) :
    ((reclaim_loop ts).2 = none ∧ (reclaim_loop ts).1 = ts ∧ ∀ t ∈ ts, t.rpc_arg = 0) ∨
    (∃ (i : Nat) (t : thread_ctx), (reclaim_loop ts).2 = some t.rpc_carg ∧
        ts[i]? = some t ∧ t.rpc_arg ≠ 0 ∧
        (∀ (j : Nat) (u : thread_ctx), j < i → ts[j]? = some u → u.rpc_arg = 0) ∧
        (reclaim_loop ts).1 =
          upd_thread ts i (fun t => { t with rpc_carg := 0, rpc_arg := 0 })) := by
  induction ts with
  | nil => left; simp [reclaim_loop]
  | cons t ts ih =>
    by_cases hf : t.rpc_arg = 0
    · rcases ih with ⟨h1, h2, h3⟩ | ⟨i, t', h1, h2, h3, h4, h5⟩
      · left
        refine ⟨by simp [reclaim_loop, hf, h1], by simp [reclaim_loop, hf, h2], ?_⟩
        intro u hu
        rcases List.mem_cons.mp hu with rfl | hu
        · exact hf
        · exact h3 u hu
      · right
        refine ⟨i + 1, t', by simp [reclaim_loop, hf, h1], by simpa using h2, h3, ?_, ?_⟩
        · intro j u hj hu
          cases j with
          | zero => simp at hu; subst hu; exact hf
          | succ j => exact h4 j u (by omega) (by simpa using hu)
        · simp only [reclaim_loop, hf, ne_eq, not_true_eq_false, if_false, h5]
          simp [upd_thread, h2]
    · right
      refine ⟨0, t, by simp [reclaim_loop, hf], by simp, hf, ?_, ?_⟩
      · intro j u hj; omega
      · simp [reclaim_loop, hf, upd_thread]

theorem thread_enable_prealloc_rpc_cache_state (hw : core_hw) (s : State) :
    (thread_enable_prealloc_rpc_cache hw s).2.1 =
      if all_free_loop s.threads = false then s
      else { s with thread_prealloc_rpc_cache := true } := by
  simp only [thread_enable_prealloc_rpc_cache, thread_mask_exceptions_irq]
  split <;> (split <;> rfl)

theorem thread_disable_prealloc_rpc_cache_state (hw : core_hw) (s : State) (cookie : Nat) :
    (thread_disable_prealloc_rpc_cache hw s cookie).2.1 = (disable_prealloc_out s cookie).1 := by
  simp only [thread_disable_prealloc_rpc_cache, thread_mask_exceptions_irq,
    disable_prealloc_out]
  split <;> rfl

theorem full_inv_flag {s : State} (b : Bool) (h : full_inv s)
    (hb : b = false → ∀ t ∈ s.threads, t.rpc_arg = 0) :
    full_inv { s with thread_prealloc_rpc_cache := b } :=
  ⟨table_inv_transfer (s := s) rfl (fun _ => rfl) h.1, h.2.1, hb⟩

theorem full_inv_slot_step {s s' : State} (h : full_inv s)
    (hstep : slot_step s s' ∧ (table_inv s → table_inv s')) : full_inv s' :=
  ⟨hstep.2 h.1, free_facts_slot_step hstep.1 ⟨h.2.1, h.2.2⟩⟩

theorem full_inv_enable {hw : core_hw} {s : State} (h : full_inv s) :
    full_inv (thread_enable_prealloc_rpc_cache hw s).2.1 := by
  rw [thread_enable_prealloc_rpc_cache_state]
  split
  · exact h
  · exact full_inv_flag true h (fun hb => by cases hb)

theorem full_inv_disable {hw : core_hw} {s : State} {cookie : Nat} (h : full_inv s) :
    full_inv (thread_disable_prealloc_rpc_cache hw s cookie).2.1 := by
  rw [thread_disable_prealloc_rpc_cache_state]
  unfold disable_prealloc_out
  split
  · exact h
  · rcases reclaim_loop_spec s.threads with ⟨h1, h2, h3⟩ | ⟨i, t, h1, h2, h3, h4, h5⟩
    · have hr : reclaim_loop s.threads = (s.threads, none) := Prod.ext h2 h1
      rw [hr]
      exact full_inv_flag false h (fun _ => h3)
    · have hr : reclaim_loop s.threads =
          (upd_thread s.threads i (fun t => { t with rpc_carg := 0, rpc_arg := 0 }),
            some t.rpc_carg) := Prod.ext h5 h1
      rw [hr]
      exact full_inv_slot_step h
        (same_state_step s i _ (fun _ => rfl) (fun _ _ _ => rfl) (fun _ _ _ => rfl))

theorem thread_init_boot_thread_done {s0 s : State} {cpu : Nat} {u : Unit}
    (h : thread_init_boot_thread s0 cpu = (s, .done u)) :
    s.threads = upd_thread (s0.threads.map (fun t => { t with mutexes := [] })) 0
      (fun t => { t with state := THREAD_STATE_ACTIVE }) := by
  unfold thread_init_boot_thread at h
  cases hl : thread_get_core_local s0 cpu with
  | none => simp [hl] at h
  | some l =>
    simp only [hl] at h
    cases h0 : (s0.threads.map (fun t => { t with mutexes := [] }))[0]? with
    | none => simp [h0] at h
    | some t0 =>
      simp only [h0, Prod.mk.injEq, and_true] at h
      rw [← h]

theorem full_inv_boot {s0 s : State} {cpu : Nat} {u : Unit}
    (hfree : ∀ t ∈ s0.threads, t.state = THREAD_STATE_FREE ∧ t.rpc_arg = 0)
    (h : thread_init_boot_thread s0 cpu = (s, .done u)) : full_inv s := by
  have hts := thread_init_boot_thread_done h
  have hmem : ∀ v ∈ s.threads, v.mutexes = [] ∧ v.rpc_arg = 0 := by
    intro v hv
    rw [hts] at hv
    have key : ∀ w ∈ s0.threads.map (fun t => { t with mutexes := [] }),
        w.mutexes = [] ∧ w.rpc_arg = 0 := by
      intro w hw
      obtain ⟨x, hx, rfl⟩ := List.mem_map.mp hw
      exact ⟨rfl, (hfree x hx).2⟩
    rcases mem_upd_thread hv with hv | ⟨t, ht, rfl⟩
    · exact key v hv
    · exact key t (List.mem_iff_getElem?.mpr ⟨0, ht⟩)
  exact ⟨table_inv_boot (fun t ht => (hfree t ht).1) h, fun v hv _ => (hmem v hv).1,
    fun _ v hv => (hmem v hv).2⟩

theorem reachable_full_inv {s : State} (h : ReachableFull s) : full_inv s := by
  induction h with
  | boot s0 s cpu hfree h => exact full_inv_boot hfree h
  | clr s s' cpu _ h ih => exact full_inv_slot_step ih ⟨slot_step_clr h, fun hi => table_inv_clr hi h⟩
  | alloc s s' cpu args entry cpsr r _ h ih =>
    exact full_inv_slot_step ih ⟨slot_step_alloc h, fun hi => table_inv_alloc hi h⟩
  | resume s s' cpu args r _ h ih =>
    exact full_inv_slot_step ih ⟨slot_step_resume h, fun hi => table_inv_resume hi h⟩
  | suspend s s' cpu flags cpsr pc umap ct _ h ih =>
    exact full_inv_slot_step ih ⟨slot_step_suspend h, fun hi => table_inv_suspend hi h⟩
  | free s s' cpu _ h ih =>
    exact full_inv_slot_step ih ⟨slot_step_free h, fun hi => table_inv_free hi h⟩
  | std_entry env s s' cpu args reply handler r _ h ih =>
    exact full_inv_slot_step ih (step_std_smc_entry h)
  | add_mutex s s' cpu m m' _ h ih => exact full_inv_slot_step ih (step_add_mutex h)
  | rem_mutex s s' cpu m m' _ h ih => exact full_inv_slot_step ih (step_rem_mutex h)
  | set_irq hw hw' s s' cpu enable _ h ih => exact full_inv_slot_step ih (step_set_irq h)
  | enable_cache hw hw' s s' rv _ h ih =>
    have := @full_inv_enable hw s ih
    rw [h] at this
    exact this
  | disable_cache hw hw' s s' cookie r _ h ih =>
    have := @full_inv_disable hw s cookie ih
    rw [h] at this
    exact this

theorem ex_cached_free_reachable : ReachableFull ex_cached_free := by
  refine ReachableFull.free ex_cached ex_cached_free 0 ?_ rfl
  refine ReachableFull.std_entry ex_env ex_taken ex_cached 0 ex_args (0x1000, 0x55) id
    ⟨ex_args, [.alloc 96], true⟩ ?_ rfl
  refine ReachableFull.alloc ex_on ex_taken 0 ex_args 0x1001 0x1d3 (ex_args, .resumed 0) ?_ rfl
  refine ReachableFull.enable_cache ⟨0x1d3, 0⟩ ⟨0x1d3, 0⟩ ex_pre ex_on true ?_ rfl
  refine ReachableFull.clr (thread_init_boot_thread (zero_state 1 1) 0).1 ex_pre 0 ?_ rfl
  exact ReachableFull.boot (zero_state 1 1) _ 0 (by decide) rfl

/-- C11 (as stated, refuted): ex_cached_free is reached by boot,
thread_clr_boot_thread, thread_enable_prealloc_rpc_cache,
thread_alloc_and_run, __thread_std_smc_entry (which allocates the argument
buffer and, the preallocation cache being on, keeps it) and
thread_state_free; its slot 0 is FREE and still holds rpc_arg 0x10001000. -/
theorem C11_free_slot_rpc_arg_counterexample :
    ReachableFull ex_cached_free ∧
    ex_cached_free.threads.map (fun t => (t.state, t.rpc_arg, t.rpc_carg)) =
      [(THREAD_STATE_FREE, 0x10001000, 0x55)] ∧
    ¬ (∀ t ∈ ex_cached_free.threads, t.state = THREAD_STATE_FREE → t.rpc_arg = 0) :=
  ⟨ex_cached_free_reachable, by decide, by decide⟩

/-- C11 (amended): in every reachable state every FREE slot has an empty
mutex list and is not the current thread of any core, and its rpc_arg is null
as long as the preallocation cache is off; with the cache on a FREE slot
keeps its cached rpc_arg. -/
theorem C11_free_slot_invariant (s : State) (h : ReachableFull s) :
    ∀ (n : Nat) (t : thread_ctx), s.threads[n]? = some t → t.state = THREAD_STATE_FREE →
      t.mutexes = [] ∧ (∀ c : Nat, curr_thread_of s c ≠ some (n : Int)) ∧
      (s.thread_prealloc_rpc_cache = false → t.rpc_arg = 0) := by
  intro n t hn hfree
  obtain ⟨h1, h2, h3⟩ := reachable_full_inv h
  have hmem : t ∈ s.threads := List.mem_iff_getElem?.mpr ⟨n, hn⟩
  refine ⟨h2 t hmem hfree, ?_, fun hoff => h3 hoff t hmem⟩
  exact ((table_inv_state_curr h1) n t hn).2 (by rw [hfree]; decide)

theorem C11_free_slot_invariant_witness :
    ReachableFull ex_cached_free ∧
    ∀ (n : Nat) (t : thread_ctx), ex_cached_free.threads[n]? = some t →
      t.state = THREAD_STATE_FREE →
      t.mutexes = [] ∧ (∀ c : Nat, curr_thread_of ex_cached_free c ≠ some (n : Int)) ∧
      (ex_cached_free.thread_prealloc_rpc_cache = false → t.rpc_arg = 0) :=
  ⟨ex_cached_free_reachable, C11_free_slot_invariant ex_cached_free ex_cached_free_reachable⟩

/-! ## Standard-call entry (core/arch/arm/tee/entry_std.c) -/

theorem set_mem_param_eq (shm : shm_region) (param : optee_msg_param) (mem : param_mem) :
    set_mem_param shm param mem =
      if shm.pa ≤ param.tmem_buf_ptr ∧
          param.tmem_buf_ptr + checked_size param ≤ shm.pa + shm.size then
        (TEE_SUCCESS, ⟨shm.mobj, param.tmem_size % 2 ^ 32,
          (param.tmem_buf_ptr - shm.pa) % 2 ^ 32⟩)
      else (TEE_ERROR_BAD_PARAMETERS, mem) := by
  have htsz : (if param.tmem_buf_ptr ≠ 0 ∧ to_size_t param.tmem_size = 0 then
      to_size_t (to_size_t param.tmem_size + 1) else to_size_t param.tmem_size) =
      checked_size param := by
    unfold checked_size to_size_t
    split_ifs with h
    · rw [h.2]
      rfl
    · rfl
  unfold set_mem_param core_is_buffer_inside
  simp only []
  rw [htsz]
  by_cases hin : shm.pa ≤ param.tmem_buf_ptr ∧
      param.tmem_buf_ptr + checked_size param ≤ shm.pa + shm.size
  · rw [if_neg (by simp only [decide_eq_false_iff_not, not_not]; exact hin), if_pos hin]
    rfl
  · rw [if_pos (by simp only [decide_eq_false_iff_not]; exact hin), if_neg hin]

theorem set_mem_param_res (shm : shm_region) (param : optee_msg_param) (mem : param_mem) :
    (set_mem_param shm param mem).1 = TEE_SUCCESS ∨
      (set_mem_param shm param mem).1 = TEE_ERROR_BAD_PARAMETERS := by
  rw [set_mem_param_eq]
  split_ifs
  · exact Or.inl rfl
  · exact Or.inr rfl

theorem checked_size_of_lt (param : optee_msg_param) (h : param.tmem_size < 2 ^ 32) :
    checked_size param =
      if param.tmem_buf_ptr ≠ 0 ∧ param.tmem_size = 0 then 1 else param.tmem_size := by
  unfold checked_size
  rw [Nat.mod_eq_of_lt h]

theorem mod_le_checked_size (param : optee_msg_param) :
    param.tmem_size % 2 ^ 32 ≤ checked_size param := by
  unfold checked_size
  split_ifs with h
  · omega
  · exact le_refl _

theorem bad_ne_success : TEE_ERROR_BAD_PARAMETERS ≠ TEE_SUCCESS := by decide

/-- C19 as stated is refuted on the 32-bit target: the region is
[0x1000, 0x2000), the slot has buf_ptr = 0x1000 and size = 2^32 + 0x10, so
buf_ptr + size exceeds b + sz, yet set_mem_param returns TEE_SUCCESS and
mem.size = 0x10 is not the original size. -/
theorem C19_set_mem_param_counterexample :
    (set_mem_param ex_shm ⟨OPTEE_MSG_ATTR_TYPE_TMEM_INPUT, 0x1000, 0x100000010, 0⟩
        ⟨0, 0, 0⟩).1 = TEE_SUCCESS ∧
      0x1000 + 0x100000010 > ex_shm.pa + ex_shm.size ∧
      (set_mem_param ex_shm ⟨OPTEE_MSG_ATTR_TYPE_TMEM_INPUT, 0x1000, 0x100000010, 0⟩
        ⟨0, 0, 0⟩).2.size ≠ 0x100000010 := by
  decide

/-- C19 (amended): set_mem_param, for a registered shared region [b, b + sz)
with sz a size_t, checks the size converted to size_t (checked_size, which is
1 for a non-null buf_ptr whose converted size is 0).  It returns
TEE_ERROR_BAD_PARAMETERS, with mem untouched, whenever buf_ptr < b or
buf_ptr + checked_size exceeds b + sz; for a size that fits size_t this is the
bound on buf_ptr + size, with a non-null buf_ptr of size 0 checked as one byte.
Whenever it returns TEE_SUCCESS, mem.mobj is the region, mem.offs =
buf_ptr - b with b <= buf_ptr, mem.size is the size converted to size_t (the
original size when it fits) and mem.offs + mem.size <= sz. -/
theorem C19_set_mem_param (shm : shm_region) (param : optee_msg_param) (mem : param_mem)
    (hsz : shm.size < 2 ^ 32) :
    ((param.tmem_buf_ptr < shm.pa ∨
        param.tmem_buf_ptr + checked_size param > shm.pa + shm.size) →
      set_mem_param shm param mem = (TEE_ERROR_BAD_PARAMETERS, mem)) ∧
    (param.tmem_size < 2 ^ 32 →
      (param.tmem_buf_ptr < shm.pa ∨
        param.tmem_buf_ptr + param.tmem_size > shm.pa + shm.size ∨
        (param.tmem_buf_ptr ≠ 0 ∧ param.tmem_size = 0 ∧
          param.tmem_buf_ptr + 1 > shm.pa + shm.size)) →
      set_mem_param shm param mem = (TEE_ERROR_BAD_PARAMETERS, mem)) ∧
    ((set_mem_param shm param mem).1 = TEE_SUCCESS →
      (set_mem_param shm param mem).2.mobj = shm.mobj ∧
      shm.pa ≤ param.tmem_buf_ptr ∧
      (set_mem_param shm param mem).2.offs = param.tmem_buf_ptr - shm.pa ∧
      (set_mem_param shm param mem).2.size = param.tmem_size % 2 ^ 32 ∧
      (param.tmem_size < 2 ^ 32 →
        (set_mem_param shm param mem).2.size = param.tmem_size) ∧
      (set_mem_param shm param mem).2.offs + (set_mem_param shm param mem).2.size ≤
        shm.size) := by
  refine ⟨?_, ?_, ?_⟩
  · intro h
    rw [set_mem_param_eq, if_neg]
    rintro ⟨h1, h2⟩
    rcases h with h | h <;> omega
  · intro hfit h
    rw [set_mem_param_eq, if_neg]
    rw [checked_size_of_lt param hfit]
    rintro ⟨h1, h2⟩
    rcases h with h | h | ⟨hn, h0, h⟩
    · omega
    · split_ifs at h2 <;> omega
    · rw [if_pos ⟨hn, h0⟩] at h2
      omega
  · rw [set_mem_param_eq]
    by_cases hin : shm.pa ≤ param.tmem_buf_ptr ∧
        param.tmem_buf_ptr + checked_size param ≤ shm.pa + shm.size
    · rw [if_pos hin]
      intro _
      obtain ⟨h1, h2⟩ := hin
      have hle := mod_le_checked_size param
      have hoffs : (param.tmem_buf_ptr - shm.pa) % 2 ^ 32 = param.tmem_buf_ptr - shm.pa := by
        apply Nat.mod_eq_of_lt
        omega
      refine ⟨rfl, h1, hoffs, rfl, ?_, ?_⟩
      · intro hfit
        exact Nat.mod_eq_of_lt hfit
      · show (param.tmem_buf_ptr - shm.pa) % 2 ^ 32 + param.tmem_size % 2 ^ 32 ≤ shm.size
        rw [hoffs]
        omega
    · rw [if_neg hin]
      intro h
      exact absurd h bad_ne_success

theorem C19_set_mem_param_witness :
    (set_mem_param ex_shm ⟨OPTEE_MSG_ATTR_TYPE_TMEM_INPUT, 0x1800, 0x100, 0⟩ ⟨0, 0, 0⟩).2.offs
      = 0x800 ∧
    (set_mem_param ex_shm ⟨OPTEE_MSG_ATTR_TYPE_TMEM_INPUT, 0x1800, 0x100, 0⟩ ⟨0, 0, 0⟩).2.size
      = 0x100 :=
  have h := (C19_set_mem_param ex_shm ⟨OPTEE_MSG_ATTR_TYPE_TMEM_INPUT, 0x1800, 0x100, 0⟩
    ⟨0, 0, 0⟩ (by decide)).2.2 (by decide)
  ⟨h.2.2.1, h.2.2.2.2.1 (by decide)⟩

theorem type_mask_uint32 (x : Nat) :
    to_uint32 (x &&& OPTEE_MSG_ATTR_TYPE_MASK) = x &&& OPTEE_MSG_ATTR_TYPE_MASK := by
  unfold to_uint32
  apply Nat.mod_eq_of_lt
  have : x &&& OPTEE_MSG_ATTR_TYPE_MASK ≤ OPTEE_MSG_ATTR_TYPE_MASK := Nat.and_le_right
  have h2 : OPTEE_MSG_ATTR_TYPE_MASK = 255 := rfl
  omega

theorem copy_in_loop_res (shm : shm_region) (params : Nat → optee_msg_param) :
    ∀ (k n : Nat) (ta : tee_ta_param) (pt : Nat → Nat),
      (copy_in_loop shm params k n ta pt).1 = TEE_SUCCESS ∨
        (copy_in_loop shm params k n ta pt).1 = TEE_ERROR_BAD_PARAMETERS := by
  intro k
  induction k with
  | zero => intro n ta pt; exact Or.inl rfl
  | succ k ih =>
    intro n ta pt
    unfold copy_in_loop
    simp only []
    split_ifs
    · exact Or.inr rfl
    · exact Or.inr rfl
    · exact ih _ _ _
    · exact ih _ _ _
    · exact set_mem_param_res _ _ _
    · exact ih _ _ _
    · exact Or.inr rfl

theorem copy_in_loop_bad (shm : shm_region) (params : Nat → optee_msg_param) :
    ∀ (k n : Nat) (ta : tee_ta_param) (pt : Nat → Nat),
      (∃ j, n ≤ j ∧ j < n + k ∧ bad_slot (params j)) →
      (copy_in_loop shm params k n ta pt).1 = TEE_ERROR_BAD_PARAMETERS := by
  intro k
  induction k with
  | zero =>
    rintro n ta pt ⟨j, h1, h2, _⟩
    omega
  | succ k ih =>
    rintro n ta pt ⟨j, h1, h2, hb⟩
    have hrest : j ≠ n → ∃ j, n + 1 ≤ j ∧ j < n + 1 + k ∧ bad_slot (params j) :=
      fun hne => ⟨j, by omega, by omega, hb⟩
    have hnot : j = n → False → True := fun _ _ => trivial
    unfold copy_in_loop
    simp only [type_mask_uint32]
    split_ifs with hm hf h0 hv ht hs
    · rfl
    · rfl
    · refine ih _ _ _ (hrest ?_)
      rintro rfl
      rcases hb with hb | hb | hb
      · exact hm hb
      · exact hf hb
      · exact hb (Or.inl h0)
    · refine ih _ _ _ (hrest ?_)
      rintro rfl
      rcases hb with hb | hb | hb
      · exact hm hb
      · exact hf hb
      · rcases hv with hv | hv | hv
        · exact hb (Or.inr (Or.inl hv))
        · exact hb (Or.inr (Or.inr (Or.inl hv)))
        · exact hb (Or.inr (Or.inr (Or.inr (Or.inl hv))))
    · rcases set_mem_param_res shm (params n) (ta.u n).mem with h | h
      · exact absurd h hs
      · exact h
    · refine ih _ _ _ (hrest ?_)
      rintro rfl
      rcases hb with hb | hb | hb
      · exact hm hb
      · exact hf hb
      · rcases ht with ht | ht | ht
        · exact hb (Or.inr (Or.inr (Or.inr (Or.inr (Or.inl ht)))))
        · exact hb (Or.inr (Or.inr (Or.inr (Or.inr (Or.inr (Or.inl ht))))))
        · exact hb (Or.inr (Or.inr (Or.inr (Or.inr (Or.inr (Or.inr ht))))))
    · rfl

theorem copy_in_params_res (shm : shm_region) (params : Nat → optee_msg_param)
    (num_params : Nat) (ta : tee_ta_param) (pt : Nat → Nat) :
    (copy_in_params shm params num_params ta pt).1 = TEE_SUCCESS ∨
      (copy_in_params shm params num_params ta pt).1 = TEE_ERROR_BAD_PARAMETERS := by
  unfold copy_in_params
  simp only []
  split_ifs with h1 h2
  · exact Or.inr rfl
  · rcases copy_in_loop_res shm params num_params 0 zero_ta_param pt with h | h
    · exact absurd h h2
    · exact Or.inr h
  · exact Or.inl rfl

theorem copy_in_params_too_many (shm : shm_region) (params : Nat → optee_msg_param)
    (num_params : Nat) (ta : tee_ta_param) (pt : Nat → Nat)
    (h : num_params > TEE_NUM_PARAMS) :
    copy_in_params shm params num_params ta pt = (TEE_ERROR_BAD_PARAMETERS, ta) := by
  unfold copy_in_params
  rw [if_pos h]

/-- C17: copy_in_params returns TEE_ERROR_BAD_PARAMETERS for every parameter
array with num_params <= 4 in which some slot n < num_params has META or
FRAGMENT set in attr or a type outside NONE, VALUE_INPUT, VALUE_OUTPUT,
VALUE_INOUT, TMEM_INPUT, TMEM_OUTPUT, TMEM_INOUT.  The array is an input of
the function only (const in the source): the result holds the return value and
the output structure, there is no written array to return. -/
theorem C17_copy_in_params_rejects (shm : shm_region) (params : Nat → optee_msg_param)
    (num_params : Nat) (ta_param : tee_ta_param) (pt : Nat → Nat) (n : Nat)
    (hnum : num_params ≤ 4) (hn : n < num_params) (hbad : bad_slot (params n)) :
    (copy_in_params shm params num_params ta_param pt).1 = TEE_ERROR_BAD_PARAMETERS := by
  have hl := copy_in_loop_bad shm params num_params 0 zero_ta_param pt
    ⟨n, Nat.zero_le _, by omega, hbad⟩
  unfold copy_in_params
  rw [if_neg (by unfold TEE_NUM_PARAMS; omega), if_pos (by rw [hl]; exact bad_ne_success)]
  exact hl

theorem C17_copy_in_params_rejects_witness :
    (copy_in_params ex_shm ex_params_bad 3 zero_ta_param (fun _ => 0)).1
      = TEE_ERROR_BAD_PARAMETERS :=
  C17_copy_in_params_rejects ex_shm ex_params_bad 3 zero_ta_param (fun _ => 0) 1
    (by decide) (by decide) (by unfold bad_slot; decide)

theorem copy_out_loop_succ (ta : tee_ta_param) (k n : Nat) (params : Nat → optee_msg_param) :
    copy_out_loop ta (k + 1) n params =
      copy_out_loop ta k (n + 1)
        (fun j => if j = n then out_slot ta n (params n) else params j) := by
  have hp : (fun j => if j = n then params n else params j) = params := by
    funext j
    split_ifs with h
    · rw [h]
    · rfl
  conv_lhs => rw [copy_out_loop]
  simp only []
  unfold out_slot
  split_ifs with h1 h2
  · rfl
  · rfl
  · rw [hp]

theorem copy_out_loop_spec (ta : tee_ta_param) :
    ∀ (k n : Nat) (params : Nat → optee_msg_param) (j : Nat),
      copy_out_loop ta k n params j =
        if n ≤ j ∧ j < n + k then out_slot ta j (params j) else params j := by
  intro k
  induction k with
  | zero =>
    intro n params j
    rw [if_neg (by omega)]
    rfl
  | succ k ih =>
    intro n params j
    rw [copy_out_loop_succ, ih]
    by_cases hj : j = n
    · subst hj
      have h1 : ¬ (j + 1 ≤ j ∧ j < j + 1 + k) := by omega
      have h2 : j ≤ j ∧ j < j + (k + 1) := by omega
      rw [if_neg h1, if_pos h2]
      simp only [if_true]
    · by_cases hin : n + 1 ≤ j ∧ j < n + 1 + k
      · have h2 : n ≤ j ∧ j < n + (k + 1) := by omega
        rw [if_pos hin, if_pos h2]
        simp only [hj, if_false]
      · have h2 : ¬ (n ≤ j ∧ j < n + (k + 1)) := by omega
        rw [if_neg hin, if_neg h2]
        simp only [hj, if_false]

/-- C20: copy_out_param changes, in each slot n < num_params, only these
fields: for type MEMREF_OUTPUT or MEMREF_INOUT only tmem.size, set to
ta_param.u[n].mem.size, while tmem.buf_ptr, tmem.shm_ref and attr are
unchanged; for VALUE_OUTPUT or VALUE_INOUT only value.a and value.b, while
value.c and attr are unchanged; for every other type (NONE and the INPUT
types) the slot is unchanged; the slots n >= num_params are unchanged. -/
theorem C20_copy_out_param_frame (ta_param : tee_ta_param) (num_params : Nat)
    (params : Nat → optee_msg_param) (n : Nat) :
    (num_params ≤ n → copy_out_param ta_param num_params params n = params n) ∧
    (n < num_params →
      ((TEE_PARAM_TYPE_GET ta_param.types n = TEE_PARAM_TYPE_MEMREF_OUTPUT ∨
          TEE_PARAM_TYPE_GET ta_param.types n = TEE_PARAM_TYPE_MEMREF_INOUT) →
        (copy_out_param ta_param num_params params n).tmem_size = (ta_param.u n).mem.size ∧
        (copy_out_param ta_param num_params params n).tmem_buf_ptr = (params n).tmem_buf_ptr ∧
        (copy_out_param ta_param num_params params n).tmem_shm_ref = (params n).tmem_shm_ref ∧
        (copy_out_param ta_param num_params params n).attr = (params n).attr) ∧
      ((TEE_PARAM_TYPE_GET ta_param.types n = TEE_PARAM_TYPE_VALUE_OUTPUT ∨
          TEE_PARAM_TYPE_GET ta_param.types n = TEE_PARAM_TYPE_VALUE_INOUT) →
        (copy_out_param ta_param num_params params n).a = (ta_param.u n).val.a ∧
        (copy_out_param ta_param num_params params n).b = (ta_param.u n).val.b ∧
        (copy_out_param ta_param num_params params n).c = (params n).c ∧
        (copy_out_param ta_param num_params params n).attr = (params n).attr) ∧
      (TEE_PARAM_TYPE_GET ta_param.types n ≠ TEE_PARAM_TYPE_MEMREF_OUTPUT →
        TEE_PARAM_TYPE_GET ta_param.types n ≠ TEE_PARAM_TYPE_MEMREF_INOUT →
        TEE_PARAM_TYPE_GET ta_param.types n ≠ TEE_PARAM_TYPE_VALUE_OUTPUT →
        TEE_PARAM_TYPE_GET ta_param.types n ≠ TEE_PARAM_TYPE_VALUE_INOUT →
        copy_out_param ta_param num_params params n = params n)) := by
  unfold copy_out_param
  rw [copy_out_loop_spec]
  refine ⟨fun h => by rw [if_neg (by omega)], fun h => ?_⟩
  rw [if_pos ⟨Nat.zero_le _, by omega⟩]
  refine ⟨fun hm => ?_, fun hv => ?_, fun h1 h2 h3 h4 => ?_⟩
  · unfold out_slot
    rw [if_pos hm]
    exact ⟨rfl, rfl, rfl, rfl⟩
  · have hnm : ¬ (TEE_PARAM_TYPE_GET ta_param.types n = TEE_PARAM_TYPE_MEMREF_OUTPUT ∨
        TEE_PARAM_TYPE_GET ta_param.types n = TEE_PARAM_TYPE_MEMREF_INOUT) := by
      rintro (h1 | h1) <;> rcases hv with h2 | h2 <;> rw [h1] at h2 <;> exact absurd h2 (by decide)
    unfold out_slot
    rw [if_neg hnm, if_pos hv]
    exact ⟨rfl, rfl, rfl, rfl⟩
  · unfold out_slot
    rw [if_neg (by rintro (h | h); exact h1 h; exact h2 h),
      if_neg (by rintro (h | h); exact h3 h; exact h4 h)]

theorem C20_copy_out_param_frame_witness :
    copy_out_param ex_ta_out 2 ex_params_out 1 = ⟨OPTEE_MSG_ATTR_TYPE_TMEM_OUTPUT, 0x1800, 0x20, 5⟩ ∧
    copy_out_param ex_ta_out 2 ex_params_out 2 = ex_params_out 2 := by
  have h1 := (C20_copy_out_param_frame ex_ta_out 2 ex_params_out 1).2 (by decide)
  have h2 := (C20_copy_out_param_frame ex_ta_out 2 ex_params_out 2).1 (by decide)
  refine ⟨?_, h2⟩
  have h := h1.1 (Or.inl (by decide))
  decide

theorem tee_entry_std_bad_cmd (env : mem_env) (sl : ta_layer) (shm : shm_region)
    (loc : entry_locals) (shmem : Nat → optee_msg_arg) (smc_args : thread_smc_args)
    (h : smc_args.a0 ≠ OPTEE_SMC_CALL_WITH_ARG) :
    tee_entry_std env sl shm loc shmem smc_args =
      ⟨{ smc_args with a0 := OPTEE_SMC_RETURN_EBADCMD }, shmem, []⟩ := by
  unfold tee_entry_std
  rw [if_pos h]

theorem tee_entry_std_bad_addr (env : mem_env) (sl : ta_layer) (shm : shm_region)
    (loc : entry_locals) (shmem : Nat → optee_msg_arg) (smc_args : thread_smc_args)
    (h : smc_args.a0 = OPTEE_SMC_CALL_WITH_ARG) (hv : ¬ arg_verified env shmem smc_args) :
    tee_entry_std env sl shm loc shmem smc_args =
      ⟨{ smc_args with a0 := OPTEE_SMC_RETURN_EBADADDR }, shmem, []⟩ := by
  unfold tee_entry_std
  rw [if_neg (not_not.mpr h)]
  simp only []
  by_cases h1 : env.tee_pbuf_is_non_sec ((smc_args.a1 <<< 32) ||| smc_args.a2)
      (env.arg_size 0) = false ∨
      env.alignment_is_ok ((smc_args.a1 <<< 32) ||| smc_args.a2) = false ∨
      env.phys_to_virt ((smc_args.a1 <<< 32) ||| smc_args.a2) = 0
  · rw [if_pos h1]
  · rw [if_neg h1]
    have h2 : env.tee_pbuf_is_non_sec ((smc_args.a1 <<< 32) ||| smc_args.a2)
        (env.arg_size (shmem (env.phys_to_virt
          ((smc_args.a1 <<< 32) ||| smc_args.a2))).num_params) = false := by
      by_contra hc
      apply hv
      unfold arg_verified
      simp only [not_or, Bool.not_eq_false] at h1
      simp only [Bool.not_eq_false] at hc
      exact ⟨h1.1, h1.2.1, h1.2.2, hc⟩
    rw [if_pos h2]

/-- The switch of tee_entry_std, reached with a verified argument record. -/
theorem tee_entry_std_verified (env : mem_env) (sl : ta_layer) (shm : shm_region)
    (loc : entry_locals) (shmem : Nat → optee_msg_arg) (smc_args : thread_smc_args)
    (h : smc_args.a0 = OPTEE_SMC_CALL_WITH_ARG) (hv : arg_verified env shmem smc_args) :
    tee_entry_std env sl shm loc shmem smc_args =
      let va := env.phys_to_virt ((smc_args.a1 <<< 32) ||| smc_args.a2)
      let arg := arg_of env shmem smc_args
      if arg.cmd = OPTEE_MSG_CMD_OPEN_SESSION then
        let r := entry_open_session sl shm loc smc_args arg arg.num_params
        ⟨r.smc_args, store_arg shmem va r.arg, .thread_set_irq true :: r.trace⟩
      else if arg.cmd = OPTEE_MSG_CMD_CLOSE_SESSION then
        let r := entry_close_session sl smc_args arg arg.num_params
        ⟨r.smc_args, store_arg shmem va r.arg, .thread_set_irq true :: r.trace⟩
      else if arg.cmd = OPTEE_MSG_CMD_INVOKE_COMMAND then
        let r := entry_invoke_command sl shm loc smc_args arg arg.num_params
        ⟨r.smc_args, store_arg shmem va r.arg, .thread_set_irq true :: r.trace⟩
      else if arg.cmd = OPTEE_MSG_CMD_CANCEL then
        let r := entry_cancel sl smc_args arg arg.num_params
        ⟨r.smc_args, store_arg shmem va r.arg, .thread_set_irq true :: r.trace⟩
      else
        ⟨{ smc_args with a0 := OPTEE_SMC_RETURN_EBADCMD }, shmem, [.thread_set_irq true]⟩ := by
  obtain ⟨h1, h2, h3, h4⟩ := hv
  unfold tee_entry_std arg_of
  rw [if_neg (not_not.mpr h)]
  simp only []
  rw [if_neg (by simp only [h1, h2, h3, or_self, not_false_eq_true, Bool.true_eq_false]),
    if_neg (by simp only [h4, Bool.true_eq_false, not_false_eq_true])]

/-- C15: tee_entry_std reaches a command handler only after the physical
address parg = (a1 << 32) | a2 has been verified (header in non-secure memory,
alignment, translation to a virtual address, whole record of
OPTEE_MSG_GET_ARG_SIZE(num_params) bytes in non-secure memory): whenever it
makes any call at all, the call came with OPTEE_SMC_CALL_WITH_ARG and the
argument is verified.  If one of the checks fails, a0 =
OPTEE_SMC_RETURN_EBADADDR, the other SMC arguments are as they were, no call
is made (no command handler, no session-layer function, no thread_set_irq) and
the shared memory is as it was. -/
theorem C15_entry_std_verifies_arg (env : mem_env) (sl : ta_layer) (shm : shm_region)
    (loc : entry_locals) (shmem : Nat → optee_msg_arg) (smc_args : thread_smc_args) :
    (smc_args.a0 = OPTEE_SMC_CALL_WITH_ARG → ¬ arg_verified env shmem smc_args →
      tee_entry_std env sl shm loc shmem smc_args =
        ⟨{ smc_args with a0 := OPTEE_SMC_RETURN_EBADADDR }, shmem, []⟩) ∧
    ((tee_entry_std env sl shm loc shmem smc_args).trace ≠ [] →
      smc_args.a0 = OPTEE_SMC_CALL_WITH_ARG ∧ arg_verified env shmem smc_args) := by
  refine ⟨tee_entry_std_bad_addr env sl shm loc shmem smc_args, fun ht => ?_⟩
  by_cases h : smc_args.a0 = OPTEE_SMC_CALL_WITH_ARG
  · refine ⟨h, ?_⟩
    by_contra hv
    rw [tee_entry_std_bad_addr env sl shm loc shmem smc_args h hv] at ht
    exact ht rfl
  · rw [tee_entry_std_bad_cmd env sl shm loc shmem smc_args h] at ht
    exact absurd rfl ht

theorem C15_entry_std_verifies_arg_witness :
    (tee_entry_std ex_env ex_sl ex_shm ex_locals ex_shmem ex_smc_bad_addr).smc_args.a0
      = OPTEE_SMC_RETURN_EBADADDR ∧
    (tee_entry_std ex_env ex_sl ex_shm ex_locals ex_shmem ex_smc_bad_addr).trace = [] := by
  have h := (C15_entry_std_verifies_arg ex_env ex_sl ex_shm ex_locals ex_shmem
    ex_smc_bad_addr).1 (by decide) (by unfold arg_verified; decide)
  rw [h]
  exact ⟨rfl, rfl⟩

theorem get_open_session_meta_res (num_params : Nat) (params : Nat → optee_msg_param)
    (num_meta : Nat) (uuid : TEE_UUID) (clnt_id : TEE_Identity) :
    ((get_open_session_meta num_params params num_meta uuid clnt_id).1 = TEE_SUCCESS ∧
      (get_open_session_meta num_params params num_meta uuid clnt_id).2.1 = 2 ∧
      2 ≤ num_params) ∨
    (get_open_session_meta num_params params num_meta uuid clnt_id).1 =
      TEE_ERROR_BAD_PARAMETERS := by
  unfold get_open_session_meta
  simp only []
  split_ifs with h1 h2 h3 h4
  · exact Or.inr rfl
  · exact Or.inr rfl
  · exact Or.inl ⟨rfl, rfl, by omega⟩
  · exact Or.inl ⟨rfl, rfl, by omega⟩
  · exact Or.inr rfl

theorem store_arg_same (shmem : Nat → optee_msg_arg) (va : Nat) (arg : optee_msg_arg) :
    store_arg shmem va arg va = arg := by
  unfold store_arg
  rw [if_pos rfl]

theorem store_arg_other (shmem : Nat → optee_msg_arg) (va a : Nat) (arg : optee_msg_arg)
    (h : a ≠ va) : store_arg shmem va arg a = shmem a := by
  unfold store_arg
  rw [if_neg h]

theorem entry_open_session_a0 (sl : ta_layer) (shm : shm_region) (loc : entry_locals)
    (smc_args : thread_smc_args) (arg : optee_msg_arg) (num_params : Nat) :
    (entry_open_session sl shm loc smc_args arg num_params).smc_args =
      { smc_args with a0 := OPTEE_SMC_RETURN_OK } := by
  unfold entry_open_session
  simp only []
  split_ifs <;> rfl

theorem entry_close_session_a0 (sl : ta_layer) (smc_args : thread_smc_args)
    (arg : optee_msg_arg) (num_params : Nat) :
    (entry_close_session sl smc_args arg num_params).smc_args =
      { smc_args with a0 := OPTEE_SMC_RETURN_OK } := by
  unfold entry_close_session
  simp only []
  split_ifs <;> rfl

theorem entry_invoke_command_a0 (sl : ta_layer) (shm : shm_region) (loc : entry_locals)
    (smc_args : thread_smc_args) (arg : optee_msg_arg) (num_params : Nat) :
    (entry_invoke_command sl shm loc smc_args arg num_params).smc_args =
      { smc_args with a0 := OPTEE_SMC_RETURN_OK } := by
  unfold entry_invoke_command
  simp only []
  split_ifs <;> rfl

theorem entry_cancel_a0 (sl : ta_layer) (smc_args : thread_smc_args)
    (arg : optee_msg_arg) (num_params : Nat) :
    (entry_cancel sl smc_args arg num_params).smc_args =
      { smc_args with a0 := OPTEE_SMC_RETURN_OK } := by
  unfold entry_cancel
  simp only []
  split_ifs <;> rfl

/-- The result that entry_open_session reports and its origin. -/
theorem entry_open_session_ret (sl : ta_layer) (shm : shm_region) (loc : entry_locals)
    (smc_args : thread_smc_args) (arg : optee_msg_arg) (num_params : Nat) :
    ((entry_open_session sl shm loc smc_args arg num_params).arg.ret,
      (entry_open_session sl shm loc smc_args arg num_params).arg.ret_origin) =
      if (get_open_session_meta num_params arg.params loc.num_meta loc.uuid loc.clnt_id).1
            ≠ TEE_SUCCESS ∨
          (copy_in_params shm (fun n => arg.params (n + 2)) (num_params - 2)
            loc.param loc.pt).1 ≠ TEE_SUCCESS then
        (TEE_ERROR_BAD_PARAMETERS, TEE_ORIGIN_TEE)
      else
        ((sl.tee_ta_open_session
            (get_open_session_meta num_params arg.params loc.num_meta loc.uuid
              loc.clnt_id).2.2.1
            (get_open_session_meta num_params arg.params loc.num_meta loc.uuid
              loc.clnt_id).2.2.2
            (copy_in_params shm (fun n => arg.params (n + 2)) (num_params - 2)
              loc.param loc.pt).2).res,
          (sl.tee_ta_open_session
            (get_open_session_meta num_params arg.params loc.num_meta loc.uuid
              loc.clnt_id).2.2.1
            (get_open_session_meta num_params arg.params loc.num_meta loc.uuid
              loc.clnt_id).2.2.2
            (copy_in_params shm (fun n => arg.params (n + 2)) (num_params - 2)
              loc.param loc.pt).2).err_orig) := by
  unfold entry_open_session
  simp only []
  rcases get_open_session_meta_res num_params arg.params loc.num_meta loc.uuid loc.clnt_id
    with ⟨hm, hn, _⟩ | hm
  · rw [if_neg (not_not.mpr hm), hn]
    rcases copy_in_params_res shm (fun n => arg.params (n + 2)) (num_params - 2)
      loc.param loc.pt with hc | hc
    · have hc1 : ¬ ((copy_in_params shm (fun n => arg.params (n + 2)) (num_params - 2)
          loc.param loc.pt).1 ≠ TEE_SUCCESS) := not_not.mpr hc
      have hor : ¬ ((get_open_session_meta num_params arg.params loc.num_meta loc.uuid
          loc.clnt_id).1 ≠ TEE_SUCCESS ∨
          (copy_in_params shm (fun n => arg.params (n + 2)) (num_params - 2)
            loc.param loc.pt).1 ≠ TEE_SUCCESS) := by
        rintro (h | h)
        · exact h hm
        · exact h hc
      rw [if_neg hc1, if_neg hor]
    · have hc1 : (copy_in_params shm (fun n => arg.params (n + 2)) (num_params - 2)
          loc.param loc.pt).1 ≠ TEE_SUCCESS := by
        rw [hc]
        exact bad_ne_success
      rw [if_pos hc1, if_pos (Or.inr hc1), hc]
  · have hm1 : (get_open_session_meta num_params arg.params loc.num_meta loc.uuid
        loc.clnt_id).1 ≠ TEE_SUCCESS := by
      rw [hm]
      exact bad_ne_success
    rw [if_pos hm1, if_pos (Or.inl hm1), hm]

/-- The result that entry_invoke_command reports and its origin. -/
theorem entry_invoke_command_ret (sl : ta_layer) (shm : shm_region) (loc : entry_locals)
    (smc_args : thread_smc_args) (arg : optee_msg_arg) (num_params : Nat) :
    ((entry_invoke_command sl shm loc smc_args arg num_params).arg.ret,
      (entry_invoke_command sl shm loc smc_args arg num_params).arg.ret_origin) =
      if (copy_in_params shm arg.params num_params loc.param loc.pt).1 ≠ TEE_SUCCESS ∨
          sl.tee_ta_get_session arg.session true = 0 then
        (TEE_ERROR_BAD_PARAMETERS, TEE_ORIGIN_TEE)
      else
        ((sl.tee_ta_invoke_command (sl.tee_ta_get_session arg.session true) arg.func
            (copy_in_params shm arg.params num_params loc.param loc.pt).2).res,
          (sl.tee_ta_invoke_command (sl.tee_ta_get_session arg.session true) arg.func
            (copy_in_params shm arg.params num_params loc.param loc.pt).2).err_orig) := by
  unfold entry_invoke_command
  simp only []
  rcases copy_in_params_res shm arg.params num_params loc.param loc.pt with hc | hc
  · have hc1 : ¬ ((copy_in_params shm arg.params num_params loc.param loc.pt).1
        ≠ TEE_SUCCESS) := not_not.mpr hc
    rw [if_neg hc1]
    by_cases hs : sl.tee_ta_get_session arg.session true = 0
    · rw [if_pos hs, if_pos (Or.inr hs)]
    · have hor : ¬ ((copy_in_params shm arg.params num_params loc.param loc.pt).1
          ≠ TEE_SUCCESS ∨ sl.tee_ta_get_session arg.session true = 0) := by
        rintro (h | h)
        · exact h hc
        · exact hs h
      rw [if_neg hs, if_neg hor]
  · have hc1 : (copy_in_params shm arg.params num_params loc.param loc.pt).1
        ≠ TEE_SUCCESS := by
      rw [hc]
      exact bad_ne_success
    rw [if_pos hc1, if_pos (Or.inl hc1), hc]

/-- The result that entry_close_session reports and its origin. -/
theorem entry_close_session_ret (sl : ta_layer) (smc_args : thread_smc_args)
    (arg : optee_msg_arg) (num_params : Nat) :
    ((entry_close_session sl smc_args arg num_params).arg.ret,
      (entry_close_session sl smc_args arg num_params).arg.ret_origin) =
      if num_params ≠ 0 then (TEE_ERROR_BAD_PARAMETERS, TEE_ORIGIN_TEE)
      else (sl.tee_ta_close_session arg.session, TEE_ORIGIN_TEE) := by
  unfold entry_close_session
  split_ifs <;> rfl

/-- The result that entry_cancel reports and its origin. -/
theorem entry_cancel_ret (sl : ta_layer) (smc_args : thread_smc_args)
    (arg : optee_msg_arg) (num_params : Nat) :
    ((entry_cancel sl smc_args arg num_params).arg.ret,
      (entry_cancel sl smc_args arg num_params).arg.ret_origin) =
      if num_params ≠ 0 ∨ sl.tee_ta_get_session arg.session false = 0 then
        (TEE_ERROR_BAD_PARAMETERS, TEE_ORIGIN_TEE)
      else sl.tee_ta_cancel_command (sl.tee_ta_get_session arg.session false) := by
  unfold entry_cancel
  simp only []
  by_cases hn : num_params ≠ 0
  · rw [if_pos hn, if_pos (Or.inl hn)]
  · rw [if_neg hn]
    by_cases hs : sl.tee_ta_get_session arg.session false = 0
    · rw [if_pos hs, if_pos (Or.inr hs)]
    · rw [if_neg hs, if_neg (by simp only [not_or]; exact ⟨hn, hs⟩)]

/-- C16: a call with a0 other than OPTEE_SMC_CALL_WITH_ARG returns a0 =
OPTEE_SMC_RETURN_EBADCMD and leaves the shared memory as it was.  For a
validated argument record: if cmd is none of OPEN_SESSION, CLOSE_SESSION,
INVOKE_COMMAND, CANCEL then a0 = OPTEE_SMC_RETURN_EBADCMD and the shared memory
(so arg.ret and arg.ret_origin) is as it was; if cmd is one of the four then
a0 = OPTEE_SMC_RETURN_OK whatever the session layer answers, and arg.ret and
arg.ret_origin hold the result of the command and its origin: what the
session-layer function returned when the handler reached it, and
TEE_ERROR_BAD_PARAMETERS with origin TEE_ORIGIN_TEE when the handler rejected
the request before. -/
theorem C16_entry_std_result (env : mem_env) (sl : ta_layer) (shm : shm_region)
    (loc : entry_locals) (shmem : Nat → optee_msg_arg) (smc_args : thread_smc_args) :
    (smc_args.a0 ≠ OPTEE_SMC_CALL_WITH_ARG →
      tee_entry_std env sl shm loc shmem smc_args =
        ⟨{ smc_args with a0 := OPTEE_SMC_RETURN_EBADCMD }, shmem, []⟩) ∧
    (smc_args.a0 = OPTEE_SMC_CALL_WITH_ARG → arg_verified env shmem smc_args →
      (((arg_of env shmem smc_args).cmd ≠ OPTEE_MSG_CMD_OPEN_SESSION ∧
          (arg_of env shmem smc_args).cmd ≠ OPTEE_MSG_CMD_CLOSE_SESSION ∧
          (arg_of env shmem smc_args).cmd ≠ OPTEE_MSG_CMD_INVOKE_COMMAND ∧
          (arg_of env shmem smc_args).cmd ≠ OPTEE_MSG_CMD_CANCEL) →
        (tee_entry_std env sl shm loc shmem smc_args).smc_args =
          { smc_args with a0 := OPTEE_SMC_RETURN_EBADCMD } ∧
        (tee_entry_std env sl shm loc shmem smc_args).shmem = shmem) ∧
      (((arg_of env shmem smc_args).cmd = OPTEE_MSG_CMD_OPEN_SESSION ∨
          (arg_of env shmem smc_args).cmd = OPTEE_MSG_CMD_CLOSE_SESSION ∨
          (arg_of env shmem smc_args).cmd = OPTEE_MSG_CMD_INVOKE_COMMAND ∨
          (arg_of env shmem smc_args).cmd = OPTEE_MSG_CMD_CANCEL) →
        (tee_entry_std env sl shm loc shmem smc_args).smc_args =
          { smc_args with a0 := OPTEE_SMC_RETURN_OK }) ∧
      ((arg_of env shmem smc_args).cmd = OPTEE_MSG_CMD_OPEN_SESSION →
        (((tee_entry_std env sl shm loc shmem smc_args).shmem (arg_va env smc_args)).ret,
          ((tee_entry_std env sl shm loc shmem smc_args).shmem
            (arg_va env smc_args)).ret_origin) =
          if (get_open_session_meta (arg_of env shmem smc_args).num_params
                (arg_of env shmem smc_args).params loc.num_meta loc.uuid loc.clnt_id).1
                ≠ TEE_SUCCESS ∨
              (copy_in_params shm (fun n => (arg_of env shmem smc_args).params (n + 2))
                ((arg_of env shmem smc_args).num_params - 2) loc.param loc.pt).1
                ≠ TEE_SUCCESS then
            (TEE_ERROR_BAD_PARAMETERS, TEE_ORIGIN_TEE)
          else
            ((sl.tee_ta_open_session
                (get_open_session_meta (arg_of env shmem smc_args).num_params
                  (arg_of env shmem smc_args).params loc.num_meta loc.uuid loc.clnt_id).2.2.1
                (get_open_session_meta (arg_of env shmem smc_args).num_params
                  (arg_of env shmem smc_args).params loc.num_meta loc.uuid loc.clnt_id).2.2.2
                (copy_in_params shm (fun n => (arg_of env shmem smc_args).params (n + 2))
                  ((arg_of env shmem smc_args).num_params - 2) loc.param loc.pt).2).res,
              (sl.tee_ta_open_session
                (get_open_session_meta (arg_of env shmem smc_args).num_params
                  (arg_of env shmem smc_args).params loc.num_meta loc.uuid loc.clnt_id).2.2.1
                (get_open_session_meta (arg_of env shmem smc_args).num_params
                  (arg_of env shmem smc_args).params loc.num_meta loc.uuid loc.clnt_id).2.2.2
                (copy_in_params shm (fun n => (arg_of env shmem smc_args).params (n + 2))
                  ((arg_of env shmem smc_args).num_params - 2) loc.param
                  loc.pt).2).err_orig)) ∧
      ((arg_of env shmem smc_args).cmd = OPTEE_MSG_CMD_CLOSE_SESSION →
        (((tee_entry_std env sl shm loc shmem smc_args).shmem (arg_va env smc_args)).ret,
          ((tee_entry_std env sl shm loc shmem smc_args).shmem
            (arg_va env smc_args)).ret_origin) =
          if (arg_of env shmem smc_args).num_params ≠ 0 then
            (TEE_ERROR_BAD_PARAMETERS, TEE_ORIGIN_TEE)
          else
            (sl.tee_ta_close_session (arg_of env shmem smc_args).session, TEE_ORIGIN_TEE)) ∧
      ((arg_of env shmem smc_args).cmd = OPTEE_MSG_CMD_INVOKE_COMMAND →
        (((tee_entry_std env sl shm loc shmem smc_args).shmem (arg_va env smc_args)).ret,
          ((tee_entry_std env sl shm loc shmem smc_args).shmem
            (arg_va env smc_args)).ret_origin) =
          if (copy_in_params shm (arg_of env shmem smc_args).params
                (arg_of env shmem smc_args).num_params loc.param loc.pt).1 ≠ TEE_SUCCESS ∨
              sl.tee_ta_get_session (arg_of env shmem smc_args).session true = 0 then
            (TEE_ERROR_BAD_PARAMETERS, TEE_ORIGIN_TEE)
          else
            ((sl.tee_ta_invoke_command
                (sl.tee_ta_get_session (arg_of env shmem smc_args).session true)
                (arg_of env shmem smc_args).func
                (copy_in_params shm (arg_of env shmem smc_args).params
                  (arg_of env shmem smc_args).num_params loc.param loc.pt).2).res,
              (sl.tee_ta_invoke_command
                (sl.tee_ta_get_session (arg_of env shmem smc_args).session true)
                (arg_of env shmem smc_args).func
                (copy_in_params shm (arg_of env shmem smc_args).params
                  (arg_of env shmem smc_args).num_params loc.param loc.pt).2).err_orig)) ∧
      ((arg_of env shmem smc_args).cmd = OPTEE_MSG_CMD_CANCEL →
        (((tee_entry_std env sl shm loc shmem smc_args).shmem (arg_va env smc_args)).ret,
          ((tee_entry_std env sl shm loc shmem smc_args).shmem
            (arg_va env smc_args)).ret_origin) =
          if (arg_of env shmem smc_args).num_params ≠ 0 ∨
              sl.tee_ta_get_session (arg_of env shmem smc_args).session false = 0 then
            (TEE_ERROR_BAD_PARAMETERS, TEE_ORIGIN_TEE)
          else
            sl.tee_ta_cancel_command
              (sl.tee_ta_get_session (arg_of env shmem smc_args).session false))) := by
  refine ⟨tee_entry_std_bad_cmd env sl shm loc shmem smc_args, fun h hv => ?_⟩
  rw [tee_entry_std_verified env sl shm loc shmem smc_args h hv]
  simp only []
  have hco : OPTEE_MSG_CMD_CLOSE_SESSION ≠ OPTEE_MSG_CMD_OPEN_SESSION := by decide
  have hio : OPTEE_MSG_CMD_INVOKE_COMMAND ≠ OPTEE_MSG_CMD_OPEN_SESSION := by decide
  have hic : OPTEE_MSG_CMD_INVOKE_COMMAND ≠ OPTEE_MSG_CMD_CLOSE_SESSION := by decide
  have hno : OPTEE_MSG_CMD_CANCEL ≠ OPTEE_MSG_CMD_OPEN_SESSION := by decide
  have hnc : OPTEE_MSG_CMD_CANCEL ≠ OPTEE_MSG_CMD_CLOSE_SESSION := by decide
  have hni : OPTEE_MSG_CMD_CANCEL ≠ OPTEE_MSG_CMD_INVOKE_COMMAND := by decide
  refine ⟨?_, ?_, ?_, ?_, ?_, ?_⟩
  · rintro ⟨h1, h2, h3, h4⟩
    rw [if_neg h1, if_neg h2, if_neg h3, if_neg h4]
    exact ⟨rfl, rfl⟩
  · rintro (hc | hc | hc | hc)
    · rw [if_pos hc]
      exact entry_open_session_a0 _ _ _ _ _ _
    · rw [if_neg (by rw [hc]; exact hco), if_pos hc]
      exact entry_close_session_a0 _ _ _ _
    · rw [if_neg (by rw [hc]; exact hio), if_neg (by rw [hc]; exact hic), if_pos hc]
      exact entry_invoke_command_a0 _ _ _ _ _ _
    · rw [if_neg (by rw [hc]; exact hno), if_neg (by rw [hc]; exact hnc),
        if_neg (by rw [hc]; exact hni), if_pos hc]
      exact entry_cancel_a0 _ _ _ _
  · intro hc
    rw [if_pos hc]
    show ((store_arg shmem (arg_va env smc_args) _ (arg_va env smc_args)).ret,
      (store_arg shmem (arg_va env smc_args) _ (arg_va env smc_args)).ret_origin) = _
    rw [store_arg_same]
    exact entry_open_session_ret _ _ _ _ _ _
  · intro hc
    rw [if_neg (by rw [hc]; exact hco), if_pos hc]
    show ((store_arg shmem (arg_va env smc_args) _ (arg_va env smc_args)).ret,
      (store_arg shmem (arg_va env smc_args) _ (arg_va env smc_args)).ret_origin) = _
    rw [store_arg_same]
    exact entry_close_session_ret _ _ _ _
  · intro hc
    rw [if_neg (by rw [hc]; exact hio), if_neg (by rw [hc]; exact hic), if_pos hc]
    show ((store_arg shmem (arg_va env smc_args) _ (arg_va env smc_args)).ret,
      (store_arg shmem (arg_va env smc_args) _ (arg_va env smc_args)).ret_origin) = _
    rw [store_arg_same]
    exact entry_invoke_command_ret _ _ _ _ _ _
  · intro hc
    rw [if_neg (by rw [hc]; exact hno), if_neg (by rw [hc]; exact hnc),
      if_neg (by rw [hc]; exact hni), if_pos hc]
    show ((store_arg shmem (arg_va env smc_args) _ (arg_va env smc_args)).ret,
      (store_arg shmem (arg_va env smc_args) _ (arg_va env smc_args)).ret_origin) = _
    rw [store_arg_same]
    exact entry_cancel_ret _ _ _ _

theorem C16_entry_std_result_witness :
    (tee_entry_std ex_env ex_sl ex_shm ex_locals ex_shmem ex_smc_std).smc_args.a0 =
      OPTEE_SMC_RETURN_OK ∧
    ((tee_entry_std ex_env ex_sl ex_shm ex_locals ex_shmem ex_smc_std).shmem
      (arg_va ex_env ex_smc_std)).ret = 0xFFFF0000 ∧
    ((tee_entry_std ex_env ex_sl ex_shm ex_locals ex_shmem ex_smc_std).shmem
      (arg_va ex_env ex_smc_std)).ret_origin = 4 := by
  have h := (C16_entry_std_result ex_env ex_sl ex_shm ex_locals ex_shmem ex_smc_std).2
    (by decide) (by unfold arg_verified; decide)
  have h1 := h.2.1 (Or.inr (Or.inr (Or.inl (by decide))))
  have h2 := h.2.2.2.2.1 (by decide)
  refine ⟨by rw [h1], ?_, ?_⟩
  · exact (congrArg Prod.fst h2).trans (by decide)
  · exact (congrArg Prod.snd h2).trans (by decide)

/-- C18: copy_in_params with num_params > TEE_NUM_PARAMS returns
TEE_ERROR_BAD_PARAMETERS before any copy: the output tee_ta_param is as on
entry and the answer is the same for every parameter array (no slot is read).
Consequently entry_open_session with more than 2 + 4 parameters and
entry_invoke_command with more than 4 parameters end with arg.ret =
TEE_ERROR_BAD_PARAMETERS, origin TEE_ORIGIN_TEE and a0 = OPTEE_SMC_RETURN_OK,
having made no call (the session layer is not called). -/
theorem C18_too_many_params (sl : ta_layer) (shm : shm_region) (loc : entry_locals)
    (smc_args : thread_smc_args) (arg : optee_msg_arg) (num_params : Nat) :
    (num_params > TEE_NUM_PARAMS →
      ∀ (params : Nat → optee_msg_param) (ta_param : tee_ta_param) (pt : Nat → Nat),
        copy_in_params shm params num_params ta_param pt =
          (TEE_ERROR_BAD_PARAMETERS, ta_param)) ∧
    (num_params > 2 + TEE_NUM_PARAMS →
      (entry_open_session sl shm loc smc_args arg num_params).arg.ret =
        TEE_ERROR_BAD_PARAMETERS ∧
      (entry_open_session sl shm loc smc_args arg num_params).arg.ret_origin =
        TEE_ORIGIN_TEE ∧
      (entry_open_session sl shm loc smc_args arg num_params).trace = [] ∧
      (entry_open_session sl shm loc smc_args arg num_params).smc_args.a0 =
        OPTEE_SMC_RETURN_OK) ∧
    (num_params > TEE_NUM_PARAMS →
      (entry_invoke_command sl shm loc smc_args arg num_params).arg.ret =
        TEE_ERROR_BAD_PARAMETERS ∧
      (entry_invoke_command sl shm loc smc_args arg num_params).arg.ret_origin =
        TEE_ORIGIN_TEE ∧
      (entry_invoke_command sl shm loc smc_args arg num_params).trace = [] ∧
      (entry_invoke_command sl shm loc smc_args arg num_params).smc_args.a0 =
        OPTEE_SMC_RETURN_OK) := by
  refine ⟨fun h params ta_param pt => copy_in_params_too_many shm params num_params ta_param pt h,
    fun h => ?_, fun h => ?_⟩
  · have hT : TEE_NUM_PARAMS = 4 := rfl
    unfold entry_open_session
    simp only []
    rcases get_open_session_meta_res num_params arg.params loc.num_meta loc.uuid loc.clnt_id
      with ⟨hm, hn, _⟩ | hm
    · have hc := copy_in_params_too_many shm (fun n => arg.params (n + 2)) (num_params - 2)
        loc.param loc.pt (by omega)
      have hm1 : ¬ ((get_open_session_meta num_params arg.params loc.num_meta loc.uuid
          loc.clnt_id).1 ≠ TEE_SUCCESS) := not_not.mpr hm
      rw [if_neg hm1, hn, hc, if_pos bad_ne_success]
      exact ⟨rfl, rfl, rfl, rfl⟩
    · have hm1 : (get_open_session_meta num_params arg.params loc.num_meta loc.uuid
          loc.clnt_id).1 ≠ TEE_SUCCESS := by
        rw [hm]
        exact bad_ne_success
      rw [if_pos hm1]
      exact ⟨hm, rfl, rfl, rfl⟩
  · have hc := copy_in_params_too_many shm arg.params num_params loc.param loc.pt h
    unfold entry_invoke_command
    simp only []
    rw [hc, if_pos bad_ne_success]
    exact ⟨rfl, rfl, rfl, rfl⟩

theorem C18_too_many_params_witness :
    (entry_invoke_command ex_sl ex_shm ex_locals ex_smc_std ex_arg 5).arg.ret =
      TEE_ERROR_BAD_PARAMETERS ∧
    (entry_invoke_command ex_sl ex_shm ex_locals ex_smc_std ex_arg 5).trace = [] :=
  have h := (C18_too_many_params ex_sl ex_shm ex_locals ex_smc_std ex_arg 5).2.2 (by decide)
  ⟨h.1, h.2.2.1⟩

theorem get_open_session_meta_ok (num_params : Nat) (params : Nat → optee_msg_param)
    (num_meta : Nat) (uuid : TEE_UUID) (clnt_id : TEE_Identity)
    (h : meta_ok num_params params) :
    get_open_session_meta num_params params num_meta uuid clnt_id =
      (TEE_SUCCESS, 2, tee_uuid_from_octets (params 0).a (params 0).b,
        ⟨to_uint32 (params 1).c,
          if to_uint32 (params 1).c = TEE_LOGIN_PUBLIC then ⟨0, 0⟩
          else tee_uuid_from_octets (params 1).a (params 1).b⟩) := by
  obtain ⟨h1, h2, h3, h4⟩ := h
  unfold get_open_session_meta
  simp only []
  rw [if_neg (by omega), if_neg (by rintro (h | h); exact h h2; exact h h3)]
  by_cases hp : to_uint32 (params 1).c = TEE_LOGIN_PUBLIC
  · rw [if_pos hp, if_pos hp]
  · rw [if_neg hp, if_neg hp]
    rcases h4 with h4 | h4
    · exact absurd h4 hp
    · rw [if_pos h4]

theorem get_open_session_meta_bad (num_params : Nat) (params : Nat → optee_msg_param)
    (num_meta : Nat) (uuid : TEE_UUID) (clnt_id : TEE_Identity)
    (h : ¬ meta_ok num_params params) :
    (get_open_session_meta num_params params num_meta uuid clnt_id).1 =
      TEE_ERROR_BAD_PARAMETERS := by
  unfold get_open_session_meta
  simp only []
  by_cases h1 : num_params < 2
  · rw [if_pos h1]
  · rw [if_neg h1]
    by_cases h2 : (params 0).attr ≠ OPTEE_MSG_ATTR_META ||| OPTEE_MSG_ATTR_TYPE_VALUE_INPUT ∨
        (params 1).attr ≠ OPTEE_MSG_ATTR_META ||| OPTEE_MSG_ATTR_TYPE_VALUE_INPUT
    · rw [if_pos h2]
    · rw [if_neg h2]
      simp only [not_or, not_not] at h2
      have hk : ¬ known_login (to_uint32 (params 1).c) :=
        fun hk => h ⟨by omega, h2.1, h2.2, hk⟩
      rw [if_neg (fun hp => hk (Or.inl hp)), if_neg (fun hp => hk (Or.inr hp))]

/-- C21 as stated is refuted: both meta slots are exactly META | VALUE_INPUT
and value.c of the second is 2^32, which is none of the six login values, yet
get_open_session_meta returns TEE_SUCCESS, with login TEE_LOGIN_PUBLIC. -/
theorem C21_login_counterexample :
    (get_open_session_meta 2 ex_params_login 0 ⟨0, 0⟩ ⟨0, ⟨0, 0⟩⟩).1 = TEE_SUCCESS ∧
    (get_open_session_meta 2 ex_params_login 0 ⟨0, 0⟩ ⟨0, ⟨0, 0⟩⟩).2.2.2.login =
      TEE_LOGIN_PUBLIC ∧
    (ex_params_login 1).c = 0x100000000 ∧
    ¬ known_login (ex_params_login 1).c := by
  refine ⟨by decide, by decide, by decide, ?_⟩
  unfold known_login
  decide

/-- C21 (amended): get_open_session_meta returns TEE_SUCCESS if and only if
num_params >= 2, params[0].attr and params[1].attr are both exactly
META | VALUE_INPUT, and the login, params[1].u.value.c converted to uint32_t,
is one of PUBLIC, USER, GROUP, APPLICATION, APPLICATION_USER,
APPLICATION_GROUP; in every other case it returns TEE_ERROR_BAD_PARAMETERS.
On success num_meta = 2, the UUID is read from the first slot, clnt_id.login
is that login, and for login PUBLIC the client UUID is all zero.  When
value.c fits 32 bits the login is value.c itself. -/
theorem C21_get_open_session_meta (num_params : Nat) (params : Nat → optee_msg_param)
    (num_meta : Nat) (uuid : TEE_UUID) (clnt_id : TEE_Identity) :
    ((get_open_session_meta num_params params num_meta uuid clnt_id).1 = TEE_SUCCESS ↔
      meta_ok num_params params) ∧
    (¬ meta_ok num_params params →
      (get_open_session_meta num_params params num_meta uuid clnt_id).1 =
        TEE_ERROR_BAD_PARAMETERS) ∧
    (meta_ok num_params params →
      (get_open_session_meta num_params params num_meta uuid clnt_id).2.1 = 2 ∧
      (get_open_session_meta num_params params num_meta uuid clnt_id).2.2.1 =
        tee_uuid_from_octets (params 0).a (params 0).b ∧
      (get_open_session_meta num_params params num_meta uuid clnt_id).2.2.2.login =
        to_uint32 (params 1).c ∧
      (to_uint32 (params 1).c = TEE_LOGIN_PUBLIC →
        (get_open_session_meta num_params params num_meta uuid clnt_id).2.2.2.uuid =
          ⟨0, 0⟩)) ∧
    ((params 1).c < 2 ^ 32 → to_uint32 (params 1).c = (params 1).c) := by
  refine ⟨⟨fun h => ?_, fun h => ?_⟩, get_open_session_meta_bad _ _ _ _ _, fun h => ?_,
    fun h => Nat.mod_eq_of_lt h⟩
  · by_contra hn
    rw [get_open_session_meta_bad _ _ _ _ _ hn] at h
    exact bad_ne_success h
  · rw [get_open_session_meta_ok _ _ _ _ _ h]
  · rw [get_open_session_meta_ok _ _ _ _ _ h]
    refine ⟨rfl, rfl, rfl, fun hp => ?_⟩
    show (if to_uint32 (params 1).c = TEE_LOGIN_PUBLIC then (⟨0, 0⟩ : TEE_UUID)
      else tee_uuid_from_octets (params 1).a (params 1).b) = ⟨0, 0⟩
    rw [if_pos hp]

theorem C21_get_open_session_meta_witness :
    (get_open_session_meta 3 ex_params_user 0 ⟨0, 0⟩ ⟨0, ⟨0, 0⟩⟩).2.1 = 2 ∧
    (get_open_session_meta 3 ex_params_user 0 ⟨0, 0⟩ ⟨0, ⟨0, 0⟩⟩).2.2.2.login =
      TEE_LOGIN_USER := by
  have h := (C21_get_open_session_meta 3 ex_params_user 0 ⟨0, 0⟩ ⟨0, ⟨0, 0⟩⟩).2.2.1
    (by unfold meta_ok known_login; decide)
  exact ⟨h.1, h.2.2.1.trans (by decide)⟩

/-- C22, the code at the failing input: one VALUE_INPUT parameter, the array
pt holding 5 in every byte on entry (it is not initialised).  copy_in_params
succeeds and encodes VALUE_INPUT for slot 0, but the slots 1, 2 and 3 carry the
stale 5 (MEMREF_INPUT), not TEE_PARAM_TYPE_NONE; and the OPEN_SESSION with two
meta parameters and this one hands the session layer the types 0x5551, where
one VALUE_INPUT and three NONE are 0x0001. -/
theorem C22_types_from_uninitialised_pt :
    (copy_in_params ex_shm (fun n => ex_params_open (n + 2)) 1 zero_ta_param
      (fun _ => 5)).1 = TEE_SUCCESS ∧
    TEE_PARAM_TYPE_GET (copy_in_params ex_shm (fun n => ex_params_open (n + 2)) 1
      zero_ta_param (fun _ => 5)).2.types 0 = TEE_PARAM_TYPE_VALUE_INPUT ∧
    TEE_PARAM_TYPE_GET (copy_in_params ex_shm (fun n => ex_params_open (n + 2)) 1
      zero_ta_param (fun _ => 5)).2.types 1 = TEE_PARAM_TYPE_MEMREF_INPUT ∧
    TEE_PARAM_TYPE_GET (copy_in_params ex_shm (fun n => ex_params_open (n + 2)) 1
      zero_ta_param (fun _ => 5)).2.types 2 = TEE_PARAM_TYPE_MEMREF_INPUT ∧
    TEE_PARAM_TYPE_GET (copy_in_params ex_shm (fun n => ex_params_open (n + 2)) 1
      zero_ta_param (fun _ => 5)).2.types 3 = TEE_PARAM_TYPE_MEMREF_INPUT ∧
    handed_types (entry_open_session ex_sl ex_shm ex_locals ex_smc_std ex_arg_open 3).trace
      = some 0x5551 ∧
    TEE_PARAM_TYPES TEE_PARAM_TYPE_VALUE_INPUT TEE_PARAM_TYPE_NONE TEE_PARAM_TYPE_NONE
      TEE_PARAM_TYPE_NONE = 0x0001 := by
  refine ⟨by decide, by decide, by decide, by decide, by decide, by decide, by decide⟩

/-- C23 as stated is refuted: entry_invoke_command is entered with five
parameters; copy_in_params rejects them, but the shared argument record is
modified: ret, 0x1234 on entry, and ret_origin, 0x56 on entry, are written. -/
theorem C23_record_written_counterexample :
    (copy_in_params ex_shm ex_arg.params 5 ex_locals.param ex_locals.pt).1 ≠ TEE_SUCCESS ∧
    ex_arg.ret = 0x1234 ∧ ex_arg.ret_origin = 0x56 ∧
    (entry_invoke_command ex_sl ex_shm ex_locals ex_smc_std ex_arg 5).arg.ret =
      TEE_ERROR_BAD_PARAMETERS ∧
    (entry_invoke_command ex_sl ex_shm ex_locals ex_smc_std ex_arg 5).arg.ret_origin =
      TEE_ORIGIN_TEE ∧
    (entry_invoke_command ex_sl ex_shm ex_locals ex_smc_std ex_arg 5).arg.ret ≠ ex_arg.ret := by
  refine ⟨by decide, by decide, by decide, by decide, by decide, by decide⟩

/-- C23 (amended): whenever OPEN_SESSION or INVOKE_COMMAND rejects its
parameters during validation (get_open_session_meta or copy_in_params fails),
the result reported is TEE_ERROR_BAD_PARAMETERS with origin TEE_ORIGIN_TEE,
no call is made (the session layer is not called), a0 = OPTEE_SMC_RETURN_OK,
and of the shared argument record only the result fields are written: ret and
ret_origin, and for OPEN_SESSION session, set to 0.  The parameter slots and
the other header fields are as they were. -/
theorem C23_rejected_parameters (sl : ta_layer) (shm : shm_region) (loc : entry_locals)
    (smc_args : thread_smc_args) (arg : optee_msg_arg) (num_params : Nat) :
    (((get_open_session_meta num_params arg.params loc.num_meta loc.uuid loc.clnt_id).1
          ≠ TEE_SUCCESS ∨
        (copy_in_params shm (fun n => arg.params (n + 2)) (num_params - 2) loc.param
          loc.pt).1 ≠ TEE_SUCCESS) →
      entry_open_session sl shm loc smc_args arg num_params =
        { smc_args := { smc_args with a0 := OPTEE_SMC_RETURN_OK }
          arg := { arg with
            session := 0, ret := TEE_ERROR_BAD_PARAMETERS, ret_origin := TEE_ORIGIN_TEE }
          trace := [] }) ∧
    ((copy_in_params shm arg.params num_params loc.param loc.pt).1 ≠ TEE_SUCCESS →
      entry_invoke_command sl shm loc smc_args arg num_params =
        { smc_args := { smc_args with a0 := OPTEE_SMC_RETURN_OK }
          arg := { arg with ret := TEE_ERROR_BAD_PARAMETERS, ret_origin := TEE_ORIGIN_TEE }
          trace := [] }) := by
  constructor
  · intro h
    unfold entry_open_session
    simp only []
    rcases get_open_session_meta_res num_params arg.params loc.num_meta loc.uuid loc.clnt_id
      with ⟨hm, hn, _⟩ | hm
    · have hm1 : ¬ ((get_open_session_meta num_params arg.params loc.num_meta loc.uuid
          loc.clnt_id).1 ≠ TEE_SUCCESS) := not_not.mpr hm
      rcases h with h | h
      · exact absurd hm h
      · rcases copy_in_params_res shm (fun n => arg.params (n + 2)) (num_params - 2)
          loc.param loc.pt with hc | hc
        · exact absurd hc h
        · rw [if_neg hm1, hn, if_pos h, hc]
    · have hm1 : (get_open_session_meta num_params arg.params loc.num_meta loc.uuid
          loc.clnt_id).1 ≠ TEE_SUCCESS := by
        rw [hm]
        exact bad_ne_success
      rw [if_pos hm1, hm]
  · intro h
    unfold entry_invoke_command
    simp only []
    rcases copy_in_params_res shm arg.params num_params loc.param loc.pt with hc | hc
    · exact absurd hc h
    · rw [if_pos h, hc]

theorem C23_rejected_parameters_witness :
    (entry_invoke_command ex_sl ex_shm ex_locals ex_smc_std ex_arg 5).trace = [] ∧
    (entry_invoke_command ex_sl ex_shm ex_locals ex_smc_std ex_arg 5).arg.params =
      ex_arg.params := by
  have h := (C23_rejected_parameters ex_sl ex_shm ex_locals ex_smc_std ex_arg 5).2
    (by decide)
  rw [h]
  exact ⟨rfl, rfl⟩

theorem all_free_loop_iff (ts : List thread_ctx) :
    all_free_loop ts = true ↔ ∀ t ∈ ts, t.state = THREAD_STATE_FREE := by
  induction ts with
  | nil => simp [all_free_loop]
  | cons t ts ih =>
    unfold all_free_loop
    by_cases h : t.state = THREAD_STATE_FREE
    · simp [h, ih]
    · simp [h]

theorem all_free_loop_false_iff (ts : List thread_ctx) :
    all_free_loop ts = false ↔ ¬ ∀ t ∈ ts, t.state = THREAD_STATE_FREE := by
  rw [← all_free_loop_iff]
  cases all_free_loop ts <;> simp

theorem disable_prealloc_out_busy (s : State) (cookie : Nat)
    (h : ¬ ∀ t ∈ s.threads, t.state = THREAD_STATE_FREE) :
    disable_prealloc_out s cookie = (s, false, cookie) := by
  unfold disable_prealloc_out
  rw [if_pos ((all_free_loop_false_iff _).mpr h)]

theorem disable_prealloc_out_none (s : State) (cookie : Nat)
    (h : ∀ t ∈ s.threads, t.state = THREAD_STATE_FREE)
    (h0 : ∀ t ∈ s.threads, t.rpc_arg = 0) :
    disable_prealloc_out s cookie = ({ s with thread_prealloc_rpc_cache := false }, true, 0) := by
  unfold disable_prealloc_out
  have hf : ¬ (all_free_loop s.threads = false) := by
    rw [(all_free_loop_iff _).mpr h]
    simp
  rw [if_neg hf]
  rcases reclaim_loop_spec s.threads with ⟨h1, h2, _⟩ | ⟨i, t, _, h2, h3, _, _⟩
  · have hr : reclaim_loop s.threads = (s.threads, none) := Prod.ext h2 h1
    rw [hr]
  · exact absurd (h0 t (List.mem_iff_getElem?.mpr ⟨i, h2⟩)) h3

theorem disable_prealloc_out_some (s : State) (cookie : Nat) (i : Nat) (t : thread_ctx)
    (h : ∀ t ∈ s.threads, t.state = THREAD_STATE_FREE)
    (hi : s.threads[i]? = some t) (hc : t.rpc_arg ≠ 0)
    (hlow : ∀ (j : Nat) (u : thread_ctx), j < i → s.threads[j]? = some u → u.rpc_arg = 0) :
    disable_prealloc_out s cookie =
      ({ s with threads :=
          (upd_thread s.threads i (fun t => { t with rpc_carg := 0, rpc_arg := 0 })) },
        true, t.rpc_carg) := by
  unfold disable_prealloc_out
  have hf : ¬ (all_free_loop s.threads = false) := by
    rw [(all_free_loop_iff _).mpr h]
    simp
  rw [if_neg hf]
  rcases reclaim_loop_spec s.threads with ⟨_, _, h3⟩ | ⟨i', t', h1, h2, h3, h4, h5⟩
  · exact absurd (h3 t (List.mem_iff_getElem?.mpr ⟨i, hi⟩)) hc
  · have hii : i' = i := by
      rcases Nat.lt_trichotomy i' i with hlt | heq | hgt
      · exact absurd (hlow i' t' hlt h2) h3
      · exact heq
      · exact absurd (h4 i t hgt hi) hc
    subst hii
    rw [hi] at h2
    cases h2
    have hr : reclaim_loop s.threads =
        (upd_thread s.threads i' (fun t => { t with rpc_carg := 0, rpc_arg := 0 }),
          some t.rpc_carg) := Prod.ext h5 h1
    rw [hr]

/-- C24: one call of thread_disable_prealloc_rpc_cache, on a core with a
32-bit status register that does not hold a spinlock with IRQ unmasked, runs
to its end with the status register as on entry.  If a slot is not FREE it
returns false and changes neither the thread table nor the prealloc flag (nor
*cookie).  If all slots are FREE it returns true, and (a) if slot i is the
lowest-index slot with a cached rpc_arg, *cookie is the rpc_carg of slot i,
rpc_arg and rpc_carg of slot i are cleared, no other slot changes and the flag
is unchanged; (b) if no slot has a cached rpc_arg, *cookie = 0, the prealloc
flag is cleared and the table is unchanged. -/
theorem C24_disable_prealloc_rpc_cache_once (hw : core_hw) (s : State) (cookie : Nat)
    (hc : hw.cpsr < 2 ^ 32)
    (hlock : hw.locked_count = 0 ∨ thread_get_exceptions hw &&& THREAD_EXCP_IRQ ≠ 0) :
    ((¬ ∀ t ∈ s.threads, t.state = THREAD_STATE_FREE) →
      thread_disable_prealloc_rpc_cache hw s cookie = (hw, s, .done (false, cookie))) ∧
    ((∀ t ∈ s.threads, t.state = THREAD_STATE_FREE) →
      (∀ (i : Nat) (t : thread_ctx), s.threads[i]? = some t → t.rpc_arg ≠ 0 →
        (∀ (j : Nat) (u : thread_ctx), j < i → s.threads[j]? = some u → u.rpc_arg = 0) →
        thread_disable_prealloc_rpc_cache hw s cookie =
          (hw, { s with threads :=
              (upd_thread s.threads i (fun t => { t with rpc_carg := 0, rpc_arg := 0 })) },
            .done (true, t.rpc_carg)) ∧
        (upd_thread s.threads i (fun t => { t with rpc_carg := 0, rpc_arg := 0 }))[i]? =
          some { t with rpc_carg := 0, rpc_arg := 0 } ∧
        (∀ j : Nat, j ≠ i →
          (upd_thread s.threads i (fun t => { t with rpc_carg := 0, rpc_arg := 0 }))[j]? =
            s.threads[j]?)) ∧
      ((∀ t ∈ s.threads, t.rpc_arg = 0) →
        thread_disable_prealloc_rpc_cache hw s cookie =
          (hw, { s with thread_prealloc_rpc_cache := false }, .done (true, 0)))) := by
  have hok := thread_disable_prealloc_rpc_cache_ok hw s cookie hc hlock
  refine ⟨fun hbusy => ?_, fun hfree => ⟨fun i t hi hca hlow => ⟨?_, ?_, ?_⟩, fun h0 => ?_⟩⟩
  · rw [hok, disable_prealloc_out_busy s cookie hbusy]
  · rw [hok, disable_prealloc_out_some s cookie i t hfree hi hca hlow]
  · rw [getElem?_upd_thread, if_pos rfl, hi]
    rfl
  · intro j hj
    rw [getElem?_upd_thread, if_neg hj]
  · rw [hok, disable_prealloc_out_none s cookie hfree h0]

theorem C24_disable_prealloc_rpc_cache_once_witness :
    thread_disable_prealloc_rpc_cache ⟨0x1d3, 0⟩ ex_two_cached 7 =
      (⟨0x1d3, 0⟩,
        { ex_two_cached with threads :=
          [zero_thread, { zero_thread with rpc_arg := 0x10001100, rpc_carg := 0x66 }] },
        .done (true, 0x55)) :=
  ((((C24_disable_prealloc_rpc_cache_once ⟨0x1d3, 0⟩ ex_two_cached 7 (by decide)
    (Or.inl rfl)).2 (by decide)).1 0
    { zero_thread with rpc_arg := 0x10001000, rpc_carg := 0x55 }
    (by decide) (by decide) (fun j _ hj => absurd hj (Nat.not_lt_zero j))).1).trans
    (by decide)

theorem all_free_loop_flag (s : State) (b : Bool) :
    all_free_loop ({ s with thread_prealloc_rpc_cache := b } : State).threads =
      all_free_loop s.threads := rfl

/-- C26: on a core with a 32-bit status register that does not hold a spinlock
with IRQ unmasked, thread_enable_prealloc_rpc_cache runs to its end with the
status register as on entry; it returns true if and only if every slot is
FREE, and then the prealloc flag is set; otherwise it returns false and the
state, so the flag, is unchanged; the thread table and the core blocks are
never changed; a second call leaves the state of the first and returns the
same value. -/
theorem C26_enable_prealloc_rpc_cache (hw : core_hw) (s : State)
    (hc : hw.cpsr < 2 ^ 32)
    (hlock : hw.locked_count = 0 ∨ thread_get_exceptions hw &&& THREAD_EXCP_IRQ ≠ 0) :
    ∃ (s' : State) (rv : Bool),
      thread_enable_prealloc_rpc_cache hw s = (hw, s', .done rv) ∧
      (rv = true ↔ ∀ t ∈ s.threads, t.state = THREAD_STATE_FREE) ∧
      (rv = true → s' = { s with thread_prealloc_rpc_cache := true }) ∧
      (rv = false → s' = s) ∧
      s'.threads = s.threads ∧ s'.thread_core_local = s.thread_core_local ∧
      thread_enable_prealloc_rpc_cache hw s' = (hw, s', .done rv) := by
  have hok := thread_enable_prealloc_rpc_cache_ok hw s hc hlock
  cases hf : all_free_loop s.threads with
  | false =>
    rw [hf] at hok
    simp only [if_true] at hok
    refine ⟨s, false, hok, ?_, (fun h => by cases h), fun _ => rfl, rfl, rfl, hok⟩
    rw [← all_free_loop_iff, hf]
  | true =>
    rw [hf] at hok
    simp only [Bool.true_eq_false, if_false] at hok
    refine ⟨_, true, hok, ?_, fun _ => rfl, (fun h => by cases h), rfl, rfl, ?_⟩
    · rw [← all_free_loop_iff, hf]
    · have hok2 := thread_enable_prealloc_rpc_cache_ok hw
        { s with thread_prealloc_rpc_cache := true } hc hlock
      rw [all_free_loop_flag, hf] at hok2
      simp only [Bool.true_eq_false, if_false] at hok2
      exact hok2

theorem C26_enable_prealloc_rpc_cache_witness :
    ∃ (s' : State) (rv : Bool),
      thread_enable_prealloc_rpc_cache ⟨0x1d3, 0⟩ ex_pre = (⟨0x1d3, 0⟩, s', .done rv) ∧
      (rv = true ↔ ∀ t ∈ ex_pre.threads, t.state = THREAD_STATE_FREE) ∧
      (rv = true → s' = { ex_pre with thread_prealloc_rpc_cache := true }) ∧
      (rv = false → s' = ex_pre) ∧
      s'.threads = ex_pre.threads ∧ s'.thread_core_local = ex_pre.thread_core_local ∧
      thread_enable_prealloc_rpc_cache ⟨0x1d3, 0⟩ s' = (⟨0x1d3, 0⟩, s', .done rv) :=
  C26_enable_prealloc_rpc_cache ⟨0x1d3, 0⟩ ex_pre (by decide) (Or.inl rfl)

theorem cached_slots_cons (t : thread_ctx) (ts : List thread_ctx) :
    cached_slots (t :: ts) = if t.rpc_arg ≠ 0 then t :: cached_slots ts else cached_slots ts := by
  unfold cached_slots
  by_cases h : t.rpc_arg = 0
  · simp [List.filter_cons, h]
  · simp [List.filter_cons, h]

theorem cached_slots_nil_iff (ts : List thread_ctx) :
    cached_slots ts = [] ↔ ∀ t ∈ ts, t.rpc_arg = 0 := by
  unfold cached_slots
  simp [List.filter_eq_nil_iff]

/-- The second loop of thread_disable_prealloc_rpc_cache takes the head of the
cached slots: it reports its cookie, leaves the other cached slots and keeps
the states of all slots. -/
theorem reclaim_loop_cached (ts : List thread_ctx) (t : thread_ctx) (rest : List thread_ctx)
    (h : cached_slots ts = t :: rest) :
    (reclaim_loop ts).2 = some t.rpc_carg ∧ cached_slots (reclaim_loop ts).1 = rest ∧
      (∀ u ∈ (reclaim_loop ts).1, ∃ v ∈ ts, u.state = v.state) := by
  induction ts with
  | nil => simp [cached_slots] at h
  | cons u us ih =>
    rw [cached_slots_cons] at h
    by_cases hu : u.rpc_arg = 0
    · rw [if_neg (not_not.mpr hu)] at h
      obtain ⟨h1, h2, h3⟩ := ih h
      have hr : reclaim_loop (u :: us) = (u :: (reclaim_loop us).1, (reclaim_loop us).2) := by
        simp [reclaim_loop, hu]
      rw [hr]
      refine ⟨h1, ?_, ?_⟩
      · show cached_slots (u :: (reclaim_loop us).1) = rest
        rw [cached_slots_cons, if_neg (not_not.mpr hu)]
        exact h2
      · intro w hw
        rcases List.mem_cons.mp hw with rfl | hw
        · exact ⟨w, List.mem_cons_self _ _, rfl⟩
        · obtain ⟨v, hv, hs⟩ := h3 w hw
          exact ⟨v, List.mem_cons_of_mem _ hv, hs⟩
    · rw [if_pos hu] at h
      simp only [List.cons.injEq] at h
      obtain ⟨rfl, rfl⟩ := h
      have hr : reclaim_loop (u :: us) =
          ({ u with rpc_carg := 0, rpc_arg := 0 } :: us, some u.rpc_carg) := by
        simp [reclaim_loop, hu]
      rw [hr]
      refine ⟨rfl, ?_, ?_⟩
      · show cached_slots ({ u with rpc_carg := 0, rpc_arg := 0 } :: us) = cached_slots us
        rw [cached_slots_cons]
        simp
      · intro w hw
        rcases List.mem_cons.mp hw with rfl | hw
        · exact ⟨u, List.mem_cons_self _ _, rfl⟩
        · exact ⟨w, List.mem_cons_of_mem _ hw, rfl⟩

/-- One call on a table whose slots are all FREE and whose cached slots are
t :: rest. -/
theorem disable_prealloc_out_cached (s : State) (cookie : Nat) (t : thread_ctx)
    (rest : List thread_ctx) (hfree : ∀ t ∈ s.threads, t.state = THREAD_STATE_FREE)
    (h : cached_slots s.threads = t :: rest) :
    ∃ s' : State, disable_prealloc_out s cookie = (s', true, t.rpc_carg) ∧
      s'.thread_prealloc_rpc_cache = s.thread_prealloc_rpc_cache ∧
      s'.thread_core_local = s.thread_core_local ∧
      cached_slots s'.threads = rest ∧
      (∀ t ∈ s'.threads, t.state = THREAD_STATE_FREE) := by
  obtain ⟨h1, h2, h3⟩ := reclaim_loop_cached s.threads t rest h
  unfold disable_prealloc_out
  have hf : ¬ (all_free_loop s.threads = false) := by
    rw [(all_free_loop_iff _).mpr hfree]
    simp
  rw [if_neg hf]
  have hr : reclaim_loop s.threads = ((reclaim_loop s.threads).1, some t.rpc_carg) :=
    Prod.ext rfl h1
  rw [hr]
  refine ⟨_, rfl, rfl, rfl, h2, ?_⟩
  intro u hu
  obtain ⟨v, hv, hs⟩ := h3 u hu
  rw [hs]
  exact hfree v hv

theorem disable_calls_succ (k : Nat) (hw : core_hw) (s : State) (cookie : Nat)
    (hc : hw.cpsr < 2 ^ 32)
    (hlock : hw.locked_count = 0 ∨ thread_get_exceptions hw &&& THREAD_EXCP_IRQ ≠ 0) :
    disable_calls (k + 1) hw s cookie =
      ((disable_calls k hw (disable_prealloc_out s cookie).1
          (disable_prealloc_out s cookie).2.2).1,
        (disable_calls k hw (disable_prealloc_out s cookie).1
          (disable_prealloc_out s cookie).2.2).2.1,
        (disable_calls k hw (disable_prealloc_out s cookie).1
          (disable_prealloc_out s cookie).2.2).2.2.1,
        Ret.done ((disable_prealloc_out s cookie).2.1, (disable_prealloc_out s cookie).2.2) ::
          (disable_calls k hw (disable_prealloc_out s cookie).1
            (disable_prealloc_out s cookie).2.2).2.2.2) := by
  rw [disable_calls]
  simp only [thread_disable_prealloc_rpc_cache_ok hw s cookie hc hlock]

/-- The first j calls, j at most the number of cached slots: each reports the
cookie of the next cached slot and clears it; the flag is untouched. -/
theorem disable_calls_prefix (hw : core_hw) (hc : hw.cpsr < 2 ^ 32)
    (hlock : hw.locked_count = 0 ∨ thread_get_exceptions hw &&& THREAD_EXCP_IRQ ≠ 0) :
    ∀ (j : Nat) (s : State) (cookie : Nat),
      (∀ t ∈ s.threads, t.state = THREAD_STATE_FREE) →
      j ≤ (cached_slots s.threads).length →
      (disable_calls j hw s cookie).1 = hw ∧
      (disable_calls j hw s cookie).2.1.thread_prealloc_rpc_cache =
        s.thread_prealloc_rpc_cache ∧
      (disable_calls j hw s cookie).2.1.thread_core_local = s.thread_core_local ∧
      cached_slots (disable_calls j hw s cookie).2.1.threads =
        (cached_slots s.threads).drop j ∧
      (∀ t ∈ (disable_calls j hw s cookie).2.1.threads, t.state = THREAD_STATE_FREE) ∧
      (disable_calls j hw s cookie).2.2.2 =
        ((cached_slots s.threads).take j).map (fun t => Ret.done (true, t.rpc_carg)) := by
  intro j
  induction j with
  | zero =>
    intro s cookie hfree _
    exact ⟨rfl, rfl, rfl, rfl, hfree, rfl⟩
  | succ j ih =>
    intro s cookie hfree hj
    cases hcs : cached_slots s.threads with
    | nil => rw [hcs] at hj; simp at hj
    | cons t rest =>
      obtain ⟨s1, h1, h2, h3, h4, h5⟩ := disable_prealloc_out_cached s cookie t rest hfree hcs
      rw [hcs] at hj
      have hj1 : j ≤ (cached_slots s1.threads).length := by
        rw [h4]
        simpa using hj
      obtain ⟨i1, i2, i3, i4, i5, i6⟩ := ih s1 t.rpc_carg h5 hj1
      rw [disable_calls_succ j hw s cookie hc hlock, h1]
      refine ⟨i1, i2.trans h2, i3.trans h3, ?_, i5, ?_⟩
      · rw [i4, h4]
        rfl
      · show Ret.done (true, t.rpc_carg) :: (disable_calls j hw s1 t.rpc_carg).2.2.2 = _
        rw [i6, h4]
        rfl

theorem disable_calls_add :
    ∀ (j k : Nat) (hw : core_hw) (s : State) (cookie : Nat),
      disable_calls (j + k) hw s cookie =
        ((disable_calls k (disable_calls j hw s cookie).1 (disable_calls j hw s cookie).2.1
            (disable_calls j hw s cookie).2.2.1).1,
          (disable_calls k (disable_calls j hw s cookie).1 (disable_calls j hw s cookie).2.1
            (disable_calls j hw s cookie).2.2.1).2.1,
          (disable_calls k (disable_calls j hw s cookie).1 (disable_calls j hw s cookie).2.1
            (disable_calls j hw s cookie).2.2.1).2.2.1,
          (disable_calls j hw s cookie).2.2.2 ++
            (disable_calls k (disable_calls j hw s cookie).1 (disable_calls j hw s cookie).2.1
              (disable_calls j hw s cookie).2.2.1).2.2.2) := by
  intro j
  induction j with
  | zero =>
    intro k hw s cookie
    rw [Nat.zero_add]
    rfl
  | succ j ih =>
    intro k hw s cookie
    rw [show j + 1 + k = (j + k) + 1 by omega]
    rw [disable_calls, disable_calls]
    simp only []
    rw [ih]
    rfl

theorem reported_cookies_map (l : List thread_ctx) :
    reported_cookies (l.map (fun t => Ret.done (true, t.rpc_carg))) =
      l.map (fun t => t.rpc_carg) := by
  induction l with
  | nil => rfl
  | cons t l ih =>
    simp only [reported_cookies, List.map_cons, List.filterMap_cons] at ih ⊢
    rw [ih]

/-- C25: draining the cache.  On a core with a 32-bit status register that
does not hold a spinlock with IRQ unmasked, from a table in which all slots
are FREE and k slots hold a cached rpc_arg, k + 1 consecutive calls of
thread_disable_prealloc_rpc_cache all return true.  The first k calls report
the cookies of the cached slots, each call that of another slot (in index
order) which it clears, so that after j <= k calls the cached slots are those
left after the first j and the prealloc flag is untouched; the multiset of
the cookies reported by the first k calls is that of the cached rpc_carg
values.  The (k+1)-th call reports the cookie 0 and clears the prealloc flag,
after which no slot holds a cached rpc_arg. -/
theorem C25_drain_prealloc_rpc_cache (hw : core_hw) (s : State) (cookie : Nat)
    (hc : hw.cpsr < 2 ^ 32)
    (hlock : hw.locked_count = 0 ∨ thread_get_exceptions hw &&& THREAD_EXCP_IRQ ≠ 0)
    (hfree : ∀ t ∈ s.threads, t.state = THREAD_STATE_FREE) :
    (disable_calls ((cached_slots s.threads).length + 1) hw s cookie).2.2.2 =
      (cached_slots s.threads).map (fun t => Ret.done (true, t.rpc_carg)) ++
        [Ret.done (true, 0)] ∧
    (∀ j : Nat, j ≤ (cached_slots s.threads).length →
      (disable_calls j hw s cookie).2.2.2 =
        ((cached_slots s.threads).take j).map (fun t => Ret.done (true, t.rpc_carg)) ∧
      cached_slots (disable_calls j hw s cookie).2.1.threads =
        (cached_slots s.threads).drop j ∧
      (disable_calls j hw s cookie).2.1.thread_prealloc_rpc_cache =
        s.thread_prealloc_rpc_cache) ∧
    ((reported_cookies
        (disable_calls (cached_slots s.threads).length hw s cookie).2.2.2 : Multiset Nat) =
      ((cached_slots s.threads).map (fun t => t.rpc_carg) : Multiset Nat)) ∧
    (disable_calls ((cached_slots s.threads).length + 1) hw s
      cookie).2.1.thread_prealloc_rpc_cache = false ∧
    (∀ t ∈ (disable_calls ((cached_slots s.threads).length + 1) hw s cookie).2.1.threads,
      t.rpc_arg = 0) ∧
    (disable_calls ((cached_slots s.threads).length + 1) hw s cookie).1 = hw := by
  have hpre := disable_calls_prefix hw hc hlock
  obtain ⟨k1, k2, k3, k4, k5, k6⟩ :=
    hpre (cached_slots s.threads).length s cookie hfree (le_refl _)
  rw [List.drop_length] at k4
  rw [List.take_length] at k6
  have hnone := (cached_slots_nil_iff _).mp k4
  have hlast := disable_prealloc_out_none
    (disable_calls (cached_slots s.threads).length hw s cookie).2.1
    (disable_calls (cached_slots s.threads).length hw s cookie).2.2.1 k5 hnone
  have hone : disable_calls 1 hw
      (disable_calls (cached_slots s.threads).length hw s cookie).2.1
      (disable_calls (cached_slots s.threads).length hw s cookie).2.2.1 =
      (hw, { (disable_calls (cached_slots s.threads).length hw s cookie).2.1 with
          thread_prealloc_rpc_cache := false }, 0, [Ret.done (true, 0)]) := by
    rw [disable_calls_succ 0 hw _ _ hc hlock, hlast]
    rfl
  have hall := disable_calls_add (cached_slots s.threads).length 1 hw s cookie
  rw [k1, hone] at hall
  refine ⟨?_, ?_, ?_, ?_, ?_, ?_⟩
  · rw [hall, k6]
  · intro j hj
    obtain ⟨_, j2, _, j4, _, j6⟩ := hpre j s cookie hfree hj
    exact ⟨j6, j4, j2⟩
  · rw [k6, reported_cookies_map]
  · rw [hall]
  · rw [hall]
    exact hnone
  · rw [hall]

theorem C25_drain_prealloc_rpc_cache_witness :
    (disable_calls 3 ⟨0x1d3, 0⟩ ex_two_cached 7).2.2.2 =
      [Ret.done (true, 0x55), Ret.done (true, 0x66), Ret.done (true, 0)] ∧
    (disable_calls 3 ⟨0x1d3, 0⟩ ex_two_cached 7).2.1.thread_prealloc_rpc_cache = false := by
  have h := C25_drain_prealloc_rpc_cache ⟨0x1d3, 0⟩ ex_two_cached 7 (by decide) (Or.inl rfl)
    (by decide)
  exact ⟨h.1.trans (by decide), h.2.2.2.1⟩

theorem check_alloced_shm_eight (env : mem_env) (pa len : Nat) :
    check_alloced_shm env pa len 8 =
      (decide (pa % 8 = 0) && env.core_pbuf_is_nsec_shm pa len) := by
  unfold check_alloced_shm
  have h8 : (8 + (2 ^ 32 - 1)) % 2 ^ 32 = 2 ^ 3 - 1 := by norm_num
  have h : pa &&& ((8 + (2 ^ 32 - 1)) % 2 ^ 32) = pa % 8 := by
    rw [h8]
    exact Nat.and_pow_two_sub_one_eq_mod pa 3
  rw [h]
  by_cases h0 : pa % 8 = 0
  · simp [h0]
  · simp [h0]

/-- C28 as stated is refuted: the normal world answers the ALLOC RPC with the
misaligned address 0xFFFF0001 and the cookie 0; thread_rpc_alloc_arg reports
failure but issues no RPC_FREE, the only RPC is the ALLOC itself. -/
theorem C28_no_free_for_zero_cookie_counterexample :
    thread_rpc_alloc_arg ex_env 96 (0xFFFF0001, 0) = ((0, 0), [.alloc 96]) ∧
    (∀ c : Nat, rpc_call.free c ∉ (thread_rpc_alloc_arg ex_env 96 (0xFFFF0001, 0)).2) := by
  refine ⟨by decide, ?_⟩
  intro c hc
  have h : (thread_rpc_alloc_arg ex_env 96 (0xFFFF0001, 0)).2 = [.alloc 96] := by decide
  rw [h] at hc
  simp at hc

/-- C28 (amended): thread_rpc_alloc_arg(size) issues the ALLOC RPC; for every
reply (pa, cookie) of the normal world, if pa is not 8-byte aligned or
[pa, pa + size) is not inside the non-secure shared memory it reports failure
by returning *arg = 0 and *cookie = 0, and it issues an RPC_FREE carrying that
cookie when the cookie is not 0 and no further RPC when the cookie is 0; if pa
passes both checks it returns *arg = pa and *cookie = cookie and issues no
FREE. -/
theorem C28_rpc_alloc_arg (env : mem_env) (size : Nat) (pa cookie : Nat) :
    ((pa % 8 ≠ 0 ∨ env.core_pbuf_is_nsec_shm pa size = false) →
      (cookie ≠ 0 →
        thread_rpc_alloc_arg env size (pa, cookie) = ((0, 0), [.alloc size, .free cookie])) ∧
      (cookie = 0 →
        thread_rpc_alloc_arg env size (pa, cookie) = ((0, 0), [.alloc size]))) ∧
    ((pa % 8 = 0 ∧ env.core_pbuf_is_nsec_shm pa size = true) →
      thread_rpc_alloc_arg env size (pa, cookie) = ((pa, cookie), [.alloc size])) := by
  unfold thread_rpc_alloc_arg
  simp only [check_alloced_shm_eight]
  constructor
  · intro h
    have hf : (decide (pa % 8 = 0) && env.core_pbuf_is_nsec_shm pa size) = false := by
      rcases h with h | h
      · simp [h]
      · simp [h]
    rw [if_pos hf]
    unfold thread_rpc_free_arg
    constructor
    · intro hc
      rw [if_pos hc]
      rfl
    · intro hc
      rw [if_neg (not_not.mpr hc)]
      rfl
  · rintro ⟨h1, h2⟩
    have hf : ¬ ((decide (pa % 8 = 0) && env.core_pbuf_is_nsec_shm pa size) = false) := by
      simp [h1, h2]
    rw [if_neg hf]

theorem C28_rpc_alloc_arg_witness :
    thread_rpc_alloc_arg ex_env 96 (0xFFFF0001, 0x55) = ((0, 0), [.alloc 96, .free 0x55]) ∧
    thread_rpc_alloc_arg ex_env 96 (0x1000, 0x55) = ((0x1000, 0x55), [.alloc 96]) :=
  ⟨((C28_rpc_alloc_arg ex_env 96 0xFFFF0001 0x55).1 (Or.inl (by decide))).1 (by decide),
    (C28_rpc_alloc_arg ex_env 96 0x1000 0x55).2 ⟨by decide, by decide⟩⟩

/-- What __thread_std_smc_entry does once the handler is reached from the
state s1: the handler runs on the argument registers; with the cache off the
cookie of the thread is freed and rpc_carg, rpc_arg are cleared. -/
theorem std_entry_alloc_ok (env : mem_env) (s : State) (cpu : Nat) (args : thread_smc_args)
    (reply : Nat × Nat) (handler : thread_smc_args → thread_smc_args) (n : Nat)
    (thr : thread_ctx) (hid : thread_id_of s cpu = .done n) (hthr : s.threads[n]? = some thr)
    (h0 : thr.rpc_arg = 0)
    (hok : ¬ ((thread_rpc_alloc_arg env (env.arg_size THREAD_RPC_MAX_NUM_PARAMS) reply).1.1 = 0 ∨
      env.alignment_is_ok
        (thread_rpc_alloc_arg env (env.arg_size THREAD_RPC_MAX_NUM_PARAMS) reply).1.1 = false ∨
      env.phys_to_virt
        (thread_rpc_alloc_arg env (env.arg_size THREAD_RPC_MAX_NUM_PARAMS) reply).1.1 = 0)) :
    __thread_std_smc_entry env s cpu args reply handler =
      if s.thread_prealloc_rpc_cache = false then
        ({ s with threads :=
            (upd_thread s.threads n (fun t => { t with rpc_arg := 0, rpc_carg := 0 })) },
          .done ⟨handler args,
            (thread_rpc_alloc_arg env (env.arg_size THREAD_RPC_MAX_NUM_PARAMS) reply).2 ++
              thread_rpc_free_arg
                (thread_rpc_alloc_arg env (env.arg_size THREAD_RPC_MAX_NUM_PARAMS) reply).1.2,
            true⟩)
      else
        ({ s with threads :=
            (upd_thread s.threads n (fun t => { t with
              rpc_arg := env.phys_to_virt
                (thread_rpc_alloc_arg env (env.arg_size THREAD_RPC_MAX_NUM_PARAMS) reply).1.1
              rpc_carg :=
                (thread_rpc_alloc_arg env (env.arg_size THREAD_RPC_MAX_NUM_PARAMS)
                  reply).1.2 })) },
          .done ⟨handler args,
            (thread_rpc_alloc_arg env (env.arg_size THREAD_RPC_MAX_NUM_PARAMS) reply).2,
            true⟩) := by
  unfold __thread_std_smc_entry
  simp only [hid, hthr]
  rw [if_neg (fun h => hok h.2)]
  simp only [h0, if_true, upd_thread_upd_thread, getElem?_upd_thread, hthr, Option.map_some']

theorem std_entry_cached (env : mem_env) (s : State) (cpu : Nat) (args : thread_smc_args)
    (reply : Nat × Nat) (handler : thread_smc_args → thread_smc_args) (n : Nat)
    (thr : thread_ctx) (hid : thread_id_of s cpu = .done n) (hthr : s.threads[n]? = some thr)
    (h0 : thr.rpc_arg ≠ 0) :
    __thread_std_smc_entry env s cpu args reply handler =
      if s.thread_prealloc_rpc_cache = false then
        ({ s with threads :=
            (upd_thread s.threads n (fun t => { t with rpc_arg := 0, rpc_carg := 0 })) },
          .done ⟨handler args, thread_rpc_free_arg thr.rpc_carg, true⟩)
      else (s, .done ⟨handler args, [], true⟩) := by
  unfold __thread_std_smc_entry
  simp only [hid, hthr]
  rw [if_neg (fun h => h0 h.1)]
  simp only [h0, if_false, upd_thread_upd_thread, hthr, List.nil_append]

theorem std_entry_at_handler_fresh (env : mem_env) (s : State) (cpu : Nat)
    (reply : Nat × Nat) (n : Nat) (thr : thread_ctx)
    (hid : thread_id_of s cpu = .done n) (hthr : s.threads[n]? = some thr)
    (h0 : thr.rpc_arg = 0) :
    std_entry_at_handler env s cpu reply =
      if (thread_rpc_alloc_arg env (env.arg_size THREAD_RPC_MAX_NUM_PARAMS) reply).1.1 = 0 ∨
        env.alignment_is_ok
          (thread_rpc_alloc_arg env (env.arg_size THREAD_RPC_MAX_NUM_PARAMS) reply).1.1
          = false ∨
        env.phys_to_virt
          (thread_rpc_alloc_arg env (env.arg_size THREAD_RPC_MAX_NUM_PARAMS) reply).1.1 = 0
      then none
      else
        some { s with threads :=
          (upd_thread s.threads n (fun t => { t with
            rpc_arg := env.phys_to_virt
              (thread_rpc_alloc_arg env (env.arg_size THREAD_RPC_MAX_NUM_PARAMS) reply).1.1
            rpc_carg :=
              (thread_rpc_alloc_arg env (env.arg_size THREAD_RPC_MAX_NUM_PARAMS)
                reply).1.2 })) } := by
  unfold std_entry_at_handler
  simp only [hid, hthr, h0, ne_eq, not_true_eq_false, if_false, upd_thread_upd_thread]

theorem std_entry_at_handler_cached (env : mem_env) (s : State) (cpu : Nat)
    (reply : Nat × Nat) (n : Nat) (thr : thread_ctx)
    (hid : thread_id_of s cpu = .done n) (hthr : s.threads[n]? = some thr)
    (h0 : thr.rpc_arg ≠ 0) :
    std_entry_at_handler env s cpu reply = some s := by
  unfold std_entry_at_handler
  simp only [hid, hthr, h0, ne_eq, not_false_eq_true, if_true]

theorem alloc_not_mem_free_arg (cookie size : Nat) :
    rpc_call.alloc size ∉ thread_rpc_free_arg cookie := by
  unfold thread_rpc_free_arg
  split_ifs <;> simp

/-- The handler is reached exactly in these two ways, and then the slot of the
thread holds a non-null rpc_arg. -/
theorem std_entry_at_handler_some (env : mem_env) (s s1 : State) (cpu : Nat)
    (reply : Nat × Nat) (n : Nat) (thr : thread_ctx)
    (hid : thread_id_of s cpu = .done n) (hthr : s.threads[n]? = some thr)
    (h : std_entry_at_handler env s cpu reply = some s1) :
    (thr.rpc_arg ≠ 0 ∧ s1 = s) ∨
    (thr.rpc_arg = 0 ∧
      ¬ ((thread_rpc_alloc_arg env (env.arg_size THREAD_RPC_MAX_NUM_PARAMS) reply).1.1 = 0 ∨
        env.alignment_is_ok
          (thread_rpc_alloc_arg env (env.arg_size THREAD_RPC_MAX_NUM_PARAMS) reply).1.1
          = false ∨
        env.phys_to_virt
          (thread_rpc_alloc_arg env (env.arg_size THREAD_RPC_MAX_NUM_PARAMS) reply).1.1
          = 0) ∧
      s1 = { s with threads :=
        (upd_thread s.threads n (fun t => { t with
          rpc_arg := env.phys_to_virt
            (thread_rpc_alloc_arg env (env.arg_size THREAD_RPC_MAX_NUM_PARAMS) reply).1.1
          rpc_carg :=
            (thread_rpc_alloc_arg env (env.arg_size THREAD_RPC_MAX_NUM_PARAMS)
              reply).1.2 })) }) := by
  by_cases h0 : thr.rpc_arg = 0
  · right
    rw [std_entry_at_handler_fresh env s cpu reply n thr hid hthr h0] at h
    split_ifs at h with hbad
    simp only [Option.some.injEq] at h
    exact ⟨h0, hbad, h.symm⟩
  · left
    rw [std_entry_at_handler_cached env s cpu reply n thr hid hthr h0] at h
    simp only [Option.some.injEq] at h
    exact ⟨h0, h.symm⟩

/-- C30 as stated is refuted: the cache is off, the normal world answers the
ALLOC RPC with the valid address 0x1000 and the cookie 0; the handler runs and
__thread_std_smc_entry returns having issued no RPC_FREE, the only RPC is the
ALLOC. -/
theorem C30_no_free_for_zero_cookie_counterexample :
    ex_taken_off.thread_prealloc_rpc_cache = false ∧
    __thread_std_smc_entry ex_env ex_taken_off 0 ex_args (0x1000, 0) ex_handler =
      (ex_taken_off, .done ⟨ex_handler ex_args, [.alloc 96], true⟩) ∧
    (std_entry_at_handler ex_env ex_taken_off 0 (0x1000, 0)).map
      (fun s1 => s1.threads.map (fun t => (t.rpc_arg, t.rpc_carg))) =
      some [(0x10001000, 0)] := by
  refine ⟨by decide, by decide, by decide⟩

/-- C30 (amended): when __thread_std_smc_entry returns after the handler ran,
in the state s1 with the slot t1 of the thread, the argument registers are
those the handler computed.  If the prealloc flag is false, rpc_arg of the
thread is null and rpc_carg is 0, the rest of the slot and the other slots are
as in s1, and the last RPC issued is an RPC_FREE with the former cookie when
that cookie is not 0; for the cookie 0 no RPC_FREE is issued.  If the prealloc
flag is true the state is s1: rpc_arg and rpc_carg are the non-null buffer and
the cookie the handler ran with, and a later call on the same slot, as long
as the slot holds this buffer, issues no allocation RPC. -/
theorem C30_rpc_arg_retention (env : mem_env) (s s1 : State) (cpu : Nat)
    (args : thread_smc_args) (reply : Nat × Nat)
    (handler : thread_smc_args → thread_smc_args) (n : Nat) (thr : thread_ctx)
    (hid : thread_id_of s cpu = .done n) (hthr : s.threads[n]? = some thr)
    (hran : std_entry_at_handler env s cpu reply = some s1) :
    ∃ (t1 : thread_ctx) (rpcs : List rpc_call),
      s1.threads[n]? = some t1 ∧ t1.rpc_arg ≠ 0 ∧
      (s.thread_prealloc_rpc_cache = false →
        __thread_std_smc_entry env s cpu args reply handler =
          ({ s1 with threads :=
              (upd_thread s1.threads n (fun t => { t with rpc_arg := 0, rpc_carg := 0 })) },
            .done ⟨handler args, rpcs ++ thread_rpc_free_arg t1.rpc_carg, true⟩) ∧
        (upd_thread s1.threads n (fun t => { t with rpc_arg := 0, rpc_carg := 0 }))[n]? =
          some { t1 with rpc_arg := 0, rpc_carg := 0 } ∧
        (∀ c : Nat, rpc_call.free c ∉ rpcs) ∧
        (t1.rpc_carg ≠ 0 → thread_rpc_free_arg t1.rpc_carg = [.free t1.rpc_carg]) ∧
        (t1.rpc_carg = 0 → thread_rpc_free_arg t1.rpc_carg = [])) ∧
      (s.thread_prealloc_rpc_cache ≠ false →
        __thread_std_smc_entry env s cpu args reply handler =
          (s1, .done ⟨handler args, rpcs, true⟩) ∧
        ∀ (env2 : mem_env) (s2 : State) (cpu2 : Nat) (args2 : thread_smc_args)
          (reply2 : Nat × Nat) (handler2 : thread_smc_args → thread_smc_args)
          (t2 : thread_ctx),
          thread_id_of s2 cpu2 = .done n → s2.threads[n]? = some t2 →
          t2.rpc_arg = t1.rpc_arg →
          ∃ (s3 : State) (rpcs2 : List rpc_call),
            __thread_std_smc_entry env2 s2 cpu2 args2 reply2 handler2 =
              (s3, .done ⟨handler2 args2, rpcs2, true⟩) ∧
            ∀ size : Nat, rpc_call.alloc size ∉ rpcs2) := by
  have hfree : ∀ c : Nat, (c ≠ 0 → thread_rpc_free_arg c = [.free c]) ∧
      (c = 0 → thread_rpc_free_arg c = []) := by
    intro c
    unfold thread_rpc_free_arg
    exact ⟨fun h => by rw [if_pos h], fun h => by rw [if_neg (not_not.mpr h)]⟩
  have hlater : ∀ (t1 : thread_ctx), t1.rpc_arg ≠ 0 →
      ∀ (env2 : mem_env) (s2 : State) (cpu2 : Nat) (args2 : thread_smc_args)
        (reply2 : Nat × Nat) (handler2 : thread_smc_args → thread_smc_args)
        (t2 : thread_ctx),
        thread_id_of s2 cpu2 = .done n → s2.threads[n]? = some t2 →
        t2.rpc_arg = t1.rpc_arg →
        ∃ (s3 : State) (rpcs2 : List rpc_call),
          __thread_std_smc_entry env2 s2 cpu2 args2 reply2 handler2 =
            (s3, .done ⟨handler2 args2, rpcs2, true⟩) ∧
          ∀ size : Nat, rpc_call.alloc size ∉ rpcs2 := by
    intro t1 ht1 env2 s2 cpu2 args2 reply2 handler2 t2 hid2 hthr2 heq
    have h2 := std_entry_cached env2 s2 cpu2 args2 reply2 handler2 n t2 hid2 hthr2
      (by rw [heq]; exact ht1)
    by_cases hoff2 : s2.thread_prealloc_rpc_cache = false
    · rw [if_pos hoff2] at h2
      exact ⟨_, _, h2, fun size => alloc_not_mem_free_arg _ _⟩
    · rw [if_neg hoff2] at h2
      exact ⟨_, _, h2, fun size => by simp⟩
  rcases std_entry_at_handler_some env s s1 cpu reply n thr hid hthr hran with
    ⟨h0, rfl⟩ | ⟨h0, hok, rfl⟩
  · have hr := std_entry_cached env s1 cpu args reply handler n thr hid hthr h0
    refine ⟨thr, [], hthr, h0, fun hoff => ?_, fun hon => ?_⟩
    · rw [if_pos hoff] at hr
      refine ⟨by rw [hr]; rfl, ?_, fun c => by simp, (hfree _).1, (hfree _).2⟩
      rw [getElem?_upd_thread, if_pos rfl, hthr]
      rfl
    · rw [if_neg hon] at hr
      exact ⟨hr, hlater thr h0⟩
  · have hr := std_entry_alloc_ok env s cpu args reply handler n thr hid hthr h0 hok
    have hv : env.phys_to_virt
        (thread_rpc_alloc_arg env (env.arg_size THREAD_RPC_MAX_NUM_PARAMS) reply).1.1 ≠ 0 :=
      fun h => hok (Or.inr (Or.inr h))
    have hno : ∀ c : Nat, rpc_call.free c ∉
        (thread_rpc_alloc_arg env (env.arg_size THREAD_RPC_MAX_NUM_PARAMS) reply).2 := by
      intro c
      have hp : (thread_rpc_alloc_arg env (env.arg_size THREAD_RPC_MAX_NUM_PARAMS)
          reply).1.1 ≠ 0 := fun h => hok (Or.inl h)
      unfold thread_rpc_alloc_arg at hp ⊢
      simp only [] at hp ⊢
      split_ifs at hp ⊢ with hchk
      · exact absurd rfl hp
      · simp
    refine ⟨{ thr with
        rpc_arg := env.phys_to_virt
          (thread_rpc_alloc_arg env (env.arg_size THREAD_RPC_MAX_NUM_PARAMS) reply).1.1
        rpc_carg :=
          (thread_rpc_alloc_arg env (env.arg_size THREAD_RPC_MAX_NUM_PARAMS) reply).1.2 },
      (thread_rpc_alloc_arg env (env.arg_size THREAD_RPC_MAX_NUM_PARAMS) reply).2,
      ?_, hv, fun hoff => ?_, fun hon => ?_⟩
    · show (upd_thread s.threads n _)[n]? = _
      rw [getElem?_upd_thread, if_pos rfl, hthr]
      rfl
    · rw [if_pos hoff] at hr
      refine ⟨?_, ?_, hno, (hfree _).1, (hfree _).2⟩
      · rw [hr]
        simp only [upd_thread_upd_thread]
      · show (upd_thread (upd_thread s.threads n _) n _)[n]? = _
        rw [upd_thread_upd_thread, getElem?_upd_thread, if_pos rfl, hthr]
        rfl
    · rw [if_neg hon] at hr
      exact ⟨hr, hlater _ hv⟩

theorem C30_rpc_arg_retention_witness :
    ∃ (t1 : thread_ctx) (rpcs : List rpc_call),
      ex_cached.threads[0]? = some t1 ∧ t1.rpc_arg ≠ 0 ∧
      __thread_std_smc_entry ex_env ex_taken 0 ex_args (0x1000, 0x55) id =
        (ex_cached, .done ⟨id ex_args, rpcs, true⟩) := by
  obtain ⟨t1, rpcs, h1, h2, _, h4⟩ := C30_rpc_arg_retention ex_env ex_taken ex_cached 0
    ex_args (0x1000, 0x55) id 0 (ex_taken.threads.getD 0 zero_thread)
    (by decide) (by decide) (by decide)
  exact ⟨t1, rpcs, h1, h2, (h4 (by decide)).1⟩

theorem same_mutexes_refl (s : State) : same_mutexes s s := fun _ => rfl

theorem same_mutexes_upd (s : State) (n : Nat) (f : thread_ctx → thread_ctx)
    (ls : List thread_core_local) (b : Bool) (hf : ∀ t, (f t).mutexes = t.mutexes) :
    same_mutexes s
      { threads := upd_thread s.threads n f, thread_core_local := ls,
        thread_prealloc_rpc_cache := b } := by
  intro i
  show ((upd_thread s.threads n f)[i]?).map _ = _
  rw [getElem?_upd_thread]
  by_cases hi : i = n
  · subst hi
    rw [if_pos rfl]
    cases s.threads[i]? with
    | none => rfl
    | some t => simp [hf]
  · rw [if_neg hi]

theorem mutex_inv_transfer {s s' : State} {owner : Nat → Int} (h : same_mutexes s s')
    (hi : mutex_inv s owner) : mutex_inv s' owner := by
  obtain ⟨h1, h2⟩ := hi
  constructor
  · intro i t a ht
    have := h i
    rw [ht] at this
    cases hs : s.threads[i]? with
    | none => simp [hs] at this
    | some u =>
      simp only [hs, Option.map_some', Option.some.injEq] at this
      rw [this]
      exact h1 i u a hs
  · intro t ht
    obtain ⟨i, hi⟩ := List.mem_iff_getElem?.mp ht
    have := h i
    rw [hi] at this
    cases hs : s.threads[i]? with
    | none => simp [hs] at this
    | some u =>
      simp only [hs, Option.map_some', Option.some.injEq] at this
      rw [this]
      exact h2 u (List.mem_iff_getElem?.mpr ⟨i, hs⟩)

theorem same_mutexes_threads (s : State) (n : Nat) (f : thread_ctx → thread_ctx)
    (hf : ∀ t, (f t).mutexes = t.mutexes) :
    same_mutexes s { s with threads := upd_thread s.threads n f } :=
  same_mutexes_upd s n f _ _ hf

theorem std_entry_same_mutexes {env : mem_env} {s s' : State} {cpu : Nat}
    {args : thread_smc_args} {reply : Nat × Nat} {handler : thread_smc_args → thread_smc_args}
    {r : Ret entry_result}
    (h : __thread_std_smc_entry env s cpu args reply handler = (s', r)) :
    same_mutexes s s' := by
  unfold __thread_std_smc_entry at h
  cases hid : thread_id_of s cpu with
  | assert_failed =>
    simp only [hid, Prod.mk.injEq] at h
    rw [← h.1]; exact same_mutexes_refl s
  | out_of_bounds =>
    simp only [hid, Prod.mk.injEq] at h
    rw [← h.1]; exact same_mutexes_refl s
  | done n =>
    simp only [hid] at h
    cases hthr : s.threads[n]? with
    | none =>
      simp only [hthr, Prod.mk.injEq] at h
      rw [← h.1]; exact same_mutexes_refl s
    | some thr =>
      simp only [hthr] at h
      split at h
      · simp only [Prod.mk.injEq] at h
        rw [← h.1]; exact same_mutexes_refl s
      · by_cases hoff : s.thread_prealloc_rpc_cache = false
        · rw [if_pos hoff] at h
          simp only [Prod.mk.injEq] at h
          rw [← h.1]
          by_cases h0 : thr.rpc_arg = 0
          · simp only [h0, if_true, upd_thread_upd_thread]
            exact same_mutexes_threads s n _ (fun _ => rfl)
          · simp only [h0, if_false, upd_thread_upd_thread]
            exact same_mutexes_threads s n _ (fun _ => rfl)
        · rw [if_neg hoff] at h
          simp only [Prod.mk.injEq] at h
          rw [← h.1]
          by_cases h0 : thr.rpc_arg = 0
          · simp only [h0, if_true, upd_thread_upd_thread]
            exact same_mutexes_threads s n _ (fun _ => rfl)
          · simp only [h0, if_false]
            exact same_mutexes_refl s

theorem set_irq_same_mutexes {hw hw' : core_hw} {s s' : State} {cpu : Nat} {enable : Bool}
    {r : Ret Unit} (h : thread_set_irq hw s cpu enable = (hw', s', r)) :
    same_mutexes s s' := by
  simp only [thread_set_irq, thread_mask_exceptions_irq] at h
  cases hl : thread_get_core_local_hw (irq_masked_hw hw) s cpu with
  | none =>
    simp only [hl, Prod.mk.injEq] at h
    rw [← h.2.1]; exact same_mutexes_refl s
  | some l =>
    simp only [hl] at h
    by_cases hc : l.curr_thread = -1
    · simp only [hc, if_true, Prod.mk.injEq] at h
      rw [← h.2.1]; exact same_mutexes_refl s
    · simp only [hc, if_false] at h
      cases ht : thread_at s l.curr_thread with
      | none =>
        simp only [ht, Prod.mk.injEq] at h
        rw [← h.2.1]; exact same_mutexes_refl s
      | some t =>
        simp only [ht] at h
        cases enable with
        | true =>
          simp only [if_true, Prod.mk.injEq] at h
          rw [← h.2.1]
          exact same_mutexes_threads s _ _ (fun _ => rfl)
        | false =>
          simp only [Bool.false_eq_true, if_false, Prod.mk.injEq] at h
          rw [← h.2.1]
          exact same_mutexes_threads s _ _ (fun _ => rfl)

theorem disable_same_mutexes (hw : core_hw) (s : State) (cookie : Nat) :
    same_mutexes s (thread_disable_prealloc_rpc_cache hw s cookie).2.1 := by
  rw [thread_disable_prealloc_rpc_cache_state]
  unfold disable_prealloc_out
  split
  · exact same_mutexes_refl s
  · rcases reclaim_loop_spec s.threads with ⟨h1, h2, h3⟩ | ⟨i, t, h1, h2, h3, h4, h5⟩
    · have hr : reclaim_loop s.threads = (s.threads, none) := Prod.ext h2 h1
      rw [hr]
      exact fun _ => rfl
    · have hr : reclaim_loop s.threads =
          (upd_thread s.threads i (fun t => { t with rpc_carg := 0, rpc_arg := 0 }),
            some t.rpc_carg) := Prod.ext h5 h1
      rw [hr]
      exact same_mutexes_threads s i _ (fun _ => rfl)

theorem table_op_same_mutexes {s s' : State} (h : table_op s s') : same_mutexes s s' := by
  cases h with
  | clr _ _ cpu h =>
    obtain ⟨ct, t, -, -, -, hs'⟩ := thread_clr_boot_thread_done h
    rw [hs']
    exact same_mutexes_upd s _ _ _ _ (fun _ => rfl)
  | alloc _ _ cpu args entry cpsr r h =>
    have hidle := thread_alloc_and_run_done h
    rcases alloc_loop_spec s.threads 0 with ⟨-, -, hfull⟩ | ⟨i, t, -, h2, h3, h4, -⟩
    · have := (thread_alloc_and_run_full s cpu args entry cpsr hfull).1
      rw [h] at this
      rw [show s' = s from this]
      exact same_mutexes_refl s
    · rw [thread_alloc_and_run_found s cpu args entry cpsr i t hidle h2 h3 h4] at h
      simp only [Prod.mk.injEq] at h
      rw [← h.1]
      exact same_mutexes_upd s _ _ _ _ (fun _ => rfl)
  | resume _ _ cpu args r h =>
    have hidle := thread_resume_from_rpc_done h
    by_cases hgood : ∃ t, s.threads[args.a3]? = some t ∧
        t.state = THREAD_STATE_SUSPENDED ∧ args.a7 = t.hyp_clnt_id
    · obtain ⟨t, h1, h2, h3⟩ := hgood
      rw [thread_resume_from_rpc_ok s cpu args t hidle h1 h2 h3] at h
      simp only [Prod.mk.injEq] at h
      rw [← h.1]
      refine same_mutexes_upd s _ _ _ _ (fun u => ?_)
      unfold resume_slot
      split <;> rfl
    · have hbad : ∀ t, s.threads[args.a3]? = some t →
          ¬ (t.state = THREAD_STATE_SUSPENDED ∧ args.a7 = t.hyp_clnt_id) :=
        fun t ht hc => hgood ⟨t, ht, hc.1, hc.2⟩
      have := (thread_resume_from_rpc_bad s cpu args hbad).1
      rw [h] at this
      rw [show s' = s from this]
      exact same_mutexes_refl s
  | suspend _ _ cpu flags cpsr pc umap ct h =>
    obtain ⟨t, hcur, ht, hact⟩ := thread_state_suspend_done h
    rw [thread_state_suspend_ok s cpu flags cpsr pc umap ct t hcur ht hact] at h
    simp only [Prod.mk.injEq] at h
    rw [← h.1]
    exact same_mutexes_upd s _ _ _ _ (fun _ => rfl)
  | free _ _ cpu h =>
    obtain ⟨ct, t, hcur, ht, hact, hm⟩ := thread_state_free_done h
    rw [thread_state_free_ok s cpu ct t hcur ht hact hm] at h
    simp only [Prod.mk.injEq] at h
    rw [← h.1]
    exact same_mutexes_upd s _ _ _ _ (fun _ => rfl)
  | std_entry env _ _ cpu args reply handler r h => exact std_entry_same_mutexes h
  | set_irq hw hw' _ _ cpu enable h => exact set_irq_same_mutexes h
  | enable_cache hw hw' _ _ rv h =>
    have := thread_enable_prealloc_rpc_cache_state hw s
    rw [h] at this
    simp only [] at this
    rw [this]
    split
    · exact same_mutexes_refl s
    · exact fun _ => rfl
  | disable_cache hw hw' _ _ cookie r h =>
    have := disable_same_mutexes hw s cookie
    rw [h] at this
    exact this

theorem thread_add_mutex_ok (s : State) (cpu : Nat) (m : mutex) (l : thread_core_local)
    (t : thread_ctx) (hl : thread_get_core_local s cpu = some l)
    (ht : thread_at s l.curr_thread = some t) (hact : t.state = THREAD_STATE_ACTIVE)
    (ho : m.owner_id = -1) :
    thread_add_mutex s cpu m =
      ({ s with threads :=
          (upd_thread s.threads l.curr_thread.toNat
            (fun t => { t with mutexes := t.mutexes ++ [m.addr] })) },
        { m with owner_id := l.curr_thread }, .done ()) := by
  have h0 := (thread_at_eq_some ht).1
  have hne : l.curr_thread ≠ -1 := by omega
  unfold thread_add_mutex
  simp only [hl, hne, if_false, ht, hact, ho, ne_eq, not_true_eq_false]

theorem thread_rem_mutex_ok (s : State) (cpu : Nat) (m : mutex) (l : thread_core_local)
    (t : thread_ctx) (hl : thread_get_core_local s cpu = some l)
    (ht : thread_at s l.curr_thread = some t) (hact : t.state = THREAD_STATE_ACTIVE)
    (ho : m.owner_id = l.curr_thread) :
    thread_rem_mutex s cpu m =
      ({ s with threads :=
          (upd_thread s.threads l.curr_thread.toNat
            (fun t => { t with mutexes := t.mutexes.erase m.addr })) },
        { m with owner_id := -1 }, .done ()) := by
  have h0 := (thread_at_eq_some ht).1
  have hne : l.curr_thread ≠ -1 := by omega
  unfold thread_rem_mutex
  simp only [hl, hne, if_false, ht, hact, ho, ne_eq, not_true_eq_false]

theorem thread_rem_mutex_not_owner (s : State) (cpu : Nat) (m : mutex)
    (l : thread_core_local) (hl : thread_get_core_local s cpu = some l)
    (ho : m.owner_id ≠ l.curr_thread) :
    (thread_rem_mutex s cpu m).1 = s ∧ (thread_rem_mutex s cpu m).2.1 = m ∧
      (thread_rem_mutex s cpu m).2.2 ≠ .done () := by
  unfold thread_rem_mutex
  simp only [hl]
  split_ifs with h1
  · exact ⟨rfl, rfl, by simp⟩
  · cases ht : thread_at s l.curr_thread with
    | none => exact ⟨rfl, rfl, by simp⟩
    | some t =>
      simp only []
      split_ifs with h2
      · exact ⟨rfl, rfl, by simp⟩
      · exact ⟨rfl, rfl, by simp⟩

theorem thread_add_mutex_done {s s' : State} {cpu : Nat} {m m' : mutex} {u : Unit}
    (h : thread_add_mutex s cpu m = (s', m', .done u)) :
    ∃ l t, thread_get_core_local s cpu = some l ∧ thread_at s l.curr_thread = some t ∧
      t.state = THREAD_STATE_ACTIVE ∧ m.owner_id = -1 := by
  unfold thread_add_mutex at h
  cases hl : thread_get_core_local s cpu with
  | none => simp [hl] at h
  | some l =>
    simp only [hl] at h
    by_cases hc : l.curr_thread = -1
    · simp [hc] at h
    · simp only [hc, if_false] at h
      cases ht : thread_at s l.curr_thread with
      | none => simp [ht] at h
      | some t =>
        simp only [ht] at h
        by_cases hs : t.state = THREAD_STATE_ACTIVE
        · by_cases ho : m.owner_id = -1
          · exact ⟨l, t, rfl, ht, hs, ho⟩
          · simp [hs, ho] at h
        · simp [hs] at h

theorem thread_rem_mutex_done {s s' : State} {cpu : Nat} {m m' : mutex} {u : Unit}
    (h : thread_rem_mutex s cpu m = (s', m', .done u)) :
    ∃ l t, thread_get_core_local s cpu = some l ∧ thread_at s l.curr_thread = some t ∧
      t.state = THREAD_STATE_ACTIVE ∧ m.owner_id = l.curr_thread := by
  unfold thread_rem_mutex at h
  cases hl : thread_get_core_local s cpu with
  | none => simp [hl] at h
  | some l =>
    simp only [hl] at h
    by_cases hc : l.curr_thread = -1
    · simp [hc] at h
    · simp only [hc, if_false] at h
      cases ht : thread_at s l.curr_thread with
      | none => simp [ht] at h
      | some t =>
        simp only [ht] at h
        by_cases hs : t.state = THREAD_STATE_ACTIVE
        · by_cases ho : m.owner_id = l.curr_thread
          · exact ⟨l, t, rfl, ht, hs, ho⟩
          · simp [hs, ho] at h
        · simp [hs] at h

/-- An assignment to slot n that gives the slot it found leaves the table as
it was. -/
theorem upd_thread_same (ts : List thread_ctx) (n : Nat) (f : thread_ctx → thread_ctx)
    (hf : ∀ t, ts[n]? = some t → f t = t) : upd_thread ts n f = ts := by
  apply List.ext_getElem?
  intro i
  rw [getElem?_upd_thread]
  by_cases hi : i = n
  · subst hi
    rw [if_pos rfl]
    cases ht : ts[i]? with
    | none => rfl
    | some t => simp [hf t ht]
  · rw [if_neg hi]

/-- The accounting after an assignment to the mutex list of slot n and to the
owner of the mutex a. -/
theorem mutex_inv_upd {s : State} {owner : Nat → Int} (n : Nat) (t : thread_ctx)
    (a : Nat) (v : Int) (l : List Nat) (hn : s.threads[n]? = some t)
    (hi : mutex_inv s owner) (hnd : l.Nodup)
    (hmem : ∀ b, b ∈ l ↔ (if b = a then v else owner b) = (n : Int))
    (hother : ∀ i : Nat, i ≠ n → (v = (i : Int) ↔ owner a = (i : Int))) :
    mutex_inv { s with threads := (upd_thread s.threads n (fun t => { t with mutexes := l })) }
      (fun b => if b = a then v else owner b) := by
  obtain ⟨h1, h2⟩ := hi
  constructor
  · intro i t' b ht'
    have ht2 : (upd_thread s.threads n (fun t => { t with mutexes := l }))[i]? = some t' := ht'
    rw [getElem?_upd_thread] at ht2
    by_cases hin : i = n
    · subst hin
      rw [if_pos rfl, hn] at ht2
      simp only [Option.map_some', Option.some.injEq] at ht2
      rw [← ht2]
      exact hmem b
    · rw [if_neg hin] at ht2
      by_cases hb : b = a
      · subst hb
        simp only [if_true]
        rw [h1 i t' b ht2]
        exact (hother i hin).symm
      · simp only [hb, if_false]
        exact h1 i t' b ht2
  · intro u hu
    rcases mem_upd_thread hu with hmem' | ⟨t0, _, rfl⟩
    · exact h2 u hmem'
    · exact hnd

theorem mutex_inv_add {s s' : State} {cpu : Nat} {owner : Nat → Int} {a : Nat} {m' : mutex}
    (hi : mutex_inv s owner)
    (h : thread_add_mutex s cpu ⟨a, owner a⟩ = (s', m', .done ())) :
    mutex_inv s' (fun b => if b = a then m'.owner_id else owner b) := by
  obtain ⟨l, t, hl, ht, hact, ho⟩ := thread_add_mutex_done h
  obtain ⟨h0, hget⟩ := thread_at_eq_some ht
  rw [thread_add_mutex_ok s cpu _ l t hl ht hact ho] at h
  simp only [Prod.mk.injEq] at h
  obtain ⟨hs', hm', -⟩ := h
  have hown : owner a = -1 := ho
  have hct : ((l.curr_thread.toNat : Nat) : Int) = l.curr_thread := Int.toNat_of_nonneg h0
  have hnotin : a ∉ t.mutexes := by
    intro hin
    have := (hi.1 _ t a hget).mp hin
    omega
  have hupd : upd_thread s.threads l.curr_thread.toNat
      (fun t => { t with mutexes := t.mutexes ++ [a] }) =
      upd_thread s.threads l.curr_thread.toNat
        (fun u => { u with mutexes := t.mutexes ++ [a] }) := by
    apply List.ext_getElem?
    intro i
    rw [getElem?_upd_thread, getElem?_upd_thread]
    by_cases hin : i = l.curr_thread.toNat
    · rw [if_pos hin, if_pos hin, hget]
      rfl
    · rw [if_neg hin, if_neg hin]
  rw [← hs', ← hm']
  show mutex_inv { s with threads :=
    (upd_thread s.threads l.curr_thread.toNat
      (fun t => { t with mutexes := t.mutexes ++ [a] })) } _
  rw [hupd]
  refine mutex_inv_upd l.curr_thread.toNat t a l.curr_thread (t.mutexes ++ [a]) hget hi ?_ ?_ ?_
  · rw [List.nodup_append]
    refine ⟨hi.2 t (List.mem_iff_getElem?.mpr ⟨_, hget⟩), List.nodup_singleton a, ?_⟩
    intro x hx hx'
    rw [List.mem_singleton] at hx'
    subst hx'
    exact hnotin hx
  · intro b
    rw [List.mem_append, List.mem_singleton]
    by_cases hb : b = a
    · simp only [hb, or_true, if_true, true_iff]
      exact hct.symm
    · simp only [hb, or_false, if_false]
      exact hi.1 _ t b hget
  · intro i hin
    rw [hown]
    constructor
    · intro hv
      exfalso
      apply hin
      omega
    · intro hv
      omega

theorem mutex_inv_rem {s s' : State} {cpu : Nat} {owner : Nat → Int} {a : Nat} {m' : mutex}
    (hi : mutex_inv s owner)
    (h : thread_rem_mutex s cpu ⟨a, owner a⟩ = (s', m', .done ())) :
    mutex_inv s' (fun b => if b = a then m'.owner_id else owner b) := by
  obtain ⟨l, t, hl, ht, hact, ho⟩ := thread_rem_mutex_done h
  obtain ⟨h0, hget⟩ := thread_at_eq_some ht
  rw [thread_rem_mutex_ok s cpu _ l t hl ht hact ho] at h
  simp only [Prod.mk.injEq] at h
  obtain ⟨hs', hm', -⟩ := h
  have hown : owner a = l.curr_thread := ho
  have hct : ((l.curr_thread.toNat : Nat) : Int) = l.curr_thread := Int.toNat_of_nonneg h0
  have hnd : t.mutexes.Nodup := hi.2 t (List.mem_iff_getElem?.mpr ⟨_, hget⟩)
  have hupd : upd_thread s.threads l.curr_thread.toNat
      (fun t => { t with mutexes := t.mutexes.erase a }) =
      upd_thread s.threads l.curr_thread.toNat
        (fun u => { u with mutexes := t.mutexes.erase a }) := by
    apply List.ext_getElem?
    intro i
    rw [getElem?_upd_thread, getElem?_upd_thread]
    by_cases hin : i = l.curr_thread.toNat
    · rw [if_pos hin, if_pos hin, hget]
      rfl
    · rw [if_neg hin, if_neg hin]
  rw [← hs', ← hm']
  show mutex_inv { s with threads :=
    (upd_thread s.threads l.curr_thread.toNat
      (fun t => { t with mutexes := t.mutexes.erase a })) } _
  rw [hupd]
  refine mutex_inv_upd l.curr_thread.toNat t a (-1) (t.mutexes.erase a) hget hi
    (hnd.erase a) ?_ ?_
  · intro b
    rw [hnd.mem_erase_iff]
    by_cases hb : b = a
    · simp only [hb, ne_eq, not_true_eq_false, false_and, if_true, false_iff]
      omega
    · simp only [hb, ne_eq, not_false_eq_true, true_and, if_false]
      exact hi.1 _ t b hget
  · intro i hin
    rw [hown]
    constructor
    · intro hv
      omega
    · intro hv
      exfalso
      apply hin
      omega

theorem mutex_inv_boot {s0 s : State} {cpu : Nat} {owner : Nat → Int}
    (hown : ∀ a, owner a = -1) (h : thread_init_boot_thread s0 cpu = (s, .done ())) :
    mutex_inv s owner := by
  have hs := thread_init_boot_thread_done h
  have hmem : ∀ v ∈ s.threads, v.mutexes = [] := by
    intro v hv
    rw [hs] at hv
    have key : ∀ w ∈ s0.threads.map (fun t => { t with mutexes := [] }), w.mutexes = [] := by
      intro w hw
      obtain ⟨x, _, rfl⟩ := List.mem_map.mp hw
      rfl
    rcases mem_upd_thread hv with hv | ⟨t, ht, rfl⟩
    · exact key v hv
    · exact key t (List.mem_iff_getElem?.mpr ⟨0, ht⟩)
  constructor
  · intro i t a ht
    rw [hmem t (List.mem_iff_getElem?.mpr ⟨i, ht⟩), hown a]
    simp only [List.not_mem_nil, false_iff]
    omega
  · intro t ht
    rw [hmem t ht]
    exact List.nodup_nil

theorem reachable_mutex_inv {s : State} {owner : Nat → Int} (h : ReachableMutex s owner) :
    mutex_inv s owner := by
  induction h with
  | boot s0 s cpu owner hown h => exact mutex_inv_boot hown h
  | op s s' owner _ h ih => exact mutex_inv_transfer (table_op_same_mutexes h) ih
  | add_mutex s s' cpu owner a m' _ h ih => exact mutex_inv_add ih h
  | rem_mutex s s' cpu owner a m' _ h ih => exact mutex_inv_rem ih h

/-- Example: ex_run with all mutexes unowned is a reachable state. -/
theorem ex_run_reachable_mutex : ReachableMutex ex_run (fun _ => -1) :=
  ReachableMutex.op ex_boot ex_run _
    (ReachableMutex.boot (zero_state 3 2) ex_boot 0 _ (fun _ => rfl) rfl)
    (table_op.alloc ex_boot ex_run 1 ex_args 0x1001 0x1d3 (ex_args, .resumed 1) rfl)

theorem add_rem_mutex_round_trip {s s1 : State} {owner : Nat → Int} {cpu a : Nat}
    {m1 : mutex} (hr : ReachableMutex s owner)
    (h : thread_add_mutex s cpu ⟨a, owner a⟩ = (s1, m1, .done ())) :
    thread_rem_mutex s1 cpu m1 = (s, ⟨a, owner a⟩, .done ()) := by
  have hi := reachable_mutex_inv hr
  obtain ⟨l, t, hl, ht, hact, ho⟩ := thread_add_mutex_done h
  obtain ⟨h0, hget⟩ := thread_at_eq_some ht
  rw [thread_add_mutex_ok s cpu _ l t hl ht hact ho] at h
  simp only [Prod.mk.injEq] at h
  obtain ⟨hs1, hm1, -⟩ := h
  have hown : owner a = -1 := ho
  have hct : ((l.curr_thread.toNat : Nat) : Int) = l.curr_thread := Int.toNat_of_nonneg h0
  have hnotin : a ∉ t.mutexes := by
    intro hin
    have := (hi.1 _ t a hget).mp hin
    omega
  have hl1 : thread_get_core_local s1 cpu = some l := by
    rw [← hs1]
    exact hl
  have ht1 : thread_at s1 l.curr_thread = some { t with mutexes := t.mutexes ++ [a] } := by
    rw [← hs1]
    have := thread_at_upd s l.curr_thread.toNat
      (fun t => { t with mutexes := t.mutexes ++ [a] }) s.thread_core_local l.curr_thread
    rw [if_pos hct.symm, ht] at this
    exact this
  have hrem := thread_rem_mutex_ok s1 cpu m1 l _ hl1 ht1 hact (by rw [← hm1])
  rw [hrem, ← hs1, ← hm1]
  simp only [upd_thread_upd_thread]
  rw [upd_thread_same]
  · rw [hown]
  · intro u hu
    rw [hget] at hu
    cases hu
    show { t with mutexes := (t.mutexes ++ [a]).erase a } = t
    rw [List.erase_append_right _ hnotin]
    simp

/-- C29: mutex accounting.  thread_add_mutex(m), on a core whose current
thread ct is ACTIVE and with m.owner_id = -1, sets m.owner_id = ct and appends
m at the tail of threads[ct].mutexes.  thread_rem_mutex(m) asserts
m.owner_id = ct (with another owner it stops and changes nothing); it sets
m.owner_id = -1 and removes m from the list.  In a reachable state
thread_add_mutex(m) followed by thread_rem_mutex(m) gives back the state, so
the mutex list of the thread, and m with its owner_id, exactly.  In every
reachable state a mutex is in the list of slot i if and only if its owner_id
is i. -/
theorem C29_mutex_accounting :
    (∀ (s : State) (cpu : Nat) (m : mutex) (l : thread_core_local) (t : thread_ctx),
      thread_get_core_local s cpu = some l → thread_at s l.curr_thread = some t →
      t.state = THREAD_STATE_ACTIVE → m.owner_id = -1 →
      thread_add_mutex s cpu m =
        ({ s with threads :=
            (upd_thread s.threads l.curr_thread.toNat
              (fun t => { t with mutexes := t.mutexes ++ [m.addr] })) },
          { m with owner_id := l.curr_thread }, .done ()) ∧
      (thread_at (thread_add_mutex s cpu m).1 l.curr_thread).map (fun t => t.mutexes) =
        some (t.mutexes ++ [m.addr])) ∧
    (∀ (s : State) (cpu : Nat) (m : mutex) (l : thread_core_local) (t : thread_ctx),
      thread_get_core_local s cpu = some l → thread_at s l.curr_thread = some t →
      t.state = THREAD_STATE_ACTIVE →
      (m.owner_id ≠ l.curr_thread →
        (thread_rem_mutex s cpu m).1 = s ∧ (thread_rem_mutex s cpu m).2.1 = m ∧
        (thread_rem_mutex s cpu m).2.2 ≠ .done ()) ∧
      (m.owner_id = l.curr_thread →
        thread_rem_mutex s cpu m =
          ({ s with threads :=
              (upd_thread s.threads l.curr_thread.toNat
                (fun t => { t with mutexes := t.mutexes.erase m.addr })) },
            { m with owner_id := -1 }, .done ()) ∧
        (thread_at (thread_rem_mutex s cpu m).1 l.curr_thread).map (fun t => t.mutexes) =
          some (t.mutexes.erase m.addr))) ∧
    (∀ (s s1 : State) (owner : Nat → Int) (cpu a : Nat) (m1 : mutex),
      ReachableMutex s owner →
      thread_add_mutex s cpu ⟨a, owner a⟩ = (s1, m1, .done ()) →
      thread_rem_mutex s1 cpu m1 = (s, ⟨a, owner a⟩, .done ())) ∧
    (∀ (s : State) (owner : Nat → Int), ReachableMutex s owner →
      ∀ (i : Nat) (t : thread_ctx) (a : Nat), s.threads[i]? = some t →
        (a ∈ t.mutexes ↔ owner a = (i : Int))) := by
  refine ⟨?_, ?_, ?_, ?_⟩
  · intro s cpu m l t hl ht hact ho
    have hok := thread_add_mutex_ok s cpu m l t hl ht hact ho
    refine ⟨hok, ?_⟩
    rw [hok]
    have hct : ((l.curr_thread.toNat : Nat) : Int) = l.curr_thread :=
      Int.toNat_of_nonneg (thread_at_eq_some ht).1
    have := thread_at_upd s l.curr_thread.toNat
      (fun t => { t with mutexes := t.mutexes ++ [m.addr] }) s.thread_core_local l.curr_thread
    rw [if_pos hct.symm, ht] at this
    show Option.map _ (thread_at { s with threads := _ } l.curr_thread) = _
    rw [this]
    rfl
  · intro s cpu m l t hl ht hact
    refine ⟨fun ho => thread_rem_mutex_not_owner s cpu m l hl ho, fun ho => ?_⟩
    have hok := thread_rem_mutex_ok s cpu m l t hl ht hact ho
    refine ⟨hok, ?_⟩
    rw [hok]
    have hct : ((l.curr_thread.toNat : Nat) : Int) = l.curr_thread :=
      Int.toNat_of_nonneg (thread_at_eq_some ht).1
    have := thread_at_upd s l.curr_thread.toNat
      (fun t => { t with mutexes := t.mutexes.erase m.addr }) s.thread_core_local l.curr_thread
    rw [if_pos hct.symm, ht] at this
    show Option.map _ (thread_at { s with threads := _ } l.curr_thread) = _
    rw [this]
    rfl
  · intro s s1 owner cpu a m1 hr h
    exact add_rem_mutex_round_trip hr h
  · intro s owner hr
    exact (reachable_mutex_inv hr).1

theorem C29_mutex_accounting_witness :
    thread_rem_mutex (thread_add_mutex ex_run 1 ⟨64, -1⟩).1 1
      (thread_add_mutex ex_run 1 ⟨64, -1⟩).2.1 = (ex_run, ⟨64, -1⟩, .done ()) :=
  C29_mutex_accounting.2.2.1 ex_run (thread_add_mutex ex_run 1 ⟨64, -1⟩).1 (fun _ => -1) 1 64
    (thread_add_mutex ex_run 1 ⟨64, -1⟩).2.1 ex_run_reachable_mutex (by decide)

theorem tee_type_of_lt (p : optee_msg_param) : tee_type_of p < 8 := by
  unfold tee_type_of
  split_ifs <;> decide

theorem set_pt_same (pt : Nat → Nat) (n v : Nat) : set_pt pt n v n = v % 2 ^ 8 := by
  unfold set_pt
  rw [if_pos rfl]

theorem set_pt_other (pt : Nat → Nat) (n v j : Nat) (h : j ≠ n) : set_pt pt n v j = pt j := by
  unfold set_pt
  rw [if_neg h]

theorem set_u_same (ta : tee_ta_param) (n : Nat) (v : param_u) : (set_u ta n v).u n = v := by
  unfold set_u
  simp

theorem set_u_other (ta : tee_ta_param) (n : Nat) (v : param_u) (j : Nat) (h : j ≠ n) :
    (set_u ta n v).u j = ta.u j := by
  unfold set_u
  simp [h]

theorem copy_in_loop_succ (shm : shm_region) (params : Nat → optee_msg_param)
    (k n : Nat) (ta : tee_ta_param) (pt : Nat → Nat) :
    copy_in_loop shm params (k + 1) n ta pt =
      if (params n).attr &&& OPTEE_MSG_ATTR_META ≠ 0 then (TEE_ERROR_BAD_PARAMETERS, ta, pt)
      else if (params n).attr &&& OPTEE_MSG_ATTR_FRAGMENT ≠ 0 then
        (TEE_ERROR_BAD_PARAMETERS, ta, pt)
      else if (params n).attr &&& OPTEE_MSG_ATTR_TYPE_MASK = OPTEE_MSG_ATTR_TYPE_NONE then
        copy_in_loop shm params k (n + 1) (set_u ta n zero_param_u)
          (set_pt pt n TEE_PARAM_TYPE_NONE)
      else if (params n).attr &&& OPTEE_MSG_ATTR_TYPE_MASK = OPTEE_MSG_ATTR_TYPE_VALUE_INPUT ∨
          (params n).attr &&& OPTEE_MSG_ATTR_TYPE_MASK = OPTEE_MSG_ATTR_TYPE_VALUE_OUTPUT ∨
          (params n).attr &&& OPTEE_MSG_ATTR_TYPE_MASK = OPTEE_MSG_ATTR_TYPE_VALUE_INOUT then
        copy_in_loop shm params k (n + 1)
          (set_u ta n { ta.u n with
            val := ⟨to_uint32 (params n).a, to_uint32 (params n).b⟩ })
          (set_pt pt n (TEE_PARAM_TYPE_VALUE_INPUT +
            ((params n).attr &&& OPTEE_MSG_ATTR_TYPE_MASK) - OPTEE_MSG_ATTR_TYPE_VALUE_INPUT))
      else if (params n).attr &&& OPTEE_MSG_ATTR_TYPE_MASK = OPTEE_MSG_ATTR_TYPE_TMEM_INPUT ∨
          (params n).attr &&& OPTEE_MSG_ATTR_TYPE_MASK = OPTEE_MSG_ATTR_TYPE_TMEM_OUTPUT ∨
          (params n).attr &&& OPTEE_MSG_ATTR_TYPE_MASK = OPTEE_MSG_ATTR_TYPE_TMEM_INOUT then
        if (set_mem_param shm (params n) (ta.u n).mem).1 ≠ TEE_SUCCESS then
          ((set_mem_param shm (params n) (ta.u n).mem).1,
            set_u ta n { ta.u n with mem := (set_mem_param shm (params n) (ta.u n).mem).2 },
            set_pt pt n (TEE_PARAM_TYPE_MEMREF_INPUT +
              ((params n).attr &&& OPTEE_MSG_ATTR_TYPE_MASK) - OPTEE_MSG_ATTR_TYPE_TMEM_INPUT))
        else
          copy_in_loop shm params k (n + 1)
            (set_u ta n { ta.u n with mem := (set_mem_param shm (params n) (ta.u n).mem).2 })
            (set_pt pt n (TEE_PARAM_TYPE_MEMREF_INPUT +
              ((params n).attr &&& OPTEE_MSG_ATTR_TYPE_MASK) - OPTEE_MSG_ATTR_TYPE_TMEM_INPUT))
      else (TEE_ERROR_BAD_PARAMETERS, ta, pt) := by
  rw [copy_in_loop]
  simp only [type_mask_uint32]

/-- One step of the loop of copy_in_params that goes on to the next slot:
what it assigns to pt[n] and to ta_param->u[n]. -/
theorem copy_in_loop_step (shm : shm_region) (params : Nat → optee_msg_param)
    (k n : Nat) (ta : tee_ta_param) (pt : Nat → Nat)
    (h : (copy_in_loop shm params (k + 1) n ta pt).1 = TEE_SUCCESS) :
    ∃ (x : param_u),
      copy_in_loop shm params (k + 1) n ta pt =
        copy_in_loop shm params k (n + 1) (set_u ta n x)
          (set_pt pt n (tee_type_of (params n))) ∧
      (is_value_slot (params n) →
        x.val = ⟨to_uint32 (params n).a, to_uint32 (params n).b⟩) := by
  rw [copy_in_loop_succ] at h ⊢
  by_cases hm : (params n).attr &&& OPTEE_MSG_ATTR_META ≠ 0
  · rw [if_pos hm] at h
    exact absurd h bad_ne_success
  rw [if_neg hm] at h ⊢
  by_cases hf : (params n).attr &&& OPTEE_MSG_ATTR_FRAGMENT ≠ 0
  · rw [if_pos hf] at h
    exact absurd h bad_ne_success
  rw [if_neg hf] at h ⊢
  by_cases h0 : (params n).attr &&& OPTEE_MSG_ATTR_TYPE_MASK = OPTEE_MSG_ATTR_TYPE_NONE
  · rw [if_pos h0]
    refine ⟨zero_param_u, ?_, ?_⟩
    · have : tee_type_of (params n) = TEE_PARAM_TYPE_NONE := by
        unfold tee_type_of
        rw [h0]
        decide
      rw [this]
    · rintro (hx | hx | hx) <;> rw [h0] at hx <;> exact absurd hx (by decide)
  rw [if_neg h0] at h ⊢
  by_cases hv : (params n).attr &&& OPTEE_MSG_ATTR_TYPE_MASK = OPTEE_MSG_ATTR_TYPE_VALUE_INPUT ∨
      (params n).attr &&& OPTEE_MSG_ATTR_TYPE_MASK = OPTEE_MSG_ATTR_TYPE_VALUE_OUTPUT ∨
      (params n).attr &&& OPTEE_MSG_ATTR_TYPE_MASK = OPTEE_MSG_ATTR_TYPE_VALUE_INOUT
  · rw [if_pos hv]
    refine ⟨{ ta.u n with val := ⟨to_uint32 (params n).a, to_uint32 (params n).b⟩ }, ?_,
      fun _ => rfl⟩
    have : TEE_PARAM_TYPE_VALUE_INPUT + ((params n).attr &&& OPTEE_MSG_ATTR_TYPE_MASK) -
        OPTEE_MSG_ATTR_TYPE_VALUE_INPUT = tee_type_of (params n) := by
      unfold tee_type_of
      rcases hv with hx | hx | hx <;> rw [hx] <;> decide
    rw [this]
  rw [if_neg hv] at h ⊢
  by_cases ht : (params n).attr &&& OPTEE_MSG_ATTR_TYPE_MASK = OPTEE_MSG_ATTR_TYPE_TMEM_INPUT ∨
      (params n).attr &&& OPTEE_MSG_ATTR_TYPE_MASK = OPTEE_MSG_ATTR_TYPE_TMEM_OUTPUT ∨
      (params n).attr &&& OPTEE_MSG_ATTR_TYPE_MASK = OPTEE_MSG_ATTR_TYPE_TMEM_INOUT
  · rw [if_pos ht] at h ⊢
    by_cases hs : (set_mem_param shm (params n) (ta.u n).mem).1 ≠ TEE_SUCCESS
    · rw [if_pos hs] at h
      exact absurd h hs
    rw [if_neg hs]
    refine ⟨{ ta.u n with mem := (set_mem_param shm (params n) (ta.u n).mem).2 }, ?_, ?_⟩
    · have : TEE_PARAM_TYPE_MEMREF_INPUT + ((params n).attr &&& OPTEE_MSG_ATTR_TYPE_MASK) -
          OPTEE_MSG_ATTR_TYPE_TMEM_INPUT = tee_type_of (params n) := by
        unfold tee_type_of
        rcases ht with hx | hx | hx <;> rw [hx] <;> decide
      rw [this]
    · intro hx
      exact absurd hx hv
  · rw [if_neg ht] at h
    exact absurd h bad_ne_success

/-- What the loop of copy_in_params leaves when it runs through: for the slots
it visited, the matching TEE type in pt and the two values of a value slot
converted to uint32_t; outside them pt and ta_param->u are untouched. -/
theorem copy_in_loop_types (shm : shm_region) (params : Nat → optee_msg_param) :
    ∀ (k n : Nat) (ta : tee_ta_param) (pt : Nat → Nat),
      (copy_in_loop shm params k n ta pt).1 = TEE_SUCCESS →
      (∀ j : Nat, n ≤ j → j < n + k →
        (copy_in_loop shm params k n ta pt).2.2 j = tee_type_of (params j) ∧
        (is_value_slot (params j) →
          ((copy_in_loop shm params k n ta pt).2.1.u j).val =
            ⟨to_uint32 (params j).a, to_uint32 (params j).b⟩)) ∧
      (∀ j : Nat, j < n ∨ n + k ≤ j →
        (copy_in_loop shm params k n ta pt).2.2 j = pt j ∧
        (copy_in_loop shm params k n ta pt).2.1.u j = ta.u j) := by
  intro k
  induction k with
  | zero =>
    intro n ta pt _
    exact ⟨fun j h1 h2 => by omega, fun j _ => ⟨rfl, rfl⟩⟩
  | succ k ih =>
    intro n ta pt h
    obtain ⟨x, hstep, hval⟩ := copy_in_loop_step shm params k n ta pt h
    rw [hstep] at h ⊢
    obtain ⟨i1, i2⟩ := ih (n + 1) _ _ h
    constructor
    · intro j hj1 hj2
      by_cases hjn : j = n
      · subst hjn
        obtain ⟨o1, o2⟩ := i2 j (Or.inl (by omega))
        rw [o1, o2, set_pt_same, set_u_same]
        refine ⟨Nat.mod_eq_of_lt ?_, hval⟩
        have := tee_type_of_lt (params j)
        omega
      · exact i1 j (by omega) (by omega)
    · intro j hj
      have hjn : j ≠ n := by omega
      obtain ⟨o1, o2⟩ := i2 j (by omega)
      rw [o1, o2, set_pt_other _ _ _ _ hjn, set_u_other _ _ _ _ hjn]
      exact ⟨rfl, rfl⟩

theorem nibble_testBit_high (x i : Nat) (hx : x < 16) (hi : 4 ≤ i) : x.testBit i = false := by
  apply Nat.testBit_lt_two_pow
  calc x < 2 ^ 4 := hx
    _ ≤ 2 ^ i := Nat.pow_le_pow_right (by norm_num) hi

/-- Reading back nibble n of the packed types: the low nibble of the n-th
type, provided the types before it fit a nibble. -/
theorem param_type_get_types (t : Nat → Nat) (n : Nat) (hn : n < 4)
    (hlow : ∀ j : Nat, j < n → t j < 16) :
    TEE_PARAM_TYPE_GET (TEE_PARAM_TYPES (t 0) (t 1) (t 2) (t 3)) n = t n % 16 := by
  unfold TEE_PARAM_TYPE_GET TEE_PARAM_TYPES
  have h15 : (0xF : Nat) = 2 ^ 4 - 1 := by norm_num
  have h16 : (16 : Nat) = 2 ^ 4 := by norm_num
  rw [h15, h16]
  apply Nat.eq_of_testBit_eq
  intro i
  simp only [Nat.testBit_and, Nat.testBit_shiftRight, Nat.testBit_mod_two_pow,
    Nat.testBit_or, Nat.testBit_shiftLeft, Nat.testBit_two_pow_sub_one]
  by_cases hi : i < 4
  · interval_cases n
    · have e1 : ¬ (4 ≤ i) := by omega
      have e2 : ¬ (8 ≤ i) := by omega
      have e3 : ¬ (12 ≤ i) := by omega
      have e4 : i < 32 := by omega
      simp [hi, e1, e2, e3, e4]
    · have e0 : (t 0).testBit (4 + i) = false :=
        nibble_testBit_high _ _ (hlow 0 (by omega)) (by omega)
      have e2 : ¬ (8 ≤ 4 + i) := by omega
      have e3 : ¬ (12 ≤ 4 + i) := by omega
      have e4 : 4 + i < 32 := by omega
      simp [hi, e0, e2, e3, e4]
    · have e0 : (t 0).testBit (8 + i) = false :=
        nibble_testBit_high _ _ (hlow 0 (by omega)) (by omega)
      have e0' : (t 1).testBit (8 + i - 4) = false :=
        nibble_testBit_high _ _ (hlow 1 (by omega)) (by omega)
      have e1 : 4 ≤ 8 + i := by omega
      have e3 : ¬ (12 ≤ 8 + i) := by omega
      have e4 : 8 + i < 32 := by omega
      simp [hi, e0, e0', e1, e3, e4]
    · have e0 : (t 0).testBit (12 + i) = false :=
        nibble_testBit_high _ _ (hlow 0 (by omega)) (by omega)
      have e0' : (t 1).testBit (12 + i - 4) = false :=
        nibble_testBit_high _ _ (hlow 1 (by omega)) (by omega)
      have e0'' : (t 2).testBit (12 + i - 8) = false :=
        nibble_testBit_high _ _ (hlow 2 (by omega)) (by omega)
      have e1 : 4 ≤ 12 + i := by omega
      have e2 : 8 ≤ 12 + i := by omega
      have e4 : 12 + i < 32 := by omega
      simp [hi, e0, e0', e0'', e1, e2, e4]
  · simp [hi]

theorem copy_in_params_success (shm : shm_region) (params : Nat → optee_msg_param)
    (k : Nat) (ta : tee_ta_param) (pt : Nat → Nat)
    (h : (copy_in_params shm params k ta pt).1 = TEE_SUCCESS) :
    k ≤ TEE_NUM_PARAMS ∧ (copy_in_loop shm params k 0 zero_ta_param pt).1 = TEE_SUCCESS ∧
    (copy_in_params shm params k ta pt).2 =
      { (copy_in_loop shm params k 0 zero_ta_param pt).2.1 with
        types := TEE_PARAM_TYPES ((copy_in_loop shm params k 0 zero_ta_param pt).2.2 0)
          ((copy_in_loop shm params k 0 zero_ta_param pt).2.2 1)
          ((copy_in_loop shm params k 0 zero_ta_param pt).2.2 2)
          ((copy_in_loop shm params k 0 zero_ta_param pt).2.2 3) } := by
  unfold copy_in_params at h ⊢
  simp only [] at h ⊢
  by_cases hk : k > TEE_NUM_PARAMS
  · rw [if_pos hk] at h
    exact absurd h bad_ne_success
  · rw [if_neg hk] at h ⊢
    by_cases hl : (copy_in_loop shm params k 0 zero_ta_param pt).1 ≠ TEE_SUCCESS
    · rw [if_pos hl] at h
      exact absurd h hl
    · rw [if_neg hl]
      exact ⟨by omega, not_not.mp hl, rfl⟩

/-- What a successful copy_in_params encodes: for every slot n < k the TEE
type matching the slot, with value.a and value.b of a value slot copied
(converted to uint32_t); for a slot k <= n < 4 the low nibble of what pt[n]
held on entry, provided the bytes pt[k..n-1] fit a nibble.  With pt zeroed on
entry the slots from k on are TEE_PARAM_TYPE_NONE. -/
theorem copy_in_params_types (shm : shm_region) (params : Nat → optee_msg_param)
    (k : Nat) (ta : tee_ta_param) (pt : Nat → Nat)
    (h : (copy_in_params shm params k ta pt).1 = TEE_SUCCESS) :
    (∀ n : Nat, n < k →
      TEE_PARAM_TYPE_GET (copy_in_params shm params k ta pt).2.types n =
        tee_type_of (params n) ∧
      (is_value_slot (params n) →
        ((copy_in_params shm params k ta pt).2.u n).val =
          ⟨to_uint32 (params n).a, to_uint32 (params n).b⟩)) ∧
    (∀ n : Nat, k ≤ n → n < 4 → (∀ j : Nat, k ≤ j → j < n → pt j < 16) →
      TEE_PARAM_TYPE_GET (copy_in_params shm params k ta pt).2.types n = pt n % 16) ∧
    ((∀ j : Nat, k ≤ j → j < 4 → pt j = 0) →
      ∀ n : Nat, k ≤ n → n < 4 →
        TEE_PARAM_TYPE_GET (copy_in_params shm params k ta pt).2.types n =
          TEE_PARAM_TYPE_NONE) := by
  obtain ⟨hk, hl, heq⟩ := copy_in_params_success shm params k ta pt h
  have hk4 : k ≤ 4 := hk
  obtain ⟨i1, i2⟩ := copy_in_loop_types shm params k 0 zero_ta_param pt hl
  have hlowt : ∀ j : Nat, j < k →
      (copy_in_loop shm params k 0 zero_ta_param pt).2.2 j < 16 := by
    intro j hj
    rw [(i1 j (Nat.zero_le _) (by omega)).1]
    have := tee_type_of_lt (params j)
    omega
  have hhigh : ∀ n : Nat, k ≤ n → n < 4 → (∀ j : Nat, k ≤ j → j < n → pt j < 16) →
      TEE_PARAM_TYPE_GET (copy_in_params shm params k ta pt).2.types n = pt n % 16 := by
    intro n hn hn4 hpt
    rw [heq]
    show TEE_PARAM_TYPE_GET (TEE_PARAM_TYPES _ _ _ _) n = _
    rw [param_type_get_types (copy_in_loop shm params k 0 zero_ta_param pt).2.2 n hn4,
      (i2 n (Or.inr (by omega))).1]
    intro j hj
    by_cases hjk : j < k
    · exact hlowt j hjk
    · rw [(i2 j (Or.inr (by omega))).1]
      exact hpt j (by omega) hj
  refine ⟨fun n hn => ⟨?_, ?_⟩, hhigh, fun hz n hn hn4 => ?_⟩
  · rw [heq]
    show TEE_PARAM_TYPE_GET (TEE_PARAM_TYPES _ _ _ _) n = _
    rw [param_type_get_types (copy_in_loop shm params k 0 zero_ta_param pt).2.2 n (by omega)
      (fun j hj => hlowt j (by omega)), (i1 n (Nat.zero_le _) (by omega)).1]
    have := tee_type_of_lt (params n)
    omega
  · intro hv
    rw [heq]
    exact (i1 n (Nat.zero_le _) (by omega)).2 hv
  · rw [hhigh n hn hn4 (fun j hj1 hj2 => by rw [hz j hj1 (by omega)]; norm_num),
      hz n hn hn4]
    rfl

/-- C33: after entry_open_session, arg.session is non-zero only if the command
succeeded: arg.ret != TEE_SUCCESS implies arg.session = 0.  When
get_open_session_meta or copy_in_params rejects the request, arg.session = 0,
arg.ret = TEE_ERROR_BAD_PARAMETERS and arg.ret_origin = TEE_ORIGIN_TEE; when
the session layer is reached and fails, arg.session = 0 whatever session
pointer it left. -/
theorem C33_open_session_session_field (sl : ta_layer) (shm : shm_region)
    (loc : entry_locals) (smc_args : thread_smc_args) (arg : optee_msg_arg)
    (num_params : Nat) :
    ((entry_open_session sl shm loc smc_args arg num_params).arg.ret ≠ TEE_SUCCESS →
      (entry_open_session sl shm loc smc_args arg num_params).arg.session = 0) ∧
    (((get_open_session_meta num_params arg.params loc.num_meta loc.uuid loc.clnt_id).1
          ≠ TEE_SUCCESS ∨
        (copy_in_params shm (fun n => arg.params (n + 2)) (num_params - 2) loc.param
          loc.pt).1 ≠ TEE_SUCCESS) →
      (entry_open_session sl shm loc smc_args arg num_params).arg.session = 0 ∧
      (entry_open_session sl shm loc smc_args arg num_params).arg.ret =
        TEE_ERROR_BAD_PARAMETERS ∧
      (entry_open_session sl shm loc smc_args arg num_params).arg.ret_origin =
        TEE_ORIGIN_TEE) ∧
    ((get_open_session_meta num_params arg.params loc.num_meta loc.uuid loc.clnt_id).1
        = TEE_SUCCESS →
      (copy_in_params shm (fun n => arg.params (n + 2)) (num_params - 2) loc.param
        loc.pt).1 = TEE_SUCCESS →
      (sl.tee_ta_open_session
        (get_open_session_meta num_params arg.params loc.num_meta loc.uuid loc.clnt_id).2.2.1
        (get_open_session_meta num_params arg.params loc.num_meta loc.uuid loc.clnt_id).2.2.2
        (copy_in_params shm (fun n => arg.params (n + 2)) (num_params - 2) loc.param
          loc.pt).2).res ≠ TEE_SUCCESS →
      (entry_open_session sl shm loc smc_args arg num_params).arg.session = 0 ∧
      (entry_open_session sl shm loc smc_args arg num_params).arg.ret ≠ TEE_SUCCESS) := by
  have key : ∀ (hm : (get_open_session_meta num_params arg.params loc.num_meta loc.uuid
        loc.clnt_id).1 = TEE_SUCCESS)
      (hc : (copy_in_params shm (fun n => arg.params (n + 2)) (num_params - 2) loc.param
        loc.pt).1 = TEE_SUCCESS),
      (entry_open_session sl shm loc smc_args arg num_params).arg.ret =
        (sl.tee_ta_open_session
          (get_open_session_meta num_params arg.params loc.num_meta loc.uuid
            loc.clnt_id).2.2.1
          (get_open_session_meta num_params arg.params loc.num_meta loc.uuid
            loc.clnt_id).2.2.2
          (copy_in_params shm (fun n => arg.params (n + 2)) (num_params - 2) loc.param
            loc.pt).2).res ∧
      ((sl.tee_ta_open_session
          (get_open_session_meta num_params arg.params loc.num_meta loc.uuid
            loc.clnt_id).2.2.1
          (get_open_session_meta num_params arg.params loc.num_meta loc.uuid
            loc.clnt_id).2.2.2
          (copy_in_params shm (fun n => arg.params (n + 2)) (num_params - 2) loc.param
            loc.pt).2).res ≠ TEE_SUCCESS →
        (entry_open_session sl shm loc smc_args arg num_params).arg.session = 0) := by
    intro hm hc
    rcases get_open_session_meta_res num_params arg.params loc.num_meta loc.uuid loc.clnt_id
      with ⟨_, hn, _⟩ | hb
    · have hm1 : ¬ ((get_open_session_meta num_params arg.params loc.num_meta loc.uuid
          loc.clnt_id).1 ≠ TEE_SUCCESS) := not_not.mpr hm
      have hc1 : ¬ ((copy_in_params shm (fun n => arg.params (n + 2)) (num_params - 2)
          loc.param loc.pt).1 ≠ TEE_SUCCESS) := not_not.mpr hc
      unfold entry_open_session
      simp only []
      rw [if_neg hm1, hn, if_neg hc1]
      refine ⟨rfl, fun hres => ?_⟩
      simp only [hres, ne_eq, not_false_eq_true, if_true, not_true_eq_false, if_false]
    · rw [hb] at hm
      exact absurd hm bad_ne_success
  have hrej : ((get_open_session_meta num_params arg.params loc.num_meta loc.uuid
        loc.clnt_id).1 ≠ TEE_SUCCESS ∨
      (copy_in_params shm (fun n => arg.params (n + 2)) (num_params - 2) loc.param
        loc.pt).1 ≠ TEE_SUCCESS) →
      (entry_open_session sl shm loc smc_args arg num_params).arg.session = 0 ∧
      (entry_open_session sl shm loc smc_args arg num_params).arg.ret =
        TEE_ERROR_BAD_PARAMETERS ∧
      (entry_open_session sl shm loc smc_args arg num_params).arg.ret_origin =
        TEE_ORIGIN_TEE := by
    intro h
    have hret := entry_open_session_ret sl shm loc smc_args arg num_params
    rw [if_pos h] at hret
    refine ⟨?_, congrArg Prod.fst hret, congrArg Prod.snd hret⟩
    unfold entry_open_session
    simp only []
    rcases get_open_session_meta_res num_params arg.params loc.num_meta loc.uuid loc.clnt_id
      with ⟨hm, hn, _⟩ | hb
    · have hm1 : ¬ ((get_open_session_meta num_params arg.params loc.num_meta loc.uuid
          loc.clnt_id).1 ≠ TEE_SUCCESS) := not_not.mpr hm
      rcases h with h | h
      · exact absurd hm h
      · rw [if_neg hm1, hn, if_pos h]
    · have hm1 : (get_open_session_meta num_params arg.params loc.num_meta loc.uuid
          loc.clnt_id).1 ≠ TEE_SUCCESS := by
        rw [hb]
        exact bad_ne_success
      rw [if_pos hm1]
  refine ⟨fun hret => ?_, hrej, fun hm hc hres => ?_⟩
  · by_cases hm : (get_open_session_meta num_params arg.params loc.num_meta loc.uuid
        loc.clnt_id).1 = TEE_SUCCESS
    · by_cases hc : (copy_in_params shm (fun n => arg.params (n + 2)) (num_params - 2)
          loc.param loc.pt).1 = TEE_SUCCESS
      · obtain ⟨k1, k2⟩ := key hm hc
        exact k2 (by rw [← k1]; exact hret)
      · exact (hrej (Or.inr hc)).1
    · exact (hrej (Or.inl hm)).1
  · obtain ⟨k1, k2⟩ := key hm hc
    exact ⟨k2 hres, by rw [k1]; exact hres⟩

theorem C33_open_session_session_field_witness :
    (entry_open_session ex_sl_fail ex_shm ex_locals ex_smc_std ex_arg_open 3).arg.ret
      = 0xFFFF0000 ∧
    (entry_open_session ex_sl_fail ex_shm ex_locals ex_smc_std ex_arg_open 3).arg.session
      = 0 :=
  ⟨by decide,
    (C33_open_session_session_field ex_sl_fail ex_shm ex_locals ex_smc_std ex_arg_open 3).1
      (by decide)⟩

theorem ex_zero_cookie_reachable : ReachableFull ex_zero_cookie := by
  refine ReachableFull.free ex_z7 ex_zero_cookie 1 ?_ rfl
  refine ReachableFull.free ex_z6 ex_z7 0 ?_ rfl
  refine ReachableFull.std_entry ex_env ex_z5 ex_z6 1 ex_args (0x1100, 0x66) id
    ⟨ex_args, [.alloc 96], true⟩ ?_ rfl
  refine ReachableFull.std_entry ex_env ex_z4 ex_z5 0 ex_args (0x1000, 0) id
    ⟨ex_args, [.alloc 96], true⟩ ?_ rfl
  refine ReachableFull.alloc ex_z3 ex_z4 1 ex_args 0x1001 0x1d3 (ex_args, .resumed 1) ?_ rfl
  refine ReachableFull.alloc ex_z2 ex_z3 0 ex_args 0x1001 0x1d3 (ex_args, .resumed 0) ?_ rfl
  refine ReachableFull.enable_cache ⟨0x1d3, 0⟩ ⟨0x1d3, 0⟩ ex_z1 ex_z2 true ?_ rfl
  refine ReachableFull.clr ex_z0 ex_z1 0 ?_ rfl
  exact ReachableFull.boot (zero_state 2 2) _ 0 (by decide) rfl

/-- What a call of thread_disable_prealloc_rpc_cache that runs to its end
leaves and returns, whatever the core. -/
theorem thread_disable_prealloc_rpc_cache_done {hw hw' : core_hw} {s s' : State}
    {cookie : Nat} {r : Bool × Nat}
    (h : thread_disable_prealloc_rpc_cache hw s cookie = (hw', s', .done r)) :
    s' = (disable_prealloc_out s cookie).1 ∧
    r = ((disable_prealloc_out s cookie).2.1, (disable_prealloc_out s cookie).2.2) := by
  simp only [thread_disable_prealloc_rpc_cache, thread_mask_exceptions_irq] at h
  split at h
  · simp only [Prod.mk.injEq, Ret.done.injEq] at h
    exact ⟨h.2.1.symm, h.2.2.symm⟩
  · simp only [Prod.mk.injEq] at h
    exact absurd h.2.2 (by simp)

/-- C32 as stated is refuted: ex_zero_cookie is reached by boot,
thread_clr_boot_thread, thread_enable_prealloc_rpc_cache, two
thread_alloc_and_run, two __thread_std_smc_entry (the normal world hands out
the buffer of slot 0 with the cookie 0, that of slot 1 with the cookie 0x66)
and two thread_state_free.  There thread_disable_prealloc_rpc_cache returns
true with *cookie = 0, yet the prealloc flag is still set and slot 1 still
holds its cached rpc_arg. -/
theorem C32_zero_cookie_counterexample :
    ReachableFull ex_zero_cookie ∧
    (thread_disable_prealloc_rpc_cache ⟨0x1d3, 0⟩ ex_zero_cookie 7).2.2 = .done (true, 0) ∧
    (thread_disable_prealloc_rpc_cache ⟨0x1d3, 0⟩
      ex_zero_cookie 7).2.1.thread_prealloc_rpc_cache = true ∧
    (thread_disable_prealloc_rpc_cache ⟨0x1d3, 0⟩ ex_zero_cookie 7).2.1.threads.map
      (fun t => (t.rpc_arg, t.rpc_carg)) = [(0, 0), (0x10001100, 0x66)] :=
  ⟨ex_zero_cookie_reachable, by decide, by decide, by decide⟩

/-- C32 (amended): whenever thread_disable_prealloc_rpc_cache returns true with
*cookie = 0, either the cache is fully drained (the prealloc flag is false, no
slot holds a cached rpc_arg, the table is as before the call), or the call
reclaimed the lowest-index cached slot and the cookie of that slot was 0 (the
flag is then untouched).  In particular, when no cached rpc_arg comes with the
cookie 0, a zero cookie means that the cache is fully drained. -/
theorem C32_zero_cookie_drained (hw hw' : core_hw) (s s' : State) (cookie : Nat)
    (h : thread_disable_prealloc_rpc_cache hw s cookie = (hw', s', .done (true, 0))) :
    (((s'.thread_prealloc_rpc_cache = false ∧ (∀ t ∈ s'.threads, t.rpc_arg = 0) ∧
        s'.threads = s.threads) ∨
      (∃ (i : Nat) (t : thread_ctx), s.threads[i]? = some t ∧ t.rpc_arg ≠ 0 ∧
        t.rpc_carg = 0 ∧
        (∀ (j : Nat) (u : thread_ctx), j < i → s.threads[j]? = some u → u.rpc_arg = 0) ∧
        s' = { s with threads :=
          (upd_thread s.threads i (fun t => { t with rpc_carg := 0, rpc_arg := 0 })) })) ∧
    ((∀ t ∈ s.threads, t.rpc_arg ≠ 0 → t.rpc_carg ≠ 0) →
      s'.thread_prealloc_rpc_cache = false ∧ (∀ t ∈ s'.threads, t.rpc_arg = 0))) := by
  obtain ⟨hs', hr⟩ := thread_disable_prealloc_rpc_cache_done h
  simp only [Prod.mk.injEq] at hr
  obtain ⟨hrv, hck⟩ := hr
  have hfree : ∀ t ∈ s.threads, t.state = THREAD_STATE_FREE := by
    by_contra hbusy
    rw [disable_prealloc_out_busy s cookie hbusy] at hrv
    exact absurd hrv (by simp)
  have hmain : (s'.thread_prealloc_rpc_cache = false ∧ (∀ t ∈ s'.threads, t.rpc_arg = 0) ∧
        s'.threads = s.threads) ∨
      (∃ (i : Nat) (t : thread_ctx), s.threads[i]? = some t ∧ t.rpc_arg ≠ 0 ∧
        t.rpc_carg = 0 ∧
        (∀ (j : Nat) (u : thread_ctx), j < i → s.threads[j]? = some u → u.rpc_arg = 0) ∧
        s' = { s with threads :=
          (upd_thread s.threads i (fun t => { t with rpc_carg := 0, rpc_arg := 0 })) }) := by
    rcases reclaim_loop_spec s.threads with ⟨_, _, h3⟩ | ⟨i, t, _, h2, h3, h4, _⟩
    · left
      rw [disable_prealloc_out_none s cookie hfree h3] at hs'
      rw [hs']
      exact ⟨rfl, h3, rfl⟩
    · right
      have hout := disable_prealloc_out_some s cookie i t hfree h2 h3 h4
      rw [hout] at hs' hck
      exact ⟨i, t, h2, h3, hck.symm, h4, hs'⟩
  refine ⟨hmain, fun hnz => ?_⟩
  rcases hmain with ⟨h1, h2, _⟩ | ⟨i, t, h2, h3, h0, _, _⟩
  · exact ⟨h1, h2⟩
  · exact absurd h0 (hnz t (List.mem_iff_getElem?.mpr ⟨i, h2⟩) h3)

theorem C32_zero_cookie_drained_witness :
    ex_on.thread_prealloc_rpc_cache = true ∧
    (thread_disable_prealloc_rpc_cache ⟨0x1d3, 0⟩ ex_on 7).2.1.thread_prealloc_rpc_cache
      = false ∧
    (∀ t ∈ (thread_disable_prealloc_rpc_cache ⟨0x1d3, 0⟩ ex_on 7).2.1.threads,
      t.rpc_arg = 0) :=
  ⟨by decide,
    (C32_zero_cookie_drained ⟨0x1d3, 0⟩ ⟨0x1d3, 0⟩ ex_on
      (thread_disable_prealloc_rpc_cache ⟨0x1d3, 0⟩ ex_on 7).2.1 7 (by decide)).2
      (by decide)⟩

/-! ## The flag predicates of the VFP state -/

theorem set_vfp_vfp {U : Type} (w : vfp_world U) (n k : Nat) (v : thread_vfp_state) :
    (set_vfp w n v).vfp k = if k = n then v else w.vfp k := rfl

theorem set_vfp_user {U : Type} (w : vfp_world U) (n : Nat) (v : thread_vfp_state) :
    (set_vfp w n v).user = w.user := rfl

theorem set_user_user {U : Type} (w : vfp_world U) (a k : Nat) (v : thread_user_vfp_state) :
    (set_user w a v).user k = if k = a then v else w.user k := rfl

theorem set_user_vfp {U : Type} (w : vfp_world U) (a : Nat) (v : thread_user_vfp_state) :
    (set_user w a v).vfp = w.vfp := rfl

theorem vfp_flags_kept_of_eq {U : Type} (w w' : vfp_world U)
    (hv : w'.vfp = w.vfp) (hu : w'.user = w.user) : vfp_flags_kept w w' := by
  intro n
  simp only [sec_flags_ok, bound_user_ok, hv, hu]
  exact ⟨id, id⟩

theorem thread_kernel_disable_vfp_flags {U : Type} (ops : vfp_ops U) (w : vfp_world U)
    (state : Nat) : vfp_flags_kept w (thread_kernel_disable_vfp ops w state).1 := by
  apply vfp_flags_kept_of_eq
  · unfold thread_kernel_disable_vfp
    simp only []
    split_ifs <;> rfl
  · unfold thread_kernel_disable_vfp
    simp only []
    split_ifs <;> rfl

theorem thread_kernel_save_vfp_flags {U : Type} (ops : vfp_ops U) (s : State) (cpu : Nat)
    (w : vfp_world U) : vfp_flags_kept w (thread_kernel_save_vfp ops s cpu w).1 := by
  intro n
  unfold thread_kernel_save_vfp
  rcases h : vfp_thread_id w.hw s cpu with ⟨hw1, _ | m⟩
  · simp [sec_flags_ok, bound_user_ok]
  · simp only []
    split_ifs
    · simp [sec_flags_ok, bound_user_ok]
    · simp only [sec_flags_ok, bound_user_ok, set_vfp_vfp, set_vfp_user]
      by_cases hk : n = m
      · subst hk; simp
      · simp [hk]
    · simp [sec_flags_ok, bound_user_ok]

theorem thread_kernel_restore_vfp_flags {U : Type} (ops : vfp_ops U) (s : State) (cpu : Nat)
    (w : vfp_world U) : vfp_flags_kept w (thread_kernel_restore_vfp ops s cpu w).1 := by
  intro n
  unfold thread_kernel_restore_vfp
  rcases h : vfp_thread_id w.hw s cpu with ⟨hw1, _ | m⟩
  · simp [sec_flags_ok, bound_user_ok]
  · simp only []
    split_ifs
    · simp [sec_flags_ok, bound_user_ok]
    · simp [sec_flags_ok, bound_user_ok]
    · simp only [sec_flags_ok, bound_user_ok, set_vfp_vfp, set_vfp_user]
      by_cases hk : n = m
      · subst hk; simp
      · simp [hk]
    · simp [sec_flags_ok, bound_user_ok]

theorem thread_lazy_save_ns_vfp_flags {U : Type} (ops : vfp_ops U) (s : State) (cpu : Nat)
    (w : vfp_world U) : vfp_flags_kept w (thread_lazy_save_ns_vfp ops s cpu w).1 := by
  intro n
  unfold thread_lazy_save_ns_vfp
  rcases h : vfp_thread_id w.hw s cpu with ⟨hw1, _ | m⟩
  · simp [sec_flags_ok, bound_user_ok]
  · simp only [sec_flags_ok, bound_user_ok, set_vfp_vfp, set_vfp_user]
    by_cases hk : n = m
    · subst hk; simp
    · simp [hk]

/-- Setting saved on a user state that is lazily saved keeps the flag
predicates. -/
theorem set_user_saved_flags {U : Type} (w : vfp_world U) (a : Nat)
    (h : (w.user a).lazy_saved = true) :
    vfp_flags_kept w (set_user w a { w.user a with saved := true }) := by
  intro n
  simp only [sec_flags_ok, bound_user_ok, user_flags_ok, set_user_user, set_user_vfp]
  refine ⟨id, ?_⟩
  intro hb h0
  by_cases hk : (w.vfp n).uvfp = a
  · simp [hk, h]
  · simp only [if_neg hk]; exact hb h0

theorem vfp_flags_kept_trans {U : Type} (w w1 w2 : vfp_world U)
    (h1 : vfp_flags_kept w w1) (h2 : vfp_flags_kept w1 w2) : vfp_flags_kept w w2 :=
  fun n => ⟨fun h => (h2 n).1 ((h1 n).1 h), fun h => (h2 n).2 ((h1 n).2 h)⟩

theorem vfp_flags_kept_refl {U : Type} (w : vfp_world U) : vfp_flags_kept w w :=
  fun _ => ⟨id, id⟩

/-- Changing ns_saved of a thread keeps the flag predicates. -/
theorem set_vfp_ns_saved_flags {U : Type} (w : vfp_world U) (m : Nat) (b : Bool) :
    vfp_flags_kept w (set_vfp w m { w.vfp m with ns_saved := b }) := by
  intro n
  simp only [sec_flags_ok, bound_user_ok, set_vfp_vfp, set_vfp_user]
  by_cases hk : n = m
  · subst hk; simp
  · simp [hk]

/-- Setting sec_saved of a thread whose kernel state is lazily saved keeps the
flag predicates. -/
theorem set_vfp_sec_saved_flags {U : Type} (w : vfp_world U) (m : Nat)
    (h : (w.vfp m).sec_lazy_saved = true) :
    vfp_flags_kept w (set_vfp w m { w.vfp m with sec_saved := true }) := by
  intro n
  simp only [sec_flags_ok, bound_user_ok, set_vfp_vfp, set_vfp_user]
  by_cases hk : n = m
  · subst hk; simp [h]
  · simp [hk]

/-- The flag predicates read the fields vfp and user only. -/
theorem vfp_flags_kept_congr {U : Type} (w w' v v' : vfp_world U)
    (h1 : v.vfp = w.vfp) (h2 : v.user = w.user) (h3 : v'.vfp = w'.vfp)
    (h4 : v'.user = w'.user) (h : vfp_flags_kept w w') : vfp_flags_kept v v' := by
  intro n
  have := h n
  simp only [sec_flags_ok, bound_user_ok, h1, h2, h3, h4] at this ⊢
  exact this

theorem thread_lazy_restore_ns_vfp_flags {U : Type} (ops : vfp_ops U) (s : State) (cpu : Nat)
    (w : vfp_world U) : vfp_flags_kept w (thread_lazy_restore_ns_vfp ops s cpu w).1 := by
  unfold thread_lazy_restore_ns_vfp
  rcases h : vfp_thread_id w.hw s cpu with ⟨hw1, _ | m⟩
  · exact vfp_flags_kept_of_eq _ _ rfl rfl
  · simp only []
    split_ifs with h1 h2
    · exact vfp_flags_kept_of_eq _ _ rfl rfl
    · refine vfp_flags_kept_trans _ _ _ ?_ (set_vfp_ns_saved_flags _ m false)
      exact vfp_flags_kept_congr _ _ _ _ rfl rfl rfl rfl
        (set_user_saved_flags w (w.vfp m).uvfp h2.2.1)
    · refine vfp_flags_kept_trans _ _ _ ?_ (set_vfp_ns_saved_flags _ m false)
      exact vfp_flags_kept_of_eq _ _ rfl rfl

theorem thread_kernel_enable_vfp_flags {U : Type} (ops : vfp_ops U) (s : State) (cpu : Nat)
    (w : vfp_world U) : vfp_flags_kept w (thread_kernel_enable_vfp ops s cpu w).1 := by
  unfold thread_kernel_enable_vfp
  rcases h0 : thread_mask_exceptions w.hw THREAD_EXCP_IRQ with ⟨hw0, r⟩
  cases r with
  | assert_failed => exact vfp_flags_kept_of_eq _ _ rfl rfl
  | out_of_bounds => exact vfp_flags_kept_of_eq _ _ rfl rfl
  | done exceptions =>
    simp only []
    rcases h : vfp_thread_id hw0 s cpu with ⟨hw1, _ | m⟩
    · exact vfp_flags_kept_of_eq _ _ rfl rfl
    · simp only []
      split_ifs with h1 h2 h3 h4
      · exact vfp_flags_kept_of_eq _ _ rfl rfl
      · exact vfp_flags_kept_congr _ _ _ _ rfl rfl rfl rfl (set_vfp_ns_saved_flags w m true)
      · exact vfp_flags_kept_congr _ _ _ _ rfl rfl rfl rfl (set_vfp_sec_saved_flags w m h3.1)
      · exact vfp_flags_kept_congr _ _ _ _ rfl rfl rfl rfl
          (set_user_saved_flags w (w.vfp m).uvfp h4.2.1)
      · exact vfp_flags_kept_of_eq _ _ rfl rfl

theorem thread_user_save_vfp_flags {U : Type} (ops : vfp_ops U) (s : State) (cpu : Nat)
    (w : vfp_world U) : vfp_flags_kept w (thread_user_save_vfp ops s cpu w).1 := by
  unfold thread_user_save_vfp
  rcases h : vfp_thread_id w.hw s cpu with ⟨hw1, _ | m⟩
  · exact vfp_flags_kept_of_eq _ _ rfl rfl
  · simp only []
    split_ifs with h1 h2 h3
    · exact vfp_flags_kept_of_eq _ _ rfl rfl
    · exact vfp_flags_kept_of_eq _ _ rfl rfl
    · exact vfp_flags_kept_of_eq _ _ rfl rfl
    · intro n
      simp only [sec_flags_ok, bound_user_ok, user_flags_ok, set_user_user, set_user_vfp]
      refine ⟨id, ?_⟩
      intro hb h0
      by_cases hk : (w.vfp n).uvfp = (w.vfp m).uvfp
      · simp [hk]
      · simp only [if_neg hk]; exact hb h0

/-- Clearing both flags of a user state keeps the flag predicates. -/
theorem set_user_clear_flags {U : Type} (w : vfp_world U) (a : Nat) :
    vfp_flags_kept w (set_user w a { lazy_saved := false, saved := false }) := by
  intro n
  simp only [sec_flags_ok, bound_user_ok, user_flags_ok, set_user_user, set_user_vfp]
  refine ⟨id, ?_⟩
  intro hb h0
  by_cases hk : (w.vfp n).uvfp = a
  · simp [hk]
  · simp only [if_neg hk]; exact hb h0

/-- Unbinding the user state of a thread keeps the flag predicates. -/
theorem set_vfp_unbind_flags {U : Type} (w : vfp_world U) (m : Nat) :
    vfp_flags_kept w (set_vfp w m { w.vfp m with uvfp := 0 }) := by
  intro n
  simp only [sec_flags_ok, bound_user_ok, set_vfp_vfp, set_vfp_user]
  by_cases hk : n = m
  · subst hk; simp
  · simp [hk]

/-- Binding a user state whose flags are clear keeps the flag predicates. -/
theorem set_vfp_bind_flags {U : Type} (w : vfp_world U) (m a : Nat)
    (h : (w.user a).saved = false) :
    vfp_flags_kept w (set_vfp w m { w.vfp m with uvfp := a }) := by
  intro n
  simp only [sec_flags_ok, bound_user_ok, user_flags_ok, set_vfp_vfp, set_vfp_user]
  by_cases hk : n = m
  · subst hk; simp [h]
  · simp [hk]

theorem thread_user_clear_vfp_flags {U : Type} (s : State) (cpu : Nat)
    (w : vfp_world U) (uvfp : Nat) :
    vfp_flags_kept w (thread_user_clear_vfp s cpu w uvfp).1 := by
  unfold thread_user_clear_vfp
  rcases h : vfp_thread_id w.hw s cpu with ⟨hw1, _ | m⟩
  · exact vfp_flags_kept_of_eq _ _ rfl rfl
  · simp only []
    generalize hw2 : (if uvfp = (w.vfp m).uvfp then
          set_vfp { w with hw := hw1 } m { w.vfp m with uvfp := 0 }
        else { w with hw := hw1 }) = w2
    have h2 : vfp_flags_kept w w2 := by
      rw [← hw2]
      split_ifs
      · exact vfp_flags_kept_congr _ _ _ _ rfl rfl rfl rfl (set_vfp_unbind_flags w m)
      · exact vfp_flags_kept_of_eq _ _ rfl rfl
    by_cases h1 : uvfp = 0
    · rw [if_pos h1]; exact h2
    · rw [if_neg h1]
      exact vfp_flags_kept_trans _ _ _ h2 (set_user_clear_flags _ uvfp)

theorem thread_user_enable_vfp_flags {U : Type} (ops : vfp_ops U) (s : State) (cpu : Nat)
    (w : vfp_world U) (uvfp : Nat) :
    vfp_flags_kept w (thread_user_enable_vfp ops s cpu w uvfp).1 := by
  unfold thread_user_enable_vfp
  rcases h : vfp_thread_id w.hw s cpu with ⟨hw1, _ | m⟩
  · exact vfp_flags_kept_of_eq _ _ rfl rfl
  · simp only []
    by_cases h1 : thread_get_exceptions hw1 &&& THREAD_EXCP_IRQ = 0
    · rw [if_pos h1]; exact vfp_flags_kept_of_eq _ _ rfl rfl
    rw [if_neg h1]
    by_cases h2 : ops.vfp_is_enabled w.unit = true
    · rw [if_pos h2]; exact vfp_flags_kept_of_eq _ _ rfl rfl
    rw [if_neg h2]
    generalize hw2 : (if (w.vfp m).ns_saved = false then
          set_vfp { w with hw := hw1, unit := ops.vfp_lazy_save_state_final (.ns m) w.unit } m
            { w.vfp m with ns_saved := true }
        else if (w.vfp m).uvfp ≠ 0 ∧ uvfp ≠ (w.vfp m).uvfp then
          if (w.user (w.vfp m).uvfp).lazy_saved = true ∧
              (w.user (w.vfp m).uvfp).saved = false then
            set_user
              { w with hw := hw1,
                       unit := ops.vfp_lazy_save_state_final (.user (w.vfp m).uvfp) w.unit }
              (w.vfp m).uvfp { w.user (w.vfp m).uvfp with saved := true }
          else { w with hw := hw1 }
        else { w with hw := hw1 }) = w2
    have hk2 : vfp_flags_kept w w2 := by
      rw [← hw2]
      split_ifs with a b c
      · exact vfp_flags_kept_congr _ _ _ _ rfl rfl rfl rfl (set_vfp_ns_saved_flags w m true)
      · exact vfp_flags_kept_congr _ _ _ _ rfl rfl rfl rfl
          (set_user_saved_flags w (w.vfp m).uvfp c.1)
      · exact vfp_flags_kept_of_eq _ _ rfl rfl
      · exact vfp_flags_kept_of_eq _ _ rfl rfl
    by_cases h3 : uvfp = 0
    · rw [if_pos h3]; exact hk2
    rw [if_neg h3]
    refine vfp_flags_kept_trans _ _ _ hk2 ?_
    generalize hw3 : (if (w2.user uvfp).lazy_saved = true then
          { w2 with
            unit := ops.vfp_lazy_restore_state (.user uvfp) (w2.user uvfp).saved w2.unit }
        else w2) = w3
    have hk3 : w3.vfp = w2.vfp ∧ w3.user = w2.user := by
      rw [← hw3]; split_ifs <;> exact ⟨rfl, rfl⟩
    refine vfp_flags_kept_trans _ w3 _ (vfp_flags_kept_of_eq _ _ hk3.1 hk3.2) ?_
    refine vfp_flags_kept_trans _ _ _ (set_user_clear_flags w3 uvfp) ?_
    exact vfp_flags_kept_congr _ _ _ _ rfl rfl rfl rfl
      (set_vfp_bind_flags (set_user w3 uvfp { lazy_saved := false, saved := false }) m uvfp
        (by simp [set_user_user]))

theorem run_vfp_op_flags {U : Type} (ops : vfp_ops U) (s : State) (cpu : Nat)
    (w : vfp_world U) (op : vfp_op) : vfp_flags_kept w (run_vfp_op ops s cpu w op) := by
  cases op with
  | thread_kernel_enable_vfp => exact thread_kernel_enable_vfp_flags ops s cpu w
  | thread_kernel_disable_vfp state => exact thread_kernel_disable_vfp_flags ops w state
  | thread_kernel_save_vfp => exact thread_kernel_save_vfp_flags ops s cpu w
  | thread_kernel_restore_vfp => exact thread_kernel_restore_vfp_flags ops s cpu w
  | thread_user_enable_vfp uvfp => exact thread_user_enable_vfp_flags ops s cpu w uvfp
  | thread_user_save_vfp => exact thread_user_save_vfp_flags ops s cpu w
  | thread_user_clear_vfp uvfp => exact thread_user_clear_vfp_flags s cpu w uvfp
  | thread_lazy_save_ns_vfp => exact thread_lazy_save_ns_vfp_flags ops s cpu w
  | thread_lazy_restore_ns_vfp => exact thread_lazy_restore_ns_vfp_flags ops s cpu w

theorem vfp_user_kept_of_eq {U : Type} (w w' : vfp_world U) (hu : w'.user = w.user) :
    vfp_user_kept w w' := by
  intro a; rw [hu]; exact id

theorem vfp_user_kept_trans {U : Type} (w w1 w2 : vfp_world U)
    (h1 : vfp_user_kept w w1) (h2 : vfp_user_kept w1 w2) : vfp_user_kept w w2 :=
  fun a h => h2 a (h1 a h)

theorem vfp_user_kept_congr {U : Type} (w w' v v' : vfp_world U)
    (h2 : v.user = w.user) (h4 : v'.user = w'.user) (h : vfp_user_kept w w') :
    vfp_user_kept v v' := by
  intro a
  have := h a
  rw [h2, h4]
  exact this

theorem set_user_saved_kept {U : Type} (w : vfp_world U) (a : Nat)
    (h : (w.user a).lazy_saved = true) :
    vfp_user_kept w (set_user w a { w.user a with saved := true }) := by
  intro b hb
  simp only [user_flags_ok, set_user_user] at hb ⊢
  by_cases hk : b = a
  · simp [hk, h]
  · simp only [if_neg hk]; exact hb

theorem set_user_clear_kept {U : Type} (w : vfp_world U) (a : Nat) :
    vfp_user_kept w (set_user w a { lazy_saved := false, saved := false }) := by
  intro b hb
  simp only [user_flags_ok, set_user_user] at hb ⊢
  by_cases hk : b = a
  · simp [hk]
  · simp only [if_neg hk]; exact hb

theorem set_user_lazy_saved_kept {U : Type} (w : vfp_world U) (a : Nat) :
    vfp_user_kept w (set_user w a { w.user a with lazy_saved := true }) := by
  intro b hb
  simp only [user_flags_ok, set_user_user] at hb ⊢
  by_cases hk : b = a
  · simp [hk]
  · simp only [if_neg hk]; exact hb

theorem thread_kernel_disable_vfp_user {U : Type} (ops : vfp_ops U) (w : vfp_world U)
    (state : Nat) : vfp_user_kept w (thread_kernel_disable_vfp ops w state).1 := by
  apply vfp_user_kept_of_eq
  unfold thread_kernel_disable_vfp
  simp only []
  split_ifs <;> rfl

theorem thread_kernel_save_vfp_user {U : Type} (ops : vfp_ops U) (s : State) (cpu : Nat)
    (w : vfp_world U) : vfp_user_kept w (thread_kernel_save_vfp ops s cpu w).1 := by
  apply vfp_user_kept_of_eq
  unfold thread_kernel_save_vfp
  rcases h : vfp_thread_id w.hw s cpu with ⟨hw1, _ | m⟩
  · rfl
  · simp only []
    split_ifs <;> rfl

theorem thread_kernel_restore_vfp_user {U : Type} (ops : vfp_ops U) (s : State) (cpu : Nat)
    (w : vfp_world U) : vfp_user_kept w (thread_kernel_restore_vfp ops s cpu w).1 := by
  apply vfp_user_kept_of_eq
  unfold thread_kernel_restore_vfp
  rcases h : vfp_thread_id w.hw s cpu with ⟨hw1, _ | m⟩
  · rfl
  · simp only []
    split_ifs <;> rfl

theorem thread_lazy_save_ns_vfp_user {U : Type} (ops : vfp_ops U) (s : State) (cpu : Nat)
    (w : vfp_world U) : vfp_user_kept w (thread_lazy_save_ns_vfp ops s cpu w).1 := by
  apply vfp_user_kept_of_eq
  unfold thread_lazy_save_ns_vfp
  rcases h : vfp_thread_id w.hw s cpu with ⟨hw1, _ | m⟩ <;> rfl

theorem thread_lazy_restore_ns_vfp_user {U : Type} (ops : vfp_ops U) (s : State) (cpu : Nat)
    (w : vfp_world U) : vfp_user_kept w (thread_lazy_restore_ns_vfp ops s cpu w).1 := by
  unfold thread_lazy_restore_ns_vfp
  rcases h : vfp_thread_id w.hw s cpu with ⟨hw1, _ | m⟩
  · exact vfp_user_kept_of_eq _ _ rfl
  · simp only []
    split_ifs with h1 h2
    · exact vfp_user_kept_of_eq _ _ rfl
    · exact vfp_user_kept_congr _ _ _ _ rfl rfl (set_user_saved_kept w (w.vfp m).uvfp h2.2.1)
    · exact vfp_user_kept_of_eq _ _ rfl

theorem thread_kernel_enable_vfp_user {U : Type} (ops : vfp_ops U) (s : State) (cpu : Nat)
    (w : vfp_world U) : vfp_user_kept w (thread_kernel_enable_vfp ops s cpu w).1 := by
  unfold thread_kernel_enable_vfp
  rcases h0 : thread_mask_exceptions w.hw THREAD_EXCP_IRQ with ⟨hw0, r⟩
  cases r with
  | assert_failed => exact vfp_user_kept_of_eq _ _ rfl
  | out_of_bounds => exact vfp_user_kept_of_eq _ _ rfl
  | done exceptions =>
    simp only []
    rcases h : vfp_thread_id hw0 s cpu with ⟨hw1, _ | m⟩
    · exact vfp_user_kept_of_eq _ _ rfl
    · simp only []
      split_ifs with h1 h2 h3 h4
      · exact vfp_user_kept_of_eq _ _ rfl
      · exact vfp_user_kept_of_eq _ _ rfl
      · exact vfp_user_kept_of_eq _ _ rfl
      · exact vfp_user_kept_congr _ _ _ _ rfl rfl
          (set_user_saved_kept w (w.vfp m).uvfp h4.2.1)
      · exact vfp_user_kept_of_eq _ _ rfl

theorem thread_user_save_vfp_user {U : Type} (ops : vfp_ops U) (s : State) (cpu : Nat)
    (w : vfp_world U) : vfp_user_kept w (thread_user_save_vfp ops s cpu w).1 := by
  unfold thread_user_save_vfp
  rcases h : vfp_thread_id w.hw s cpu with ⟨hw1, _ | m⟩
  · exact vfp_user_kept_of_eq _ _ rfl
  · simp only []
    split_ifs with h1 h2 h3
    · exact vfp_user_kept_of_eq _ _ rfl
    · exact vfp_user_kept_of_eq _ _ rfl
    · exact vfp_user_kept_of_eq _ _ rfl
    · exact vfp_user_kept_congr _ _ _ _ rfl rfl (set_user_lazy_saved_kept w (w.vfp m).uvfp)

theorem thread_user_clear_vfp_user {U : Type} (s : State) (cpu : Nat)
    (w : vfp_world U) (uvfp : Nat) :
    vfp_user_kept w (thread_user_clear_vfp s cpu w uvfp).1 := by
  unfold thread_user_clear_vfp
  rcases h : vfp_thread_id w.hw s cpu with ⟨hw1, _ | m⟩
  · exact vfp_user_kept_of_eq _ _ rfl
  · simp only []
    generalize hw2 : (if uvfp = (w.vfp m).uvfp then
          set_vfp { w with hw := hw1 } m { w.vfp m with uvfp := 0 }
        else { w with hw := hw1 }) = w2
    have h2 : w2.user = w.user := by
      rw [← hw2]; split_ifs <;> rfl
    by_cases h1 : uvfp = 0
    · rw [if_pos h1]; exact vfp_user_kept_of_eq _ _ h2
    · rw [if_neg h1]
      exact vfp_user_kept_trans _ _ _ (vfp_user_kept_of_eq _ _ h2) (set_user_clear_kept _ uvfp)

theorem thread_user_enable_vfp_user {U : Type} (ops : vfp_ops U) (s : State) (cpu : Nat)
    (w : vfp_world U) (uvfp : Nat) :
    vfp_user_kept w (thread_user_enable_vfp ops s cpu w uvfp).1 := by
  unfold thread_user_enable_vfp
  rcases h : vfp_thread_id w.hw s cpu with ⟨hw1, _ | m⟩
  · exact vfp_user_kept_of_eq _ _ rfl
  · simp only []
    by_cases h1 : thread_get_exceptions hw1 &&& THREAD_EXCP_IRQ = 0
    · rw [if_pos h1]; exact vfp_user_kept_of_eq _ _ rfl
    rw [if_neg h1]
    by_cases h2 : ops.vfp_is_enabled w.unit = true
    · rw [if_pos h2]; exact vfp_user_kept_of_eq _ _ rfl
    rw [if_neg h2]
    generalize hw2 : (if (w.vfp m).ns_saved = false then
          set_vfp { w with hw := hw1, unit := ops.vfp_lazy_save_state_final (.ns m) w.unit } m
            { w.vfp m with ns_saved := true }
        else if (w.vfp m).uvfp ≠ 0 ∧ uvfp ≠ (w.vfp m).uvfp then
          if (w.user (w.vfp m).uvfp).lazy_saved = true ∧
              (w.user (w.vfp m).uvfp).saved = false then
            set_user
              { w with hw := hw1,
                       unit := ops.vfp_lazy_save_state_final (.user (w.vfp m).uvfp) w.unit }
              (w.vfp m).uvfp { w.user (w.vfp m).uvfp with saved := true }
          else { w with hw := hw1 }
        else { w with hw := hw1 }) = w2
    have hk2 : vfp_user_kept w w2 := by
      rw [← hw2]
      split_ifs with a b c
      · exact vfp_user_kept_of_eq _ _ rfl
      · exact vfp_user_kept_congr _ _ _ _ rfl rfl
          (set_user_saved_kept w (w.vfp m).uvfp c.1)
      · exact vfp_user_kept_of_eq _ _ rfl
      · exact vfp_user_kept_of_eq _ _ rfl
    by_cases h3 : uvfp = 0
    · rw [if_pos h3]; exact hk2
    rw [if_neg h3]
    refine vfp_user_kept_trans _ _ _ hk2 ?_
    generalize hw3 : (if (w2.user uvfp).lazy_saved = true then
          { w2 with
            unit := ops.vfp_lazy_restore_state (.user uvfp) (w2.user uvfp).saved w2.unit }
        else w2) = w3
    have hk3 : w3.user = w2.user := by
      rw [← hw3]; split_ifs <;> rfl
    refine vfp_user_kept_trans _ w3 _ (vfp_user_kept_of_eq _ _ hk3) ?_
    exact vfp_user_kept_congr _ _ _ _ rfl rfl (set_user_clear_kept w3 uvfp)

theorem run_vfp_op_user {U : Type} (ops : vfp_ops U) (s : State) (cpu : Nat)
    (w : vfp_world U) (op : vfp_op) : vfp_user_kept w (run_vfp_op ops s cpu w op) := by
  cases op with
  | thread_kernel_enable_vfp => exact thread_kernel_enable_vfp_user ops s cpu w
  | thread_kernel_disable_vfp state => exact thread_kernel_disable_vfp_user ops w state
  | thread_kernel_save_vfp => exact thread_kernel_save_vfp_user ops s cpu w
  | thread_kernel_restore_vfp => exact thread_kernel_restore_vfp_user ops s cpu w
  | thread_user_enable_vfp uvfp => exact thread_user_enable_vfp_user ops s cpu w uvfp
  | thread_user_save_vfp => exact thread_user_save_vfp_user ops s cpu w
  | thread_user_clear_vfp uvfp => exact thread_user_clear_vfp_user s cpu w uvfp
  | thread_lazy_save_ns_vfp => exact thread_lazy_save_ns_vfp_user ops s cpu w
  | thread_lazy_restore_ns_vfp => exact thread_lazy_restore_ns_vfp_user ops s cpu w

/-- C31: FPU flag invariant. Every FPU operation of thread.c (the seven of the
kernel and user interface and the two lazy non-secure ones), run on any core in
any state, ends in a state in which each thread on which sec_saved implied
sec_lazy_saved still has it so, each thread whose bound user state had saved
imply lazy_saved has a bound user state (if any) with the same property, and
each user state on which saved implied lazy_saved still has it so. -/
theorem C31_fpu_flag_invariant {U : Type} (ops : vfp_ops U) (s : State) (cpu : Nat)
    (w : vfp_world U) (op : vfp_op) (n : Nat) :
    (sec_flags_ok w n → sec_flags_ok (run_vfp_op ops s cpu w op) n) ∧
    (bound_user_ok w n → bound_user_ok (run_vfp_op ops s cpu w op) n) ∧
    (∀ a, user_flags_ok (w.user a) → user_flags_ok ((run_vfp_op ops s cpu w op).user a)) :=
  ⟨(run_vfp_op_flags ops s cpu w op n).1, (run_vfp_op_flags ops s cpu w op n).2,
    run_vfp_op_user ops s cpu w op⟩

theorem C31_fpu_flag_invariant_witness :
    (thread_kernel_enable_vfp ex_vfp_ops ex_taken 0 ex_vfp_world).2 = .done 7 ∧
    ((thread_kernel_enable_vfp ex_vfp_ops ex_taken 0 ex_vfp_world).1.vfp 0).sec_saved = true ∧
    ((thread_kernel_enable_vfp ex_vfp_ops ex_taken 0 ex_vfp_world_user).1.user 0x40).saved
      = true ∧
    sec_flags_ok ex_vfp_world 0 ∧ bound_user_ok ex_vfp_world_user 0 ∧
    sec_flags_ok (run_vfp_op ex_vfp_ops ex_taken 0 ex_vfp_world .thread_kernel_enable_vfp) 0 ∧
    bound_user_ok
      (run_vfp_op ex_vfp_ops ex_taken 0 ex_vfp_world_user .thread_kernel_enable_vfp) 0 :=
  have h1 : sec_flags_ok ex_vfp_world 0 := fun _ => rfl
  have h2 : bound_user_ok ex_vfp_world_user 0 := fun _ h => by cases h
  ⟨by decide, by decide, by decide, h1, h2,
    (C31_fpu_flag_invariant ex_vfp_ops ex_taken 0 ex_vfp_world .thread_kernel_enable_vfp 0).1 h1,
    (C31_fpu_flag_invariant ex_vfp_ops ex_taken 0 ex_vfp_world_user
      .thread_kernel_enable_vfp 0).2.1 h2⟩

end Optee
